import Mathlib

/-!
# Verification of the moontool astronomical core (src/moon/moon.c)

A shallow embedding of John Walker's moontool calculation routines, as
extracted in `src/moon/moon.c`, together with proofs and refutations of the
specification's claims about them.

The C code computes with IEEE doubles.  The calendar routines (`ucttoj`,
`jyear`, `jhms`, `jwday`) only ever combine integers with the decimal
constants 365.25, 30.6001, 36524.25, 1867216.25, 122.1, 0.5 and small
quotients; on the domain used here every comparison and every truncation
they perform is decided identically by exact rational arithmetic (the
distances to the truncation boundaries exceed the double rounding error by
many orders of magnitude), so those functions are embedded over `ℚ`.  The
trigonometric part of the program (`meanphase`, `truephase`, `kepler`,
`phase`) is embedded over `ℝ`, and concrete evaluations are certified with
rational interval enclosures.
-/

namespace Moon

/-- C cast-to-integer semantics: truncation toward zero. -/
def cTrunc (q : ℚ) : ℤ := if q < 0 then -⌊-q⌋ else ⌊q⌋

/-- C integer division (truncated, as for nonnegative `long` operands). -/
def cQuot (a b : ℤ) : ℤ := cTrunc ((a : ℚ) / (b : ℚ))

/-- C integer remainder matching `cQuot`. -/
def cMod (a b : ℤ) : ℤ := a - b * cQuot a b

/-  UCTTOJ  --  Convert GMT date and time to astronomical Julian time.
    Translated from `ucttoj` (src/moon/moon.c:371-409); `mon` is 0-based. -/
def ucttoj (year mon mday hour minute sec : ℤ) : ℚ :=
  let m0 := mon + 1
  let y0 := year
  let y := if m0 ≤ 2 then y0 - 1 else y0
  let m := if m0 ≤ 2 then m0 + 12 else m0
  let b : ℤ :=
    if (year < 1582) ∨ ((year = 1582) ∧ ((mon < 9) ∨ (mon = 9 ∧ mday < 5))) then 0
    else
      let a := cQuot y 100
      2 - a + cQuot a 4
  (((cTrunc ((365.25 : ℚ) * ((y : ℚ) + 4716)) : ℚ) +
      (cTrunc ((30.6001 : ℚ) * ((m : ℚ) + 1)) : ℚ) +
      (mday : ℚ) + (b : ℚ) - 1524.5) : ℚ) +
    (((sec + 60 * (minute + 60 * hour) : ℤ) : ℚ) / 86400)

/-  JYEAR  --  Convert Julian date to (year, month, day).
    Translated from `jyear` (src/moon/moon.c:414-437).  The intermediate
    doubles `z, alpha, a, b, c, d, e` are integer-valued; they are carried
    as `ℤ`, with `⌊⌋` standing for C's `floor`. -/
def jyear (td : ℚ) : ℤ × ℤ × ℤ :=
  let td' := td + 0.5
  let z : ℤ := ⌊td'⌋
  let f : ℚ := td' - (z : ℚ)
  let a : ℤ :=
    if (z : ℚ) < 2299161.0 then z
    else
      let alpha : ℤ := ⌊((z : ℚ) - 1867216.25) / 36524.25⌋
      z + 1 + alpha - ⌊(alpha : ℚ) / 4⌋
  let b : ℤ := a + 1524
  let c : ℤ := ⌊((b : ℚ) - 122.1) / 365.25⌋
  let d : ℤ := ⌊(365.25 : ℚ) * (c : ℚ)⌋
  let e : ℤ := ⌊((b : ℚ) - (d : ℚ)) / 30.6001⌋
  let dd : ℤ := cTrunc (((b - d - ⌊(30.6001 : ℚ) * (e : ℚ)⌋ : ℤ) : ℚ) + f)
  let mm : ℤ := if e < 14 then e - 1 else e - 13
  let yy : ℤ := if mm > 2 then c - 4716 else c - 4715
  (yy, mm, dd)

/-  JHMS  --  Convert Julian time to (hour, minute, second).
    Translated from `jhms` (src/moon/moon.c:441-450). -/
def jhms (j : ℚ) : ℤ × ℤ × ℤ :=
  let j' := j + 0.5
  let ij : ℤ := cTrunc ((j' - (⌊j'⌋ : ℚ)) * 86400.0 + 0.5)
  (cQuot ij 3600, cMod (cQuot ij 60) 60, cMod ij 60)

/-  JWDAY  --  Day of the week (0 = Sunday) for a Julian date.
    Translated from `jwday` (src/moon/moon.c:454-457). -/
def jwday (j : ℚ) : ℤ := cMod (cTrunc (j + 1.5)) 7

/-! ## Integer cores of the calendar functions

Rational arithmetic does not reduce in the kernel, so for computation the
two calendar directions get integer cores (`jdn`, `jyZ`), each proved to
agree with the rational embedding above.  `/` below is `Int.ediv`, which
agrees with `⌊·⌋` of the exact quotient for the positive divisors used. -/

/-- Integer day-number core of `ucttoj`: the value of
`ucttoj year (month-1) day 12 0 0` (noon), as an integer.  `month` is
1-based.  Agrees with `ucttoj` for `1 ≤ year` (`ucttoj_eq_jdn`). -/
def jdn (year month day : ℤ) : ℤ :=
  let y := if month ≤ 2 then year - 1 else year
  let m := if month ≤ 2 then month + 12 else month
  let b : ℤ :=
    if year < 1582 ∨ (year = 1582 ∧ (month < 10 ∨ (month = 10 ∧ day < 5))) then 0
    else 2 - y / 100 + y / 100 / 4
  1461 * (y + 4716) / 4 + 306001 * (m + 1) / 10000 + day + b - 1524

/-- Integer core of `jyear`: the civil date of the Julian date `z - 0.5`
(plus any day fraction), i.e. of the day whose noon has day number `z`. -/
def jyZ (z : ℤ) : ℤ × ℤ × ℤ :=
  let a : ℤ :=
    if z < 2299161 then z
    else
      let alpha := (4 * z - 7468865) / 146097
      z + 1 + alpha - alpha / 4
  let b := a + 1524
  let c := (20 * b - 2442) / 7305
  let d := 1461 * c / 4
  let e := 10000 * (b - d) / 306001
  let dd := b - d - 306001 * e / 10000
  let mm := if e < 14 then e - 1 else e - 13
  let yy := if mm > 2 then c - 4716 else c - 4715
  (yy, mm, dd)

example : jdn 1995 3 11 = 2449788 := by decide
example : jdn 1582 10 4 = 2299160 := by decide
example : jdn 1582 10 15 = 2299161 := by decide
example : jyZ 2449788 = (1995, 3, 11) := by decide
example : jyZ 2299161 = (1582, 10, 15) := by decide
example : jyZ 2299160 = (1582, 10, 4) := by decide

lemma cTrunc_of_nonneg {q : ℚ} (h : 0 ≤ q) : cTrunc q = ⌊q⌋ := by
  rw [cTrunc, if_neg (not_lt.2 h)]

lemma cQuot_of_nonneg {a b : ℤ} (ha : 0 ≤ a) (hb : 0 < b) : cQuot a b = a / b := by
  rw [cQuot, cTrunc_of_nonneg (by positivity)]
  lift b to ℕ using hb.le
  exact Rat.floor_intCast_div_natCast a _

lemma floor_mul_int (c : ℚ) (n d : ℤ) (hd : 0 < d) (hc : c = (n : ℚ) / (d : ℚ)) (x : ℤ) :
    ⌊c * (x : ℚ)⌋ = n * x / d := by
  subst hc
  lift d to ℕ using hd.le
  rw [div_mul_eq_mul_div, ← Int.cast_mul]
  exact Rat.floor_intCast_div_natCast _ _

/-- Total seconds-in-day count used by `ucttoj`. -/
def daySecs (hour minute sec : ℤ) : ℤ := sec + 60 * (minute + 60 * hour)

/-- `ucttoj` in terms of its integer core: for years ≥ 1 the truncations act
on nonnegative values and the result is `jdn - ½ + seconds/86400`. -/
lemma ucttoj_eq_jdn (year mon mday hour minute sec : ℤ) (hy : 1 ≤ year)
    (hmon : 0 ≤ mon ∧ mon ≤ 11) :
    ucttoj year mon mday hour minute sec =
      (jdn year (mon + 1) mday : ℤ) - 1 / 2 + (daySecs hour minute sec : ℚ) / 86400 := by
  rw [ucttoj, jdn, daySecs]
  simp only []
  set y : ℤ := if mon + 1 ≤ 2 then year - 1 else year with hy'
  have hy0 : 0 ≤ y := by rw [hy']; split <;> omega
  set m : ℤ := if mon + 1 ≤ 2 then mon + 1 + 12 else mon + 1 with hm'
  have hm0 : 3 ≤ m ∧ m ≤ 15 := by
    rw [hm']; constructor <;> (split <;> omega)
  have h365 : cTrunc ((365.25 : ℚ) * ((y : ℚ) + 4716)) = 1461 * (y + 4716) / 4 := by
    rw [show ((365.25 : ℚ) * ((y : ℚ) + 4716)) = 365.25 * ((y + 4716 : ℤ) : ℚ) by
        push_cast; ring,
      cTrunc_of_nonneg (by
        apply mul_nonneg (by norm_num)
        exact_mod_cast (by omega : (0 : ℤ) ≤ y + 4716)),
      floor_mul_int (365.25 : ℚ) 1461 4 (by norm_num) (by norm_num)]
  have h306 : cTrunc ((30.6001 : ℚ) * ((m : ℚ) + 1)) = 306001 * (m + 1) / 10000 := by
    rw [show ((30.6001 : ℚ) * ((m : ℚ) + 1)) = 30.6001 * ((m + 1 : ℤ) : ℚ) by
        push_cast; ring,
      cTrunc_of_nonneg (by
        apply mul_nonneg (by norm_num)
        exact_mod_cast (by omega : (0 : ℤ) ≤ m + 1)),
      floor_mul_int (30.6001 : ℚ) 306001 10000 (by norm_num) (by norm_num)]
  by_cases hc : year < 1582 ∨ (year = 1582 ∧ (mon < 9 ∨ (mon = 9 ∧ mday < 5)))
  · rw [if_pos hc, if_pos (by omega : year < 1582 ∨
      (year = 1582 ∧ ((mon + 1 : ℤ) < 10 ∨ ((mon + 1 : ℤ) = 10 ∧ mday < 5))))]
    rw [h365, h306]
    push_cast
    norm_num
    ring
  · rw [if_neg hc, if_neg (by omega : ¬(year < 1582 ∨
      (year = 1582 ∧ ((mon + 1 : ℤ) < 10 ∨ ((mon + 1 : ℤ) = 10 ∧ mday < 5)))))]
    have ha : cQuot y 100 = y / 100 := cQuot_of_nonneg (by omega) (by norm_num)
    have ha4 : cQuot (y / 100) 4 = y / 100 / 4 :=
      cQuot_of_nonneg (by positivity) (by norm_num)
    rw [ha, ha4, h365, h306]
    push_cast
    norm_num
    ring

/-- `jyear` in terms of its integer core: decomposing `z - ½ + f` for a day
fraction `0 ≤ f < 1` gives `jyZ z`, whenever the day field computed by
`jyZ` is nonnegative (so that the C `(int)` truncation is the identity). -/
lemma jyear_eq_jyZ (z : ℤ) (f : ℚ) (h0 : 0 ≤ f) (h1 : f < 1)
    (hdd : 0 ≤ (jyZ z).2.2) :
    jyear ((z : ℚ) - 1 / 2 + f) = jyZ z := by
  rw [jyear]
  simp only []
  rw [show (z : ℚ) - 1 / 2 + f + 0.5 = (z : ℚ) + f by push_cast; ring]
  rw [show ⌊(z : ℚ) + f⌋ = z by
    rw [add_comm, Int.floor_add_int, Int.floor_eq_zero_iff.2 ⟨h0, h1⟩, zero_add]]
  rw [show (z : ℚ) + f - (z : ℚ) = f by ring]
  rw [show ⌊((z : ℚ) - 1867216.25) / 36524.25⌋ = (4 * z - 7468865) / 146097 by
    rw [show ((z : ℚ) - 1867216.25) / 36524.25 =
        ((4 * z - 7468865 : ℤ) : ℚ) / ((146097 : ℕ) : ℚ) by push_cast; ring_nf]
    exact_mod_cast Rat.floor_intCast_div_natCast _ _]
  rw [show ⌊(((4 * z - 7468865) / 146097 : ℤ) : ℚ) / 4⌋ = (4 * z - 7468865) / 146097 / 4 by
    rw [show (4 : ℚ) = ((4 : ℕ) : ℚ) by norm_num]
    exact_mod_cast Rat.floor_intCast_div_natCast _ _]
  simp only [show ((z : ℚ) < 2299161.0) ↔ (z < 2299161) by
    rw [show (2299161.0 : ℚ) = ((2299161 : ℤ) : ℚ) by norm_num]
    exact Int.cast_lt]
  set a : ℤ := if z < 2299161 then z else
      z + 1 + (4 * z - 7468865) / 146097 - (4 * z - 7468865) / 146097 / 4 with ha
  rw [show ⌊(((a + 1524 : ℤ) : ℚ) - 122.1) / 365.25⌋ = (20 * (a + 1524) - 2442) / 7305 by
    rw [show (((a + 1524 : ℤ) : ℚ) - 122.1) / 365.25 =
        ((20 * (a + 1524) - 2442 : ℤ) : ℚ) / ((7305 : ℕ) : ℚ) by push_cast; ring_nf]
    exact_mod_cast Rat.floor_intCast_div_natCast _ _]
  set c : ℤ := (20 * (a + 1524) - 2442) / 7305 with hc
  rw [floor_mul_int (365.25 : ℚ) 1461 4 (by norm_num) (by norm_num) c]
  set d : ℤ := 1461 * c / 4 with hd
  rw [show (((a + 1524 : ℤ) : ℚ) - (d : ℚ)) / 30.6001 =
      ((10000 * (a + 1524 - d) : ℤ) : ℚ) / ((306001 : ℕ) : ℚ) by push_cast; ring_nf]
  rw [show ⌊((10000 * (a + 1524 - d) : ℤ) : ℚ) / ((306001 : ℕ) : ℚ)⌋ =
      10000 * (a + 1524 - d) / 306001 by exact_mod_cast Rat.floor_intCast_div_natCast _ _]
  set e : ℤ := 10000 * (a + 1524 - d) / 306001 with he
  rw [floor_mul_int (30.6001 : ℚ) 306001 10000 (by norm_num) (by norm_num) e]
  have hB : 0 ≤ a + 1524 - d - 306001 * e / 10000 := by
    have := hdd
    rw [jyZ] at this
    simp only [] at this
    convert this using 2
  rw [show cTrunc (((a + 1524 - d - 306001 * e / 10000 : ℤ) : ℚ) + f) =
      a + 1524 - d - 306001 * e / 10000 by
    rw [cTrunc_of_nonneg (by
      have : (0 : ℚ) ≤ ((a + 1524 - d - 306001 * e / 10000 : ℤ) : ℚ) := by exact_mod_cast hB
      linarith),
      add_comm, Int.floor_add_int, Int.floor_eq_zero_iff.2 ⟨h0, h1⟩, zero_add]]
  rw [jyZ]

/-- `jhms` recovers the within-day second count from `z - ½ + secs/86400`. -/
lemma jhms_eq (z secs : ℤ) (h0 : 0 ≤ secs) (h1 : secs < 86400) :
    jhms ((z : ℚ) - 1 / 2 + (secs : ℚ) / 86400) =
      (secs / 3600, secs / 60 % 60, secs % 60) := by
  have hf0 : (0 : ℚ) ≤ (secs : ℚ) / 86400 := by positivity
  have hf1 : (secs : ℚ) / 86400 < 1 := by
    rw [div_lt_one (by norm_num)]
    exact_mod_cast h1
  rw [jhms]
  rw [show (z : ℚ) - 1 / 2 + (secs : ℚ) / 86400 + 0.5 = (z : ℚ) + (secs : ℚ) / 86400 by
    push_cast; ring]
  rw [show ⌊(z : ℚ) + (secs : ℚ) / 86400⌋ = z by
    rw [add_comm, Int.floor_add_int, Int.floor_eq_zero_iff.2 ⟨hf0, hf1⟩, zero_add]]
  rw [show ((z : ℚ) + (secs : ℚ) / 86400 - (z : ℚ)) * 86400.0 + 0.5 =
      (secs : ℚ) + 1 / 2 by push_cast; ring_nf]
  rw [show cTrunc ((secs : ℚ) + 1 / 2) = secs by
    rw [cTrunc_of_nonneg (by positivity), show ((secs : ℚ) + 1 / 2) = 1 / 2 + (secs : ℚ) by ring,
      Int.floor_add_int, Int.floor_eq_zero_iff.2 ⟨by norm_num, by norm_num⟩, zero_add]]
  have hq1 : cQuot secs 3600 = secs / 3600 := cQuot_of_nonneg h0 (by norm_num)
  have hq2 : cQuot secs 60 = secs / 60 := cQuot_of_nonneg h0 (by norm_num)
  have hq3 : cQuot (secs / 60) 60 = secs / 60 / 60 := cQuot_of_nonneg (by positivity) (by norm_num)
  rw [cMod, cMod, hq1, hq2, hq3]
  refine Prod.ext rfl (Prod.ext ?_ ?_) <;> simp only [] <;> omega

/-! ## Calendar validity and the round-trip -/

/-- Leap years: Julian rule up to the 1582 reform year, Gregorian after. -/
def isLeap (year : ℤ) : Bool :=
  if year ≤ 1582 then year % 4 == 0
  else (year % 4 == 0 && year % 100 != 0) || year % 400 == 0

/-- Number of days of a (1-based) month. -/
def daysInMonth (year month : ℤ) : ℤ :=
  if month = 2 then (if isLeap year then 29 else 28)
  else if month = 4 ∨ month = 6 ∨ month = 9 ∨ month = 11 then 30 else 31

/-- An existing civil calendar date: a real day of a real month, not one of
the ten days (1582-10-05 .. 1582-10-14) dropped by the Gregorian reform. -/
def validDate (year month day : ℤ) : Prop :=
  1 ≤ month ∧ month ≤ 12 ∧ 1 ≤ day ∧ day ≤ daysInMonth year month ∧
  ¬(year = 1582 ∧ month = 10 ∧ 5 ≤ day ∧ day ≤ 14)

instance (year month day : ℤ) : Decidable (validDate year month day) := by
  unfold validDate; infer_instance

/-! ### Named stages of `jyZ`, and their monotonicity

`jyZ` recovers the date through the integer stages `a` (Gregorian-to-Julian
correction), `c` (year counter), `e` (month counter).  Each stage is
monotone in `z`, which lets a two-endpoint check certify a whole month. -/

/-- The `a` stage of `jyZ`. -/
def aZ (z : ℤ) : ℤ :=
  if z < 2299161 then z
  else z + 1 + (4 * z - 7468865) / 146097 - (4 * z - 7468865) / 146097 / 4

/-- The `c` stage of `jyZ` (year counter). -/
def cZ (z : ℤ) : ℤ := (20 * (aZ z + 1524) - 2442) / 7305

/-- The `d` stage of `jyZ`. -/
def dZ (z : ℤ) : ℤ := 1461 * cZ z / 4

/-- The `e` stage of `jyZ` (month counter). -/
def eZ (z : ℤ) : ℤ := 10000 * (aZ z + 1524 - dZ z) / 306001

/-- The day field of `jyZ`. -/
def ddZ (z : ℤ) : ℤ := aZ z + 1524 - dZ z - 306001 * eZ z / 10000

/-- The month field of `jyZ`. -/
def mmZ (z : ℤ) : ℤ := if eZ z < 14 then eZ z - 1 else eZ z - 13

/-- The year field of `jyZ`. -/
def yyZ (z : ℤ) : ℤ := if mmZ z > 2 then cZ z - 4716 else cZ z - 4715

lemma jyZ_parts (z : ℤ) : jyZ z = (yyZ z, mmZ z, ddZ z) := rfl

lemma sub_ediv4_mono {α β : ℤ} (h : α ≤ β) : α - α / 4 ≤ β - β / 4 := by omega

/-- The Gregorian correction `aZ z - z` is nonnegative and nondecreasing. -/
lemma corr_mono {z₁ z₂ : ℤ} (h : z₁ ≤ z₂) : aZ z₁ - z₁ ≤ aZ z₂ - z₂ := by
  unfold aZ
  split <;> split
  · omega
  · omega
  · omega
  · have halpha : (4 * z₁ - 7468865) / 146097 ≤ (4 * z₂ - 7468865) / 146097 := by omega
    have := sub_ediv4_mono halpha
    omega

lemma aZ_mono {z₁ z₂ : ℤ} (h : z₁ ≤ z₂) : aZ z₁ ≤ aZ z₂ := by
  have := corr_mono h
  omega

lemma cZ_mono {z₁ z₂ : ℤ} (h : z₁ ≤ z₂) : cZ z₁ ≤ cZ z₂ := by
  have := aZ_mono h
  unfold cZ
  omega

/-- Within a stretch where the year counter is constant, the month counter
is nondecreasing. -/
lemma eZ_mono_of_cZ_eq {z₁ z₂ : ℤ} (h : z₁ ≤ z₂) (hc : cZ z₁ = cZ z₂) :
    eZ z₁ ≤ eZ z₂ := by
  have ha := aZ_mono h
  unfold eZ dZ
  rw [hc]
  omega

/-- The key within-month argument: if the correction, year and month stages
agree at the two ends of a range, every `z` inside decodes to the same year
and month, with the day advancing in step with `z`. -/
lemma jyZ_stretch {z₁ z₂ : ℤ} (hcorr : aZ z₂ = aZ z₁ + (z₂ - z₁))
    (hc : cZ z₁ = cZ z₂) (he : eZ z₁ = eZ z₂) :
    ∀ z : ℤ, z₁ ≤ z → z ≤ z₂ →
      jyZ z = (yyZ z₁, mmZ z₁, ddZ z₁ + (z - z₁)) := by
  intro z hz1 hz2
  have hco1 := corr_mono hz1
  have hco2 := corr_mono hz2
  have hcorrz : aZ z = aZ z₁ + (z - z₁) := by omega
  have hcz : cZ z = cZ z₁ := by
    have h1 := cZ_mono hz1
    have h2 := cZ_mono hz2
    omega
  have hez : eZ z = eZ z₁ := by
    have h1 := eZ_mono_of_cZ_eq hz1 (by omega)
    have h2 := eZ_mono_of_cZ_eq hz2 (by omega)
    omega
  have hdz : dZ z = dZ z₁ := by unfold dZ; rw [hcz]
  have hddz : ddZ z = ddZ z₁ + (z - z₁) := by
    unfold ddZ
    rw [hdz, hez, hcorrz]
    ring
  rw [jyZ_parts, hddz]
  unfold yyZ mmZ
  rw [hez, hcz]

/-! ### `ℕ` mirrors of the two cores, for fast kernel evaluation -/

/-- `ℕ` mirror of the `aZ` stage (valid for the nonnegative range). -/
def aN (z : ℕ) : ℕ :=
  if z < 2299161 then z
  else
    let al := (4 * z - 7468865) / 146097
    z + 1 + al - al / 4

/-- `ℕ` mirror of `jdn` (valid for `1 ≤ year`). -/
def jdnN (y m d : ℕ) : ℕ :=
  let y' := if m ≤ 2 then y - 1 else y
  let m' := if m ≤ 2 then m + 12 else m
  let a := y' / 100
  if y < 1582 ∨ (y = 1582 ∧ (m < 10 ∨ (m = 10 ∧ d < 5))) then
    1461 * (y' + 4716) / 4 + 306001 * (m' + 1) / 10000 + d - 1524
  else
    1461 * (y' + 4716) / 4 + 306001 * (m' + 1) / 10000 + d + 2 + a / 4 - a - 1524

/-- `ℕ` mirror of `isLeap`. -/
def isLeapN (y : ℕ) : Bool :=
  if y ≤ 1582 then y % 4 == 0
  else (y % 4 == 0 && y % 100 != 0) || y % 400 == 0

/-- `ℕ` mirror of `daysInMonth`. -/
def dimN (y m : ℕ) : ℕ :=
  if m = 2 then (if isLeapN y then 29 else 28)
  else if m = 4 ∨ m = 6 ∨ m = 9 ∨ m = 11 then 30 else 31

/-- Two-endpoint month check: decodes the first day `dlo` of the range and
verifies that the `a`, `c`, `e` stages are unchanged at the last day
`dhi`; by monotonicity this certifies the whole day range. -/
def mchkR (y m dlo dhi : ℕ) : Bool :=
  let z1 := jdnN y m dlo
  let n := dhi - dlo
  let a1 := aN z1
  let a2 := aN (z1 + n)
  let c1 := (20 * (a1 + 1524) - 2442) / 7305
  let c2 := (20 * (a2 + 1524) - 2442) / 7305
  let d1 := 1461 * c1 / 4
  let d2 := 1461 * c2 / 4
  let e1 := 10000 * (a1 + 1524 - d1) / 306001
  let e2 := 10000 * (a2 + 1524 - d2) / 306001
  let dd1 := a1 + 1524 - d1 - 306001 * e1 / 10000
  let mm1 := if e1 < 14 then e1 - 1 else e1 - 13
  let yy1 := if mm1 > 2 then c1 - 4716 else c1 - 4715
  decide (a2 = a1 + n) && decide (c2 = c1) && decide (e2 = e1) &&
    decide (yy1 = y) && decide (mm1 = m) && decide (dd1 = dlo)

/-- Check all days of one month. -/
def mchk (y m : ℕ) : Bool := mchkR y m 1 (dimN y m)

/-- Check months `1..m` of a year. -/
def chkM (y : ℕ) : ℕ → Bool
  | 0 => true
  | Nat.succ m => mchk y (Nat.succ m) && chkM y m

/-- Check `k` consecutive years starting at `y0`. -/
def chkY (y0 : ℕ) : ℕ → Bool
  | 0 => true
  | Nat.succ n => chkM (y0 + n) 12 && chkY y0 n

lemma aN_cast (z : ℕ) : (aN z : ℤ) = aZ (z : ℤ) := by
  unfold aN aZ
  rcases Nat.lt_or_ge z 2299161 with h | h
  · rw [if_pos h, if_pos (by exact_mod_cast h)]
  · rw [if_neg (Nat.not_lt.2 h), if_neg (by push_cast; omega)]
    simp only []
    have h1 : (((4 * z - 7468865) / 146097 : ℕ) : ℤ) = (4 * (z : ℤ) - 7468865) / 146097 := by
      omega
    omega

lemma jdnN_cast (y m d : ℕ) (hy : 1 ≤ y) :
    (jdnN y m d : ℤ) = jdn (y : ℤ) (m : ℤ) (d : ℤ) := by
  have hA1 : (↑(1461 * (y - 1 + 4716) / 4) : ℤ) = 1461 * ((y : ℤ) - 1 + 4716) / 4 := by omega
  have hA2 : (↑(1461 * (y + 4716) / 4) : ℤ) = 1461 * ((y : ℤ) + 4716) / 4 := by omega
  have hB1 : (↑(306001 * (m + 12 + 1) / 10000) : ℤ) = 306001 * ((m : ℤ) + 12 + 1) / 10000 := by
    omega
  have hB2 : (↑(306001 * (m + 1) / 10000) : ℤ) = 306001 * ((m : ℤ) + 1) / 10000 := by omega
  have ha1 : (↑((y - 1) / 100) : ℤ) = ((y : ℤ) - 1) / 100 := by omega
  have ha2 : (↑(y / 100) : ℤ) = (y : ℤ) / 100 := by omega
  have ha14 : (↑((y - 1) / 100 / 4) : ℤ) = ((y : ℤ) - 1) / 100 / 4 := by omega
  have ha24 : (↑(y / 100 / 4) : ℤ) = (y : ℤ) / 100 / 4 := by omega
  unfold jdnN jdn
  simp only []
  split_ifs <;> omega

lemma isLeapN_cast (y : ℕ) : isLeapN y = isLeap (y : ℤ) := by
  unfold isLeapN isLeap
  rcases le_or_lt y 1582 with h | h
  · rw [if_pos h, if_pos (by exact_mod_cast h)]
    rw [Bool.eq_iff_iff]
    simp only [beq_iff_eq]
    omega
  · rw [if_neg (by omega), if_neg (by omega : ¬((y : ℤ) ≤ 1582))]
    rw [Bool.eq_iff_iff]
    simp only [Bool.or_eq_true, Bool.and_eq_true, beq_iff_eq, bne_iff_ne, ne_eq]
    omega

lemma dimN_cast (y m : ℕ) : (dimN y m : ℤ) = daysInMonth (y : ℤ) (m : ℤ) := by
  unfold dimN daysInMonth
  rw [isLeapN_cast]
  split_ifs <;> omega

/-- What a successful two-endpoint check certifies, in `ℤ` terms. -/
def stretchOK (z₁ n y m dlo : ℤ) : Prop :=
  aZ (z₁ + n) = aZ z₁ + n ∧ cZ (z₁ + n) = cZ z₁ ∧ eZ (z₁ + n) = eZ z₁ ∧
    jyZ z₁ = (y, m, dlo)

/-- A passing `mchkR` yields the `ℤ`-level stretch facts. -/
lemma mchkR_toZ (y m dlo dhi : ℕ) (hy : 1 ≤ y) (hdd : dlo ≤ dhi)
    (hchk : mchkR y m dlo dhi = true) :
    stretchOK (jdn (y : ℤ) (m : ℤ) (dlo : ℤ)) ((dhi : ℤ) - (dlo : ℤ))
      (y : ℤ) (m : ℤ) (dlo : ℤ) := by
  unfold mchkR at hchk
  simp only [Bool.and_eq_true, decide_eq_true_eq] at hchk
  obtain ⟨⟨⟨⟨⟨hA, hC⟩, hE⟩, hY⟩, hM⟩, hD⟩ := hchk
  set z1n : ℕ := jdnN y m dlo with hz1n
  set z2n : ℕ := z1n + (dhi - dlo) with hz2n
  set A1 : ℕ := aN z1n with hA1n
  set A2 : ℕ := aN z2n with hA2n
  set C1 : ℕ := (20 * (A1 + 1524) - 2442) / 7305 with hC1n
  set C2 : ℕ := (20 * (A2 + 1524) - 2442) / 7305 with hC2n
  set D1 : ℕ := 1461 * C1 / 4 with hD1n
  set D2 : ℕ := 1461 * C2 / 4 with hD2n
  set E1 : ℕ := 10000 * (A1 + 1524 - D1) / 306001 with hE1n
  set E2 : ℕ := 10000 * (A2 + 1524 - D2) / 306001 with hE2n
  -- the `ℤ` image of the chain
  have hz1 : (z1n : ℤ) = jdn (y : ℤ) (m : ℤ) (dlo : ℤ) := jdnN_cast y m dlo hy
  have hz2 : (z2n : ℤ) = jdn (y : ℤ) (m : ℤ) (dlo : ℤ) + ((dhi : ℤ) - (dlo : ℤ)) := by
    rw [hz2n]; push_cast [hdd]; omega
  have ha1 : (A1 : ℤ) = aZ (jdn (y : ℤ) (m : ℤ) (dlo : ℤ)) := by
    rw [hA1n, aN_cast, hz1]
  have ha2 : (A2 : ℤ) = aZ (jdn (y : ℤ) (m : ℤ) (dlo : ℤ) + ((dhi : ℤ) - (dlo : ℤ))) := by
    rw [hA2n, aN_cast, hz2]
  have hc1 : (C1 : ℤ) = cZ (jdn (y : ℤ) (m : ℤ) (dlo : ℤ)) := by
    rw [hC1n]; unfold cZ; omega
  have hc2 : (C2 : ℤ) = cZ (jdn (y : ℤ) (m : ℤ) (dlo : ℤ) + ((dhi : ℤ) - (dlo : ℤ))) := by
    rw [hC2n]; unfold cZ; omega
  have hd1 : (D1 : ℤ) = dZ (jdn (y : ℤ) (m : ℤ) (dlo : ℤ)) := by
    rw [hD1n]; unfold dZ; omega
  have hd2 : (D2 : ℤ) = dZ (jdn (y : ℤ) (m : ℤ) (dlo : ℤ) + ((dhi : ℤ) - (dlo : ℤ))) := by
    rw [hD2n]; unfold dZ; omega
  have he1 : (E1 : ℤ) = eZ (jdn (y : ℤ) (m : ℤ) (dlo : ℤ)) := by
    rw [hE1n]; unfold eZ; omega
  have he2 : (E2 : ℤ) = eZ (jdn (y : ℤ) (m : ℤ) (dlo : ℤ) + ((dhi : ℤ) - (dlo : ℤ))) := by
    rw [hE2n]; unfold eZ; omega
  refine ⟨by omega, by omega, by omega, ?_⟩
  rw [jyZ_parts]
  have hDD : ddZ (jdn (y : ℤ) (m : ℤ) (dlo : ℤ)) = (dlo : ℤ) := by
    unfold ddZ; omega
  have hMM : mmZ (jdn (y : ℤ) (m : ℤ) (dlo : ℤ)) = (m : ℤ) := by
    unfold mmZ
    rcases Nat.lt_or_ge E1 14 with h14 | h14
    · rw [if_pos h14] at hM
      rw [if_pos (by omega)]
      omega
    · rw [if_neg (Nat.not_lt.2 h14)] at hM
      rw [if_neg (by omega)]
      omega
  have hYY : yyZ (jdn (y : ℤ) (m : ℤ) (dlo : ℤ)) = (y : ℤ) := by
    unfold yyZ
    rcases Nat.lt_or_ge E1 14 with h14 | h14
    · rw [if_pos h14] at hM hY
      by_cases h3 : E1 - 1 > 2
      · rw [if_pos h3] at hY
        rw [if_pos (by rw [hMM]; omega)]
        omega
      · rw [if_neg h3] at hY
        rw [if_neg (by rw [hMM]; omega)]
        omega
    · rw [if_neg (Nat.not_lt.2 h14)] at hM hY
      by_cases h3 : E1 - 13 > 2
      · rw [if_pos h3] at hY
        rw [if_pos (by rw [hMM]; omega)]
        omega
      · rw [if_neg h3] at hY
        rw [if_neg (by rw [hMM]; omega)]
        omega
  rw [hDD, hMM, hYY]

/-- `jdn` is linear in the day as long as the day range does not straddle
the 1582-10-05 cutover test. -/
lemma jdn_lin (y m dlo d : ℤ)
    (hsame : (y = 1582 ∧ m = 10) → ((d < 5 ∧ dlo < 5) ∨ (5 ≤ d ∧ 5 ≤ dlo))) :
    jdn y m d = jdn y m dlo + (d - dlo) := by
  unfold jdn
  simp only []
  split_ifs <;> omega

/-- A passing month check certifies the round-trip on its whole day range. -/
lemma month_sound (y m dlo dhi : ℕ) (hy : 1 ≤ y) (hdd : dlo ≤ dhi)
    (hchk : mchkR y m dlo dhi = true)
    (hoct : ((y : ℤ) = 1582 ∧ (m : ℤ) = 10) → ((dhi : ℤ) < 5 ∨ 5 ≤ (dlo : ℤ))) :
    ∀ d : ℤ, (dlo : ℤ) ≤ d → d ≤ (dhi : ℤ) →
      jyZ (jdn (y : ℤ) (m : ℤ) d) = ((y : ℤ), (m : ℤ), d) := by
  intro d h1 h2
  obtain ⟨hcorr, hc, he, hval⟩ := mchkR_toZ y m dlo dhi hy hdd hchk
  rw [jyZ_parts] at hval
  simp only [Prod.mk.injEq] at hval
  obtain ⟨hvy, hvm, hvd⟩ := hval
  have hlin : jdn (y : ℤ) (m : ℤ) d = jdn (y : ℤ) (m : ℤ) (dlo : ℤ) + (d - (dlo : ℤ)) :=
    jdn_lin _ _ _ _ (fun h => by rcases hoct h with h' | h' <;> omega)
  rw [hlin]
  have := @jyZ_stretch (jdn (y : ℤ) (m : ℤ) (dlo : ℤ))
    (jdn (y : ℤ) (m : ℤ) (dlo : ℤ) + ((dhi : ℤ) - (dlo : ℤ)))
    (by rw [hcorr]; ring) (hc.symm) (he.symm)
    (jdn (y : ℤ) (m : ℤ) (dlo : ℤ) + (d - (dlo : ℤ))) (by omega) (by omega)
  rw [this, hvy, hvm, hvd]
  congr 2
  omega

lemma chkM_spec (y : ℕ) : ∀ n, chkM y n = true →
    ∀ m, 1 ≤ m → m ≤ n → mchk y m = true := by
  intro n
  induction n with
  | zero => intro _ m h1 h2; omega
  | succ k ih =>
    intro h m h1 h2
    rw [chkM, Bool.and_eq_true] at h
    rcases Nat.lt_or_ge m (k + 1) with hlt | hge
    · exact ih h.2 m h1 (by omega)
    · have : m = k + 1 := by omega
      rw [this]; exact h.1

lemma chkY_spec (y0 : ℕ) : ∀ k, chkY y0 k = true →
    ∀ j, j < k → chkM (y0 + j) 12 = true := by
  intro k
  induction k with
  | zero => intro _ j h2; omega
  | succ n ih =>
    intro h j h2
    rw [chkY, Bool.and_eq_true] at h
    rcases Nat.lt_or_ge j n with hlt | hge
    · exact ih h.2 j hlt
    · have : j = n := by omega
      rw [this]; exact h.1

set_option maxRecDepth 8000 in
set_option maxHeartbeats 10000000 in
lemma chkGreg : chkY 1583 400 = true := by decide

lemma chkJul : chkY 1 4 = true := by decide

lemma chk1582 : (chkM 1582 9 && mchkR 1582 10 1 4 && mchkR 1582 10 15 31 &&
    mchk 1582 11 && mchk 1582 12) = true := by decide

/-! ### Periodicity: 400 Gregorian years (146097 days), 4 Julian years (1461 days) -/

lemma jdn_shift400 (y m d : ℤ) (hy : 1583 ≤ y) :
    jdn (y + 400) m d = jdn y m d + 146097 := by
  have h1 : 1461 * (y + 400 - 1 + 4716) / 4 = 1461 * (y - 1 + 4716) / 4 + 146100 := by omega
  have h2 : 1461 * (y + 400 + 4716) / 4 = 1461 * (y + 4716) / 4 + 146100 := by omega
  have h3 : (y + 400 - 1) / 100 = (y - 1) / 100 + 4 := by omega
  have h4 : (y + 400) / 100 = y / 100 + 4 := by omega
  have h5 : ((y - 1) / 100 + 4) / 4 = (y - 1) / 100 / 4 + 1 := by omega
  have h6 : (y / 100 + 4) / 4 = y / 100 / 4 + 1 := by omega
  unfold jdn
  simp only []
  split_ifs <;> omega

lemma jdn_shift4 (y m d : ℤ) (hy : 1 ≤ y) (hy2 : y + 4 ≤ 1581) :
    jdn (y + 4) m d = jdn y m d + 1461 := by
  unfold jdn
  simp only []
  split_ifs <;> omega

lemma jdn_ge_cut (y m d : ℤ) (hy : 1583 ≤ y) (hm : 1 ≤ m) (hm2 : m ≤ 12) (hd : 1 ≤ d) :
    2299161 ≤ jdn y m d := by
  unfold jdn
  simp only []
  split_ifs <;> omega

lemma jdn_lt_cut (y m d : ℤ) (hy : y ≤ 1581) (hm2 : m ≤ 12) (hd : d ≤ 31) :
    jdn y m d < 2299161 := by
  unfold jdn
  simp only []
  split_ifs <;> omega

lemma jyZ_shift400 (z : ℤ) (hz : 2299161 ≤ z) :
    jyZ (z + 146097) = (yyZ z + 400, mmZ z, ddZ z) := by
  have hA : aZ (z + 146097) = aZ z + 146100 := by
    have h1 : (4 * (z + 146097) - 7468865) / 146097 = (4 * z - 7468865) / 146097 + 4 := by
      omega
    have h2 : ((4 * z - 7468865) / 146097 + 4) / 4 = (4 * z - 7468865) / 146097 / 4 + 1 := by
      omega
    unfold aZ
    rw [if_neg (by omega), if_neg (by omega)]
    omega
  have hC : cZ (z + 146097) = cZ z + 400 := by
    unfold cZ; rw [hA]; omega
  have hD : dZ (z + 146097) = dZ z + 146100 := by
    unfold dZ; rw [hC]; omega
  have hE : eZ (z + 146097) = eZ z := by
    unfold eZ; rw [hA, hD]; congr 1; ring
  have hDD : ddZ (z + 146097) = ddZ z := by
    unfold ddZ; rw [hA, hD, hE]; ring
  rw [jyZ_parts]
  unfold yyZ mmZ
  rw [hE, hC, hDD]
  split_ifs <;> simp only [Prod.mk.injEq, and_true, true_and] <;> omega

lemma jyZ_shift4 (z : ℤ) (hz : z + 1461 < 2299161) :
    jyZ (z + 1461) = (yyZ z + 4, mmZ z, ddZ z) := by
  have hA : aZ (z + 1461) = aZ z + 1461 := by
    unfold aZ
    rw [if_pos (by omega), if_pos (by omega)]
  have hC : cZ (z + 1461) = cZ z + 4 := by
    unfold cZ; rw [hA]; omega
  have hD : dZ (z + 1461) = dZ z + 1461 := by
    unfold dZ; rw [hC]; omega
  have hE : eZ (z + 1461) = eZ z := by
    unfold eZ; rw [hA, hD]; congr 1; ring
  have hDD : ddZ (z + 1461) = ddZ z := by
    unfold ddZ; rw [hA, hD, hE]; ring
  rw [jyZ_parts]
  unfold yyZ mmZ
  rw [hE, hC, hDD]
  split_ifs <;> simp only [Prod.mk.injEq, and_true, true_and] <;> omega

lemma isLeap_shift400 (y : ℤ) (hy : 1983 ≤ y) : isLeap y = isLeap (y - 400) := by
  unfold isLeap
  rw [if_neg (by omega), if_neg (by omega), Bool.eq_iff_iff]
  simp only [Bool.or_eq_true, Bool.and_eq_true, beq_iff_eq, bne_iff_ne, ne_eq]
  omega

lemma isLeap_shift4 (y : ℤ) (hy : y ≤ 1581) (hy2 : 5 ≤ y) : isLeap y = isLeap (y - 4) := by
  unfold isLeap
  rw [if_pos (by omega), if_pos (by omega), Bool.eq_iff_iff]
  simp only [beq_iff_eq]
  omega

lemma valid_shift400 (y m d : ℤ) (hy : 1983 ≤ y) :
    validDate y m d ↔ validDate (y - 400) m d := by
  unfold validDate daysInMonth
  rw [isLeap_shift400 y hy]
  constructor <;> rintro ⟨h1, h2, h3, h4, h5⟩ <;> exact ⟨h1, h2, h3, h4, by omega⟩

lemma valid_shift4 (y m d : ℤ) (hy : y ≤ 1581) (hy2 : 5 ≤ y) :
    validDate y m d ↔ validDate (y - 4) m d := by
  unfold validDate daysInMonth
  rw [isLeap_shift4 y hy hy2]
  constructor <;> rintro ⟨h1, h2, h3, h4, h5⟩ <;> exact ⟨h1, h2, h3, h4, by omega⟩

lemma valid_bounds {y m d : ℤ} (h : validDate y m d) :
    1 ≤ m ∧ m ≤ 12 ∧ 1 ≤ d ∧ d ≤ daysInMonth y m := by
  obtain ⟨h1, h2, h3, h4, _⟩ := h
  exact ⟨h1, h2, h3, h4⟩

lemma dimN_pos (y m : ℕ) : 1 ≤ dimN y m := by
  unfold dimN
  split_ifs <;> omega

lemma daysInMonth_le (y m : ℤ) : daysInMonth y m ≤ 31 := by
  unfold daysInMonth
  split_ifs <;> omega

/-- The integer round-trip over one certified month, with all casts done:
from a `ℕ`-level month check to the statement for a `ℤ` year. -/
lemma month_sound' (yn mn : ℕ) (y m : ℤ) (hyn : (yn : ℤ) = y) (hmn : (mn : ℤ) = m)
    (hy : 1 ≤ yn) (hchk : mchk yn mn = true)
    (hoct : ¬(y = 1582 ∧ m = 10)) :
    ∀ d : ℤ, 1 ≤ d → d ≤ daysInMonth y m → jyZ (jdn y m d) = (y, m, d) := by
  intro d h1 h2
  rw [mchk] at hchk
  have := month_sound yn mn 1 (dimN yn mn) hy (dimN_pos yn mn) hchk
    (fun h => absurd ⟨by omega, by omega⟩ hoct) d (by omega)
    (by rw [← hyn, ← hmn] at h2; rw [← dimN_cast] at h2; exact h2)
  rw [hyn, hmn] at this
  simpa using this

lemma RT_greg : ∀ n : ℕ, ∀ m d : ℤ, validDate (1583 + (n : ℤ)) m d →
    jyZ (jdn (1583 + (n : ℤ)) m d) = (1583 + (n : ℤ), m, d) := by
  intro n
  induction n using Nat.strong_induction_on with
  | _ n ih =>
    intro m d hval
    obtain ⟨hm1, hm2, hd1, hd2⟩ := valid_bounds hval
    by_cases hn : n < 400
    · have hchkM := chkY_spec 1583 400 chkGreg n hn
      have hmth := chkM_spec _ 12 hchkM m.toNat (by omega) (by omega)
      exact month_sound' (1583 + n) m.toNat (1583 + (n : ℤ)) m (by push_cast; ring)
        (by omega) (by omega) hmth (by omega) d hd1 hd2
    · have hval' : validDate (1583 + ((n - 400 : ℕ) : ℤ)) m d := by
        have := (valid_shift400 (1583 + (n : ℤ)) m d (by omega)).1 hval
        have hc : (1583 : ℤ) + ((n - 400 : ℕ) : ℤ) = 1583 + (n : ℤ) - 400 := by omega
        rw [hc]; exact this
      have ihr := ih (n - 400) (by omega) m d hval'
      have hc : (1583 : ℤ) + ((n - 400 : ℕ) : ℤ) = 1583 + (n : ℤ) - 400 := by omega
      rw [hc] at ihr
      have hjdn := jdn_shift400 (1583 + (n : ℤ) - 400) m d (by omega)
      have heq : 1583 + (n : ℤ) - 400 + 400 = 1583 + (n : ℤ) := by ring
      rw [heq] at hjdn
      have hge := jdn_ge_cut (1583 + (n : ℤ) - 400) m d (by omega) hm1 hm2 hd1
      have hsh := jyZ_shift400 (jdn (1583 + (n : ℤ) - 400) m d) hge
      rw [jyZ_parts] at ihr
      simp only [Prod.mk.injEq] at ihr
      rw [hjdn, hsh, ihr.1, ihr.2.1, ihr.2.2]
      refine Prod.ext (by omega) rfl

lemma RT_jul : ∀ n : ℕ, ∀ m d : ℤ, validDate (1 + (n : ℤ)) m d → (n : ℤ) ≤ 1580 →
    jyZ (jdn (1 + (n : ℤ)) m d) = (1 + (n : ℤ), m, d) := by
  intro n
  induction n using Nat.strong_induction_on with
  | _ n ih =>
    intro m d hval hn1581
    obtain ⟨hm1, hm2, hd1, hd2⟩ := valid_bounds hval
    by_cases hn : n < 4
    · have hchkM := chkY_spec 1 4 chkJul n hn
      have hmth := chkM_spec _ 12 hchkM m.toNat (by omega) (by omega)
      exact month_sound' (1 + n) m.toNat (1 + (n : ℤ)) m (by push_cast; ring)
        (by omega) (by omega) hmth (by omega) d hd1 hd2
    · have hval' : validDate (1 + ((n - 4 : ℕ) : ℤ)) m d := by
        have := (valid_shift4 (1 + (n : ℤ)) m d (by omega) (by omega)).1 hval
        have hc : (1 : ℤ) + ((n - 4 : ℕ) : ℤ) = 1 + (n : ℤ) - 4 := by omega
        rw [hc]; exact this
      have ihr := ih (n - 4) (by omega) m d hval' (by omega)
      have hc : (1 : ℤ) + ((n - 4 : ℕ) : ℤ) = 1 + (n : ℤ) - 4 := by omega
      rw [hc] at ihr
      have hjdn := jdn_shift4 (1 + (n : ℤ) - 4) m d (by omega) (by omega)
      have heq : 1 + (n : ℤ) - 4 + 4 = 1 + (n : ℤ) := by ring
      rw [heq] at hjdn
      have hlt : jdn (1 + (n : ℤ) - 4) m d + 1461 < 2299161 := by
        rw [← hjdn]
        exact jdn_lt_cut _ m d (by omega) hm2 (by
          have hdm := daysInMonth_le (1 + (n : ℤ)) m
          omega)
      have hsh := jyZ_shift4 (jdn (1 + (n : ℤ) - 4) m d) hlt
      rw [jyZ_parts] at ihr
      simp only [Prod.mk.injEq] at ihr
      rw [hjdn, hsh, ihr.1, ihr.2.1, ihr.2.2]
      refine Prod.ext (by omega) rfl

lemma RT_1582 : ∀ m d : ℤ, validDate 1582 m d → jyZ (jdn 1582 m d) = (1582, m, d) := by
  have h := chk1582
  simp only [Bool.and_eq_true] at h
  obtain ⟨⟨⟨⟨h9, hOa⟩, hOb⟩, h11⟩, h12⟩ := h
  intro m d hval
  obtain ⟨hb1, hb2, hb3, hb4⟩ := valid_bounds hval
  rcases lt_or_ge m 10 with hm10 | hm10
  · exact month_sound' 1582 m.toNat 1582 m (by norm_num) (by omega) (by norm_num)
      (chkM_spec 1582 9 h9 m.toNat (by omega) (by omega)) (by omega) d hb3 hb4
  · rcases eq_or_lt_of_le hm10 with hm | hm
    · -- October 1582: the two surviving ranges
      have hdr : d < 5 ∨ 14 < d := by
        have := hval.2.2.2.2
        omega
      have h31 : d ≤ 31 := by
        have := daysInMonth_le 1582 m
        omega
      rcases hdr with hd5 | hd15
      · have := month_sound 1582 10 1 4 (by norm_num) (by norm_num) hOa
          (fun _ => Or.inl (by norm_num)) d (by omega) (by omega)
        subst hm
        simpa using this
      · have := month_sound 1582 10 15 31 (by norm_num) (by norm_num) hOb
          (fun _ => Or.inr (by norm_num)) d (by omega) (by omega)
        subst hm
        simpa using this
    · rcases (by omega : m = 11 ∨ m = 12) with hm' | hm' <;> subst hm'
      · exact month_sound' 1582 11 1582 11 (by norm_num) (by norm_num) (by norm_num)
          h11 (by omega) d hb3 hb4
      · exact month_sound' 1582 12 1582 12 (by norm_num) (by norm_num) (by norm_num)
          h12 (by omega) d hb3 hb4

/-- The integer round-trip: for every existing calendar date from year 1 on,
`jyZ` inverts `jdn`. -/
lemma RT_all (y : ℤ) (hy : 1 ≤ y) :
    ∀ m d : ℤ, validDate y m d → jyZ (jdn y m d) = (y, m, d) := by
  intro m d hval
  rcases lt_trichotomy y 1582 with hlt | heq | hgt
  · have hn : y = 1 + ((y - 1).toNat : ℤ) := by omega
    rw [hn] at hval ⊢
    exact RT_jul (y - 1).toNat m d hval (by omega)
  · subst heq
    exact RT_1582 m d hval
  · have hn : y = 1583 + ((y - 1583).toNat : ℤ) := by omega
    rw [hn] at hval ⊢
    exact RT_greg (y - 1583).toNat m d hval

/-! ## Claim C2: civil ⇄ Julian round-trip -/

/-- **C2** (amended).  For every *existing* civil UTC date-time — a real day
of a real month of a year ≥ 1, outside the ten days dropped by the Gregorian
reform, with in-range time fields — converting to a Julian date with
`ucttoj` and decomposing back with `jyear` and `jhms` reproduces the
date-time exactly (in particular, to within one second).  The claim's
"day 1-31" domain is refuted by `claim_C2_counterexample`: nonexistent
days such as February 30 do not round-trip. -/
theorem claim_C2_roundtrip :
    ∀ year month day hour minute sec : ℤ,
      1 ≤ year → validDate year month day →
      0 ≤ hour → hour < 24 → 0 ≤ minute → minute < 60 → 0 ≤ sec → sec < 60 →
      jyear (ucttoj year (month - 1) day hour minute sec) = (year, month, day) ∧
      jhms (ucttoj year (month - 1) day hour minute sec) = (hour, minute, sec) := by
  intro y mo d h mi s hy hval hh1 hh2 hmi1 hmi2 hs1 hs2
  obtain ⟨hb1, hb2, hb3, hb4⟩ := valid_bounds hval
  have hu := ucttoj_eq_jdn y (mo - 1) d h mi s hy ⟨by omega, by omega⟩
  rw [show mo - 1 + 1 = mo by ring] at hu
  have hsecs : 0 ≤ daySecs h mi s ∧ daySecs h mi s < 86400 := by
    unfold daySecs; constructor <;> omega
  have hRT := RT_all y hy mo d hval
  have hf1 : (0 : ℚ) ≤ (daySecs h mi s : ℚ) / 86400 :=
    div_nonneg (by exact_mod_cast hsecs.1) (by norm_num)
  have hf2 : (daySecs h mi s : ℚ) / 86400 < 1 := by
    rw [div_lt_one (by norm_num)]
    exact_mod_cast hsecs.2
  constructor
  · rw [hu, jyear_eq_jyZ (jdn y mo d) _ hf1 hf2 (by rw [hRT]; simp only []; omega), hRT]
  · rw [hu, jhms_eq _ _ hsecs.1 hsecs.2]
    unfold daySecs
    refine Prod.ext ?_ (Prod.ext ?_ ?_) <;> simp only [] <;> omega

/-- Witness for C2 at 1995-03-11 01:40:00 UTC (the repository's own test
fixture). -/
theorem claim_C2_roundtrip_witness :
    (1 : ℤ) ≤ 1995 ∧ validDate 1995 3 11 ∧
      jyear (ucttoj 1995 2 11 1 40 0) = (1995, 3, 11) ∧
      jhms (ucttoj 1995 2 11 1 40 0) = (1, 40, 0) := by
  have h := claim_C2_roundtrip 1995 3 11 1 40 0 (by norm_num) (by decide)
    (by norm_num) (by norm_num) (by norm_num) (by norm_num) (by norm_num) (by norm_num)
  norm_num at h
  exact ⟨by norm_num, by decide, h.1, h.2⟩

/-- Counterexample to C2 as stated: February 30 (month 1-12, day 1-31) does
not round-trip — it decodes as March 1. -/
theorem claim_C2_counterexample :
    jyear (ucttoj 2000 1 30 0 0 0) = (2000, 3, 1) ∧
      jyear (ucttoj 2000 1 30 0 0 0) ≠ (2000, 2, 30) := by
  have hu := ucttoj_eq_jdn 2000 1 30 0 0 0 (by norm_num) ⟨by norm_num, by norm_num⟩
  norm_num [daySecs] at hu
  have hz : jyZ (jdn 2000 2 30) = (2000, 3, 1) := by decide
  have h : jyear (ucttoj 2000 1 30 0 0 0) = (2000, 3, 1) := by
    rw [hu]
    have := jyear_eq_jyZ (jdn 2000 2 30) 0 le_rfl (by norm_num)
      (by rw [hz]; norm_num)
    rw [show ((jdn 2000 2 30 : ℤ) : ℚ) - 1 / 2 =
        ((jdn 2000 2 30 : ℤ) : ℚ) - 1 / 2 + 0 by ring, this, hz]
  exact ⟨h, by rw [h]; simp⟩

/-! ## Claim C4: the calendar-reform cutover and the `b` correction -/

/-- The `b = 0` (Julian-calendar) variant of the conversion: `ucttoj` with
the Gregorian correction removed, used to state what correction the real
`ucttoj` applies. -/
def ucttojB0 (year mon mday hour minute sec : ℤ) : ℚ :=
  let m0 := mon + 1
  let y0 := year
  let y := if m0 ≤ 2 then y0 - 1 else y0
  let m := if m0 ≤ 2 then m0 + 12 else m0
  (((cTrunc ((365.25 : ℚ) * ((y : ℚ) + 4716)) : ℚ) +
      (cTrunc ((30.6001 : ℚ) * ((m : ℚ) + 1)) : ℚ) +
      (mday : ℚ) + (0 : ℚ) - 1524.5) : ℚ) +
    (((sec + 60 * (minute + 60 * hour) : ℤ) : ℚ) / 86400)

/-- Modelled from the spec for claim C4: the conversion as the claim words
it, with the Gregorian term computed from the **civil** year
(`a = floor(year/100)`), not from the internally adjusted year. -/
def ucttojSpecA (year mon mday hour minute sec : ℤ) : ℚ :=
  let m0 := mon + 1
  let y0 := year
  let y := if m0 ≤ 2 then y0 - 1 else y0
  let m := if m0 ≤ 2 then m0 + 12 else m0
  let b : ℤ :=
    if (year < 1582) ∨ ((year = 1582) ∧ ((mon < 9) ∨ (mon = 9 ∧ mday < 5))) then 0
    else
      let a := cQuot year 100
      2 - a + cQuot a 4
  (((cTrunc ((365.25 : ℚ) * ((y : ℚ) + 4716)) : ℚ) +
      (cTrunc ((30.6001 : ℚ) * ((m : ℚ) + 1)) : ℚ) +
      (mday : ℚ) + (b : ℚ) - 1524.5) : ℚ) +
    (((sec + 60 * (minute + 60 * hour) : ℤ) : ℚ) / 86400)

/-- Counterexample to C4 as stated: on 1700-01-15 (a January of a century
year not divisible by 400) the code computes the correction from the
adjusted year 1699 (`a = 16`, JD 2341987.0), while the claim's formula
`a = floor(year/100) = 17` would give 2341986.0.  The code's value is the
consistent one: `jyear` decodes 2341987.0 back to 1700-01-15. -/
theorem claim_C4_counterexample :
    ucttoj 1700 0 15 12 0 0 = 2341987.0 ∧
      ucttojSpecA 1700 0 15 12 0 0 = 2341986.0 ∧
      jyear 2341987.0 = (1700, 1, 15) := by
  refine ⟨?_, ?_, ?_⟩
  · have hu := ucttoj_eq_jdn 1700 0 15 12 0 0 (by norm_num) ⟨by norm_num, by norm_num⟩
    rw [hu, show jdn (1700 : ℤ) (0 + 1) 15 = 2341987 from by decide]
    norm_num [daySecs]
  · norm_num [ucttojSpecA, cTrunc, cQuot]
  · have h := jyear_eq_jyZ 2341987 (1 / 2) (by norm_num) (by norm_num)
      (by rw [show jyZ 2341987 = (1700, 1, 15) from by decide]; norm_num)
    rw [show (2341987.0 : ℚ) = ((2341987 : ℤ) : ℚ) - 1 / 2 + 1 / 2 by norm_num, h]
    decide

/-- **C4** (amended).  `ucttoj` applies `b = 0` strictly before the civil
date 1582-10-05 and `b = 2 - a + a/4` on or after it, where
`a = ⌊y/100⌋` is computed from the **internally adjusted** year `y`
(the civil year, minus one for January and February); and
`ucttoj(1582-10-04 12:00) = 2299160.0`, while `jyear` (whose Gregorian
branch starts at the threshold JD 2299161.0) decodes JD 2299160.9 as
1582-10-15, not 1582-10-05. -/
theorem claim_C4_cutover :
    (∀ year mon mday hour minute sec : ℤ,
      (year < 1582 ∨ (year = 1582 ∧ (mon < 9 ∨ (mon = 9 ∧ mday < 5)))) →
        ucttoj year mon mday hour minute sec = ucttojB0 year mon mday hour minute sec) ∧
    (∀ year mon mday hour minute sec : ℤ,
      ¬(year < 1582 ∨ (year = 1582 ∧ (mon < 9 ∨ (mon = 9 ∧ mday < 5)))) →
        ucttoj year mon mday hour minute sec = ucttojB0 year mon mday hour minute sec +
          ((2 - cQuot (if mon ≤ 1 then year - 1 else year) 100 +
            cQuot (cQuot (if mon ≤ 1 then year - 1 else year) 100) 4 : ℤ) : ℚ)) ∧
    ucttoj 1582 9 4 12 0 0 = 2299160.0 ∧
    jyear 2299160.9 = (1582, 10, 15) := by
  refine ⟨?_, ?_, ?_, ?_⟩
  · intro year mon mday hour minute sec hc
    rw [ucttoj, ucttojB0]
    simp only []
    rw [if_pos hc]
    push_cast
    ring
  · intro year mon mday hour minute sec hc
    rw [ucttoj, ucttojB0]
    simp only []
    rw [if_neg hc,
      show (if mon + 1 ≤ 2 then year - 1 else year) = (if mon ≤ 1 then year - 1 else year) from by
        rcases le_or_lt mon 1 with h | h
        · rw [if_pos (by omega), if_pos h]
        · rw [if_neg (by omega), if_neg (by omega)]]
    push_cast
    ring
  · have hu := ucttoj_eq_jdn 1582 9 4 12 0 0 (by norm_num) ⟨by norm_num, by norm_num⟩
    rw [hu, show jdn (1582 : ℤ) (9 + 1) 4 = 2299160 from by decide]
    norm_num [daySecs]
  · have h := jyear_eq_jyZ 2299161 (2 / 5) (by norm_num) (by norm_num)
      (by rw [show jyZ 2299161 = (1582, 10, 15) from by decide]; norm_num)
    rw [show (2299160.9 : ℚ) = ((2299161 : ℤ) : ℚ) - 1 / 2 + 2 / 5 by norm_num, h]
    decide

/-- Witness for the guarded parts of C4: at 2000-03-15 (post-cutover) the
adjusted year is 2000, `a = 20`, and the Gregorian correction is applied;
at 1200-03-15 (pre-cutover) no correction is applied. -/
theorem claim_C4_cutover_witness :
    ¬((2000 : ℤ) < 1582 ∨ ((2000 : ℤ) = 1582 ∧ ((2 : ℤ) < 9 ∨ ((2 : ℤ) = 9 ∧ (15 : ℤ) < 5)))) ∧
    ucttoj 2000 2 15 0 0 0 = ucttojB0 2000 2 15 0 0 0 +
      ((2 - cQuot (if (2 : ℤ) ≤ 1 then (2000 : ℤ) - 1 else 2000) 100 +
        cQuot (cQuot (if (2 : ℤ) ≤ 1 then (2000 : ℤ) - 1 else 2000) 100) 4 : ℤ) : ℚ) ∧
    ((1200 : ℤ) < 1582 ∨ ((1200 : ℤ) = 1582 ∧ ((2 : ℤ) < 9 ∨ ((2 : ℤ) = 9 ∧ (15 : ℤ) < 5)))) ∧
    ucttoj 1200 2 15 0 0 0 = ucttojB0 1200 2 15 0 0 0 :=
  ⟨by norm_num, claim_C4_cutover.2.1 2000 2 15 0 0 0 (by norm_num),
    by norm_num, claim_C4_cutover.1 1200 2 15 0 0 0 (by norm_num)⟩

/-! ## Real embedding of the astronomical part

The trigonometric routines of src/moon/moon.c are embedded over `ℝ`.  The
source's unbounded loops (`kepler`'s Newton iteration, `phasehunt`'s search)
become fuel-indexed recursions returning `Option`; termination theorems below
show the fuel is never exhausted on the program's own calls. -/

/-- Model of the host C library's `gmtime` (not part of this repository's
sources), modelled from its specification: decompose a nonnegative Unix
timestamp into civil UTC fields (year, month 1-12, day, hour, minute,
second) of the proleptic Gregorian calendar, without leap seconds. -/
def gmtimeM (t : ℤ) : ℤ × ℤ × ℤ × ℤ × ℤ × ℤ :=
  let days := t / 86400
  let secs := t % 86400
  let z := days + 719468
  let era := z / 146097
  let doe := z % 146097
  let yoe := (doe - doe / 1460 + doe / 36524 - doe / 146096) / 365
  let y := yoe + era * 400
  let doy := doe - (365 * yoe + yoe / 4 - yoe / 100)
  let mp := (5 * doy + 2) / 153
  let d := doy - (153 * mp + 2) / 5 + 1
  let m := mp + (if mp < 10 then 3 else -9)
  (y + (if m ≤ 2 then 1 else 0), m, d, secs / 3600, (secs / 60) % 60, secs % 60)

/-  JTIME  --  `jtime` (src/moon/moon.c:362-365) applied to `gmtime(t)`:
    `ucttoj(tm_year + 1900, tm_mon, tm_mday, tm_hour, tm_min, tm_sec)`,
    where `tm_year = year - 1900` and `tm_mon` is 0-based. -/
def jtimeJD (t : ℤ) : ℚ :=
  let g := gmtimeM t
  ucttoj g.1 (g.2.1 - 1) g.2.2.1 g.2.2.2.1 g.2.2.2.2.1 g.2.2.2.2.2

/-- `phaname` (src/moon/moon.c:105-109). -/
def phaname : List String :=
  ["New Moon", "Waxing Crescent", "First Quarter",
   "Waxing Gibbous", "Full Moon", "Waning Gibbous",
   "Last Quarter", "Waning Crescent"]

noncomputable section

/-  Astronomical constants, src/moon/moon.c:48-80.  -/

def epoch : ℝ := 2444238.5
def elonge : ℝ := 278.833540
def elongp : ℝ := 282.596403
def eccent : ℝ := 0.016718
def sunsmax : ℝ := 1.495985e8
def sunangsiz : ℝ := 0.533128
def mmlong : ℝ := 64.975464
def mmlongp : ℝ := 349.383063
def mlnode : ℝ := 151.950429
def minc : ℝ := 5.145396
def mecc : ℝ := 0.054900
def mangsiz : ℝ := 0.5181
def msmax : ℝ := 384401.0
def mparallax : ℝ := 0.9507
def synmonth : ℝ := 29.53058868
def lunatbase : ℝ := 2423436.0
def earthrad : ℝ := 6378.16

/-- `#define fixangle(a) ((a) - 360.0 * (floor((a) / 360.0)))` (moon.c:88). -/
def fixangle (a : ℝ) : ℝ := a - 360.0 * ⌊a / 360.0⌋

/-- `#define torad(d) ((d) * (PI / 180.0))` (moon.c:89). -/
def torad (d : ℝ) : ℝ := d * (Real.pi / 180.0)

/-- `#define todeg(d) ((d) * (180.0 / PI))` (moon.c:90). -/
def todeg (d : ℝ) : ℝ := d * (180.0 / Real.pi)

/-- `#define dsin(x) (sin(torad((x))))` (moon.c:91). -/
def dsin (x : ℝ) : ℝ := Real.sin (torad x)

/-- `#define dcos(x) (cos(torad((x))))` (moon.c:92). -/
def dcos (x : ℝ) : ℝ := Real.cos (torad x)

/-- C cast-to-integer (truncation toward zero) on a double. -/
def cTruncR (x : ℝ) : ℤ := if x < 0 then -⌊-x⌋ else ⌊x⌋

/-- `jyear` over `ℝ` (same code path as the rational `jyear` above), as
invoked by `phasehunt` on a computed Julian date. -/
def jyearR (td : ℝ) : ℤ × ℤ × ℤ :=
  let td' := td + 0.5
  let z : ℤ := ⌊td'⌋
  let f : ℝ := td' - (z : ℝ)
  let a : ℤ :=
    if (z : ℝ) < 2299161.0 then z
    else
      let alpha : ℤ := ⌊((z : ℝ) - 1867216.25) / 36524.25⌋
      z + 1 + alpha - ⌊(alpha : ℝ) / 4⌋
  let b : ℤ := a + 1524
  let c : ℤ := ⌊((b : ℝ) - 122.1) / 365.25⌋
  let d : ℤ := ⌊(365.25 : ℝ) * (c : ℝ)⌋
  let e : ℤ := ⌊((b : ℝ) - (d : ℝ)) / 30.6001⌋
  let dd : ℤ := cTruncR (((b - d - ⌊(30.6001 : ℝ) * (e : ℝ)⌋ : ℤ) : ℝ) + f)
  let mm : ℤ := if e < 14 then e - 1 else e - 13
  let yy : ℤ := if mm > 2 then c - 4716 else c - 4715
  (yy, mm, dd)

/-  MEANPHASE  --  Translated from `meanphase` (src/moon/moon.c:467-482). -/
def meanphase (sdate k : ℝ) : ℝ :=
  let t := (sdate - 2415020.0) / 36525
  let t2 := t * t
  let t3 := t2 * t
  2415020.75933 + synmonth * k
    + 0.0001178 * t2
    - 0.000000155 * t3
    + 0.00033 * dsin (166.56 + 132.87 * t - 0.009173 * t2)

/-  TRUEPHASE  --  Translated from `truephase` (src/moon/moon.c:488-564).
    The `!apcor` branch calls `exit(EXIT_FAILURE)`; it is modelled as
    `none`. -/
def truephase (k0 ph : ℝ) : Option ℝ :=
  let k := k0 + ph
  let t := k / 1236.85
  let t2 := t * t
  let t3 := t2 * t
  let pt := 2415020.75933
       + synmonth * k
       + 0.0001178 * t2
       - 0.000000155 * t3
       + 0.00033 * dsin (166.56 + 132.87 * t - 0.009173 * t2)
  let m := 359.2242
      + 29.10535608 * k
      - 0.0000333 * t2
      - 0.00000347 * t3
  let mprime := 306.0253
      + 385.81691806 * k
      + 0.0107306 * t2
      + 0.00001236 * t3
  let f := 21.2964
      + 390.67050646 * k
      - 0.0016528 * t2
      - 0.00000239 * t3
  if (ph < 0.01) ∨ (|ph - 0.5| < 0.01) then
    some (pt + ((0.1734 - 0.000393 * t) * dsin m
              + 0.0021 * dsin (2 * m)
              - 0.4068 * dsin mprime
              + 0.0161 * dsin (2 * mprime)
              - 0.0004 * dsin (3 * mprime)
              + 0.0104 * dsin (2 * f)
              - 0.0051 * dsin (m + mprime)
              - 0.0074 * dsin (m - mprime)
              + 0.0004 * dsin (2 * f + m)
              - 0.0004 * dsin (2 * f - m)
              - 0.0006 * dsin (2 * f + mprime)
              + 0.0010 * dsin (2 * f - mprime)
              + 0.0005 * dsin (m + 2 * mprime)))
  else if (|ph - 0.25| < 0.01 ∨ |ph - 0.75| < 0.01) then
    some (pt + ((0.1721 - 0.0004 * t) * dsin m
              + 0.0021 * dsin (2 * m)
              - 0.6280 * dsin mprime
              + 0.0089 * dsin (2 * mprime)
              - 0.0004 * dsin (3 * mprime)
              + 0.0079 * dsin (2 * f)
              - 0.0119 * dsin (m + mprime)
              - 0.0047 * dsin (m - mprime)
              + 0.0003 * dsin (2 * f + m)
              - 0.0004 * dsin (2 * f - m)
              - 0.0006 * dsin (2 * f + mprime)
              + 0.0021 * dsin (2 * f - mprime)
              + 0.0003 * dsin (m + 2 * mprime)
              + 0.0004 * dsin (m - 2 * mprime)
              - 0.0003 * dsin (2 * m + mprime))
            + (if ph < 0.5 then 0.0028 - 0.0004 * dcos m + 0.0003 * dcos mprime
               else -0.0028 + 0.0004 * dcos m - 0.0003 * dcos mprime))
  else none

/-  PHASEHUNT  --  The `while (TRUE)` search of `phasehunt`
    (src/moon/moon.c:583-591), fuel-indexed.  State: current `adate`,
    `k1`, `nt1`; returns `(k1, k2)` at the `break`. -/
def phasehuntLoop (sdate : ℝ) : ℝ → ℝ → ℝ → ℕ → Option (ℝ × ℝ)
  | _, _, _, 0 => none
  | adate, k1, nt1, Nat.succ fuel =>
    let adate' := adate + synmonth
    let k2 := k1 + 1
    let nt2 := meanphase adate' k2
    if nt1 ≤ sdate ∧ sdate < nt2 then some (k1, k2)
    else phasehuntLoop sdate adate' k2 nt2 fuel

/-  PHASEHUNT  --  Translated from `phasehunt` (src/moon/moon.c:571-597). -/
def phasehunt (sdate : ℝ) (fuel : ℕ) : Option (ℝ × ℝ × ℝ × ℝ × ℝ) :=
  let adate := sdate - 45
  let ymd := jyearR adate
  let k1 : ℝ := ⌊((ymd.1 : ℝ) + ((ymd.2.1 : ℝ) - 1) * (1 / 12) - 1900) * 12.3685⌋
  let nt1 := meanphase adate k1
  match phasehuntLoop sdate nt1 k1 nt1 fuel with
  | none => none
  | some kk =>
    match truephase kk.1 0.0, truephase kk.1 0.25, truephase kk.1 0.5,
        truephase kk.1 0.75, truephase kk.2 0.0 with
    | some p0, some p1, some p2, some p3, some p4 => some (p0, p1, p2, p3, p4)
    | _, _, _, _, _ => none

/-  KEPLER  --  The do-while Newton iteration of `kepler`
    (src/moon/moon.c:601-612), fuel-indexed: each step computes `delta`
    from the current iterate, always updates `e`, and exits when
    `|delta| ≤ EPSILON` (`EPSILON = 1E-6`). -/
def keplerLoop (ecc m : ℝ) : ℝ → ℕ → Option ℝ
  | _, 0 => none
  | e, Nat.succ fuel =>
    let delta := e - ecc * Real.sin e - m
    let e' := e - delta / (1 - ecc * Real.cos e)
    if |delta| ≤ 1e-6 then some e' else keplerLoop ecc m e' fuel

/-- `kepler m ecc` with explicit fuel; `e = m = torad(m)` seeds the loop. -/
def keplerF (m ecc : ℝ) (fuel : ℕ) : Option ℝ := keplerLoop ecc (torad m) (torad m) fuel

/-- Total `kepler`: `kepler_fuel` below proves three iterations always
suffice for any `0 ≤ ecc ≤ 0.0549` (the program only passes `eccent =
0.016718` and `mecc = 0.0549`), so the default branch is never the value
of a reachable call. -/
def kepler (m ecc : ℝ) : ℝ := (keplerF m ecc 5).getD 0

/-  PHASE  --  Translated from `phase` (src/moon/moon.c:626-746), one
    definition per local variable, in source order.  The source reuses the
    variable `Ec`: `EcK` is the Kepler solution, `Ec` the true anomaly.
    The locals `Lambdamoon`, `BetaM`, `MoonPar` (and `NP`, `y`, `x`, used
    only by them) are computed and explicitly discarded by the source
    (`(void)` casts); they do not contribute to any output and are not
    embedded. -/

def Day (pdate : ℝ) : ℝ := pdate - epoch
def N (pdate : ℝ) : ℝ := fixangle ((360 / 365.2422) * Day pdate)
def M (pdate : ℝ) : ℝ := fixangle (N pdate + elonge - elongp)
def EcK (pdate : ℝ) : ℝ := kepler (M pdate) eccent
def Ec (pdate : ℝ) : ℝ :=
  2 * todeg (Real.arctan (Real.sqrt ((1 + eccent) / (1 - eccent)) * Real.tan (EcK pdate / 2)))
def Lambdasun (pdate : ℝ) : ℝ := fixangle (Ec pdate + elongp)
def F (pdate : ℝ) : ℝ := (1 + eccent * Real.cos (torad (Ec pdate))) / (1 - eccent * eccent)
def SunDist (pdate : ℝ) : ℝ := sunsmax / F pdate
def SunAng (pdate : ℝ) : ℝ := F pdate * sunangsiz
def ml (pdate : ℝ) : ℝ := fixangle (13.1763966 * Day pdate + mmlong)
def MM (pdate : ℝ) : ℝ := fixangle (ml pdate - 0.1114041 * Day pdate - mmlongp)
def Ev (pdate : ℝ) : ℝ := 1.2739 * Real.sin (torad (2 * (ml pdate - Lambdasun pdate) - MM pdate))
def Ae (pdate : ℝ) : ℝ := 0.1858 * Real.sin (torad (M pdate))
def A3 (pdate : ℝ) : ℝ := 0.37 * Real.sin (torad (M pdate))
def MmP (pdate : ℝ) : ℝ := MM pdate + Ev pdate - Ae pdate - A3 pdate
def mEc (pdate : ℝ) : ℝ := 6.2886 * Real.sin (torad (MmP pdate))
def A4 (pdate : ℝ) : ℝ := 0.214 * Real.sin (torad (2 * MmP pdate))
def lP (pdate : ℝ) : ℝ := ml pdate + Ev pdate + mEc pdate - Ae pdate + A4 pdate
def V (pdate : ℝ) : ℝ := 0.6583 * Real.sin (torad (2 * (lP pdate - Lambdasun pdate)))
def lPP (pdate : ℝ) : ℝ := lP pdate + V pdate
def MoonAge (pdate : ℝ) : ℝ := lPP pdate - Lambdasun pdate
def MoonPhase (pdate : ℝ) : ℝ := (1 - Real.cos (torad (MoonAge pdate))) / 2
def MoonDist (pdate : ℝ) : ℝ :=
  (msmax * (1 - mecc * mecc)) / (1 + mecc * Real.cos (torad (MmP pdate + mEc pdate)))
def MoonDFrac (pdate : ℝ) : ℝ := MoonDist pdate / msmax
def MoonAng (pdate : ℝ) : ℝ := mangsiz / MoonDFrac pdate

/-- The outputs of `phase` (src/moon/moon.c:739-745), in order: return
value `fixangle(MoonAge)/360`, then `*pphase`, `*mage`, `*dist`,
`*angdia`, `*sudist`, `*suangdia`. -/
def phase (pdate : ℝ) : ℝ × ℝ × ℝ × ℝ × ℝ × ℝ × ℝ :=
  (fixangle (MoonAge pdate) / 360.0,
   MoonPhase pdate,
   synmonth * (fixangle (MoonAge pdate) / 360.0),
   MoonDist pdate,
   MoonAng pdate,
   SunDist pdate,
   SunAng pdate)

/-  Translated from `fraction_of_lunation_to_phase` (src/moon/moon.c:131-152). -/
def fraction_of_lunation_to_phase (p : ℝ) : ℕ :=
  let day_frac := (1 / synmonth) * 0.75
  if p < 0.00 + day_frac then 0
  else if p < 0.25 - day_frac then 1
  else if p < 0.25 + day_frac then 2
  else if p < 0.50 - day_frac then 3
  else if p < 0.50 + day_frac then 4
  else if p < 0.75 - day_frac then 5
  else if p < 0.75 + day_frac then 6
  else if p < 1.00 - day_frac then 7
  else 0

/-- The value fields of `moonphase(mphase, &t)` (src/moon/moon.c:154-188):
Julian date, age of moon, fraction of lunation, phase index, phase name,
illuminated fraction, distances and angular sizes. -/
def moonphaseM (t : ℤ) : ℝ × ℝ × ℝ × ℕ × String × ℝ × ℝ × ℝ × ℝ × ℝ × ℝ × ℝ :=
  let jd : ℝ := ((jtimeJD t : ℚ) : ℝ)
  let p := phase jd
  (jd, p.2.2.1, p.1, fraction_of_lunation_to_phase p.1,
   phaname.getD (fraction_of_lunation_to_phase p.1) "",
   p.2.1, p.2.2.2.1, p.2.2.2.1 / earthrad, p.2.2.2.2.1,
   p.2.2.2.2.2.1, p.2.2.2.2.2.1 / sunsmax, p.2.2.2.2.2.2)

/-- The value fields of `mooncal(mcal, &t)` (src/moon/moon.c:278-308):
`phasehunt(jd + 0.5)`, Brown lunation number
`floor(((phasar[0] + 7) - lunatbase) / synmonth) + 1`, and the five phase
times. -/
def mooncalM (t : ℤ) (fuel : ℕ) : Option (ℤ × ℝ × ℝ × ℝ × ℝ × ℝ) :=
  let jd : ℝ := ((jtimeJD t : ℚ) : ℝ)
  match phasehunt (jd + 0.5) fuel with
  | none => none
  | some ps =>
    some (⌊((ps.1 + 7) - lunatbase) / synmonth⌋ + 1,
      ps.1, ps.2.1, ps.2.2.1, ps.2.2.2.1, ps.2.2.2.2)

end


/-! ## Certified rational enclosures ("balls") for the real arithmetic

`|x - a| ≤ r` certificates with literal rational `a`, `r`, propagated
through the arithmetic of the program.  `sin`/`cos` at small arguments are
handled by degree-11/12 Taylor polynomials whose remainder on `|x| ≤ 1` is
below `1.8e-10` (derived from `Complex.exp_bound` at `n = 13`), larger
radian arguments by angle halving and the double-angle formulas, and
degree arguments by exact reduction modulo 360 first. -/

section TaylorBounds

open Complex Finset


lemma I2 : (I : ℂ) ^ 2 = -1 := Complex.I_sq
lemma I3 : (I : ℂ) ^ 3 = -I := by rw [pow_succ, I2]; ring
lemma I4 : (I : ℂ) ^ 4 = 1 := by rw [pow_succ, I3]; simp [Complex.I_mul_I]
lemma I5 : (I : ℂ) ^ 5 = I := by rw [pow_succ, I4]; ring
lemma I6 : (I : ℂ) ^ 6 = -1 := by rw [pow_succ, I5, I2.symm]; ring
lemma I7 : (I : ℂ) ^ 7 = -I := by rw [pow_succ, I6]; ring
lemma I8 : (I : ℂ) ^ 8 = 1 := by rw [pow_succ, I7]; simp [Complex.I_mul_I]
lemma I9 : (I : ℂ) ^ 9 = I := by rw [pow_succ, I8]; ring
lemma I10 : (I : ℂ) ^ 10 = -1 := by rw [pow_succ, I9, I2.symm]; ring
lemma I11 : (I : ℂ) ^ 11 = -I := by rw [pow_succ, I10]; ring
lemma I12 : (I : ℂ) ^ 12 = 1 := by rw [pow_succ, I11]; simp [Complex.I_mul_I]

set_option maxRecDepth 4000 in
lemma sin_sum_eq (x : ℝ) :
    ((∑ m ∈ range 13, (-(x : ℂ) * I) ^ m / m.factorial) -
      (∑ m ∈ range 13, ((x : ℂ) * I) ^ m / m.factorial)) * I / 2 =
    (((x - x ^ 3 / 6 + x ^ 5 / 120 - x ^ 7 / 5040 + x ^ 9 / 362880
        - x ^ 11 / 39916800 : ℝ)) : ℂ) := by
  simp only [Finset.sum_range_succ, Finset.range_zero, Finset.sum_empty, Nat.factorial]
  push_cast
  ring_nf
  simp only [I2, I3, I4, I5, I6, I7, I8, I9, I10, I11, I12]
  ring

set_option maxRecDepth 4000 in
lemma cos_sum_eq (x : ℝ) :
    ((∑ m ∈ range 13, ((x : ℂ) * I) ^ m / m.factorial) +
      (∑ m ∈ range 13, (-(x : ℂ) * I) ^ m / m.factorial)) / 2 =
    (((1 - x ^ 2 / 2 + x ^ 4 / 24 - x ^ 6 / 720 + x ^ 8 / 40320 - x ^ 10 / 3628800
        + x ^ 12 / 479001600 : ℝ)) : ℂ) := by
  simp only [Finset.sum_range_succ, Finset.range_zero, Finset.sum_empty, Nat.factorial]
  push_cast
  ring_nf
  simp only [I2, I3, I4, I5, I6, I7, I8, I9, I10, I11, I12]
  ring

lemma sin_taylor {x : ℝ} (hx : |x| ≤ 1) :
    |Real.sin x - (x - x ^ 3 / 6 + x ^ 5 / 120 - x ^ 7 / 5040 + x ^ 9 / 362880
        - x ^ 11 / 39916800)| ≤ 1.8e-10 :=
  calc
    |Real.sin x - (x - x ^ 3 / 6 + x ^ 5 / 120 - x ^ 7 / 5040 + x ^ 9 / 362880
        - x ^ 11 / 39916800)|
      = Complex.abs (Complex.sin x - ((x - x ^ 3 / 6 + x ^ 5 / 120 - x ^ 7 / 5040
          + x ^ 9 / 362880 - x ^ 11 / 39916800 : ℝ) : ℂ)) := by
        rw [← Complex.abs_ofReal]; simp
    _ = Complex.abs (((Complex.exp (-(x : ℂ) * I)
            - ∑ m ∈ range 13, (-(x : ℂ) * I) ^ m / m.factorial) -
          (Complex.exp ((x : ℂ) * I)
            - ∑ m ∈ range 13, ((x : ℂ) * I) ^ m / m.factorial)) * I / 2) := by
        refine congr_arg Complex.abs ?_
        rw [show Complex.sin (x : ℂ)
            = (Complex.exp (-(x : ℂ) * I) - Complex.exp ((x : ℂ) * I)) * I / 2 from rfl]
        linear_combination sin_sum_eq x
    _ ≤ Complex.abs ((Complex.exp (-(x : ℂ) * I)
            - ∑ m ∈ range 13, (-(x : ℂ) * I) ^ m / m.factorial) * I / 2) +
        Complex.abs ((Complex.exp ((x : ℂ) * I)
            - ∑ m ∈ range 13, ((x : ℂ) * I) ^ m / m.factorial) * I / 2) := by
        rw [sub_mul, sub_div]
        simpa using Complex.abs.sub_le
          ((Complex.exp (-(x : ℂ) * I)
            - ∑ m ∈ range 13, (-(x : ℂ) * I) ^ m / m.factorial) * I / 2) 0
          ((Complex.exp ((x : ℂ) * I)
            - ∑ m ∈ range 13, ((x : ℂ) * I) ^ m / m.factorial) * I / 2)
    _ = Complex.abs (Complex.exp (-(x : ℂ) * I)
            - ∑ m ∈ range 13, (-(x : ℂ) * I) ^ m / m.factorial) / 2 +
        Complex.abs (Complex.exp ((x : ℂ) * I)
            - ∑ m ∈ range 13, ((x : ℂ) * I) ^ m / m.factorial) / 2 := by
        simp [map_div₀]
    _ ≤ Complex.abs (-(x : ℂ) * I) ^ 13 * ((13 : ℕ).succ * (((13 : ℕ).factorial * (13 : ℕ) : ℕ) : ℝ)⁻¹) / 2 +
        Complex.abs ((x : ℂ) * I) ^ 13 * ((13 : ℕ).succ * (((13 : ℕ).factorial * (13 : ℕ) : ℕ) : ℝ)⁻¹) / 2 := by
        gcongr
        · exact_mod_cast Complex.exp_bound (by simpa) (by norm_num)
        · exact_mod_cast Complex.exp_bound (by simpa) (by norm_num)
    _ ≤ 1.8e-10 := by
        have h1 : Complex.abs (-(x : ℂ) * I) = |x| := by
          simp
        have h2 : Complex.abs ((x : ℂ) * I) = |x| := by
          simp
        rw [h1, h2]
        have h3 : |x| ^ 13 ≤ 1 := pow_le_one₀ (abs_nonneg x) hx
        rw [show ((13 : ℕ).factorial * (13 : ℕ) : ℕ) = 80951270400 by norm_num [Nat.factorial]]
        rw [show ((13 : ℕ).succ : ℝ) = 14 by norm_num]
        nlinarith [h3]

lemma cos_taylor {x : ℝ} (hx : |x| ≤ 1) :
    |Real.cos x - (1 - x ^ 2 / 2 + x ^ 4 / 24 - x ^ 6 / 720 + x ^ 8 / 40320
        - x ^ 10 / 3628800 + x ^ 12 / 479001600)| ≤ 1.8e-10 :=
  calc
    |Real.cos x - (1 - x ^ 2 / 2 + x ^ 4 / 24 - x ^ 6 / 720 + x ^ 8 / 40320
        - x ^ 10 / 3628800 + x ^ 12 / 479001600)|
      = Complex.abs (Complex.cos x - ((1 - x ^ 2 / 2 + x ^ 4 / 24 - x ^ 6 / 720
          + x ^ 8 / 40320 - x ^ 10 / 3628800 + x ^ 12 / 479001600 : ℝ) : ℂ)) := by
        rw [← Complex.abs_ofReal]; simp
    _ = Complex.abs (((Complex.exp ((x : ℂ) * I)
            - ∑ m ∈ range 13, ((x : ℂ) * I) ^ m / m.factorial) +
          (Complex.exp (-(x : ℂ) * I)
            - ∑ m ∈ range 13, (-(x : ℂ) * I) ^ m / m.factorial)) / 2) := by
        refine congr_arg Complex.abs ?_
        rw [show Complex.cos (x : ℂ)
            = (Complex.exp ((x : ℂ) * I) + Complex.exp (-(x : ℂ) * I)) / 2 from rfl]
        linear_combination cos_sum_eq x
    _ ≤ Complex.abs ((Complex.exp ((x : ℂ) * I)
            - ∑ m ∈ range 13, ((x : ℂ) * I) ^ m / m.factorial) / 2) +
        Complex.abs ((Complex.exp (-(x : ℂ) * I)
            - ∑ m ∈ range 13, (-(x : ℂ) * I) ^ m / m.factorial) / 2) := by
        rw [add_div]
        exact Complex.abs.add_le _ _
    _ = Complex.abs (Complex.exp ((x : ℂ) * I)
            - ∑ m ∈ range 13, ((x : ℂ) * I) ^ m / m.factorial) / 2 +
        Complex.abs (Complex.exp (-(x : ℂ) * I)
            - ∑ m ∈ range 13, (-(x : ℂ) * I) ^ m / m.factorial) / 2 := by
        simp [map_div₀]
    _ ≤ Complex.abs ((x : ℂ) * I) ^ 13 * ((13 : ℕ).succ * (((13 : ℕ).factorial * (13 : ℕ) : ℕ) : ℝ)⁻¹) / 2 +
        Complex.abs (-(x : ℂ) * I) ^ 13 * ((13 : ℕ).succ * (((13 : ℕ).factorial * (13 : ℕ) : ℕ) : ℝ)⁻¹) / 2 := by
        gcongr
        · exact_mod_cast Complex.exp_bound (by simpa) (by norm_num)
        · exact_mod_cast Complex.exp_bound (by simpa) (by norm_num)
    _ ≤ 1.8e-10 := by
        have h1 : Complex.abs (-(x : ℂ) * I) = |x| := by simp
        have h2 : Complex.abs ((x : ℂ) * I) = |x| := by simp
        rw [h1, h2]
        have h3 : |x| ^ 13 ≤ 1 := pow_le_one₀ (abs_nonneg x) hx
        rw [show ((13 : ℕ).factorial * (13 : ℕ) : ℕ) = 80951270400 by norm_num [Nat.factorial]]
        rw [show ((13 : ℕ).succ : ℝ) = 14 by norm_num]
        nlinarith [h3]

lemma abs_sin_sub_sin (x y : ℝ) : |Real.sin x - Real.sin y| ≤ |x - y| := by
  rw [Real.sin_sub_sin, abs_mul, abs_mul]
  have h1 := @Real.abs_sin_le_abs ((x - y) / 2)
  have h2 := Real.abs_cos_le_one ((x + y) / 2)
  have h3 : |(x - y) / 2| = |x - y| / 2 := by rw [abs_div]; norm_num
  have h4 : |(2 : ℝ)| = 2 := by norm_num
  rw [h4] at *
  nlinarith [abs_nonneg (x - y), abs_nonneg (Real.sin ((x - y) / 2)),
    abs_nonneg (Real.cos ((x + y) / 2))]

lemma abs_cos_sub_cos (x y : ℝ) : |Real.cos x - Real.cos y| ≤ |x - y| := by
  rw [Real.cos_sub_cos, abs_mul, abs_mul]
  have h1 := @Real.abs_sin_le_abs ((x - y) / 2)
  have h2 := Real.abs_sin_le_one ((x + y) / 2)
  have h3 : |(x - y) / 2| = |x - y| / 2 := by rw [abs_div]; norm_num
  have h4 : |(-2 : ℝ)| = 2 := by norm_num
  rw [h4] at *
  nlinarith [abs_nonneg (x - y), abs_nonneg (Real.sin ((x - y) / 2)),
    abs_nonneg (Real.sin ((x + y) / 2))]

end TaylorBounds

/-! Ball propagation rules. -/


lemma ball_add {x y : ℝ} (a ra b rb v s : ℝ) (hx : |x - a| ≤ ra) (hy : |y - b| ≤ rb)
    (h : |a + b - v| + ra + rb ≤ s) : |x + y - v| ≤ s := by
  have e : x + y - v = (x - a) + (y - b) + (a + b - v) := by ring
  rw [e]
  have := abs_add_three (x - a) (y - b) (a + b - v)
  linarith

lemma ball_sub {x y : ℝ} (a ra b rb v s : ℝ) (hx : |x - a| ≤ ra) (hy : |y - b| ≤ rb)
    (h : |a - b - v| + ra + rb ≤ s) : |x - y - v| ≤ s := by
  have e : x - y - v = (x - a) + (-(y - b)) + (a - b - v) := by ring
  rw [e]
  have := abs_add_three (x - a) (-(y - b)) (a - b - v)
  rw [abs_neg] at this
  linarith

lemma ball_neg {x : ℝ} (a ra v s : ℝ) (hx : |x - a| ≤ ra)
    (h : |-a - v| + ra ≤ s) : |-x - v| ≤ s := by
  have e : -x - v = (-(x - a)) + (-a - v) := by ring
  rw [e]
  have := abs_add (-(x - a)) (-a - v)
  rw [abs_neg] at this
  linarith

lemma ball_mul {x y : ℝ} (a ra b rb v s : ℝ) (hx : |x - a| ≤ ra) (hy : |y - b| ≤ rb)
    (h : |a * b - v| + ra * |b| + |a| * rb + ra * rb ≤ s) : |x * y - v| ≤ s := by
  have e : x * y - v = ((x - a) * (y - b) + (x - a) * b) + (a * (y - b) + (a * b - v)) := by
    ring
  rw [e]
  have t1 := abs_add ((x - a) * (y - b) + (x - a) * b) (a * (y - b) + (a * b - v))
  have t2 := abs_add ((x - a) * (y - b)) ((x - a) * b)
  have t3 := abs_add (a * (y - b)) (a * b - v)
  rw [abs_mul, abs_mul] at t2
  rw [abs_mul] at t3
  have h1 : |x - a| * |y - b| ≤ ra * rb :=
    mul_le_mul hx hy (abs_nonneg _) ((abs_nonneg _).trans hx)
  have h2 : |x - a| * |b| ≤ ra * |b| := mul_le_mul_of_nonneg_right hx (abs_nonneg _)
  have h3 : |a| * |y - b| ≤ |a| * rb := mul_le_mul_of_nonneg_left hy (abs_nonneg _)
  linarith

lemma ball_div {x y : ℝ} (a ra b rb v s : ℝ) (hx : |x - a| ≤ ra) (hy : |y - b| ≤ rb)
    (hb : 0 < b - rb)
    (h : |a / b - v| + (ra * |b| + |a| * rb) / ((b - rb) * b) ≤ s) : |x / y - v| ≤ s := by
  have hrb0 : 0 ≤ rb := (abs_nonneg _).trans hy
  have hbpos : 0 < b := by linarith
  have hylo : b - rb ≤ y := by have := (abs_le.1 hy).1; linarith
  have hypos : 0 < y := lt_of_lt_of_le hb hylo
  have key : x / y - a / b = ((x - a) * b - a * (y - b)) / (y * b) := by
    field_simp
    ring
  have hnum : |(x - a) * b - a * (y - b)| ≤ ra * |b| + |a| * rb := by
    rw [sub_eq_add_neg]
    refine (abs_add _ _).trans ?_
    rw [abs_neg, abs_mul, abs_mul]
    have h2 : |x - a| * |b| ≤ ra * |b| := mul_le_mul_of_nonneg_right hx (abs_nonneg _)
    have h3 : |a| * |y - b| ≤ |a| * rb := mul_le_mul_of_nonneg_left hy (abs_nonneg _)
    linarith
  have hq : |x / y - a / b| ≤ (ra * |b| + |a| * rb) / ((b - rb) * b) := by
    rw [key, abs_div, abs_of_pos (by positivity : (0 : ℝ) < y * b)]
    refine div_le_div₀ ?_ hnum (by positivity) ?_
    · have : (0:ℝ) ≤ ra * |b| := mul_nonneg ((abs_nonneg _).trans hx) (abs_nonneg _)
      have : (0:ℝ) ≤ |a| * rb := mul_nonneg (abs_nonneg _) hrb0
      linarith
    · nlinarith
  have e : x / y - v = (x / y - a / b) + (a / b - v) := by ring
  rw [e]
  have := abs_add (x / y - a / b) (a / b - v)
  linarith

lemma ball_half {x : ℝ} (a r : ℝ) (hx : |x - a| ≤ r) : |x / 2 - a / 2| ≤ r / 2 := by
  rw [show x / 2 - a / 2 = (x - a) / 2 by ring, abs_div, abs_two]
  linarith

lemma ball_center {x : ℝ} (a r v s : ℝ) (hx : |x - a| ≤ r)
    (h : |a - v| + r ≤ s) : |x - v| ≤ s := by
  have e : x - v = (x - a) + (a - v) := by ring
  rw [e]
  have := abs_add (x - a) (a - v)
  linarith

lemma ball_le {x : ℝ} (a r c : ℝ) (hx : |x - a| ≤ r) (h : a + r ≤ c) : x ≤ c := by
  have := (abs_le.1 hx).2; linarith

lemma ball_lt {x : ℝ} (a r c : ℝ) (hx : |x - a| ≤ r) (h : a + r < c) : x < c := by
  have := (abs_le.1 hx).2; linarith

lemma ball_ge {x : ℝ} (a r c : ℝ) (hx : |x - a| ≤ r) (h : c ≤ a - r) : c ≤ x := by
  have := (abs_le.1 hx).1; linarith

lemma ball_gt {x : ℝ} (a r c : ℝ) (hx : |x - a| ≤ r) (h : c < a - r) : c < x := by
  have := (abs_le.1 hx).1; linarith

lemma ball_abs_gt {x : ℝ} (a r c : ℝ) (hx : |x - a| ≤ r) (h : c < |a| - r) : c < |x| := by
  have := abs_sub_abs_le_abs_sub a x
  rw [abs_sub_comm a x] at this
  linarith

lemma ball_abs_le {x : ℝ} (a r c : ℝ) (hx : |x - a| ≤ r) (h : |a| + r ≤ c) : |x| ≤ c := by
  have := abs_sub_abs_le_abs_sub x a
  linarith

lemma ball_floor {x : ℝ} (a r : ℝ) (n : ℤ) (hx : |x - a| ≤ r)
    (h1 : (n : ℝ) ≤ a - r) (h2 : a + r < (n : ℝ) + 1) : ⌊x⌋ = n := by
  have hlo := (abs_le.1 hx).1
  have hhi := (abs_le.1 hx).2
  rw [Int.floor_eq_iff]
  constructor <;> [linarith; linarith]

lemma ball_fixangle {x : ℝ} (a r v s : ℝ) (n : ℤ) (hx : |x - a| ≤ r)
    (h1 : 360 * (n : ℝ) ≤ a - r) (h2 : a + r < 360 * (n : ℝ) + 360)
    (h3 : |a - 360 * (n : ℝ) - v| + r ≤ s) : |fixangle x - v| ≤ s := by
  have hlo := (abs_le.1 hx).1
  have hhi := (abs_le.1 hx).2
  have hfl : ⌊x / 360.0⌋ = n := by
    rw [Int.floor_eq_iff]
    constructor
    · rw [le_div_iff₀ (by norm_num : (0:ℝ) < 360.0)]
      linarith
    · rw [div_lt_iff₀ (by norm_num : (0:ℝ) < 360.0)]
      linarith
  rw [fixangle, hfl]
  have e : x - 360.0 * (n : ℝ) - v = (x - a) + (a - 360 * (n : ℝ) - v) := by ring
  rw [e]
  have := abs_add (x - a) (a - 360 * (n : ℝ) - v)
  linarith

lemma ball_sin1 {x : ℝ} (a r v s : ℝ) (hx : |x - a| ≤ r) (ha : |a| ≤ 1)
    (h : |(a - a ^ 3 / 6 + a ^ 5 / 120 - a ^ 7 / 5040 + a ^ 9 / 362880
        - a ^ 11 / 39916800) - v| + r + 1.8e-10 ≤ s) :
    |Real.sin x - v| ≤ s := by
  have h1 := abs_sin_sub_sin x a
  have h2 := sin_taylor ha
  have e : Real.sin x - v = (Real.sin x - Real.sin a) +
      (Real.sin a - (a - a ^ 3 / 6 + a ^ 5 / 120 - a ^ 7 / 5040 + a ^ 9 / 362880
        - a ^ 11 / 39916800)) +
      ((a - a ^ 3 / 6 + a ^ 5 / 120 - a ^ 7 / 5040 + a ^ 9 / 362880
        - a ^ 11 / 39916800) - v) := by ring
  rw [e]
  have := abs_add_three (Real.sin x - Real.sin a)
    (Real.sin a - (a - a ^ 3 / 6 + a ^ 5 / 120 - a ^ 7 / 5040 + a ^ 9 / 362880
        - a ^ 11 / 39916800))
    ((a - a ^ 3 / 6 + a ^ 5 / 120 - a ^ 7 / 5040 + a ^ 9 / 362880
        - a ^ 11 / 39916800) - v)
  linarith

lemma ball_cos1 {x : ℝ} (a r v s : ℝ) (hx : |x - a| ≤ r) (ha : |a| ≤ 1)
    (h : |(1 - a ^ 2 / 2 + a ^ 4 / 24 - a ^ 6 / 720 + a ^ 8 / 40320
        - a ^ 10 / 3628800 + a ^ 12 / 479001600) - v| + r + 1.8e-10 ≤ s) :
    |Real.cos x - v| ≤ s := by
  have h1 := abs_cos_sub_cos x a
  have h2 := cos_taylor ha
  have e : Real.cos x - v = (Real.cos x - Real.cos a) +
      (Real.cos a - (1 - a ^ 2 / 2 + a ^ 4 / 24 - a ^ 6 / 720 + a ^ 8 / 40320
        - a ^ 10 / 3628800 + a ^ 12 / 479001600)) +
      ((1 - a ^ 2 / 2 + a ^ 4 / 24 - a ^ 6 / 720 + a ^ 8 / 40320
        - a ^ 10 / 3628800 + a ^ 12 / 479001600) - v) := by ring
  rw [e]
  have := abs_add_three (Real.cos x - Real.cos a)
    (Real.cos a - (1 - a ^ 2 / 2 + a ^ 4 / 24 - a ^ 6 / 720 + a ^ 8 / 40320
        - a ^ 10 / 3628800 + a ^ 12 / 479001600))
    ((1 - a ^ 2 / 2 + a ^ 4 / 24 - a ^ 6 / 720 + a ^ 8 / 40320
        - a ^ 10 / 3628800 + a ^ 12 / 479001600) - v)
  linarith

lemma ball_sin2 {x : ℝ} (s1 es c1 ec v sv : ℝ)
    (hs : |Real.sin (x / 2) - s1| ≤ es) (hc : |Real.cos (x / 2) - c1| ≤ ec)
    (hs1 : |s1| ≤ 1)
    (h : |2 * s1 * c1 - v| + 2 * es + 2 * ec ≤ sv) : |Real.sin x - v| ≤ sv := by
  have hx2 : Real.sin x = 2 * Real.sin (x / 2) * Real.cos (x / 2) := by
    rw [← Real.sin_two_mul]
    congr 1
    ring
  rw [hx2]
  have hcos1 : |Real.cos (x / 2)| ≤ 1 := Real.abs_cos_le_one _
  have e : 2 * Real.sin (x / 2) * Real.cos (x / 2) - v =
      2 * (Real.sin (x / 2) - s1) * Real.cos (x / 2) +
      2 * s1 * (Real.cos (x / 2) - c1) + (2 * s1 * c1 - v) := by ring
  rw [e]
  have t := abs_add_three (2 * (Real.sin (x / 2) - s1) * Real.cos (x / 2))
    (2 * s1 * (Real.cos (x / 2) - c1)) (2 * s1 * c1 - v)
  have b1 : |2 * (Real.sin (x / 2) - s1) * Real.cos (x / 2)| ≤ 2 * es := by
    rw [abs_mul, abs_mul, abs_two]
    nlinarith [abs_nonneg (Real.sin (x / 2) - s1), abs_nonneg (Real.cos (x / 2))]
  have b2 : |2 * s1 * (Real.cos (x / 2) - c1)| ≤ 2 * ec := by
    rw [abs_mul, abs_mul, abs_two]
    nlinarith [abs_nonneg (Real.cos (x / 2) - c1)]
  linarith

lemma ball_cos2 {x : ℝ} (c1 ec v sv : ℝ)
    (hc : |Real.cos (x / 2) - c1| ≤ ec)
    (h : |2 * c1 ^ 2 - 1 - v| + 4 * ec + 2 * ec ^ 2 ≤ sv) : |Real.cos x - v| ≤ sv := by
  have hx2 : Real.cos x = 2 * Real.cos (x / 2) ^ 2 - 1 := by
    rw [← Real.cos_two_mul]
    congr 1
    ring
  rw [hx2]
  have hcos1 : |Real.cos (x / 2)| ≤ 1 := Real.abs_cos_le_one _
  have hc1b : |c1| ≤ 1 + ec := by
    have := abs_sub_abs_le_abs_sub c1 (Real.cos (x / 2))
    rw [abs_sub_comm] at this
    linarith
  have e : 2 * Real.cos (x / 2) ^ 2 - 1 - v =
      2 * (Real.cos (x / 2) - c1) * (Real.cos (x / 2) + c1) + (2 * c1 ^ 2 - 1 - v) := by ring
  rw [e]
  have t := abs_add (2 * (Real.cos (x / 2) - c1) * (Real.cos (x / 2) + c1))
    (2 * c1 ^ 2 - 1 - v)
  have b1 : |2 * (Real.cos (x / 2) - c1) * (Real.cos (x / 2) + c1)| ≤ 4 * ec + 2 * ec ^ 2 := by
    rw [abs_mul, abs_mul, abs_two]
    have hsum : |Real.cos (x / 2) + c1| ≤ 2 + ec := by
      have := abs_add (Real.cos (x / 2)) c1
      linarith
    nlinarith [abs_nonneg (Real.cos (x / 2) - c1), abs_nonneg (Real.cos (x / 2) + c1),
      (abs_nonneg (Real.cos (x / 2) - c1)).trans hc]
  linarith

lemma sin_torad_shift (x : ℝ) (n : ℤ) :
    Real.sin (torad x) = Real.sin (torad (x - 360 * (n : ℝ))) := by
  rw [torad, torad, show (x - 360 * (n : ℝ)) * (Real.pi / 180.0) =
    x * (Real.pi / 180.0) - (n : ℝ) * (2 * Real.pi) by ring]
  rw [show ((n : ℝ) * (2 * Real.pi)) = ((n : ℤ) : ℝ) * (2 * Real.pi) by norm_num]
  rw [Real.sin_sub_int_mul_two_pi]

lemma cos_torad_shift (x : ℝ) (n : ℤ) :
    Real.cos (torad x) = Real.cos (torad (x - 360 * (n : ℝ))) := by
  rw [torad, torad, show (x - 360 * (n : ℝ)) * (Real.pi / 180.0) =
    x * (Real.pi / 180.0) - (n : ℝ) * (2 * Real.pi) by ring]
  rw [show ((n : ℝ) * (2 * Real.pi)) = ((n : ℤ) : ℝ) * (2 * Real.pi) by norm_num]
  rw [Real.cos_sub_int_mul_two_pi]

lemma sin_torad_shift90 (x : ℝ) (n : ℤ) :
    Real.sin (torad x) = Real.cos (torad (x - (360 * (n : ℝ) + 90))) := by
  rw [torad, torad,
    show (x - (360 * (n : ℝ) + 90)) * (Real.pi / 180.0) =
      (x * (Real.pi / 180.0) - Real.pi / 2) - (n : ℝ) * (2 * Real.pi) by ring]
  rw [show ((n : ℝ) * (2 * Real.pi)) = ((n : ℤ) : ℝ) * (2 * Real.pi) by norm_num]
  rw [Real.cos_sub_int_mul_two_pi, Real.cos_sub, Real.cos_pi_div_two, Real.sin_pi_div_two]
  ring

lemma sin_torad_shift180 (x : ℝ) (n : ℤ) :
    Real.sin (torad x) = -Real.sin (torad (x - (360 * (n : ℝ) + 180))) := by
  rw [torad, torad,
    show (x - (360 * (n : ℝ) + 180)) * (Real.pi / 180.0) =
      (x * (Real.pi / 180.0) - Real.pi) - (n : ℝ) * (2 * Real.pi) by ring]
  rw [show ((n : ℝ) * (2 * Real.pi)) = ((n : ℤ) : ℝ) * (2 * Real.pi) by norm_num]
  rw [Real.sin_sub_int_mul_two_pi, Real.sin_sub, Real.cos_pi, Real.sin_pi]
  ring

lemma sin_torad_shift270 (x : ℝ) (n : ℤ) :
    Real.sin (torad x) = -Real.cos (torad (x - (360 * (n : ℝ) + 270))) := by
  rw [torad, torad,
    show (x - (360 * (n : ℝ) + 270)) * (Real.pi / 180.0) =
      (x * (Real.pi / 180.0) - Real.pi - Real.pi / 2) - (n : ℝ) * (2 * Real.pi) by ring]
  rw [show ((n : ℝ) * (2 * Real.pi)) = ((n : ℤ) : ℝ) * (2 * Real.pi) by norm_num]
  rw [Real.cos_sub_int_mul_two_pi, Real.cos_sub, Real.cos_pi_div_two, Real.sin_pi_div_two,
    Real.sin_sub, Real.cos_pi, Real.sin_pi]
  ring

lemma cos_torad_shift90 (x : ℝ) (n : ℤ) :
    Real.cos (torad x) = -Real.sin (torad (x - (360 * (n : ℝ) + 90))) := by
  rw [torad, torad,
    show (x - (360 * (n : ℝ) + 90)) * (Real.pi / 180.0) =
      (x * (Real.pi / 180.0) - Real.pi / 2) - (n : ℝ) * (2 * Real.pi) by ring]
  rw [show ((n : ℝ) * (2 * Real.pi)) = ((n : ℤ) : ℝ) * (2 * Real.pi) by norm_num]
  rw [Real.sin_sub_int_mul_two_pi, Real.sin_sub, Real.cos_pi_div_two, Real.sin_pi_div_two]
  ring

lemma cos_torad_shift180 (x : ℝ) (n : ℤ) :
    Real.cos (torad x) = -Real.cos (torad (x - (360 * (n : ℝ) + 180))) := by
  rw [torad, torad,
    show (x - (360 * (n : ℝ) + 180)) * (Real.pi / 180.0) =
      (x * (Real.pi / 180.0) - Real.pi) - (n : ℝ) * (2 * Real.pi) by ring]
  rw [show ((n : ℝ) * (2 * Real.pi)) = ((n : ℤ) : ℝ) * (2 * Real.pi) by norm_num]
  rw [Real.cos_sub_int_mul_two_pi, Real.cos_sub, Real.cos_pi, Real.sin_pi]
  ring

lemma cos_torad_shift270 (x : ℝ) (n : ℤ) :
    Real.cos (torad x) = Real.sin (torad (x - (360 * (n : ℝ) + 270))) := by
  rw [torad, torad,
    show (x - (360 * (n : ℝ) + 270)) * (Real.pi / 180.0) =
      (x * (Real.pi / 180.0) - Real.pi - Real.pi / 2) - (n : ℝ) * (2 * Real.pi) by ring]
  rw [show ((n : ℝ) * (2 * Real.pi)) = ((n : ℤ) : ℝ) * (2 * Real.pi) by norm_num]
  rw [Real.sin_sub_int_mul_two_pi, Real.sin_sub, Real.cos_pi_div_two, Real.sin_pi_div_two,
    Real.cos_sub, Real.cos_pi, Real.sin_pi]
  ring

lemma dsin_eq (x : ℝ) (n : ℤ) : dsin x = Real.sin (torad (x - 360 * (n : ℝ))) := by
  rw [dsin]; exact sin_torad_shift x n

lemma dcos_eq (x : ℝ) (n : ℤ) : dcos x = Real.cos (torad (x - 360 * (n : ℝ))) := by
  rw [dcos]; exact cos_torad_shift x n

lemma pi180_ball : |Real.pi / 180 - 0.017453292519943295| ≤ 1e-18 := by
  rw [abs_le]
  constructor <;> nlinarith [Real.pi_gt_d20, Real.pi_lt_d20]

lemma ball_torad {x : ℝ} (a r v s : ℝ) (hx : |x - a| ≤ r)
    (h : |a * 0.017453292519943295 - v| + r * 0.01746 + (|a| + r) * 1e-18 ≤ s) :
    |torad x - v| ≤ s := by
  have hp := pi180_ball
  have hxb : |x| ≤ |a| + r := by
    have := abs_sub_abs_le_abs_sub x a
    linarith
  rw [torad]
  have e : x * (Real.pi / 180.0) - v = x * (Real.pi / 180 - 0.017453292519943295) +
      (x - a) * 0.017453292519943295 + (a * 0.017453292519943295 - v) := by ring
  rw [e]
  have t := abs_add_three (x * (Real.pi / 180 - 0.017453292519943295))
    ((x - a) * 0.017453292519943295) (a * 0.017453292519943295 - v)
  have b1 : |x * (Real.pi / 180 - 0.017453292519943295)| ≤ (|a| + r) * 1e-18 := by
    rw [abs_mul]
    exact mul_le_mul hxb hp (abs_nonneg _) ((abs_nonneg x).trans hxb)
  have b2 : |(x - a) * 0.017453292519943295| ≤ r * 0.01746 := by
    rw [abs_mul]
    have : |(0.017453292519943295 : ℝ)| ≤ 0.01746 := by
      rw [abs_of_nonneg] <;> norm_num
    exact mul_le_mul hx this (abs_nonneg _) ((abs_nonneg _).trans hx)
  linarith

lemma deg180_ball : |180 / Real.pi - 57.295779513082320877| ≤ 1e-15 := by
  have h1 : (180 : ℝ) / Real.pi ≤ 57.295779513082320877 + 1e-15 := by
    rw [div_le_iff₀ Real.pi_pos]
    nlinarith [Real.pi_gt_d20]
  have h2 : 57.295779513082320877 - 1e-15 ≤ (180 : ℝ) / Real.pi := by
    rw [le_div_iff₀ Real.pi_pos]
    nlinarith [Real.pi_lt_d20]
  rw [abs_le]
  constructor <;> linarith

lemma ball_todeg {x : ℝ} (a r v s : ℝ) (hx : |x - a| ≤ r)
    (h : |a * 57.295779513082320877 - v| + r * 57.2958 + (|a| + r) * 1e-15 ≤ s) :
    |todeg x - v| ≤ s := by
  have hp := deg180_ball
  have hxb : |x| ≤ |a| + r := by
    have := abs_sub_abs_le_abs_sub x a
    linarith
  rw [todeg]
  have e : x * (180.0 / Real.pi) - v = x * (180 / Real.pi - 57.295779513082320877) +
      (x - a) * 57.295779513082320877 + (a * 57.295779513082320877 - v) := by ring
  rw [e]
  have t := abs_add_three (x * (180 / Real.pi - 57.295779513082320877))
    ((x - a) * 57.295779513082320877) (a * 57.295779513082320877 - v)
  have b1 : |x * (180 / Real.pi - 57.295779513082320877)| ≤ (|a| + r) * 1e-15 := by
    rw [abs_mul]
    exact mul_le_mul hxb hp (abs_nonneg _) ((abs_nonneg x).trans hxb)
  have b2 : |(x - a) * 57.295779513082320877| ≤ r * 57.2958 := by
    rw [abs_mul]
    have : |(57.295779513082320877 : ℝ)| ≤ 57.2958 := by
      rw [abs_of_nonneg] <;> norm_num
    exact mul_le_mul hx this (abs_nonneg _) ((abs_nonneg _).trans hx)
  linarith

lemma ball_sqrt_const (q v s : ℝ) (hs0 : 0 ≤ s) (h0 : 0 ≤ v - s) (h1 : (v - s) ^ 2 ≤ q)
    (h2 : q ≤ (v + s) ^ 2) : |Real.sqrt q - v| ≤ s := by
  have l1 : v - s ≤ Real.sqrt q := by
    rw [show v - s = Real.sqrt ((v - s) ^ 2) by rw [Real.sqrt_sq h0]]
    exact Real.sqrt_le_sqrt h1
  have l2 : Real.sqrt q ≤ v + s := by
    rw [show v + s = Real.sqrt ((v + s) ^ 2) by rw [Real.sqrt_sq (by linarith)]]
    exact Real.sqrt_le_sqrt h2
  rw [abs_le]
  constructor <;> linarith

lemma ball_arctan {x : ℝ} (a r c1 c2 t1 s1 t2 s2 v s : ℝ)
    (hx : |x - a| ≤ r)
    (ht1 : |Real.tan c1 - t1| ≤ s1) (ht2 : |Real.tan c2 - t2| ≤ s2)
    (hc1 : |c1| ≤ 1.5707) (hc2 : |c2| ≤ 1.5707)
    (h1 : t1 + s1 ≤ a - r) (h2 : a + r ≤ t2 - s2)
    (h3 : v - s ≤ c1) (h4 : c2 ≤ v + s) :
    |Real.arctan x - v| ≤ s := by
  have hpi2 : (1.5707 : ℝ) < Real.pi / 2 := by nlinarith [Real.pi_gt_d20]
  have hc1a := abs_le.1 hc1
  have hc2a := abs_le.1 hc2
  have harc1 : c1 ≤ Real.arctan x := by
    rw [← @Real.arctan_tan c1 (by linarith) (by linarith)]
    apply Real.arctan_strictMono.monotone
    have := (abs_le.1 ht1).2
    have := (abs_le.1 hx).1
    linarith
  have harc2 : Real.arctan x ≤ c2 := by
    rw [← @Real.arctan_tan c2 (by linarith) (by linarith)]
    apply Real.arctan_strictMono.monotone
    have := (abs_le.1 ht2).1
    have := (abs_le.1 hx).2
    linarith
  rw [abs_le]
  constructor <;> linarith

lemma ball_tan {x : ℝ} (a ra b rb v s : ℝ)
    (hs : |Real.sin x - a| ≤ ra) (hc : |Real.cos x - b| ≤ rb) (hb : 0 < b - rb)
    (h : |a / b - v| + (ra * |b| + |a| * rb) / ((b - rb) * b) ≤ s) :
    |Real.tan x - v| ≤ s := by
  rw [Real.tan_eq_sin_div_cos]
  exact ball_div a ra b rb v s hs hc hb h


/-! ## Termination of the Kepler iteration

Writing `g e = e - ecc * sin e - mr` for the residual and
`e' = e - g e / (1 - ecc * cos e)` for the Newton update, one has the
identity `g e' = ecc * (cos e * (sin w - w) + (1 - cos w) * sin e)` with
`w = g e / (1 - ecc * cos e)`, whence `|g e'| ≤ ecc * (|w|³/4 + w²/2)`:
each iteration squares the residual (up to a constant), and three
iterations always reach the `1e-6` exit threshold when `ecc ≤ 0.0549`. -/

lemma abs_sin_sub_le (x : ℝ) (hx : |x| ≤ 1) : |Real.sin x - x| ≤ |x| ^ 3 / 4 := by
  rcases lt_trichotomy x 0 with h | h | h
  · have hx' : 0 < -x := by linarith
    have h1 : -x ≤ 1 := by rw [abs_of_neg h] at hx; linarith
    have h2 := Real.sin_lt hx'
    have h3 := Real.sin_gt_sub_cube hx' h1
    rw [Real.sin_neg] at h2 h3
    rw [abs_of_neg h, abs_le]
    constructor <;> nlinarith
  · simp [h]
  · have h1 : x ≤ 1 := by rwa [abs_of_pos h] at hx
    have h2 := Real.sin_lt h
    have h3 := Real.sin_gt_sub_cube h h1
    rw [abs_of_pos h, abs_le]
    constructor <;> nlinarith

lemma kepler_step (ecc mr e B : ℝ) (h0 : 0 ≤ ecc) (h1 : ecc ≤ 0.0549)
    (hB : |e - ecc * Real.sin e - mr| ≤ B) (hB0 : 0 ≤ B) (hB1 : B ≤ 0.06) :
    |(e - (e - ecc * Real.sin e - mr) / (1 - ecc * Real.cos e)) -
        ecc * Real.sin (e - (e - ecc * Real.sin e - mr) / (1 - ecc * Real.cos e)) - mr| ≤
      B ^ 2 / 25 := by
  have hD1 : (0.9451 : ℝ) ≤ 1 - ecc * Real.cos e := by
    nlinarith [Real.cos_le_one e, Real.neg_one_le_cos e]
  have hD0 : (0 : ℝ) < 1 - ecc * Real.cos e := by linarith
  set δ := e - ecc * Real.sin e - mr with hδ
  set w := δ / (1 - ecc * Real.cos e) with hw
  have hwb : |w| ≤ B / 0.9451 := by
    rw [hw, abs_div, abs_of_pos hD0]
    exact div_le_div₀ hB0 hB (by norm_num) hD1
  have hw1 : |w| ≤ 1 := hwb.trans (by rw [div_le_one (by norm_num)]; linarith)
  have hδw : δ = w * (1 - ecc * Real.cos e) := by
    rw [hw, div_mul_cancel₀ _ (ne_of_gt hD0)]
  have key : (e - w) - ecc * Real.sin (e - w) - mr =
      ecc * (Real.cos e * (Real.sin w - w) + (1 - Real.cos w) * Real.sin e) := by
    rw [Real.sin_sub]
    linear_combination hδw - hδ
  rw [key, abs_mul, abs_of_nonneg h0]
  have hsin := abs_sin_sub_le w hw1
  have hcos : 1 - Real.cos w ≤ w ^ 2 / 2 := by
    have := @Real.one_sub_sq_div_two_le_cos w; linarith
  have hcos0 : 0 ≤ 1 - Real.cos w := by nlinarith [Real.cos_le_one w]
  have hX : |Real.cos e * (Real.sin w - w) + (1 - Real.cos w) * Real.sin e| ≤
      |w| ^ 3 / 4 + w ^ 2 / 2 := by
    calc |Real.cos e * (Real.sin w - w) + (1 - Real.cos w) * Real.sin e|
        ≤ |Real.cos e * (Real.sin w - w)| + |(1 - Real.cos w) * Real.sin e| := abs_add _ _
      _ = |Real.cos e| * |Real.sin w - w| + (1 - Real.cos w) * |Real.sin e| := by
          rw [abs_mul, abs_mul, abs_of_nonneg hcos0]
      _ ≤ 1 * (|w| ^ 3 / 4) + (w ^ 2 / 2) * 1 := by
          apply add_le_add
          · exact mul_le_mul (Real.abs_cos_le_one e) hsin (abs_nonneg _) zero_le_one
          · exact mul_le_mul hcos (Real.abs_sin_le_one e) (abs_nonneg _) (by positivity)
      _ = |w| ^ 3 / 4 + w ^ 2 / 2 := by ring
  have hwb' : |w| ≤ 1.0581 * B := by
    refine hwb.trans ?_
    rw [div_le_iff₀ (by norm_num : (0 : ℝ) < 0.9451)]
    linarith
  have h3 : |w| ^ 3 ≤ (1.0581 * B) ^ 3 := pow_le_pow_left₀ (abs_nonneg w) hwb' 3
  have h2 : w ^ 2 ≤ (1.0581 * B) ^ 2 := by
    rw [← sq_abs]; exact pow_le_pow_left₀ (abs_nonneg w) hwb' 2
  have hB3 : B ^ 3 ≤ 0.06 * B ^ 2 := by nlinarith [sq_nonneg B]
  have h3b : |w| ^ 3 ≤ (0.0711 : ℝ) * B ^ 2 := by nlinarith [hB3, sq_nonneg B]
  have h2b : w ^ 2 ≤ (1.1196 : ℝ) * B ^ 2 := by nlinarith [sq_nonneg B]
  calc ecc * |Real.cos e * (Real.sin w - w) + (1 - Real.cos w) * Real.sin e|
      ≤ 0.0549 * (|w| ^ 3 / 4 + w ^ 2 / 2) :=
        mul_le_mul h1 hX (abs_nonneg _) (by norm_num)
    _ ≤ B ^ 2 / 25 := by linarith

/-- One unfolding of the fueled Newton loop. -/
lemma keplerLoop_succ (ecc m e : ℝ) (fuel : ℕ) :
    keplerLoop ecc m e (fuel + 1) =
      if |e - ecc * Real.sin e - m| ≤ 1e-6
      then some (e - (e - ecc * Real.sin e - m) / (1 - ecc * Real.cos e))
      else keplerLoop ecc m (e - (e - ecc * Real.sin e - m) / (1 - ecc * Real.cos e)) fuel :=
  rfl

/-- Fuel monotonicity: a loop that exits keeps its value with more fuel. -/
lemma keplerLoop_mono (ecc m : ℝ) :
    ∀ fuel fuel' (e v : ℝ), fuel ≤ fuel' → keplerLoop ecc m e fuel = some v →
      keplerLoop ecc m e fuel' = some v := by
  intro fuel
  induction fuel with
  | zero =>
    intro fuel' e v _ hv
    exact absurd hv (by rw [show keplerLoop ecc m e 0 = none from rfl]; simp)
  | succ n ih =>
    intro fuel' e v hle hv
    obtain ⟨n', rfl⟩ : ∃ n', fuel' = n' + 1 := ⟨fuel' - 1, by omega⟩
    rw [keplerLoop_succ] at hv ⊢
    by_cases hc : |e - ecc * Real.sin e - m| ≤ 1e-6
    · rwa [if_pos hc] at hv ⊢
    · rw [if_neg hc] at hv ⊢
      exact ih n' _ v (by omega) hv

/-- Three Newton iterations always exit for the eccentricities in range. -/
lemma kepler_fuel (m ecc : ℝ) (h0 : 0 ≤ ecc) (h1 : ecc ≤ 0.0549) :
    ∃ v, keplerF m ecc 3 = some v := by
  rw [keplerF]
  set mr := torad m with hmr
  have hd0 : |mr - ecc * Real.sin mr - mr| ≤ 0.0549 := by
    rw [show mr - ecc * Real.sin mr - mr = -(ecc * Real.sin mr) by ring, abs_neg, abs_mul,
      abs_of_nonneg h0]
    calc ecc * |Real.sin mr| ≤ 0.0549 * 1 :=
          mul_le_mul h1 (Real.abs_sin_le_one mr) (abs_nonneg _) (by norm_num)
      _ = 0.0549 := by norm_num
  rw [show (3 : ℕ) = 2 + 1 from rfl, keplerLoop_succ]
  by_cases hc0 : |mr - ecc * Real.sin mr - mr| ≤ 1e-6
  · rw [if_pos hc0]; exact ⟨_, rfl⟩
  · rw [if_neg hc0]
    set e1 := mr - (mr - ecc * Real.sin mr - mr) / (1 - ecc * Real.cos mr) with he1
    have hd1 : |e1 - ecc * Real.sin e1 - mr| ≤ 0.0549 ^ 2 / 25 :=
      kepler_step ecc mr mr 0.0549 h0 h1 hd0 (by norm_num) (by norm_num)
    rw [show (2 : ℕ) = 1 + 1 from rfl, keplerLoop_succ]
    by_cases hc1 : |e1 - ecc * Real.sin e1 - mr| ≤ 1e-6
    · rw [if_pos hc1]; exact ⟨_, rfl⟩
    · rw [if_neg hc1]
      set e2 := e1 - (e1 - ecc * Real.sin e1 - mr) / (1 - ecc * Real.cos e1) with he2
      have hd2 : |e2 - ecc * Real.sin e2 - mr| ≤ (0.0549 ^ 2 / 25) ^ 2 / 25 :=
        kepler_step ecc mr e1 (0.0549 ^ 2 / 25) h0 h1 hd1 (by positivity) (by norm_num)
      rw [show (1 : ℕ) = 0 + 1 from rfl, keplerLoop_succ, if_pos (hd2.trans (by norm_num))]
      exact ⟨_, rfl⟩

/-- The program's total `kepler` agrees with a successful fuel-5 run. -/
lemma keplerF_some (m ecc : ℝ) (h0 : 0 ≤ ecc) (h1 : ecc ≤ 0.0549) :
    ∃ v, keplerF m ecc 5 = some v ∧ kepler m ecc = v := by
  obtain ⟨v, hv⟩ := kepler_fuel m ecc h0 h1
  have h5 : keplerF m ecc 5 = some v :=
    keplerLoop_mono ecc (torad m) 3 5 (torad m) v (by norm_num) hv
  exact ⟨v, h5, by rw [kepler, h5]; rfl⟩

/-! ## Range of `fixangle` -/

lemma fixangle_nonneg (a : ℝ) : 0 ≤ fixangle a := by
  rw [fixangle]
  have h : (⌊a / 360.0⌋ : ℝ) ≤ a / 360.0 := Int.floor_le _
  nlinarith

lemma fixangle_lt (a : ℝ) : fixangle a < 360 := by
  rw [fixangle]
  have h := Int.lt_floor_add_one (a / 360.0)
  nlinarith

/-! ## Claim C3: failure modes -/

/-- Claim C3, counterexample.  The selector `-1` matches none of the four
recognized values `{0, 0.25, 0.5, 0.75}` within tolerance `0.01`, yet
`truephase` does **not** abort on it: the code's first guard is the
one-sided `phase < 0.01`, which admits every negative selector as "new
moon".  This refutes the claimed "fails if and only if the selector
matches none of the recognized values within tolerance". -/
theorem claim_C3_counterexample :
    (0.01 ≤ |(-1 : ℝ) - 0| ∧ 0.01 ≤ |(-1 : ℝ) - 0.25| ∧
     0.01 ≤ |(-1 : ℝ) - 0.5| ∧ 0.01 ≤ |(-1 : ℝ) - 0.75|) ∧
    (truephase 0 (-1)).isSome = true := by
  refine ⟨by norm_num [le_abs], ?_⟩
  simp only [truephase]
  split_ifs with h1 h2 <;>
    first
      | rfl
      | exact absurd (Or.inl (by norm_num : (-1 : ℝ) < 0.01)) h1

/-- Claim C3, amended.  `truephase` aborts (modelled `none`) **iff** the
selector is at distance ≥ 0.01 from 0.25 and 0.75 and from 0.5 in absolute
value and is ≥ 0.01 itself; the first guard `phase < 0.01` is one-sided,
so every selector below 0.01 — including all negative ones — is accepted
and refined as a new/full-moon correction instead of aborting. -/
theorem claim_C3_abort_iff :
    ∀ k ph : ℝ, (truephase k ph).isNone = true ↔
      (0.01 ≤ ph ∧ 0.01 ≤ |ph - 0.25| ∧ 0.01 ≤ |ph - 0.5| ∧ 0.01 ≤ |ph - 0.75|) := by
  intro k ph
  simp only [truephase]
  split_ifs with h1 h2 h3
  · simp only [Option.isNone_some, Bool.false_eq_true, false_iff]
    rintro ⟨hA, hB, hC, hD⟩
    rcases h1 with h | h
    · exact absurd hA (not_le.2 h)
    · exact absurd hC (not_le.2 h)
  · simp only [Option.isNone_some, Bool.false_eq_true, false_iff]
    rintro ⟨hA, hB, hC, hD⟩
    rcases h2 with h | h
    · exact absurd hB (not_le.2 h)
    · exact absurd hD (not_le.2 h)
  · simp only [Option.isNone_some, Bool.false_eq_true, false_iff]
    rintro ⟨hA, hB, hC, hD⟩
    rcases h2 with h | h
    · exact absurd hB (not_le.2 h)
    · exact absurd hD (not_le.2 h)
  · simp only [Option.isNone_none, true_iff]
    push_neg at h1 h2
    exact ⟨h1.1, h2.1, h1.2, h2.2⟩

/-! ## Claim C8: totality and invariants of `phase` -/

/-- Claim C8.  `phase` is total over every real Julian date: its one
internal loop (the Kepler solver, at eccentricity `eccent = 0.016718`)
always exits within the provided fuel, and for every `jd` the outputs
satisfy `0 ≤ fraction-of-lunation < 1`, `0 ≤ illuminated fraction ≤ 1`,
and `0 ≤ age < synmonth`. -/
theorem claim_C8_invariants : ∀ jd : ℝ,
    (keplerF (M jd) eccent 5).isSome = true ∧
    0 ≤ (phase jd).1 ∧ (phase jd).1 < 1 ∧
    0 ≤ (phase jd).2.1 ∧ (phase jd).2.1 ≤ 1 ∧
    0 ≤ (phase jd).2.2.1 ∧ (phase jd).2.2.1 < synmonth := by
  intro jd
  obtain ⟨v, hv, -⟩ :=
    keplerF_some (M jd) eccent (by norm_num [eccent]) (by norm_num [eccent])
  have hsyn : (0 : ℝ) < synmonth := by norm_num [synmonth]
  have hfa0 := fixangle_nonneg (MoonAge jd)
  have hfa1 := fixangle_lt (MoonAge jd)
  have hfrac0 : 0 ≤ fixangle (MoonAge jd) / 360.0 := by positivity
  have hfrac1 : fixangle (MoonAge jd) / 360.0 < 1 := by
    rw [div_lt_one (by norm_num)]; linarith
  refine ⟨by rw [hv]; rfl, ?_, ?_, ?_, ?_, ?_, ?_⟩
  · exact hfrac0
  · exact hfrac1
  · show 0 ≤ MoonPhase jd
    rw [MoonPhase]
    have := Real.cos_le_one (torad (MoonAge jd))
    linarith
  · show MoonPhase jd ≤ 1
    rw [MoonPhase]
    have := Real.neg_one_le_cos (torad (MoonAge jd))
    linarith
  · show 0 ≤ synmonth * (fixangle (MoonAge jd) / 360.0)
    positivity
  · show synmonth * (fixangle (MoonAge jd) / 360.0) < synmonth
    nlinarith

/-! ## Claim C9: termination and value of the Kepler solver -/

/-- Claim C9.  For every mean anomaly and every eccentricity in the range
the program uses (`eccent = 0.016718` and `mecc = 0.0549` are both ≤
0.0549), the Newton-Raphson loop of `kepler` exits within three
iterations with its final-check residual at most `1e-6`; and concretely
`kepler 111.615376 0.016718` returns `1.9635011880995301` radians to
within `1e-9`. -/
theorem claim_C9_kepler :
    (∀ m ecc : ℝ, 0 ≤ ecc → ecc ≤ 0.0549 → (keplerF m ecc 3).isSome = true) ∧
    |kepler 111.615376 0.016718 - 1.9635011880995301| ≤ 1e-9 := by
  constructor
  · intro m ecc h0 h1
    obtain ⟨v, hv⟩ := kepler_fuel m ecc h0 h1
    rw [hv]
    rfl
  · rw [kepler, keplerF]
    have b1 : |(111.615376 : ℝ) - 111.615376| ≤ 0 := by norm_num
    have b2 := ball_torad _ _ 1.948055807051458370104 1.12e-16 b1 (by norm_num [abs_of_nonneg, abs_of_nonpos])
    have b3 : |(0.016718 : ℝ) - 0.016718| ≤ 0 := by norm_num
    have b4 := ball_half _ _ b2
    have b5 := ball_sin1 _ _ 0.8271559875759542789274 1.81e-10 b4 (by norm_num [abs_of_nonneg, abs_of_nonpos]) (by norm_num [abs_of_nonneg, abs_of_nonpos])
    have b6 := ball_cos1 _ _ 0.5619723943738557282702 1.81e-10 b4 (by norm_num [abs_of_nonneg, abs_of_nonpos]) (by norm_num [abs_of_nonneg, abs_of_nonpos])
    have b7 := ball_sin2 _ _ _ _ 0.9296776617174605741833 7.25e-10 b5 b6 (by norm_num [abs_of_nonneg, abs_of_nonpos]) (by norm_num [abs_of_nonneg, abs_of_nonpos])
    have b8 := ball_cos2 _ _ (-0.368374055923431133214) 7.25e-10 b6 (by norm_num [abs_of_nonneg, abs_of_nonpos])
    have b9 := ball_mul _ _ _ _ 0.0155423511485925058792 1.22e-11 b3 b7 (by norm_num [abs_of_nonneg, abs_of_nonpos])
    have b10 := ball_sub _ _ _ _ 1.932513455902865864225 1.23e-11 b2 b9 (by norm_num [abs_of_nonneg, abs_of_nonpos])
    have b11 := ball_sub _ _ _ _ (-0.015542351148592505879) 1.24e-11 b10 b2 (by norm_num [abs_of_nonneg, abs_of_nonpos])
    have b12 : |(0.016718 : ℝ) - 0.016718| ≤ 0 := by norm_num
    have b13 := ball_mul _ _ _ _ (-0.006158477466927921685072) 1.22e-11 b12 b8 (by norm_num [abs_of_nonneg, abs_of_nonpos])
    have b14 : |(1 : ℝ) - 1| ≤ 0 := by norm_num
    have b15 := ball_sub _ _ _ _ 1.006158477466927921685 1.23e-11 b14 b13 (by norm_num [abs_of_nonneg, abs_of_nonpos])
    have b16 := ball_div _ _ _ _ (-0.01544721979356713966738) 1.26e-11 b11 b15 (by norm_num) (by norm_num [abs_of_nonneg, abs_of_nonpos])
    have b17 := ball_sub _ _ _ _ 1.963503026845025509771 1.27e-11 b2 b16 (by norm_num [abs_of_nonneg, abs_of_nonpos])
    rw [show (5 : ℕ) = 4 + 1 from rfl, keplerLoop_succ, if_neg (not_le.2 (ball_abs_gt _ _ 1e-6 b11 (by norm_num [abs_of_nonneg, abs_of_nonpos])))]
    have b18 : |(0.016718 : ℝ) - 0.016718| ≤ 0 := by norm_num
    have b19 := ball_half _ _ b17
    have b20 := ball_sin1 _ _ 0.8314717284353256464024 1.87e-10 b19 (by norm_num [abs_of_nonneg, abs_of_nonpos]) (by norm_num [abs_of_nonneg, abs_of_nonpos])
    have b21 := ball_cos1 _ _ 0.5555670658105553695793 1.87e-10 b19 (by norm_num [abs_of_nonneg, abs_of_nonpos]) (by norm_num [abs_of_nonneg, abs_of_nonpos])
    have b22 := ball_sin2 _ _ _ _ 0.9238766169424895716553 7.49e-10 b20 b21 (by norm_num [abs_of_nonneg, abs_of_nonpos]) (by norm_num [abs_of_nonneg, abs_of_nonpos])
    have b23 := ball_cos2 _ _ (-0.3826904707733000778974) 7.49e-10 b21 (by norm_num [abs_of_nonneg, abs_of_nonpos])
    have b24 := ball_mul _ _ _ _ 0.01544536928204454065893 1.26e-11 b18 b22 (by norm_num [abs_of_nonneg, abs_of_nonpos])
    have b25 := ball_sub _ _ _ _ 1.948057657562980969112 2.54e-11 b17 b24 (by norm_num [abs_of_nonneg, abs_of_nonpos])
    have b26 := ball_sub _ _ _ _ 0.000001850511522599008 2.55e-11 b25 b2 (by norm_num [abs_of_nonneg, abs_of_nonpos])
    have b27 : |(0.016718 : ℝ) - 0.016718| ≤ 0 := by norm_num
    have b28 := ball_mul _ _ _ _ (-0.006397819290388030702289) 1.26e-11 b27 b23 (by norm_num [abs_of_nonneg, abs_of_nonpos])
    have b29 : |(1 : ℝ) - 1| ≤ 0 := by norm_num
    have b30 := ball_sub _ _ _ _ 1.006397819290388030702 1.27e-11 b29 b28 (by norm_num [abs_of_nonneg, abs_of_nonpos])
    have b31 := ball_div _ _ _ _ 0.000001838747548065838684572 2.54e-11 b26 b30 (by norm_num) (by norm_num [abs_of_nonneg, abs_of_nonpos])
    have b32 := ball_sub _ _ _ _ 1.963501188097477443932 3.82e-11 b17 b31 (by norm_num [abs_of_nonneg, abs_of_nonpos])
    rw [show (4 : ℕ) = 3 + 1 from rfl, keplerLoop_succ, if_neg (not_le.2 (ball_abs_gt _ _ 1e-6 b26 (by norm_num [abs_of_nonneg, abs_of_nonpos])))]
    have b33 : |(0.016718 : ℝ) - 0.016718| ≤ 0 := by norm_num
    have b34 := ball_half _ _ b32
    have b35 := ball_sin1 _ _ 0.831471217661185762627 0.0000000002 b34 (by norm_num [abs_of_nonneg, abs_of_nonpos]) (by norm_num [abs_of_nonneg, abs_of_nonpos])
    have b36 := ball_cos1 _ _ 0.5555678302436215467189 0.0000000002 b34 (by norm_num [abs_of_nonneg, abs_of_nonpos]) (by norm_num [abs_of_nonneg, abs_of_nonpos])
    have b37 := ball_sin2 _ _ _ _ 0.9238773206120939069369 8.01e-10 b35 b36 (by norm_num [abs_of_nonneg, abs_of_nonpos]) (by norm_num [abs_of_nonneg, abs_of_nonpos])
    have b38 := ball_cos2 _ _ (-0.3826887719967890236738) 8.01e-10 b36 (by norm_num [abs_of_nonneg, abs_of_nonpos])
    have b39 := ball_mul _ _ _ _ 0.01544538104599298593617 1.34e-11 b33 b37 (by norm_num [abs_of_nonneg, abs_of_nonpos])
    have b40 := ball_sub _ _ _ _ 1.948055807051484457996 5.17e-11 b32 b39 (by norm_num [abs_of_nonneg, abs_of_nonpos])
    have b41 := ball_sub _ _ _ _ 0.000000000000026087892 5.18e-11 b40 b2 (by norm_num [abs_of_nonneg, abs_of_nonpos])
    have b42 : |(0.016718 : ℝ) - 0.016718| ≤ 0 := by norm_num
    have b43 := ball_mul _ _ _ _ (-0.006397790890242318897779) 1.34e-11 b42 b38 (by norm_num [abs_of_nonneg, abs_of_nonpos])
    have b44 : |(1 : ℝ) - 1| ≤ 0 := by norm_num
    have b45 := ball_sub _ _ _ _ 1.006397790890242318898 1.35e-11 b44 b43 (by norm_num [abs_of_nonneg, abs_of_nonpos])
    have b46 := ball_div _ _ _ _ 0.00000000000002592204815644825267215 5.15e-11 b41 b45 (by norm_num) (by norm_num [abs_of_nonneg, abs_of_nonpos])
    have b47 := ball_sub _ _ _ _ 1.963501188097451521884 8.98e-11 b32 b46 (by norm_num [abs_of_nonneg, abs_of_nonpos])
    rw [show (3 : ℕ) = 2 + 1 from rfl, keplerLoop_succ, if_pos (ball_abs_le _ _ 1e-6 b41 (by norm_num [abs_of_nonneg, abs_of_nonpos]))]
    rw [Option.getD_some]
    exact ball_center _ _ _ _ b47 (by norm_num [abs_of_nonneg, abs_of_nonpos])

/-- Witness for C9: the termination statement applied at the Moon's
eccentricity `0.0549` and anomaly `360`. -/
theorem claim_C9_kepler_witness : (keplerF 360 0.0549 3).isSome = true :=
  claim_C9_kepler.1 360 0.0549 (by norm_num) (by norm_num)

/-! ## The two `truephase` branch values

`tpNewFull` and `tpQuarter` name the values computed by the new/full and
quarter branches of `truephase` (src/moon/moon.c:519-559), so that
evaluation lemmas about `phasehunt` can name its outputs symbolically. -/

noncomputable section

/-- Value of `truephase` in the new/full-moon branch
(src/moon/moon.c:519-535). -/
def tpNewFull (k0 ph : ℝ) : ℝ :=
  let k := k0 + ph
  let t := k / 1236.85
  let t2 := t * t
  let t3 := t2 * t
  let pt := 2415020.75933
       + synmonth * k
       + 0.0001178 * t2
       - 0.000000155 * t3
       + 0.00033 * dsin (166.56 + 132.87 * t - 0.009173 * t2)
  let m := 359.2242
      + 29.10535608 * k
      - 0.0000333 * t2
      - 0.00000347 * t3
  let mprime := 306.0253
      + 385.81691806 * k
      + 0.0107306 * t2
      + 0.00001236 * t3
  let f := 21.2964
      + 390.67050646 * k
      - 0.0016528 * t2
      - 0.00000239 * t3
  pt + ((0.1734 - 0.000393 * t) * dsin m
      + 0.0021 * dsin (2 * m)
      - 0.4068 * dsin mprime
      + 0.0161 * dsin (2 * mprime)
      - 0.0004 * dsin (3 * mprime)
      + 0.0104 * dsin (2 * f)
      - 0.0051 * dsin (m + mprime)
      - 0.0074 * dsin (m - mprime)
      + 0.0004 * dsin (2 * f + m)
      - 0.0004 * dsin (2 * f - m)
      - 0.0006 * dsin (2 * f + mprime)
      + 0.0010 * dsin (2 * f - mprime)
      + 0.0005 * dsin (m + 2 * mprime))

/-- Value of `truephase` in the first/last-quarter branch
(src/moon/moon.c:536-559). -/
def tpQuarter (k0 ph : ℝ) : ℝ :=
  let k := k0 + ph
  let t := k / 1236.85
  let t2 := t * t
  let t3 := t2 * t
  let pt := 2415020.75933
       + synmonth * k
       + 0.0001178 * t2
       - 0.000000155 * t3
       + 0.00033 * dsin (166.56 + 132.87 * t - 0.009173 * t2)
  let m := 359.2242
      + 29.10535608 * k
      - 0.0000333 * t2
      - 0.00000347 * t3
  let mprime := 306.0253
      + 385.81691806 * k
      + 0.0107306 * t2
      + 0.00001236 * t3
  let f := 21.2964
      + 390.67050646 * k
      - 0.0016528 * t2
      - 0.00000239 * t3
  pt + ((0.1721 - 0.0004 * t) * dsin m
      + 0.0021 * dsin (2 * m)
      - 0.6280 * dsin mprime
      + 0.0089 * dsin (2 * mprime)
      - 0.0004 * dsin (3 * mprime)
      + 0.0079 * dsin (2 * f)
      - 0.0119 * dsin (m + mprime)
      - 0.0047 * dsin (m - mprime)
      + 0.0003 * dsin (2 * f + m)
      - 0.0004 * dsin (2 * f - m)
      - 0.0006 * dsin (2 * f + mprime)
      + 0.0021 * dsin (2 * f - mprime)
      + 0.0003 * dsin (m + 2 * mprime)
      + 0.0004 * dsin (m - 2 * mprime)
      - 0.0003 * dsin (2 * m + mprime))
    + (if ph < 0.5 then 0.0028 - 0.0004 * dcos m + 0.0003 * dcos mprime
       else -0.0028 + 0.0004 * dcos m - 0.0003 * dcos mprime)

end

lemma truephase_newfull (k0 ph : ℝ) (h : (ph < 0.01) ∨ (|ph - 0.5| < 0.01)) :
    truephase k0 ph = some (tpNewFull k0 ph) := by
  simp only [truephase, tpNewFull]
  rw [if_pos h]

lemma truephase_quarter (k0 ph : ℝ)
    (h2 : ¬((ph < 0.01) ∨ (|ph - 0.5| < 0.01)))
    (h1 : |ph - 0.25| < 0.01 ∨ |ph - 0.75| < 0.01) :
    truephase k0 ph = some (tpQuarter k0 ph) := by
  simp only [truephase, tpQuarter]
  rw [if_neg h2, if_pos h1]

lemma phasehuntLoop_succ (sdate adate k1 nt1 : ℝ) (fuel : ℕ) :
    phasehuntLoop sdate adate k1 nt1 (fuel + 1) =
      if nt1 ≤ sdate ∧ sdate < meanphase (adate + synmonth) (k1 + 1)
      then some (k1, k1 + 1)
      else phasehuntLoop sdate (adate + synmonth) (k1 + 1)
        (meanphase (adate + synmonth) (k1 + 1)) fuel := rfl

/-- Evaluation lemma for `phasehunt`: once the calendar lookup, the initial
`k1` guess and the search loop are settled, the output is the tuple of
`truephase` branch values at the exit indices. -/
lemma phasehunt_eval (sdate : ℝ) (fuel : ℕ) (yy mm dd : ℤ) (k1 kA kB : ℝ)
    (hjy : jyearR (sdate - 45) = (yy, mm, dd))
    (hk1 : ((⌊((yy : ℝ) + ((mm : ℝ) - 1) * (1 / 12) - 1900) * 12.3685⌋ : ℤ) : ℝ) = k1)
    (hloop : phasehuntLoop sdate (meanphase (sdate - 45) k1) k1
      (meanphase (sdate - 45) k1) fuel = some (kA, kB)) :
    phasehunt sdate fuel =
      some (tpNewFull kA 0.0, tpQuarter kA 0.25, tpNewFull kA 0.5,
        tpQuarter kA 0.75, tpNewFull kB 0.0) := by
  have hb1 : truephase kA 0.0 = some (tpNewFull kA 0.0) :=
    truephase_newfull kA 0.0 (Or.inl (by norm_num))
  have hb2 : truephase kA 0.25 = some (tpQuarter kA 0.25) :=
    truephase_quarter kA 0.25
      (by push_neg; exact ⟨by norm_num, by norm_num [abs_of_nonpos]⟩)
      (Or.inl (by norm_num))
  have hb3 : truephase kA 0.5 = some (tpNewFull kA 0.5) :=
    truephase_newfull kA 0.5 (Or.inr (by norm_num))
  have hb4 : truephase kA 0.75 = some (tpQuarter kA 0.75) :=
    truephase_quarter kA 0.75
      (by push_neg; exact ⟨by norm_num, by norm_num [abs_of_nonneg]⟩)
      (Or.inr (by norm_num [abs_of_nonneg]))
  have hb5 : truephase kB 0.0 = some (tpNewFull kB 0.0) :=
    truephase_newfull kB 0.0 (Or.inl (by norm_num))
  simp only [phasehunt, hjy, hk1, hloop, hb1, hb2, hb3, hb4, hb5]

/-- `|dsin x| ≤ 1`. -/
lemma dsin_abs_le (x : ℝ) : |dsin x| ≤ 1 := by
  rw [dsin]; exact Real.abs_sin_le_one _

lemma ball_refl (a : ℝ) : |a - a| ≤ 0 := by simp

lemma synmonth_ball : |synmonth - 29.53058868| ≤ 0 := by norm_num [synmonth]

lemma lunatbase_ball : |lunatbase - 2423436.0| ≤ 0 := by norm_num [lunatbase]

lemma dsin_bounds (x : ℝ) : -1 ≤ dsin x ∧ dsin x ≤ 1 := by
  rw [dsin]; exact ⟨Real.neg_one_le_sin _, Real.sin_le_one _⟩

lemma dcos_bounds (x : ℝ) : -1 ≤ dcos x ∧ dcos x ≤ 1 := by
  rw [dcos]; exact ⟨Real.neg_one_le_cos _, Real.cos_le_one _⟩

/-- Deviation bound: within about a thousand years of 1900
(`|k| ≤ 13002` lunations), `meanphase`-style mean new moons drift from the
linear-in-`k` law `2415020.75933 + synmonth * k` by less than `0.064`
days. -/
lemma meanphase_dev (a k : ℝ) (ha : |a - 2415020.75933| ≤ 833950) :
    |meanphase a k - (2415020.75933 + synmonth * k)| ≤ 0.064 := by
  obtain ⟨ha1, ha2⟩ := abs_le.1 ha
  simp only [meanphase]
  set t : ℝ := (a - 2415020.0) / 36525 with htdef
  have ht1 : -22.834 ≤ t := by rw [htdef]; linarith
  have ht2 : t ≤ 22.834 := by rw [htdef]; linarith
  have htt : t * t ≤ 521.4 := by nlinarith
  have htt0 : 0 ≤ t * t := mul_self_nonneg t
  have httt1 : t * t * t ≤ 11906 := by nlinarith
  have httt2 : -11906 ≤ t * t * t := by nlinarith
  obtain ⟨e0a, e0b⟩ := dsin_bounds (166.56 + 132.87 * t - 0.009173 * (t * t))
  rw [abs_le]
  constructor <;> linarith

set_option maxHeartbeats 3200000 in
/-- Deviation of the new/full branch value from the linear mean-new-moon
law: all periodic and polynomial corrections stay below `0.65` days for
`|k0 + ph| ≤ 13002`. -/
lemma tpNewFull_dev (k0 ph : ℝ) (hk : |k0 + ph| ≤ 13002) :
    |tpNewFull k0 ph - (2415020.75933 + synmonth * (k0 + ph))| ≤ 0.65 := by
  obtain ⟨hk1, hk2⟩ := abs_le.1 hk
  simp only [tpNewFull]
  set t : ℝ := (k0 + ph) / 1236.85 with htdef
  have ht1 : -10.5126 ≤ t := by
    rw [htdef, le_div_iff₀ (by norm_num : (0 : ℝ) < 1236.85)]; linarith
  have ht2 : t ≤ 10.5126 := by
    rw [htdef, div_le_iff₀ (by norm_num : (0 : ℝ) < 1236.85)]; linarith
  have htt : t * t ≤ 110.6 := by nlinarith
  have htt0 : 0 ≤ t * t := mul_self_nonneg t
  have httt1 : t * t * t ≤ 1163 := by nlinarith
  have httt2 : -1163 ≤ t * t * t := by nlinarith
  set m : ℝ := 359.2242 + 29.10535608 * (k0 + ph) - 0.0000333 * (t * t)
    - 0.00000347 * (t * t * t) with hm
  set mp : ℝ := 306.0253 + 385.81691806 * (k0 + ph) + 0.0107306 * (t * t)
    + 0.00001236 * (t * t * t) with hmp
  set fa : ℝ := 21.2964 + 390.67050646 * (k0 + ph) - 0.0016528 * (t * t)
    - 0.00000239 * (t * t * t) with hfa
  obtain ⟨e0a, e0b⟩ := dsin_bounds (166.56 + 132.87 * t - 0.009173 * (t * t))
  obtain ⟨e1a, e1b⟩ := dsin_bounds (2 * m)
  obtain ⟨e2a, e2b⟩ := dsin_bounds mp
  obtain ⟨e3a, e3b⟩ := dsin_bounds (2 * mp)
  obtain ⟨e4a, e4b⟩ := dsin_bounds (3 * mp)
  obtain ⟨e5a, e5b⟩ := dsin_bounds (2 * fa)
  obtain ⟨e6a, e6b⟩ := dsin_bounds (m + mp)
  obtain ⟨e7a, e7b⟩ := dsin_bounds (m - mp)
  obtain ⟨e8a, e8b⟩ := dsin_bounds (2 * fa + m)
  obtain ⟨e9a, e9b⟩ := dsin_bounds (2 * fa - m)
  obtain ⟨e10a, e10b⟩ := dsin_bounds (2 * fa + mp)
  obtain ⟨e11a, e11b⟩ := dsin_bounds (2 * fa - mp)
  obtain ⟨e12a, e12b⟩ := dsin_bounds (m + 2 * mp)
  have hc : |0.1734 - 0.000393 * t| ≤ 0.1776 := by
    rw [abs_le]; constructor <;> linarith
  have hprod : |(0.1734 - 0.000393 * t) * dsin m| ≤ 0.1776 := by
    rw [abs_mul]
    calc |0.1734 - 0.000393 * t| * |dsin m| ≤ 0.1776 * 1 :=
      mul_le_mul hc (dsin_abs_le m) (abs_nonneg _) (by norm_num)
    _ = 0.1776 := by ring
  obtain ⟨ep1, ep2⟩ := abs_le.1 hprod
  rw [abs_le]
  constructor <;> linarith

set_option maxHeartbeats 3200000 in
/-- Deviation of the quarter branch value from the linear mean-new-moon
law: below `0.87` days for `|k0 + ph| ≤ 13002`. -/
lemma tpQuarter_dev (k0 ph : ℝ) (hk : |k0 + ph| ≤ 13002) :
    |tpQuarter k0 ph - (2415020.75933 + synmonth * (k0 + ph))| ≤ 0.87 := by
  obtain ⟨hk1, hk2⟩ := abs_le.1 hk
  simp only [tpQuarter]
  set t : ℝ := (k0 + ph) / 1236.85 with htdef
  have ht1 : -10.5126 ≤ t := by
    rw [htdef, le_div_iff₀ (by norm_num : (0 : ℝ) < 1236.85)]; linarith
  have ht2 : t ≤ 10.5126 := by
    rw [htdef, div_le_iff₀ (by norm_num : (0 : ℝ) < 1236.85)]; linarith
  have htt : t * t ≤ 110.6 := by nlinarith
  have htt0 : 0 ≤ t * t := mul_self_nonneg t
  have httt1 : t * t * t ≤ 1163 := by nlinarith
  have httt2 : -1163 ≤ t * t * t := by nlinarith
  set m : ℝ := 359.2242 + 29.10535608 * (k0 + ph) - 0.0000333 * (t * t)
    - 0.00000347 * (t * t * t) with hm
  set mp : ℝ := 306.0253 + 385.81691806 * (k0 + ph) + 0.0107306 * (t * t)
    + 0.00001236 * (t * t * t) with hmp
  set fa : ℝ := 21.2964 + 390.67050646 * (k0 + ph) - 0.0016528 * (t * t)
    - 0.00000239 * (t * t * t) with hfa
  obtain ⟨e0a, e0b⟩ := dsin_bounds (166.56 + 132.87 * t - 0.009173 * (t * t))
  obtain ⟨e1a, e1b⟩ := dsin_bounds (2 * m)
  obtain ⟨e2a, e2b⟩ := dsin_bounds mp
  obtain ⟨e3a, e3b⟩ := dsin_bounds (2 * mp)
  obtain ⟨e4a, e4b⟩ := dsin_bounds (3 * mp)
  obtain ⟨e5a, e5b⟩ := dsin_bounds (2 * fa)
  obtain ⟨e6a, e6b⟩ := dsin_bounds (m + mp)
  obtain ⟨e7a, e7b⟩ := dsin_bounds (m - mp)
  obtain ⟨e8a, e8b⟩ := dsin_bounds (2 * fa + m)
  obtain ⟨e9a, e9b⟩ := dsin_bounds (2 * fa - m)
  obtain ⟨e10a, e10b⟩ := dsin_bounds (2 * fa + mp)
  obtain ⟨e11a, e11b⟩ := dsin_bounds (2 * fa - mp)
  obtain ⟨e12a, e12b⟩ := dsin_bounds (m + 2 * mp)
  obtain ⟨e13a, e13b⟩ := dsin_bounds (m - 2 * mp)
  obtain ⟨e14a, e14b⟩ := dsin_bounds (2 * m + mp)
  obtain ⟨c1a, c1b⟩ := dcos_bounds m
  obtain ⟨c2a, c2b⟩ := dcos_bounds mp
  have hc : |0.1721 - 0.0004 * t| ≤ 0.1764 := by
    rw [abs_le]; constructor <;> linarith
  have hprod : |(0.1721 - 0.0004 * t) * dsin m| ≤ 0.1764 := by
    rw [abs_mul]
    calc |0.1721 - 0.0004 * t| * |dsin m| ≤ 0.1764 * 1 :=
      mul_le_mul hc (dsin_abs_le m) (abs_nonneg _) (by norm_num)
    _ = 0.1764 := by ring
  obtain ⟨ep1, ep2⟩ := abs_le.1 hprod
  split_ifs with hif <;>
    (rw [abs_le]; constructor <;> linarith)

/-- Exit analysis of the `phasehunt` search loop: a successful search
returns an index pair `(k, k + 1)` reached from the initial state by
whole-`synmonth` steps, such that the mean phase at `k` is at or before
`sdate` (unless the loop exited immediately, in which case the supplied
`nt1` is) and the mean phase at `k + 1` is after `sdate`. -/
lemma phasehuntLoop_exit (sdate : ℝ) : ∀ fuel adate k1 nt1 p,
    phasehuntLoop sdate adate k1 nt1 fuel = some p →
    ((p.1 = k1 ∧ nt1 ≤ sdate) ∨
      ∃ a, a - synmonth * p.1 = adate - synmonth * k1 ∧ meanphase a p.1 ≤ sdate) ∧
    ∃ a2, a2 - synmonth * (p.1 + 1) = adate - synmonth * k1 ∧
      sdate < meanphase a2 (p.1 + 1) := by
  intro fuel
  induction fuel with
  | zero =>
    intro adate k1 nt1 p h
    rw [show phasehuntLoop sdate adate k1 nt1 0 = none from rfl] at h
    exact Option.noConfusion h
  | succ n ih =>
    intro adate k1 nt1 p h
    rw [phasehuntLoop_succ] at h
    by_cases hc : nt1 ≤ sdate ∧ sdate < meanphase (adate + synmonth) (k1 + 1)
    · rw [if_pos hc] at h
      have hp := Option.some.inj h
      subst hp
      refine ⟨Or.inl ⟨rfl, hc.1⟩, adate + synmonth, ?_, hc.2⟩
      show (adate + synmonth) - synmonth * (k1 + 1) = adate - synmonth * k1
      ring
    · rw [if_neg hc] at h
      obtain ⟨hB, a2, ha2, hlt⟩ := ih (adate + synmonth) (k1 + 1)
        (meanphase (adate + synmonth) (k1 + 1)) p h
      refine ⟨?_, a2, by rw [ha2]; ring, hlt⟩
      rcases hB with ⟨hpk, hle⟩ | ⟨a, haa, hle⟩
      · exact Or.inr ⟨adate + synmonth, by rw [hpk]; ring, by rw [hpk]; exact hle⟩
      · exact Or.inr ⟨a, by rw [haa]; ring, hle⟩


/-! ## Claim C5: end-to-end evaluation of `phase` at JD 2449818.7 -/

set_option maxHeartbeats 3200000 in
/-- Claim C5.  Evaluating the position-and-phase model at Julian date
2449818.7 yields (within the stated rational tolerances, certified by
interval enclosures of the exact real computation): illuminated fraction
0.7807502920288827, age 10.184742123258882 days, Moon distance
389080.0632791394 km, Moon angular diameter 0.5118693474590013°, Sun
distance 149916135.21839374 km, Sun angular diameter 0.5319984336029933°. -/
theorem claim_C5_phase :
    |(phase (2449818.7 : ℝ)).2.1 - 0.7807502920288827| ≤ 1e-7 ∧
    |(phase (2449818.7 : ℝ)).2.2.1 - 10.184742123258882| ≤ 1e-7 ∧
    |(phase (2449818.7 : ℝ)).2.2.2.1 - 389080.0632791394| ≤ 1e-3 ∧
    |(phase (2449818.7 : ℝ)).2.2.2.2.1 - 0.5118693474590013| ≤ 1e-7 ∧
    |(phase (2449818.7 : ℝ)).2.2.2.2.2.1 - 149916135.21839374| ≤ 0.1 ∧
    |(phase (2449818.7 : ℝ)).2.2.2.2.2.2 - 0.5319984336029933| ≤ 1e-7 := by
  have b1 : |(2449818.7 : ℝ) - 2449818.7| ≤ 0 := by norm_num
  have b2 : |epoch - 2444238.5| ≤ 0 := by norm_num [epoch]
  have b3 := ball_sub _ _ _ _ 5580.2 0 b1 b2 (by norm_num [abs_of_nonneg, abs_of_nonpos])
  have b4 : |Day ((2449818.7 : ℝ)) - 5580.2| ≤ 0 := by rw [Day]; exact b3
  have b5 : |(360 / 365.2422 : ℝ) - 600000 / 608737| ≤ 0 := by norm_num
  have b6 := ball_mul _ _ _ _ (3348120000 / 608737) 0 b5 b4 (by norm_num [abs_of_nonneg, abs_of_nonpos])
  have b7 := ball_fixangle _ _ (60940200 / 608737) 0 15 b6 (by norm_num) (by norm_num) (by norm_num [abs_of_nonneg, abs_of_nonpos])
  have b8 : |N ((2449818.7 : ℝ)) - 60940200 / 608737| ≤ 0 := by rw [N]; exact b7
  have b9 : |elonge - 278.83354| ≤ 0 := by norm_num [elonge]
  have b10 : |elongp - 282.596403| ≤ 0 := by norm_num [elongp]
  have b11 := ball_add _ _ _ _ (11533824631949 / 30436850000) 0 b8 b9 (by norm_num [abs_of_nonneg, abs_of_nonpos])
  have b12 := ball_sub _ _ _ _ (58649606065969 / 608737000000) 0 b11 b10 (by norm_num [abs_of_nonneg, abs_of_nonpos])
  have b13 := ball_fixangle _ _ (58649606065969 / 608737000000) 0 0 b12 (by norm_num) (by norm_num) (by norm_num [abs_of_nonneg, abs_of_nonpos])
  have b14 : |M ((2449818.7 : ℝ)) - 58649606065969 / 608737000000| ≤ 0 := by rw [M]; exact b13
  have b15 := ball_center _ _ 96.34637957930764845902 2.54e-21 b14 (by norm_num [abs_of_nonneg, abs_of_nonpos])
  have b16 := ball_torad _ _ 1.681561546035147606175 9.64e-17 b15 (by norm_num [abs_of_nonneg, abs_of_nonpos])
  have b17 := ball_half _ _ b16
  have b18 := ball_sin1 _ _ 0.7451640298961350563919 1.81e-10 b17 (by norm_num [abs_of_nonneg, abs_of_nonpos]) (by norm_num [abs_of_nonneg, abs_of_nonpos])
  have b19 := ball_cos1 _ _ 0.6668812252007625499671 1.81e-10 b17 (by norm_num [abs_of_nonneg, abs_of_nonpos]) (by norm_num [abs_of_nonneg, abs_of_nonpos])
  have b20 := ball_sin2 _ _ _ _ 0.9938718024653443999156 7.25e-10 b18 b19 (by norm_num [abs_of_nonneg, abs_of_nonpos]) (by norm_num [abs_of_nonneg, abs_of_nonpos])
  have b21 := ball_cos2 _ _ (-0.1105388629494596488947) 7.25e-10 b19 (by norm_num [abs_of_nonneg, abs_of_nonpos])
  have b22 : |eccent - 0.016718| ≤ 0 := by norm_num [eccent]
  have b23 := ball_mul _ _ _ _ 0.01661554879361562767779 1.22e-11 b22 b20 (by norm_num [abs_of_nonneg, abs_of_nonpos])
  have b24 := ball_sub _ _ _ _ 1.664945997241531978497 1.23e-11 b16 b23 (by norm_num [abs_of_nonneg, abs_of_nonpos])
  have b25 := ball_sub _ _ _ _ (-0.016615548793615627678) 1.24e-11 b24 b16 (by norm_num [abs_of_nonneg, abs_of_nonpos])
  have b26 : |eccent - 0.016718| ≤ 0 := by norm_num [eccent]
  have b27 := ball_mul _ _ _ _ (-0.001847988710789066410222) 1.22e-11 b26 b21 (by norm_num [abs_of_nonneg, abs_of_nonpos])
  have b28 : |(1 : ℝ) - 1| ≤ 0 := by norm_num
  have b29 := ball_sub _ _ _ _ 1.00184798871078906641 1.23e-11 b28 b27 (by norm_num [abs_of_nonneg, abs_of_nonpos])
  have b30 := ball_div _ _ _ _ (-0.01658490008548808108175) 1.26e-11 b25 b29 (by norm_num) (by norm_num [abs_of_nonneg, abs_of_nonpos])
  have b31 := ball_sub _ _ _ _ 1.698146446120635687257 1.27e-11 b16 b30 (by norm_num [abs_of_nonneg, abs_of_nonpos])
  have b32 := ball_half _ _ b31
  have b33 := ball_sin1 _ _ 0.7506684254054228227301 1.87e-10 b32 (by norm_num [abs_of_nonneg, abs_of_nonpos]) (by norm_num [abs_of_nonneg, abs_of_nonpos])
  have b34 := ball_cos1 _ _ 0.6606791317063307690414 1.87e-10 b32 (by norm_num [abs_of_nonneg, abs_of_nonpos]) (by norm_num [abs_of_nonneg, abs_of_nonpos])
  have b35 := ball_sin2 _ _ _ _ 0.9919019269924265588412 7.49e-10 b33 b34 (by norm_num [abs_of_nonneg, abs_of_nonpos]) (by norm_num [abs_of_nonneg, abs_of_nonpos])
  have b36 := ball_cos2 _ _ (-0.1270061698555376822469) 7.49e-10 b34 (by norm_num [abs_of_nonneg, abs_of_nonpos])
  have b37 : |eccent - 0.016718| ≤ 0 := by norm_num [eccent]
  have b38 := ball_mul _ _ _ _ 0.01658261641545938721071 1.26e-11 b37 b35 (by norm_num [abs_of_nonneg, abs_of_nonpos])
  have b39 := ball_sub _ _ _ _ 1.681563829705176300046 2.54e-11 b31 b38 (by norm_num [abs_of_nonneg, abs_of_nonpos])
  have b40 := ball_sub _ _ _ _ 0.000002283670028693871 2.55e-11 b39 b16 (by norm_num [abs_of_nonneg, abs_of_nonpos])
  have b41 : |eccent - 0.016718| ≤ 0 := by norm_num [eccent]
  have b42 := ball_mul _ _ _ _ (-0.002123289147644878971804) 1.26e-11 b41 b36 (by norm_num [abs_of_nonneg, abs_of_nonpos])
  have b43 : |(1 : ℝ) - 1| ≤ 0 := by norm_num
  have b44 := ball_sub _ _ _ _ 1.002123289147644878972 1.27e-11 b43 b42 (by norm_num [abs_of_nonneg, abs_of_nonpos])
  have b45 := ball_div _ _ _ _ 0.000002278831410690240142868 2.55e-11 b40 b44 (by norm_num) (by norm_num [abs_of_nonneg, abs_of_nonpos])
  have b46 := ball_sub _ _ _ _ 1.698144167289224997017 3.83e-11 b31 b45 (by norm_num [abs_of_nonneg, abs_of_nonpos])
  have b47 := ball_half _ _ b46
  have b48 := ball_sin1 _ _ 0.7506676726167570124204 0.0000000002 b47 (by norm_num [abs_of_nonneg, abs_of_nonpos]) (by norm_num [abs_of_nonneg, abs_of_nonpos])
  have b49 := ball_cos1 _ _ 0.66067998702929531315 0.0000000002 b47 (by norm_num [abs_of_nonneg, abs_of_nonpos]) (by norm_num [abs_of_nonneg, abs_of_nonpos])
  have b50 := ball_sin2 _ _ _ _ 0.9919022164155006469779 8.01e-10 b48 b49 (by norm_num [abs_of_nonneg, abs_of_nonpos]) (by norm_num [abs_of_nonneg, abs_of_nonpos])
  have b51 := ball_cos2 _ _ (-0.1270039094779403535539) 8.01e-10 b49 (by norm_num [abs_of_nonneg, abs_of_nonpos])
  have b52 : |eccent - 0.016718| ≤ 0 := by norm_num [eccent]
  have b53 := ball_mul _ _ _ _ 0.01658262125403433981618 1.34e-11 b52 b50 (by norm_num [abs_of_nonneg, abs_of_nonpos])
  have b54 := ball_sub _ _ _ _ 1.681561546035190657201 5.18e-11 b46 b53 (by norm_num [abs_of_nonneg, abs_of_nonpos])
  have b55 := ball_sub _ _ _ _ 0.000000000000043051026 5.19e-11 b54 b16 (by norm_num [abs_of_nonneg, abs_of_nonpos])
  have b56 : |eccent - 0.016718| ≤ 0 := by norm_num [eccent]
  have b57 := ball_mul _ _ _ _ (-0.002123251358652206830714) 1.34e-11 b56 b51 (by norm_num [abs_of_nonneg, abs_of_nonpos])
  have b58 : |(1 : ℝ) - 1| ≤ 0 := by norm_num
  have b59 := ball_sub _ _ _ _ 1.002123251358652206831 1.35e-11 b58 b57 (by norm_num [abs_of_nonneg, abs_of_nonpos])
  have b60 := ball_div _ _ _ _ 0.00000000000004295981152181885538614 5.18e-11 b55 b59 (by norm_num) (by norm_num [abs_of_nonneg, abs_of_nonpos])
  have b61 := ball_sub _ _ _ _ 1.698144167289182037205 9.02e-11 b46 b60 (by norm_num [abs_of_nonneg, abs_of_nonpos])
  have b62 : |EcK ((2449818.7 : ℝ)) - 1.698144167289182037205| ≤ 9.02e-11 := by
    rw [EcK, kepler, keplerF]
    rw [show (5 : ℕ) = 4 + 1 from rfl, keplerLoop_succ, if_neg (not_le.2 (ball_abs_gt _ _ 1e-6 b25 (by norm_num [abs_of_nonneg, abs_of_nonpos])))]
    rw [show (4 : ℕ) = 3 + 1 from rfl, keplerLoop_succ, if_neg (not_le.2 (ball_abs_gt _ _ 1e-6 b40 (by norm_num [abs_of_nonneg, abs_of_nonpos])))]
    rw [show (3 : ℕ) = 2 + 1 from rfl, keplerLoop_succ, if_pos (ball_abs_le _ _ 1e-6 b55 (by norm_num [abs_of_nonneg, abs_of_nonpos]))]
    rw [Option.getD_some]
    exact ball_center _ _ _ _ b61 (by norm_num [abs_of_nonneg, abs_of_nonpos])
  have b63 := ball_sqrt_const ((1 + eccent) / (1 - eccent)) 1.016860111821630238471 1e-20 (by norm_num) (by norm_num [eccent]) (by norm_num [eccent]) (by norm_num [eccent])
  have b64 := ball_half _ _ b62
  have b65 := ball_sin1 _ _ 0.7506676726167428210764 2.26e-10 b64 (by norm_num [abs_of_nonneg, abs_of_nonpos]) (by norm_num [abs_of_nonneg, abs_of_nonpos])
  have b66 := ball_cos1 _ _ 0.6606799870293114374211 2.26e-10 b64 (by norm_num [abs_of_nonneg, abs_of_nonpos]) (by norm_num [abs_of_nonneg, abs_of_nonpos])
  have b67 := ball_tan _ _ _ _ 1.136204648777168165707 7.31e-10 b65 b66 (by norm_num) (by norm_num [abs_of_nonneg, abs_of_nonpos])
  have b68 := ball_mul _ _ _ _ 1.155361186207807331773 7.44e-10 b63 b67 (by norm_num [abs_of_nonneg, abs_of_nonpos])
  have b69 : |(0.8573549867709224 : ℝ) - 0.8573549867709224| ≤ 0 := by norm_num
  have b70 := ball_sin1 _ _ 0.7561142081836648676794 1.81e-10 b69 (by norm_num [abs_of_nonneg, abs_of_nonpos]) (by norm_num [abs_of_nonneg, abs_of_nonpos])
  have b71 := ball_cos1 _ _ 0.6544396871765937436857 1.81e-10 b69 (by norm_num [abs_of_nonneg, abs_of_nonpos]) (by norm_num [abs_of_nonneg, abs_of_nonpos])
  have b72 := ball_tan _ _ _ _ 1.155361178423819079714 5.97e-10 b70 b71 (by norm_num) (by norm_num [abs_of_nonneg, abs_of_nonpos])
  have b73 : |(0.8573549934082198 : ℝ) - 0.8573549934082198| ≤ 0 := by norm_num
  have b74 := ball_sin1 _ _ 0.7561142125273756829929 1.81e-10 b73 (by norm_num [abs_of_nonneg, abs_of_nonpos]) (by norm_num [abs_of_nonneg, abs_of_nonpos])
  have b75 := ball_cos1 _ _ 0.6544396821580388611899 1.81e-10 b73 (by norm_num [abs_of_nonneg, abs_of_nonpos]) (by norm_num [abs_of_nonneg, abs_of_nonpos])
  have b76 := ball_tan _ _ _ _ 1.15536119392097576938 5.97e-10 b74 b75 (by norm_num) (by norm_num [abs_of_nonneg, abs_of_nonpos])
  have b77 := ball_arctan _ _ _ _ _ _ _ _ 0.8573549900895711 3.32e-9 b68 b72 b76 (by norm_num [abs_of_nonneg, abs_of_nonpos]) (by norm_num [abs_of_nonneg, abs_of_nonpos]) (by norm_num) (by norm_num) (by norm_num) (by norm_num)
  have b78 := ball_todeg _ _ 49.12282247661294408102 0.000000191 b77 (by norm_num [abs_of_nonneg, abs_of_nonpos])
  have b79 : |(2 : ℝ) - 2| ≤ 0 := by norm_num
  have b80 := ball_mul _ _ _ _ 98.24564495322588816204 0.000000382 b79 b78 (by norm_num [abs_of_nonneg, abs_of_nonpos])
  have b81 : |Ec ((2449818.7 : ℝ)) - 98.24564495322588816204| ≤ 0.000000382 := by rw [Ec]; exact b80
  have b82 := ball_add _ _ _ _ 380.842047953225888162 0.000000383 b81 b10 (by norm_num [abs_of_nonneg, abs_of_nonpos])
  have b83 := ball_fixangle _ _ 20.842047953225888162 0.000000383 1 b82 (by norm_num) (by norm_num) (by norm_num [abs_of_nonneg, abs_of_nonpos])
  have b84 : |Lambdasun ((2449818.7 : ℝ)) - 20.842047953225888162| ≤ 0.000000383 := by rw [Lambdasun]; exact b83
  have b85 : |eccent - 0.016718| ≤ 0 := by norm_num [eccent]
  have b86 : |360 * ((0 : ℤ) : ℝ) + 90 - 90| ≤ 0 := by norm_num
  have b87 := ball_sub _ _ _ _ 8.24564495322588816204 0.000000382 b81 b86 (by norm_num [abs_of_nonneg, abs_of_nonpos])
  have b88 := ball_torad _ _ 0.1439136533842455744318 6.67e-9 b87 (by norm_num [abs_of_nonneg, abs_of_nonpos])
  have b89 := ball_sin1 _ _ 0.1434173982685580887051 6.86e-9 b88 (by norm_num [abs_of_nonneg, abs_of_nonpos]) (by norm_num [abs_of_nonneg, abs_of_nonpos])
  have b90 : |Real.cos (torad (Ec ((2449818.7 : ℝ)))) - -0.1434173982685580887051| ≤ 6.86e-9 := by rw [cos_torad_shift90 (Ec ((2449818.7 : ℝ))) 0]; exact ball_neg _ _ (-0.1434173982685580887051) 6.86e-9 b89 (by norm_num [abs_of_nonneg, abs_of_nonpos])
  have b91 : |(1 : ℝ) - 1| ≤ 0 := by norm_num
  have b92 := ball_mul _ _ _ _ (-0.002397652064253754126972) 1.15e-10 b85 b90 (by norm_num [abs_of_nonneg, abs_of_nonpos])
  have b93 := ball_add _ _ _ _ 0.997602347935746245873 1.16e-10 b91 b92 (by norm_num [abs_of_nonneg, abs_of_nonpos])
  have b94 : |(1 - eccent * eccent : ℝ) - 0.999720508476| ≤ 0 := by norm_num [eccent]
  have b95 := ball_div _ _ _ _ 0.9978812472863213206833 1.17e-10 b93 b94 (by norm_num) (by norm_num [abs_of_nonneg, abs_of_nonpos])
  have b96 : |F ((2449818.7 : ℝ)) - 0.9978812472863213206833| ≤ 1.17e-10 := by rw [F]; exact b95
  have b97 : |sunsmax - 149598500| ≤ 0 := by norm_num [sunsmax]
  have b98 := ball_div _ _ _ _ 149916135.218318031156 0.0176 b97 b96 (by norm_num) (by norm_num [abs_of_nonneg, abs_of_nonpos])
  have b99 : |SunDist ((2449818.7 : ℝ)) - 149916135.218318031156| ≤ 0.0176 := by rw [SunDist]; exact b98
  have b100 : |sunangsiz - 0.533128| ≤ 0 := by norm_num [sunangsiz]
  have b101 := ball_mul _ _ _ _ 0.5319984336032619130532 6.24e-11 b96 b100 (by norm_num [abs_of_nonneg, abs_of_nonpos])
  have b102 : |SunAng ((2449818.7 : ℝ)) - 0.5319984336032619130532| ≤ 6.24e-11 := by rw [SunAng]; exact b101
  have b103 : |mmlong - 64.975464| ≤ 0 := by norm_num [mmlong]
  have b104 : |(13.1763966 : ℝ) - 13.1763966| ≤ 0 := by norm_num
  have b105 := ball_mul _ _ _ _ 73526.92830732 0 b104 b4 (by norm_num [abs_of_nonneg, abs_of_nonpos])
  have b106 := ball_add _ _ _ _ 73591.90377132 0 b105 b103 (by norm_num [abs_of_nonneg, abs_of_nonpos])
  have b107 := ball_fixangle _ _ 151.90377132 0 204 b106 (by norm_num) (by norm_num) (by norm_num [abs_of_nonneg, abs_of_nonpos])
  have b108 : |ml ((2449818.7 : ℝ)) - 151.90377132| ≤ 0 := by rw [ml]; exact b107
  have b109 : |mmlongp - 349.383063| ≤ 0 := by norm_num [mmlongp]
  have b110 : |(0.1114041 : ℝ) - 0.1114041| ≤ 0 := by norm_num
  have b111 := ball_mul _ _ _ _ 621.65715882 0 b110 b4 (by norm_num [abs_of_nonneg, abs_of_nonpos])
  have b112 := ball_sub _ _ _ _ (-469.7533875) 0 b108 b111 (by norm_num [abs_of_nonneg, abs_of_nonpos])
  have b113 := ball_sub _ _ _ _ (-819.1364505) 0 b112 b109 (by norm_num [abs_of_nonneg, abs_of_nonpos])
  have b114 := ball_fixangle _ _ 260.8635495 0 (-3) b113 (by norm_num) (by norm_num) (by norm_num [abs_of_nonneg, abs_of_nonpos])
  have b115 : |MM ((2449818.7 : ℝ)) - 260.8635495| ≤ 0 := by rw [MM]; exact b114
  have b116 : |(2 : ℝ) - 2| ≤ 0 := by norm_num
  have b117 := ball_sub _ _ _ _ 131.061723366774111838 0.000000383 b108 b84 (by norm_num [abs_of_nonneg, abs_of_nonpos])
  have b118 := ball_mul _ _ _ _ 262.123446733548223676 0.000000766 b116 b117 (by norm_num [abs_of_nonneg, abs_of_nonpos])
  have b119 := ball_sub _ _ _ _ 1.259897233548223676 0.000000766 b118 b115 (by norm_num [abs_of_nonneg, abs_of_nonpos])
  have b120 := ball_torad _ _ 0.02198935496218446287099 0.0000000134 b119 (by norm_num [abs_of_nonneg, abs_of_nonpos])
  have b121 := ball_sin1 _ _ 0.02198758291321330141055 0.0000000136 b120 (by norm_num [abs_of_nonneg, abs_of_nonpos]) (by norm_num [abs_of_nonneg, abs_of_nonpos])
  have b123 : |(1.2739 : ℝ) - 1.2739| ≤ 0 := by norm_num
  have b124 := ball_mul _ _ _ _ 0.0280099818731424246669 0.0000000174 b123 b121 (by norm_num [abs_of_nonneg, abs_of_nonpos])
  have b125 : |Ev ((2449818.7 : ℝ)) - 0.0280099818731424246669| ≤ 0.0000000174 := by rw [Ev]; exact b124
  have b126 : |(0.1858 : ℝ) - 0.1858| ≤ 0 := by norm_num
  have b127 := ball_mul _ _ _ _ 0.1846613808980609895043 1.35e-10 b126 b20 (by norm_num [abs_of_nonneg, abs_of_nonpos])
  have b128 : |Ae ((2449818.7 : ℝ)) - 0.1846613808980609895043| ≤ 1.35e-10 := by rw [Ae]; exact b127
  have b129 : |(0.37 : ℝ) - 0.37| ≤ 0 := by norm_num
  have b130 := ball_mul _ _ _ _ 0.3677325669121774279688 2.69e-10 b129 b20 (by norm_num [abs_of_nonneg, abs_of_nonpos])
  have b131 : |A3 ((2449818.7 : ℝ)) - 0.3677325669121774279688| ≤ 2.69e-10 := by rw [A3]; exact b130
  have b132 := ball_add _ _ _ _ 260.8915594818731424247 0.0000000175 b115 b125 (by norm_num [abs_of_nonneg, abs_of_nonpos])
  have b133 := ball_sub _ _ _ _ 260.7068981009750814352 0.0000000177 b132 b128 (by norm_num [abs_of_nonneg, abs_of_nonpos])
  have b134 := ball_sub _ _ _ _ 260.3391655340629040072 0.000000018 b133 b131 (by norm_num [abs_of_nonneg, abs_of_nonpos])
  have b135 : |MmP ((2449818.7 : ℝ)) - 260.3391655340629040072| ≤ 0.000000018 := by rw [MmP]; exact b134
  have b136 : |360 * ((0 : ℤ) : ℝ) + 270 - 270| ≤ 0 := by norm_num
  have b137 := ball_sub _ _ _ _ (-9.6608344659370959928) 0.000000018 b135 b136 (by norm_num [abs_of_nonneg, abs_of_nonpos])
  have b138 := ball_torad _ _ (-0.1686133699207502946633) 3.15e-10 b137 (by norm_num [abs_of_nonneg, abs_of_nonpos])
  have b139 := ball_cos1 _ _ 0.9858184126555355917088 4.96e-10 b138 (by norm_num [abs_of_nonneg, abs_of_nonpos]) (by norm_num [abs_of_nonneg, abs_of_nonpos])
  have b140 : |Real.sin (torad (MmP ((2449818.7 : ℝ)))) - -0.9858184126555355917088| ≤ 4.96e-10 := by rw [sin_torad_shift270 (MmP ((2449818.7 : ℝ))) 0]; exact ball_neg _ _ (-0.9858184126555355917088) 4.96e-10 b139 (by norm_num [abs_of_nonneg, abs_of_nonpos])
  have b141 : |(6.2886 : ℝ) - 6.2886| ≤ 0 := by norm_num
  have b142 := ball_mul _ _ _ _ (-6.19941766982560112202) 3.12e-9 b141 b140 (by norm_num [abs_of_nonneg, abs_of_nonpos])
  have b143 : |mEc ((2449818.7 : ℝ)) - -6.19941766982560112202| ≤ 3.12e-9 := by rw [mEc]; exact b142
  have b144 : |(2 : ℝ) - 2| ≤ 0 := by norm_num
  have b145 := ball_mul _ _ _ _ 520.6783310681258080144 0.000000036 b144 b135 (by norm_num [abs_of_nonneg, abs_of_nonpos])
  have b146 : |360 * ((1 : ℤ) : ℝ) + 180 - 540| ≤ 0 := by norm_num
  have b147 := ball_sub _ _ _ _ (-19.3216689318741919856) 0.000000036 b145 b146 (by norm_num [abs_of_nonneg, abs_of_nonpos])
  have b148 := ball_torad _ _ (-0.3372267398415005893265) 6.29e-10 b147 (by norm_num [abs_of_nonneg, abs_of_nonpos])
  have b149 := ball_sin1 _ _ (-0.3308713091199033328951) 8.1e-10 b148 (by norm_num [abs_of_nonneg, abs_of_nonpos]) (by norm_num [abs_of_nonneg, abs_of_nonpos])
  have b150 : |Real.sin (torad ((2 : ℝ) * MmP ((2449818.7 : ℝ)))) - 0.3308713091199033328951| ≤ 8.1e-10 := by rw [sin_torad_shift180 ((2 : ℝ) * MmP ((2449818.7 : ℝ))) 1]; exact ball_neg _ _ 0.3308713091199033328951 8.1e-10 b149 (by norm_num [abs_of_nonneg, abs_of_nonpos])
  have b151 : |(0.214 : ℝ) - 0.214| ≤ 0 := by norm_num
  have b152 := ball_mul _ _ _ _ 0.07080646015165931323955 1.74e-10 b151 b150 (by norm_num [abs_of_nonneg, abs_of_nonpos])
  have b153 : |A4 ((2449818.7 : ℝ)) - 0.07080646015165931323955| ≤ 1.74e-10 := by rw [A4]; exact b152
  have b154 := ball_add _ _ _ _ 151.9317813018731424247 0.0000000175 b108 b125 (by norm_num [abs_of_nonneg, abs_of_nonpos])
  have b155 := ball_add _ _ _ _ 145.7323636320475413027 0.0000000207 b154 b143 (by norm_num [abs_of_nonneg, abs_of_nonpos])
  have b156 := ball_sub _ _ _ _ 145.5477022511494803132 0.0000000209 b155 b128 (by norm_num [abs_of_nonneg, abs_of_nonpos])
  have b157 := ball_add _ _ _ _ 145.6185087113011396264 0.0000000211 b156 b153 (by norm_num [abs_of_nonneg, abs_of_nonpos])
  have b158 : |lP ((2449818.7 : ℝ)) - 145.6185087113011396264| ≤ 0.0000000211 := by rw [lP]; exact b157
  have b159 : |(2 : ℝ) - 2| ≤ 0 := by norm_num
  have b160 := ball_sub _ _ _ _ 124.7764607580752514644 0.000000405 b158 b84 (by norm_num [abs_of_nonneg, abs_of_nonpos])
  have b161 := ball_mul _ _ _ _ 249.5529215161505029288 0.00000081 b159 b160 (by norm_num [abs_of_nonneg, abs_of_nonpos])
  have b162 : |360 * ((0 : ℤ) : ℝ) + 270 - 270| ≤ 0 := by norm_num
  have b163 := ball_sub _ _ _ _ (-20.4470784838494970712) 0.00000081 b161 b162 (by norm_num [abs_of_nonneg, abs_of_nonpos])
  have b164 := ball_torad _ _ (-0.3568688419568639164531) 0.0000000142 b163 (by norm_num [abs_of_nonneg, abs_of_nonpos])
  have b165 := ball_cos1 _ _ 0.9369952603414749587521 0.0000000144 b164 (by norm_num [abs_of_nonneg, abs_of_nonpos]) (by norm_num [abs_of_nonneg, abs_of_nonpos])
  have b166 : |Real.sin (torad ((2 : ℝ) * (lP ((2449818.7 : ℝ)) - Lambdasun ((2449818.7 : ℝ))))) - -0.9369952603414749587521| ≤ 0.0000000144 := by rw [sin_torad_shift270 ((2 : ℝ) * (lP ((2449818.7 : ℝ)) - Lambdasun ((2449818.7 : ℝ)))) 0]; exact ball_neg _ _ (-0.9369952603414749587521) 0.0000000144 b165 (by norm_num [abs_of_nonneg, abs_of_nonpos])
  have b167 : |(0.6583 : ℝ) - 0.6583| ≤ 0 := by norm_num
  have b168 := ball_mul _ _ _ _ (-0.6168239798827929653465) 9.48e-9 b167 b166 (by norm_num [abs_of_nonneg, abs_of_nonpos])
  have b169 : |V ((2449818.7 : ℝ)) - -0.6168239798827929653465| ≤ 9.48e-9 := by rw [V]; exact b168
  have b170 := ball_add _ _ _ _ 145.0016847314183466611 0.0000000306 b158 b169 (by norm_num [abs_of_nonneg, abs_of_nonpos])
  have b171 : |lPP ((2449818.7 : ℝ)) - 145.0016847314183466611| ≤ 0.0000000306 := by rw [lPP]; exact b170
  have b172 := ball_sub _ _ _ _ 124.1596367781924584991 0.000000414 b171 b84 (by norm_num [abs_of_nonneg, abs_of_nonpos])
  have b173 : |MoonAge ((2449818.7 : ℝ)) - 124.1596367781924584991| ≤ 0.000000414 := by rw [MoonAge]; exact b172
  have b174 : |360 * ((0 : ℤ) : ℝ) + 90 - 90| ≤ 0 := by norm_num
  have b175 := ball_sub _ _ _ _ 34.1596367781924584991 0.000000414 b173 b174 (by norm_num [abs_of_nonneg, abs_of_nonpos])
  have b176 := ball_torad _ _ 0.5961981330648063128392 7.23e-9 b175 (by norm_num [abs_of_nonneg, abs_of_nonpos])
  have b177 := ball_sin1 _ _ 0.5615005840486738862738 7.42e-9 b176 (by norm_num [abs_of_nonneg, abs_of_nonpos]) (by norm_num [abs_of_nonneg, abs_of_nonpos])
  have b178 : |Real.cos (torad (MoonAge ((2449818.7 : ℝ)))) - -0.5615005840486738862738| ≤ 7.42e-9 := by rw [cos_torad_shift90 (MoonAge ((2449818.7 : ℝ))) 0]; exact ball_neg _ _ (-0.5615005840486738862738) 7.42e-9 b177 (by norm_num [abs_of_nonneg, abs_of_nonpos])
  have b179 : |(1 : ℝ) - 1| ≤ 0 := by norm_num
  have b180 := ball_sub _ _ _ _ 1.561500584048673886274 7.43e-9 b179 b178 (by norm_num [abs_of_nonneg, abs_of_nonpos])
  have b181 : |(2 : ℝ) - 2| ≤ 0 := by norm_num
  have b182 := ball_div _ _ _ _ 0.780750292024336943137 3.72e-9 b180 b181 (by norm_num) (by norm_num [abs_of_nonneg, abs_of_nonpos])
  have b183 : |MoonPhase ((2449818.7 : ℝ)) - 0.780750292024336943137| ≤ 3.72e-9 := by rw [MoonPhase]; exact b182
  have b184 : |msmax * (1 - mecc * mecc) - 383242.41154199| ≤ 0 := by norm_num [msmax, mecc]
  have b185 : |mecc - 0.0549| ≤ 0 := by norm_num [mecc]
  have b186 := ball_add _ _ _ _ 254.1397478642373028852 0.0000000212 b135 b143 (by norm_num [abs_of_nonneg, abs_of_nonpos])
  have b187 : |360 * ((0 : ℤ) : ℝ) + 270 - 270| ≤ 0 := by norm_num
  have b188 := ball_sub _ _ _ _ (-15.8602521357626971148) 0.0000000212 b186 b187 (by norm_num [abs_of_nonneg, abs_of_nonpos])
  have b189 := ball_torad _ _ (-0.2768136199655217504514) 3.71e-10 b188 (by norm_num [abs_of_nonneg, abs_of_nonpos])
  have b190 := ball_sin1 _ _ (-0.2732919629646493719886) 5.52e-10 b189 (by norm_num [abs_of_nonneg, abs_of_nonpos]) (by norm_num [abs_of_nonneg, abs_of_nonpos])
  have b191 : |Real.cos (torad (MmP ((2449818.7 : ℝ)) + mEc ((2449818.7 : ℝ)))) - -0.2732919629646493719886| ≤ 5.52e-10 := by rw [cos_torad_shift270 (MmP ((2449818.7 : ℝ)) + mEc ((2449818.7 : ℝ))) 0]; exact b190
  have b192 : |(1 : ℝ) - 1| ≤ 0 := by norm_num
  have b193 := ball_mul _ _ _ _ (-0.01500372876675925052217) 3.04e-11 b185 b191 (by norm_num [abs_of_nonneg, abs_of_nonpos])
  have b194 := ball_add _ _ _ _ 0.9849962712332407494778 3.05e-11 b192 b193 (by norm_num [abs_of_nonneg, abs_of_nonpos])
  have b195 := ball_div _ _ _ _ 389080.0632799965944579 0.0000121 b184 b194 (by norm_num) (by norm_num [abs_of_nonneg, abs_of_nonpos])
  have b196 : |MoonDist ((2449818.7 : ℝ)) - 389080.0632799965944579| ≤ 0.0000121 := by rw [MoonDist]; exact b195
  have b197 : |msmax - 384401| ≤ 0 := by norm_num [msmax]
  have b198 := ball_div _ _ _ _ 1.01217234939554422194 3.15e-11 b196 b197 (by norm_num) (by norm_num [abs_of_nonneg, abs_of_nonpos])
  have b199 : |MoonDFrac ((2449818.7 : ℝ)) - 1.01217234939554422194| ≤ 3.15e-11 := by rw [MoonDFrac]; exact b198
  have b200 : |mangsiz - 0.5181| ≤ 0 := by norm_num [mangsiz]
  have b201 := ball_div _ _ _ _ 0.5118693474578735377258 1.6e-11 b200 b199 (by norm_num) (by norm_num [abs_of_nonneg, abs_of_nonpos])
  have b202 : |MoonAng ((2449818.7 : ℝ)) - 0.5118693474578735377258| ≤ 1.6e-11 := by rw [MoonAng]; exact b201
  have b203 := ball_fixangle _ _ 124.1596367781924584991 0.000000414 0 b173 (by norm_num) (by norm_num) (by norm_num [abs_of_nonneg, abs_of_nonpos])
  have b204 : |(360.0 : ℝ) - 360| ≤ 0 := by norm_num
  have b205 := ball_div _ _ _ _ 0.3448878799394234958308 1.16e-9 b203 b204 (by norm_num) (by norm_num [abs_of_nonneg, abs_of_nonpos])
  have b206 : |synmonth - 29.53058868| ≤ 0 := by norm_num [synmonth]
  have b207 := ball_mul _ _ _ _ 10.18474212320833857171 0.0000000343 b206 b205 (by norm_num [abs_of_nonneg, abs_of_nonpos])
  refine ⟨?_, ?_, ?_, ?_, ?_, ?_⟩
  · show |MoonPhase (2449818.7 : ℝ) - 0.7807502920288827| ≤ 0.0000001
    exact ball_center _ _ _ _ b183 (by norm_num [abs_of_nonneg, abs_of_nonpos])
  · show |synmonth * (fixangle (MoonAge (2449818.7 : ℝ)) / 360.0) - 10.184742123258882| ≤ 0.0000001
    exact ball_center _ _ _ _ b207 (by norm_num [abs_of_nonneg, abs_of_nonpos])
  · show |MoonDist (2449818.7 : ℝ) - 389080.0632791394| ≤ 0.001
    exact ball_center _ _ _ _ b196 (by norm_num [abs_of_nonneg, abs_of_nonpos])
  · show |MoonAng (2449818.7 : ℝ) - 0.5118693474590013| ≤ 0.0000001
    exact ball_center _ _ _ _ b202 (by norm_num [abs_of_nonneg, abs_of_nonpos])
  · show |SunDist (2449818.7 : ℝ) - 149916135.21839374| ≤ 0.1
    exact ball_center _ _ _ _ b99 (by norm_num [abs_of_nonneg, abs_of_nonpos])
  · show |SunAng (2449818.7 : ℝ) - 0.5319984336029933| ≤ 0.0000001
    exact ball_center _ _ _ _ b102 (by norm_num [abs_of_nonneg, abs_of_nonpos])

/-! ## Claim C7: the phase-category classifier and the 794886000 snapshot -/

set_option maxHeartbeats 3200000 in
/-- Claim C7.  The classifier maps every fraction into one of the 8 buckets
(indices 0-7); breakpoints are the quarters widened by `0.75/synmonth`, so
an exact quarter value classifies as the exact-phase bucket (`0.25 ↦ 2`
"First Quarter", `0.5 ↦ 4` "Full Moon"); and the snapshot at Unix time
794886000 (1995-03-11T01:40:00Z, via the modelled `gmtime` and `jtime`)
classifies as bucket 3 "Waxing Gibbous" with illuminated fraction
0.6547765466116484 and age 8.861826144635483 days (to within `1e-7`). -/
theorem claim_C7_classifier :
    (∀ p : ℝ, fraction_of_lunation_to_phase p < 8) ∧
    fraction_of_lunation_to_phase 0.25 = 2 ∧
    fraction_of_lunation_to_phase 0.5 = 4 ∧
    phaname.getD 2 "" = "First Quarter" ∧
    phaname.getD 4 "" = "Full Moon" ∧
    fraction_of_lunation_to_phase ((phase ((jtimeJD 794886000 : ℚ) : ℝ)).1) = 3 ∧
    phaname.getD 3 "" = "Waxing Gibbous" ∧
    |(phase ((jtimeJD 794886000 : ℚ) : ℝ)).2.1 - 0.6547765466116484| ≤ 1e-7 ∧
    |(phase ((jtimeJD 794886000 : ℚ) : ℝ)).2.2.1 - 8.861826144635483| ≤ 1e-7 := by
  have hjd : ((jtimeJD 794886000 : ℚ) : ℝ) = (176384705 / 72 : ℝ) := by
    rw [show jtimeJD 794886000 = (176384705 / 72 : ℚ) from by
      simp only [jtimeJD]
      rw [show gmtimeM 794886000 = (1995, 3, 11, 1, 40, 0) from by decide]
      norm_num [ucttoj, cTrunc, cQuot]]
    push_cast
    norm_num
  have b1 : |(176384705 / 72 : ℝ) - 176384705 / 72| ≤ 0 := by norm_num
  have b2 : |epoch - 2444238.5| ≤ 0 := by norm_num [epoch]
  have b3 := ball_sub _ _ _ _ (399533 / 72) 0 b1 b2 (by norm_num [abs_of_nonneg, abs_of_nonpos])
  have b4 : |Day ((176384705 / 72 : ℝ)) - 399533 / 72| ≤ 0 := by rw [Day]; exact b3
  have b5 : |(360 / 365.2422 : ℝ) - 600000 / 608737| ≤ 0 := by norm_num
  have b6 := ball_mul _ _ _ _ (9988325000 / 1826211) 0 b5 b4 (by norm_num [abs_of_nonneg, abs_of_nonpos])
  have b7 := ball_fixangle _ _ (126785600 / 1826211) 0 15 b6 (by norm_num) (by norm_num) (by norm_num [abs_of_nonneg, abs_of_nonpos])
  have b8 : |N ((176384705 / 72 : ℝ)) - 126785600 / 1826211| ≤ 0 := by rw [N]; exact b7
  have b9 : |elonge - 278.83354| ≤ 0 := by norm_num [elonge]
  have b10 : |elongp - 282.596403| ≤ 0 := by norm_num [elongp]
  have b11 := ball_add _ _ _ _ (31799723895847 / 91310550000) 0 b8 b9 (by norm_num [abs_of_nonneg, abs_of_nonpos])
  have b12 := ball_sub _ _ _ _ (119913818197907 / 1826211000000) 0 b11 b10 (by norm_num [abs_of_nonneg, abs_of_nonpos])
  have b13 := ball_fixangle _ _ (119913818197907 / 1826211000000) 0 0 b12 (by norm_num) (by norm_num) (by norm_num [abs_of_nonneg, abs_of_nonpos])
  have b14 : |M ((176384705 / 72 : ℝ)) - 119913818197907 / 1826211000000| ≤ 0 := by rw [M]; exact b13
  have b15 := ball_center _ _ 65.66263054921200233708 6.6e-22 b14 (by norm_num [abs_of_nonneg, abs_of_nonpos])
  have b16 := ball_torad _ _ 1.146029098604361932819 6.57e-17 b15 (by norm_num [abs_of_nonneg, abs_of_nonpos])
  have b17 := ball_half _ _ b16
  have b18 := ball_sin1 _ _ 0.5421675449338068468321 1.81e-10 b17 (by norm_num [abs_of_nonneg, abs_of_nonpos]) (by norm_num [abs_of_nonneg, abs_of_nonpos])
  have b19 := ball_cos1 _ _ 0.8402704048223593202826 1.81e-10 b17 (by norm_num [abs_of_nonneg, abs_of_nonpos]) (by norm_num [abs_of_nonneg, abs_of_nonpos])
  have b20 := ball_sin2 _ _ _ _ 0.9111346849261491323533 7.25e-10 b18 b19 (by norm_num [abs_of_nonneg, abs_of_nonpos]) (by norm_num [abs_of_nonneg, abs_of_nonpos])
  have b21 := ball_cos2 _ _ 0.4121087064406632265007 7.25e-10 b19 (by norm_num [abs_of_nonneg, abs_of_nonpos])
  have b22 : |eccent - 0.016718| ≤ 0 := by norm_num [eccent]
  have b23 := ball_mul _ _ _ _ 0.01523234966259536119468 1.22e-11 b22 b20 (by norm_num [abs_of_nonneg, abs_of_nonpos])
  have b24 := ball_sub _ _ _ _ 1.130796748941766571624 1.23e-11 b16 b23 (by norm_num [abs_of_nonneg, abs_of_nonpos])
  have b25 := ball_sub _ _ _ _ (-0.015232349662595361195) 1.24e-11 b24 b16 (by norm_num [abs_of_nonneg, abs_of_nonpos])
  have b26 : |eccent - 0.016718| ≤ 0 := by norm_num [eccent]
  have b27 := ball_mul _ _ _ _ 0.006889633354275007820639 1.22e-11 b26 b21 (by norm_num [abs_of_nonneg, abs_of_nonpos])
  have b28 : |(1 : ℝ) - 1| ≤ 0 := by norm_num
  have b29 := ball_sub _ _ _ _ 0.9931103666457249921794 1.23e-11 b28 b27 (by norm_num [abs_of_nonneg, abs_of_nonpos])
  have b30 := ball_div _ _ _ _ (-0.01533802301756582047592) 1.27e-11 b25 b29 (by norm_num) (by norm_num [abs_of_nonneg, abs_of_nonpos])
  have b31 := ball_sub _ _ _ _ 1.161367121621927753295 1.28e-11 b16 b30 (by norm_num [abs_of_nonneg, abs_of_nonpos])
  have b32 := ball_half _ _ b31
  have b33 := ball_sin1 _ _ 0.5485955818009643278591 1.87e-10 b32 (by norm_num [abs_of_nonneg, abs_of_nonpos]) (by norm_num [abs_of_nonneg, abs_of_nonpos])
  have b34 := ball_cos1 _ _ 0.8360878468368744338803 1.87e-10 b32 (by norm_num [abs_of_nonneg, abs_of_nonpos]) (by norm_num [abs_of_nonneg, abs_of_nonpos])
  have b35 := ball_sin2 _ _ _ _ 0.9173481975443813651029 7.49e-10 b33 b34 (by norm_num [abs_of_nonneg, abs_of_nonpos]) (by norm_num [abs_of_nonneg, abs_of_nonpos])
  have b36 := ball_cos2 _ _ 0.3980857752566416045825 7.49e-10 b34 (by norm_num [abs_of_nonneg, abs_of_nonpos])
  have b37 : |eccent - 0.016718| ≤ 0 := by norm_num [eccent]
  have b38 := ball_mul _ _ _ _ 0.01533622716654696766179 1.26e-11 b37 b35 (by norm_num [abs_of_nonneg, abs_of_nonpos])
  have b39 := ball_sub _ _ _ _ 1.146030894455380785633 2.55e-11 b31 b38 (by norm_num [abs_of_nonneg, abs_of_nonpos])
  have b40 := ball_sub _ _ _ _ 0.000001795851018852814 2.56e-11 b39 b16 (by norm_num [abs_of_nonneg, abs_of_nonpos])
  have b41 : |eccent - 0.016718| ≤ 0 := by norm_num [eccent]
  have b42 := ball_mul _ _ _ _ 0.00665519799074053434541 1.26e-11 b41 b36 (by norm_num [abs_of_nonneg, abs_of_nonpos])
  have b43 : |(1 : ℝ) - 1| ≤ 0 := by norm_num
  have b44 := ball_sub _ _ _ _ 0.9933448020092594656546 1.27e-11 b43 b42 (by norm_num [abs_of_nonneg, abs_of_nonpos])
  have b45 := ball_div _ _ _ _ 0.000001807882837077627322162 2.58e-11 b40 b44 (by norm_num) (by norm_num [abs_of_nonneg, abs_of_nonpos])
  have b46 := ball_sub _ _ _ _ 1.161365313739090675668 3.87e-11 b31 b45 (by norm_num [abs_of_nonneg, abs_of_nonpos])
  have b47 := ball_half _ _ b46
  have b48 := ball_sin1 _ _ 0.5485948260263059064572 0.0000000002 b47 (by norm_num [abs_of_nonneg, abs_of_nonpos]) (by norm_num [abs_of_nonneg, abs_of_nonpos])
  have b49 := ball_cos1 _ _ 0.836088342734801263195 0.0000000002 b47 (by norm_num [abs_of_nonneg, abs_of_nonpos]) (by norm_num [abs_of_nonneg, abs_of_nonpos])
  have b50 := ball_sin2 _ _ _ _ 0.917347477850441449722 8.01e-10 b48 b49 (by norm_num [abs_of_nonneg, abs_of_nonpos]) (by norm_num [abs_of_nonneg, abs_of_nonpos])
  have b51 := ball_cos2 _ _ 0.3980874337140530084567 8.01e-10 b49 (by norm_num [abs_of_nonneg, abs_of_nonpos])
  have b52 : |eccent - 0.016718| ≤ 0 := by norm_num [eccent]
  have b53 := ball_mul _ _ _ _ 0.01533621513470368015645 1.34e-11 b52 b50 (by norm_num [abs_of_nonneg, abs_of_nonpos])
  have b54 := ball_sub _ _ _ _ 1.146029098604386995512 5.22e-11 b46 b53 (by norm_num [abs_of_nonneg, abs_of_nonpos])
  have b55 := ball_sub _ _ _ _ 0.000000000000025062693 5.23e-11 b54 b16 (by norm_num [abs_of_nonneg, abs_of_nonpos])
  have b56 : |eccent - 0.016718| ≤ 0 := by norm_num [eccent]
  have b57 := ball_mul _ _ _ _ 0.006655225716831538195379 1.34e-11 b56 b51 (by norm_num [abs_of_nonneg, abs_of_nonpos])
  have b58 : |(1 : ℝ) - 1| ≤ 0 := by norm_num
  have b59 := ball_sub _ _ _ _ 0.9933447742831684618046 1.35e-11 b58 b57 (by norm_num [abs_of_nonneg, abs_of_nonpos])
  have b60 := ball_div _ _ _ _ 0.00000000000002523060839383394937026 5.27e-11 b55 b59 (by norm_num) (by norm_num [abs_of_nonneg, abs_of_nonpos])
  have b61 := ball_sub _ _ _ _ 1.16136531373906544506 9.15e-11 b46 b60 (by norm_num [abs_of_nonneg, abs_of_nonpos])
  have b62 : |EcK ((176384705 / 72 : ℝ)) - 1.16136531373906544506| ≤ 9.15e-11 := by
    rw [EcK, kepler, keplerF]
    rw [show (5 : ℕ) = 4 + 1 from rfl, keplerLoop_succ, if_neg (not_le.2 (ball_abs_gt _ _ 1e-6 b25 (by norm_num [abs_of_nonneg, abs_of_nonpos])))]
    rw [show (4 : ℕ) = 3 + 1 from rfl, keplerLoop_succ, if_neg (not_le.2 (ball_abs_gt _ _ 1e-6 b40 (by norm_num [abs_of_nonneg, abs_of_nonpos])))]
    rw [show (3 : ℕ) = 2 + 1 from rfl, keplerLoop_succ, if_pos (ball_abs_le _ _ 1e-6 b55 (by norm_num [abs_of_nonneg, abs_of_nonpos]))]
    rw [Option.getD_some]
    exact ball_center _ _ _ _ b61 (by norm_num [abs_of_nonneg, abs_of_nonpos])
  have b63 := ball_sqrt_const ((1 + eccent) / (1 - eccent)) 1.016860111821630238471 1e-20 (by norm_num) (by norm_num [eccent]) (by norm_num [eccent]) (by norm_num [eccent])
  have b64 := ball_half _ _ b62
  have b65 := ball_sin1 _ _ 0.5485948260262953589486 2.26e-10 b64 (by norm_num [abs_of_nonneg, abs_of_nonpos]) (by norm_num [abs_of_nonneg, abs_of_nonpos])
  have b66 := ball_cos1 _ _ 0.8360883427348081838855 2.26e-10 b64 (by norm_num [abs_of_nonneg, abs_of_nonpos]) (by norm_num [abs_of_nonneg, abs_of_nonpos])
  have b67 := ball_tan _ _ _ _ 0.6561445698810556542696 4.48e-10 b65 b66 (by norm_num) (by norm_num [abs_of_nonneg, abs_of_nonpos])
  have b68 := ball_mul _ _ _ _ 0.6672072407004057288206 4.56e-10 b63 b67 (by norm_num [abs_of_nonneg, abs_of_nonpos])
  have b69 : |(0.5883767504275209 : ℝ) - 0.5883767504275209| ≤ 0 := by norm_num
  have b70 := ball_sin1 _ _ 0.5550114664142951124717 1.81e-10 b69 (by norm_num [abs_of_nonneg, abs_of_nonpos]) (by norm_num [abs_of_nonneg, abs_of_nonpos])
  have b71 := ball_cos1 _ _ 0.8318426967573165400745 1.81e-10 b69 (by norm_num [abs_of_nonneg, abs_of_nonpos]) (by norm_num [abs_of_nonneg, abs_of_nonpos])
  have b72 := ball_tan _ _ _ _ 0.6672072359087084381404 3.63e-10 b70 b71 (by norm_num) (by norm_num [abs_of_nonneg, abs_of_nonpos])
  have b73 : |(0.5883767570585906 : ℝ) - 0.5883767570585906| ≤ 0 := by norm_num
  have b74 := ball_sin1 _ _ 0.5550114719303020018794 1.81e-10 b73 (by norm_num [abs_of_nonneg, abs_of_nonpos]) (by norm_num [abs_of_nonneg, abs_of_nonpos])
  have b75 := ball_cos1 _ _ 0.8318426930769968036936 1.81e-10 b73 (by norm_num [abs_of_nonneg, abs_of_nonpos]) (by norm_num [abs_of_nonneg, abs_of_nonpos])
  have b76 := ball_tan _ _ _ _ 0.6672072454917016101929 3.63e-10 b74 b75 (by norm_num) (by norm_num [abs_of_nonneg, abs_of_nonpos])
  have b77 := ball_arctan _ _ _ _ _ _ _ _ 0.58837675374305575 3.32e-9 b68 b72 b76 (by norm_num [abs_of_nonneg, abs_of_nonpos]) (by norm_num [abs_of_nonneg, abs_of_nonpos]) (by norm_num) (by norm_num) (by norm_num) (by norm_num)
  have b78 := ball_todeg _ _ 33.71150475308525539724 0.000000191 b77 (by norm_num [abs_of_nonneg, abs_of_nonpos])
  have b79 : |(2 : ℝ) - 2| ≤ 0 := by norm_num
  have b80 := ball_mul _ _ _ _ 67.42300950617051079448 0.000000382 b79 b78 (by norm_num [abs_of_nonneg, abs_of_nonpos])
  have b81 : |Ec ((176384705 / 72 : ℝ)) - 67.42300950617051079448| ≤ 0.000000382 := by rw [Ec]; exact b80
  have b82 := ball_add _ _ _ _ 350.0194125061705107945 0.000000383 b81 b10 (by norm_num [abs_of_nonneg, abs_of_nonpos])
  have b83 := ball_fixangle _ _ 350.0194125061705107945 0.000000383 0 b82 (by norm_num) (by norm_num) (by norm_num [abs_of_nonneg, abs_of_nonpos])
  have b84 : |Lambdasun ((176384705 / 72 : ℝ)) - 350.0194125061705107945| ≤ 0.000000383 := by rw [Lambdasun]; exact b83
  have b85 : |eccent - 0.016718| ≤ 0 := by norm_num [eccent]
  have b86 : |360 * ((0 : ℤ) : ℝ) + 90 - 90| ≤ 0 := by norm_num
  have b87 := ball_sub _ _ _ _ (-22.57699049382948920552) 0.000000382 b81 b86 (by norm_num [abs_of_nonneg, abs_of_nonpos])
  have b88 := ball_torad _ _ (-0.3940428193087851018602) 6.67e-9 b87 (by norm_num [abs_of_nonneg, abs_of_nonpos])
  have b89 := ball_sin1 _ _ (-0.3839245381740519824449) 6.86e-9 b88 (by norm_num [abs_of_nonneg, abs_of_nonpos]) (by norm_num [abs_of_nonneg, abs_of_nonpos])
  have b90 : |Real.cos (torad (Ec ((176384705 / 72 : ℝ)))) - 0.3839245381740519824449| ≤ 6.86e-9 := by rw [cos_torad_shift90 (Ec ((176384705 / 72 : ℝ))) 0]; exact ball_neg _ _ 0.3839245381740519824449 6.86e-9 b89 (by norm_num [abs_of_nonneg, abs_of_nonpos])
  have b91 : |(1 : ℝ) - 1| ≤ 0 := by norm_num
  have b92 := ball_mul _ _ _ _ 0.006418450429193801042514 1.15e-10 b85 b90 (by norm_num [abs_of_nonneg, abs_of_nonpos])
  have b93 := ball_add _ _ _ _ 1.006418450429193801043 1.16e-10 b91 b92 (by norm_num [abs_of_nonneg, abs_of_nonpos])
  have b94 : |(1 - eccent * eccent : ℝ) - 0.999720508476| ≤ 0 := by norm_num [eccent]
  have b95 := ball_div _ _ _ _ 1.006699814494557402181 1.17e-10 b93 b94 (by norm_num) (by norm_num [abs_of_nonneg, abs_of_nonpos])
  have b96 : |F ((176384705 / 72 : ℝ)) - 1.006699814494557402181| ≤ 1.17e-10 := by rw [F]; exact b95
  have b97 : |sunsmax - 149598500| ≤ 0 := by norm_num [sunsmax]
  have b98 := ball_div _ _ _ _ 148602888.2156000295511 0.0173 b97 b96 (by norm_num) (by norm_num [abs_of_nonneg, abs_of_nonpos])
  have b99 : |SunDist ((176384705 / 72 : ℝ)) - 148602888.2156000295511| ≤ 0.0173 := by rw [SunDist]; exact b98
  have b100 : |sunangsiz - 0.533128| ≤ 0 := by norm_num [sunangsiz]
  have b101 := ball_mul _ _ _ _ 0.53669985870185439871 6.24e-11 b96 b100 (by norm_num [abs_of_nonneg, abs_of_nonpos])
  have b102 : |SunAng ((176384705 / 72 : ℝ)) - 0.53669985870185439871| ≤ 6.24e-11 := by rw [SunAng]; exact b101
  have b103 : |mmlong - 64.975464| ≤ 0 := by norm_num [mmlong]
  have b104 : |(13.1763966 : ℝ) - 13.1763966| ≤ 0 := by norm_num
  have b105 := ball_mul _ _ _ _ (8774008771313 / 120000000) 0 b104 b4 (by norm_num [abs_of_nonneg, abs_of_nonpos])
  have b106 := ball_add _ _ _ _ (8781805826993 / 120000000) 0 b105 b103 (by norm_num [abs_of_nonneg, abs_of_nonpos])
  have b107 := ball_fixangle _ _ (12205826993 / 120000000) 0 203 b106 (by norm_num) (by norm_num) (by norm_num [abs_of_nonneg, abs_of_nonpos])
  have b108 : |ml ((176384705 / 72 : ℝ)) - 12205826993 / 120000000| ≤ 0 := by rw [ml]; exact b107
  have b109 : |mmlongp - 349.383063| ≤ 0 := by norm_num [mmlongp]
  have b110 : |(0.1114041 : ℝ) - 0.1114041| ≤ 0 := by norm_num
  have b111 := ball_mul _ _ _ _ (148365380951 / 240000000) 0 b110 b4 (by norm_num [abs_of_nonneg, abs_of_nonpos])
  have b112 := ball_sub _ _ _ _ (-24790745393 / 48000000) 0 b108 b111 (by norm_num [abs_of_nonneg, abs_of_nonpos])
  have b113 := ball_sub _ _ _ _ (-41561132417 / 48000000) 0 b112 b109 (by norm_num [abs_of_nonneg, abs_of_nonpos])
  have b114 := ball_fixangle _ _ (10278867583 / 48000000) 0 (-3) b113 (by norm_num) (by norm_num) (by norm_num [abs_of_nonneg, abs_of_nonpos])
  have b115 : |MM ((176384705 / 72 : ℝ)) - 10278867583 / 48000000| ≤ 0 := by rw [MM]; exact b114
  have b116 : |(2 : ℝ) - 2| ≤ 0 := by norm_num
  have b117 := ball_sub _ _ _ _ (-248.3041875645038441278) 0.000000384 b108 b84 (by norm_num [abs_of_nonneg, abs_of_nonpos])
  have b118 := ball_mul _ _ _ _ (-496.6083751290076882556) 0.000000768 b116 b117 (by norm_num [abs_of_nonneg, abs_of_nonpos])
  have b119 := ball_sub _ _ _ _ (-710.7514497748410215889) 0.000000769 b118 b115 (by norm_num [abs_of_nonneg, abs_of_nonpos])
  have b120 : |360 * ((-2 : ℤ) : ℝ) - -720| ≤ 0 := by norm_num
  have b121 := ball_sub _ _ _ _ 9.2485502251589784111 0.000000769 b119 b120 (by norm_num [abs_of_nonneg, abs_of_nonpos])
  have b122 := ball_torad _ _ 0.1614176524650870746728 0.0000000135 b121 (by norm_num [abs_of_nonneg, abs_of_nonpos])
  have b123 := ball_sin1 _ _ 0.1607175912433971218502 0.0000000137 b122 (by norm_num [abs_of_nonneg, abs_of_nonpos]) (by norm_num [abs_of_nonneg, abs_of_nonpos])
  have b124 : |Real.sin (torad ((2 : ℝ) * (ml ((176384705 / 72 : ℝ)) - Lambdasun ((176384705 / 72 : ℝ))) - MM ((176384705 / 72 : ℝ)))) - 0.1607175912433971218502| ≤ 0.0000000137 := by rw [sin_torad_shift ((2 : ℝ) * (ml ((176384705 / 72 : ℝ)) - Lambdasun ((176384705 / 72 : ℝ))) - MM ((176384705 / 72 : ℝ))) (-2)]; exact b123
  have b125 : |(1.2739 : ℝ) - 1.2739| ≤ 0 := by norm_num
  have b126 := ball_mul _ _ _ _ 0.204738139484963593525 0.0000000175 b125 b124 (by norm_num [abs_of_nonneg, abs_of_nonpos])
  have b127 : |Ev ((176384705 / 72 : ℝ)) - 0.204738139484963593525| ≤ 0.0000000175 := by rw [Ev]; exact b126
  have b128 : |(0.1858 : ℝ) - 0.1858| ≤ 0 := by norm_num
  have b129 := ball_mul _ _ _ _ 0.1692888244592785087912 1.35e-10 b128 b20 (by norm_num [abs_of_nonneg, abs_of_nonpos])
  have b130 : |Ae ((176384705 / 72 : ℝ)) - 0.1692888244592785087912| ≤ 1.35e-10 := by rw [Ae]; exact b129
  have b131 : |(0.37 : ℝ) - 0.37| ≤ 0 := by norm_num
  have b132 := ball_mul _ _ _ _ 0.3371198334226751789707 2.69e-10 b131 b20 (by norm_num [abs_of_nonneg, abs_of_nonpos])
  have b133 : |A3 ((176384705 / 72 : ℝ)) - 0.3371198334226751789707| ≤ 2.69e-10 := by rw [A3]; exact b132
  have b134 := ball_add _ _ _ _ 214.3478127853182969269 0.0000000176 b115 b127 (by norm_num [abs_of_nonneg, abs_of_nonpos])
  have b135 := ball_sub _ _ _ _ 214.1785239608590184181 0.0000000178 b134 b130 (by norm_num [abs_of_nonneg, abs_of_nonpos])
  have b136 := ball_sub _ _ _ _ 213.8414041274363432391 0.0000000181 b135 b133 (by norm_num [abs_of_nonneg, abs_of_nonpos])
  have b137 : |MmP ((176384705 / 72 : ℝ)) - 213.8414041274363432391| ≤ 0.0000000181 := by rw [MmP]; exact b136
  have b138 : |360 * ((0 : ℤ) : ℝ) + 180 - 180| ≤ 0 := by norm_num
  have b139 := ball_sub _ _ _ _ 33.8414041274363432391 0.0000000181 b137 b138 (by norm_num [abs_of_nonneg, abs_of_nonpos])
  have b140 := ball_torad _ _ 0.5906439255217628794101 3.17e-10 b139 (by norm_num [abs_of_nonneg, abs_of_nonpos])
  have b141 := ball_sin1 _ _ 0.5568959714411952952239 4.98e-10 b140 (by norm_num [abs_of_nonneg, abs_of_nonpos]) (by norm_num [abs_of_nonneg, abs_of_nonpos])
  have b142 : |Real.sin (torad (MmP ((176384705 / 72 : ℝ)))) - -0.5568959714411952952239| ≤ 4.98e-10 := by rw [sin_torad_shift180 (MmP ((176384705 / 72 : ℝ))) 0]; exact ball_neg _ _ (-0.5568959714411952952239) 4.98e-10 b141 (by norm_num [abs_of_nonneg, abs_of_nonpos])
  have b143 : |(6.2886 : ℝ) - 6.2886| ≤ 0 := by norm_num
  have b144 := ball_mul _ _ _ _ (-3.502096006005100733545) 3.14e-9 b143 b142 (by norm_num [abs_of_nonneg, abs_of_nonpos])
  have b145 : |mEc ((176384705 / 72 : ℝ)) - -3.502096006005100733545| ≤ 3.14e-9 := by rw [mEc]; exact b144
  have b146 : |(2 : ℝ) - 2| ≤ 0 := by norm_num
  have b147 := ball_mul _ _ _ _ 427.6828082548726864782 0.0000000362 b146 b137 (by norm_num [abs_of_nonneg, abs_of_nonpos])
  have b148 : |360 * ((1 : ℤ) : ℝ) + 90 - 450| ≤ 0 := by norm_num
  have b149 := ball_sub _ _ _ _ (-22.3171917451273135218) 0.0000000362 b147 b148 (by norm_num [abs_of_nonneg, abs_of_nonpos])
  have b150 := ball_torad _ _ (-0.3895084757513707911798) 6.33e-10 b149 (by norm_num [abs_of_nonneg, abs_of_nonpos])
  have b151 := ball_cos1 _ _ 0.925095819947666828393 8.14e-10 b150 (by norm_num [abs_of_nonneg, abs_of_nonpos]) (by norm_num [abs_of_nonneg, abs_of_nonpos])
  have b152 : |Real.sin (torad ((2 : ℝ) * MmP ((176384705 / 72 : ℝ)))) - 0.925095819947666828393| ≤ 8.14e-10 := by rw [sin_torad_shift90 ((2 : ℝ) * MmP ((176384705 / 72 : ℝ))) 1]; exact b151
  have b153 : |(0.214 : ℝ) - 0.214| ≤ 0 := by norm_num
  have b154 := ball_mul _ _ _ _ 0.1979705054688007012761 1.75e-10 b153 b152 (by norm_num [abs_of_nonneg, abs_of_nonpos])
  have b155 : |A4 ((176384705 / 72 : ℝ)) - 0.1979705054688007012761| ≤ 1.75e-10 := by rw [A4]; exact b154
  have b156 := ball_add _ _ _ _ 101.9199630811516302602 0.0000000176 b108 b127 (by norm_num [abs_of_nonneg, abs_of_nonpos])
  have b157 := ball_add _ _ _ _ 98.41786707514652952666 0.0000000208 b156 b145 (by norm_num [abs_of_nonneg, abs_of_nonpos])
  have b158 := ball_sub _ _ _ _ 98.24857825068725101787 0.000000021 b157 b130 (by norm_num [abs_of_nonneg, abs_of_nonpos])
  have b159 := ball_add _ _ _ _ 98.44654875615605171915 0.0000000212 b158 b155 (by norm_num [abs_of_nonneg, abs_of_nonpos])
  have b160 : |lP ((176384705 / 72 : ℝ)) - 98.44654875615605171915| ≤ 0.0000000212 := by rw [lP]; exact b159
  have b161 : |(2 : ℝ) - 2| ≤ 0 := by norm_num
  have b162 := ball_sub _ _ _ _ (-251.5728637500144590754) 0.000000405 b160 b84 (by norm_num [abs_of_nonneg, abs_of_nonpos])
  have b163 := ball_mul _ _ _ _ (-503.1457275000289181508) 0.00000081 b161 b162 (by norm_num [abs_of_nonneg, abs_of_nonpos])
  have b164 : |360 * ((-2 : ℤ) : ℝ) + 180 - -540| ≤ 0 := by norm_num
  have b165 := ball_sub _ _ _ _ 36.8542724999710818492 0.00000081 b163 b164 (by norm_num [abs_of_nonneg, abs_of_nonpos])
  have b166 := ball_torad _ _ 0.6432283985516971615328 0.0000000142 b165 (by norm_num [abs_of_nonneg, abs_of_nonpos])
  have b167 := ball_sin1 _ _ 0.5997818094976546798066 0.0000000144 b166 (by norm_num [abs_of_nonneg, abs_of_nonpos]) (by norm_num [abs_of_nonneg, abs_of_nonpos])
  have b168 : |Real.sin (torad ((2 : ℝ) * (lP ((176384705 / 72 : ℝ)) - Lambdasun ((176384705 / 72 : ℝ))))) - -0.5997818094976546798066| ≤ 0.0000000144 := by rw [sin_torad_shift180 ((2 : ℝ) * (lP ((176384705 / 72 : ℝ)) - Lambdasun ((176384705 / 72 : ℝ)))) (-2)]; exact ball_neg _ _ (-0.5997818094976546798066) 0.0000000144 b167 (by norm_num [abs_of_nonneg, abs_of_nonpos])
  have b169 : |(0.6583 : ℝ) - 0.6583| ≤ 0 := by norm_num
  have b170 := ball_mul _ _ _ _ (-0.3948363651923060757167) 9.48e-9 b169 b168 (by norm_num [abs_of_nonneg, abs_of_nonpos])
  have b171 : |V ((176384705 / 72 : ℝ)) - -0.3948363651923060757167| ≤ 9.48e-9 := by rw [V]; exact b170
  have b172 := ball_add _ _ _ _ 98.05171239096374564343 0.0000000307 b160 b171 (by norm_num [abs_of_nonneg, abs_of_nonpos])
  have b173 : |lPP ((176384705 / 72 : ℝ)) - 98.05171239096374564343| ≤ 0.0000000307 := by rw [lPP]; exact b172
  have b174 := ball_sub _ _ _ _ (-251.9677001152067651511) 0.000000414 b173 b84 (by norm_num [abs_of_nonneg, abs_of_nonpos])
  have b175 : |MoonAge ((176384705 / 72 : ℝ)) - -251.9677001152067651511| ≤ 0.000000414 := by rw [MoonAge]; exact b174
  have b176 : |360 * ((-1 : ℤ) : ℝ) + 90 - -270| ≤ 0 := by norm_num
  have b177 := ball_sub _ _ _ _ 18.0322998847932348489 0.000000414 b175 b176 (by norm_num [abs_of_nonneg, abs_of_nonpos])
  have b178 := ball_torad _ _ 0.3147230046966361059699 7.23e-9 b177 (by norm_num [abs_of_nonneg, abs_of_nonpos])
  have b179 := ball_sin1 _ _ 0.3095530932140051900791 7.42e-9 b178 (by norm_num [abs_of_nonneg, abs_of_nonpos]) (by norm_num [abs_of_nonneg, abs_of_nonpos])
  have b180 : |Real.cos (torad (MoonAge ((176384705 / 72 : ℝ)))) - -0.3095530932140051900791| ≤ 7.42e-9 := by rw [cos_torad_shift90 (MoonAge ((176384705 / 72 : ℝ))) (-1)]; exact ball_neg _ _ (-0.3095530932140051900791) 7.42e-9 b179 (by norm_num [abs_of_nonneg, abs_of_nonpos])
  have b181 : |(1 : ℝ) - 1| ≤ 0 := by norm_num
  have b182 := ball_sub _ _ _ _ 1.309553093214005190079 7.43e-9 b181 b180 (by norm_num [abs_of_nonneg, abs_of_nonpos])
  have b183 : |(2 : ℝ) - 2| ≤ 0 := by norm_num
  have b184 := ball_div _ _ _ _ 0.6547765466070025950395 3.72e-9 b182 b183 (by norm_num) (by norm_num [abs_of_nonneg, abs_of_nonpos])
  have b185 : |MoonPhase ((176384705 / 72 : ℝ)) - 0.6547765466070025950395| ≤ 3.72e-9 := by rw [MoonPhase]; exact b184
  have b186 : |msmax * (1 - mecc * mecc) - 383242.41154199| ≤ 0 := by norm_num [msmax, mecc]
  have b187 : |mecc - 0.0549| ≤ 0 := by norm_num [mecc]
  have b188 := ball_add _ _ _ _ 210.3393081214312425056 0.0000000213 b137 b145 (by norm_num [abs_of_nonneg, abs_of_nonpos])
  have b189 : |360 * ((0 : ℤ) : ℝ) + 180 - 180| ≤ 0 := by norm_num
  have b190 := ball_sub _ _ _ _ 30.3393081214312425056 0.0000000213 b188 b189 (by norm_num [abs_of_nonneg, abs_of_nonpos])
  have b191 := ball_torad _ _ 0.5295208194960307660503 3.72e-10 b190 (by norm_num [abs_of_nonneg, abs_of_nonpos])
  have b192 := ball_cos1 _ _ 0.8630492131704338139277 5.53e-10 b191 (by norm_num [abs_of_nonneg, abs_of_nonpos]) (by norm_num [abs_of_nonneg, abs_of_nonpos])
  have b193 : |Real.cos (torad (MmP ((176384705 / 72 : ℝ)) + mEc ((176384705 / 72 : ℝ)))) - -0.8630492131704338139277| ≤ 5.53e-10 := by rw [cos_torad_shift180 (MmP ((176384705 / 72 : ℝ)) + mEc ((176384705 / 72 : ℝ))) 0]; exact ball_neg _ _ (-0.8630492131704338139277) 5.53e-10 b192 (by norm_num [abs_of_nonneg, abs_of_nonpos])
  have b194 : |(1 : ℝ) - 1| ≤ 0 := by norm_num
  have b195 := ball_mul _ _ _ _ (-0.04738140180305681638463) 3.04e-11 b187 b193 (by norm_num [abs_of_nonneg, abs_of_nonpos])
  have b196 := ball_add _ _ _ _ 0.9526185981969431836154 3.05e-11 b194 b195 (by norm_num [abs_of_nonneg, abs_of_nonpos])
  have b197 := ball_div _ _ _ _ 402304.1459272023793928 0.0000129 b186 b196 (by norm_num) (by norm_num [abs_of_nonneg, abs_of_nonpos])
  have b198 : |MoonDist ((176384705 / 72 : ℝ)) - 402304.1459272023793928| ≤ 0.0000129 := by rw [MoonDist]; exact b197
  have b199 : |msmax - 384401| ≤ 0 := by norm_num [msmax]
  have b200 := ball_div _ _ _ _ 1.046574139836270923834 3.36e-11 b198 b199 (by norm_num) (by norm_num [abs_of_nonneg, abs_of_nonpos])
  have b201 : |MoonDFrac ((176384705 / 72 : ℝ)) - 1.046574139836270923834| ≤ 3.36e-11 := by rw [MoonDFrac]; exact b200
  have b202 : |mangsiz - 0.5181| ≤ 0 := by norm_num [mangsiz]
  have b203 := ball_div _ _ _ _ 0.4950437625766800027262 1.59e-11 b202 b201 (by norm_num) (by norm_num [abs_of_nonneg, abs_of_nonpos])
  have b204 : |MoonAng ((176384705 / 72 : ℝ)) - 0.4950437625766800027262| ≤ 1.59e-11 := by rw [MoonAng]; exact b203
  have b205 := ball_fixangle _ _ 108.0322998847932348489 0.000000414 (-1) b175 (by norm_num) (by norm_num) (by norm_num [abs_of_nonneg, abs_of_nonpos])
  have b206 : |(360.0 : ℝ) - 360| ≤ 0 := by norm_num
  have b207 := ball_div _ _ _ _ 0.3000897219022034301358 1.16e-9 b205 b206 (by norm_num) (by norm_num [abs_of_nonneg, abs_of_nonpos])
  have b208 : |synmonth - 29.53058868| ≤ 0 := by norm_num [synmonth]
  have b209 := ball_mul _ _ _ _ 8.861826144589556681025 0.0000000343 b208 b207 (by norm_num [abs_of_nonneg, abs_of_nonpos])
  refine ⟨?_, ?_, ?_, rfl, rfl, ?_, rfl, ?_, ?_⟩
  · intro p
    simp only [fraction_of_lunation_to_phase]
    split_ifs <;> norm_num
  · norm_num [fraction_of_lunation_to_phase, synmonth]
  · norm_num [fraction_of_lunation_to_phase, synmonth]
  · rw [hjd]
    show fraction_of_lunation_to_phase (fixangle (MoonAge (176384705 / 72 : ℝ)) / 360.0) = 3
    simp only [fraction_of_lunation_to_phase]
    rw [if_neg (not_lt.2 (ball_ge _ _ (0.00 + 1 / synmonth * 0.75) b207 (by norm_num [synmonth]))),
      if_neg (not_lt.2 (ball_ge _ _ (0.25 - 1 / synmonth * 0.75) b207 (by norm_num [synmonth]))),
      if_neg (not_lt.2 (ball_ge _ _ (0.25 + 1 / synmonth * 0.75) b207 (by norm_num [synmonth]))),
      if_pos (ball_lt _ _ (0.50 - 1 / synmonth * 0.75) b207 (by norm_num [synmonth]))]
  · rw [hjd]
    show |MoonPhase (176384705 / 72 : ℝ) - 0.6547765466116484| ≤ 1e-7
    exact ball_center _ _ _ _ b185 (by norm_num [abs_of_nonneg, abs_of_nonpos])
  · rw [hjd]
    show |synmonth * (fixangle (MoonAge (176384705 / 72 : ℝ)) / 360.0) - 8.861826144635483| ≤ 1e-7
    exact ball_center _ _ _ _ b209 (by norm_num [abs_of_nonneg, abs_of_nonpos])

set_option maxHeartbeats 3200000 in
lemma huntC6_loop :
    phasehuntLoop ((176384705 / 72 : ℝ) + 0.5)
      (meanphase ((176384705 / 72 : ℝ) + 0.5 - (45 : ℝ)) 1175) 1175
      (meanphase ((176384705 / 72 : ℝ) + 0.5 - (45 : ℝ)) 1175) 20 = some (1177, 1178) := by
  have b1 : |(176384705 / 72 : ℝ) + 0.5 - 176384741 / 72| ≤ 0 := by norm_num
  have b2 := ball_refl (45 : ℝ)
  have b3 := ball_sub _ _ _ _ (176381501 / 72) 0 b1 b2 (by norm_num [abs_of_nonneg, abs_of_nonpos])
  have b4 : |(2415020.0 : ℝ) - 2415020| ≤ 0 := by norm_num
  have b5 := ball_sub _ _ _ _ (2500061 / 72) 0 b3 b4 (by norm_num [abs_of_nonneg, abs_of_nonpos])
  have b6 := ball_refl (36525 : ℝ)
  have b7 := ball_div _ _ _ _ 0.950665830101148 3.77e-16 b5 b6 (by norm_num) (by norm_num [abs_of_nonneg, abs_of_nonpos])
  have b8 := ball_mul _ _ _ _ 0.903765520521905 9.23e-16 b7 b7 (by norm_num [abs_of_nonneg, abs_of_nonpos])
  have b9 := ball_mul _ _ _ _ 0.859178998783753 1.3e-15 b8 b7 (by norm_num [abs_of_nonneg, abs_of_nonpos])
  have b10 := ball_refl (1175 : ℝ)
  have b11 := ball_refl (2415020.75933 : ℝ)
  have b12 := ball_mul _ _ _ _ 34698.441699 0 synmonth_ball b10 (by norm_num [abs_of_nonneg, abs_of_nonpos])
  have b13 := ball_add _ _ _ _ 2449719.201029 0 b11 b12 (by norm_num [abs_of_nonneg, abs_of_nonpos])
  have b14 := ball_refl (0.0001178 : ℝ)
  have b15 := ball_mul _ _ _ _ 0.00010646357831748 5.18e-19 b14 b8 (by norm_num [abs_of_nonneg, abs_of_nonpos])
  have b16 := ball_add _ _ _ _ 2449719.20113546 3.58e-9 b13 b15 (by norm_num [abs_of_nonneg, abs_of_nonpos])
  have b17 := ball_refl (0.000000155 : ℝ)
  have b18 := ball_mul _ _ _ _ 0.000000133172744811482 4.87e-22 b17 b9 (by norm_num [abs_of_nonneg, abs_of_nonpos])
  have b19 := ball_sub _ _ _ _ 2449719.20113533 6.76e-9 b16 b18 (by norm_num [abs_of_nonneg, abs_of_nonpos])
  have b20 := ball_refl (166.56 : ℝ)
  have b21 := ball_refl (132.87 : ℝ)
  have b22 := ball_mul _ _ _ _ 126.31496884554 5.16e-13 b21 b7 (by norm_num [abs_of_nonneg, abs_of_nonpos])
  have b23 := ball_add _ _ _ _ 292.87496884554 5.16e-13 b20 b22 (by norm_num [abs_of_nonneg, abs_of_nonpos])
  have b24 := ball_refl (0.009173 : ℝ)
  have b25 := ball_mul _ _ _ _ 0.00829024111974743 1.31e-17 b24 b8 (by norm_num [abs_of_nonneg, abs_of_nonpos])
  have b26 := ball_sub _ _ _ _ 292.86667860442 7.69e-13 b23 b25 (by norm_num [abs_of_nonneg, abs_of_nonpos])
  have b27 : |360 * ((0 : ℤ) : ℝ) + 270 - 270| ≤ 0 := by norm_num
  have b28 := ball_sub _ _ _ _ 22.86667860442 7.69e-13 b26 b27 (by norm_num [abs_of_nonneg, abs_of_nonpos])
  have b29 := ball_torad _ _ 0.399098830642471 1.35e-14 b28 (by norm_num [abs_of_nonneg, abs_of_nonpos])
  have b30 := ball_cos1 _ _ 0.921411551833083 1.81e-10 b29 (by norm_num [abs_of_nonneg, abs_of_nonpos]) (by norm_num [abs_of_nonneg, abs_of_nonpos])
  have b31 : |dsin ((166.56 : ℝ) + ((132.87 : ℝ) * (((176384705 / 72 : ℝ) + 0.5 - (45 : ℝ) - (2415020.0 : ℝ)) / (36525 : ℝ))) - ((0.009173 : ℝ) * ((((176384705 / 72 : ℝ) + 0.5 - (45 : ℝ) - (2415020.0 : ℝ)) / (36525 : ℝ)) * (((176384705 / 72 : ℝ) + 0.5 - (45 : ℝ) - (2415020.0 : ℝ)) / (36525 : ℝ))))) - -0.921411551833083| ≤ 1.81e-10 := by rw [dsin, sin_torad_shift270 ((166.56 : ℝ) + ((132.87 : ℝ) * (((176384705 / 72 : ℝ) + 0.5 - (45 : ℝ) - (2415020.0 : ℝ)) / (36525 : ℝ))) - ((0.009173 : ℝ) * ((((176384705 / 72 : ℝ) + 0.5 - (45 : ℝ) - (2415020.0 : ℝ)) / (36525 : ℝ)) * (((176384705 / 72 : ℝ) + 0.5 - (45 : ℝ) - (2415020.0 : ℝ)) / (36525 : ℝ))))) 0]; exact ball_neg _ _ (-0.921411551833083) 1.81e-10 b30 (by norm_num [abs_of_nonneg, abs_of_nonpos])
  have b32 := ball_refl (0.00033 : ℝ)
  have b33 := ball_mul _ _ _ _ (-0.000304065812104917) 5.98e-14 b32 b31 (by norm_num [abs_of_nonneg, abs_of_nonpos])
  have b34 := ball_add _ _ _ _ 2449719.20083126 0.000000011 b19 b33 (by norm_num [abs_of_nonneg, abs_of_nonpos])
  have b35 : |meanphase ((176384705 / 72 : ℝ) + 0.5 - (45 : ℝ)) 1175 - 2449719.20083126| ≤ 0.000000011 := by
    simp only [meanphase]
    exact ball_center _ _ _ _ b34 (by norm_num [abs_of_nonneg, abs_of_nonpos])
  have b36 := ball_add _ _ _ _ 2449748.73141994 0.000000011 b35 synmonth_ball (by norm_num [abs_of_nonneg, abs_of_nonpos])
  have b37 : |(2415020.0 : ℝ) - 2415020| ≤ 0 := by norm_num
  have b38 := ball_sub _ _ _ _ 34728.73141994 0.000000011 b36 b37 (by norm_num [abs_of_nonneg, abs_of_nonpos])
  have b39 := ball_refl (36525 : ℝ)
  have b40 := ball_div _ _ _ _ 0.950820846541821 3.02e-13 b38 b39 (by norm_num) (by norm_num [abs_of_nonneg, abs_of_nonpos])
  have b41 := ball_mul _ _ _ _ 0.904060282218505 5.75e-13 b40 b40 (by norm_num [abs_of_nonneg, abs_of_nonpos])
  have b42 := ball_mul _ _ _ _ 0.859599362863837 8.21e-13 b41 b40 (by norm_num [abs_of_nonneg, abs_of_nonpos])
  have b43 : |(1175 + 1 : ℝ) - 1176| ≤ 0 := by norm_num
  have b44 := ball_refl (2415020.75933 : ℝ)
  have b45 := ball_mul _ _ _ _ 34727.97228768 0 synmonth_ball b43 (by norm_num [abs_of_nonneg, abs_of_nonpos])
  have b46 := ball_add _ _ _ _ 2449748.73161768 0 b44 b45 (by norm_num [abs_of_nonneg, abs_of_nonpos])
  have b47 := ball_refl (0.0001178 : ℝ)
  have b48 := ball_mul _ _ _ _ 0.00010649830124534 6.79e-17 b47 b41 (by norm_num [abs_of_nonneg, abs_of_nonpos])
  have b49 := ball_add _ _ _ _ 2449748.73172418 0.0000000017 b46 b48 (by norm_num [abs_of_nonneg, abs_of_nonpos])
  have b50 := ball_refl (0.000000155 : ℝ)
  have b51 := ball_mul _ _ _ _ 0.000000133237901243895 1.28e-19 b50 b42 (by norm_num [abs_of_nonneg, abs_of_nonpos])
  have b52 := ball_sub _ _ _ _ 2449748.73172405 4.94e-9 b49 b51 (by norm_num [abs_of_nonneg, abs_of_nonpos])
  have b53 := ball_refl (166.56 : ℝ)
  have b54 := ball_refl (132.87 : ℝ)
  have b55 := ball_mul _ _ _ _ 126.335565880012 4.04e-11 b54 b40 (by norm_num [abs_of_nonneg, abs_of_nonpos])
  have b56 := ball_add _ _ _ _ 292.895565880012 4.04e-11 b53 b55 (by norm_num [abs_of_nonneg, abs_of_nonpos])
  have b57 := ball_refl (0.009173 : ℝ)
  have b58 := ball_mul _ _ _ _ 0.00829294496879035 5.28e-15 b57 b41 (by norm_num [abs_of_nonneg, abs_of_nonpos])
  have b59 := ball_sub _ _ _ _ 292.887272935043 4.07e-11 b56 b58 (by norm_num [abs_of_nonneg, abs_of_nonpos])
  have b60 : |360 * ((0 : ℤ) : ℝ) + 270 - 270| ≤ 0 := by norm_num
  have b61 := ball_sub _ _ _ _ 22.887272935043 4.07e-11 b59 b60 (by norm_num [abs_of_nonneg, abs_of_nonpos])
  have b62 := ball_torad _ _ 0.399458269519087 7.12e-13 b61 (by norm_num [abs_of_nonneg, abs_of_nonpos])
  have b63 := ball_cos1 _ _ 0.921271818625659 1.81e-10 b62 (by norm_num [abs_of_nonneg, abs_of_nonpos]) (by norm_num [abs_of_nonneg, abs_of_nonpos])
  have b64 : |dsin ((166.56 : ℝ) + ((132.87 : ℝ) * ((meanphase ((176384705 / 72 : ℝ) + 0.5 - (45 : ℝ)) 1175 + synmonth - (2415020.0 : ℝ)) / (36525 : ℝ))) - ((0.009173 : ℝ) * (((meanphase ((176384705 / 72 : ℝ) + 0.5 - (45 : ℝ)) 1175 + synmonth - (2415020.0 : ℝ)) / (36525 : ℝ)) * ((meanphase ((176384705 / 72 : ℝ) + 0.5 - (45 : ℝ)) 1175 + synmonth - (2415020.0 : ℝ)) / (36525 : ℝ))))) - -0.921271818625659| ≤ 1.81e-10 := by rw [dsin, sin_torad_shift270 ((166.56 : ℝ) + ((132.87 : ℝ) * ((meanphase ((176384705 / 72 : ℝ) + 0.5 - (45 : ℝ)) 1175 + synmonth - (2415020.0 : ℝ)) / (36525 : ℝ))) - ((0.009173 : ℝ) * (((meanphase ((176384705 / 72 : ℝ) + 0.5 - (45 : ℝ)) 1175 + synmonth - (2415020.0 : ℝ)) / (36525 : ℝ)) * ((meanphase ((176384705 / 72 : ℝ) + 0.5 - (45 : ℝ)) 1175 + synmonth - (2415020.0 : ℝ)) / (36525 : ℝ))))) 0]; exact ball_neg _ _ (-0.921271818625659) 1.81e-10 b63 (by norm_num [abs_of_nonneg, abs_of_nonpos])
  have b65 := ball_refl (0.00033 : ℝ)
  have b66 := ball_mul _ _ _ _ (-0.000304019700146467) 5.98e-14 b65 b64 (by norm_num [abs_of_nonneg, abs_of_nonpos])
  have b67 := ball_add _ _ _ _ 2449748.73142003 5.24e-9 b52 b66 (by norm_num [abs_of_nonneg, abs_of_nonpos])
  have b68 : |meanphase (meanphase ((176384705 / 72 : ℝ) + 0.5 - (45 : ℝ)) 1175 + synmonth) (1175 + 1) - 2449748.73142003| ≤ 5.24e-9 := by
    simp only [meanphase]
    exact ball_center _ _ _ _ b67 (by norm_num [abs_of_nonneg, abs_of_nonpos])
  rw [show (20 : ℕ) = 19 + 1 from rfl, phasehuntLoop_succ,
    if_neg (fun hc => absurd hc.2 (not_lt.2 (ball_le _ _ _ b68 (by norm_num))))]
  have b69 := ball_add _ _ _ _ 2449778.26200862 0.000000011 b36 synmonth_ball (by norm_num [abs_of_nonneg, abs_of_nonpos])
  have b70 : |(2415020.0 : ℝ) - 2415020| ≤ 0 := by norm_num
  have b71 := ball_sub _ _ _ _ 34758.26200862 0.000000011 b69 b70 (by norm_num [abs_of_nonneg, abs_of_nonpos])
  have b72 := ball_refl (36525 : ℝ)
  have b73 := ball_div _ _ _ _ 0.951629349996441 3.02e-13 b71 b72 (by norm_num) (by norm_num [abs_of_nonneg, abs_of_nonpos])
  have b74 := ball_mul _ _ _ _ 0.905598419774649 5.75e-13 b73 b73 (by norm_num [abs_of_nonneg, abs_of_nonpos])
  have b75 := ball_mul _ _ _ _ 0.861794035567953 8.22e-13 b74 b73 (by norm_num [abs_of_nonneg, abs_of_nonpos])
  have b76 : |(1175 + 1 + 1 : ℝ) - 1177| ≤ 0 := by norm_num
  have b77 := ball_refl (2415020.75933 : ℝ)
  have b78 := ball_mul _ _ _ _ 34757.50287636 0 synmonth_ball b76 (by norm_num [abs_of_nonneg, abs_of_nonpos])
  have b79 := ball_add _ _ _ _ 2449778.26220636 0 b77 b78 (by norm_num [abs_of_nonneg, abs_of_nonpos])
  have b80 := ball_refl (0.0001178 : ℝ)
  have b81 := ball_mul _ _ _ _ 0.000106679493849454 6.81e-17 b80 b74 (by norm_num [abs_of_nonneg, abs_of_nonpos])
  have b82 := ball_add _ _ _ _ 2449778.26231304 5.07e-10 b79 b81 (by norm_num [abs_of_nonneg, abs_of_nonpos])
  have b83 := ball_refl (0.000000155 : ℝ)
  have b84 := ball_mul _ _ _ _ 0.000000133578075513033 1.28e-19 b83 b75 (by norm_num [abs_of_nonneg, abs_of_nonpos])
  have b85 := ball_sub _ _ _ _ 2449778.26231291 4.09e-9 b82 b84 (by norm_num [abs_of_nonneg, abs_of_nonpos])
  have b86 := ball_refl (166.56 : ℝ)
  have b87 := ball_refl (132.87 : ℝ)
  have b88 := ball_mul _ _ _ _ 126.442991734027 4.03e-11 b87 b73 (by norm_num [abs_of_nonneg, abs_of_nonpos])
  have b89 := ball_add _ _ _ _ 293.002991734027 4.03e-11 b86 b88 (by norm_num [abs_of_nonneg, abs_of_nonpos])
  have b90 := ball_refl (0.009173 : ℝ)
  have b91 := ball_mul _ _ _ _ 0.00830705430459286 5.28e-15 b90 b74 (by norm_num [abs_of_nonneg, abs_of_nonpos])
  have b92 := ball_sub _ _ _ _ 292.994684679722 4.08e-11 b89 b91 (by norm_num [abs_of_nonneg, abs_of_nonpos])
  have b93 : |360 * ((0 : ℤ) : ℝ) + 270 - 270| ≤ 0 := by norm_num
  have b94 := ball_sub _ _ _ _ 22.994684679722 4.08e-11 b92 b93 (by norm_num [abs_of_nonneg, abs_of_nonpos])
  have b95 := ball_torad _ _ 0.401332958119047 7.13e-13 b94 (by norm_num [abs_of_nonneg, abs_of_nonpos])
  have b96 := ball_cos1 _ _ 0.92054109755548 1.81e-10 b95 (by norm_num [abs_of_nonneg, abs_of_nonpos]) (by norm_num [abs_of_nonneg, abs_of_nonpos])
  have b97 : |dsin ((166.56 : ℝ) + ((132.87 : ℝ) * ((meanphase ((176384705 / 72 : ℝ) + 0.5 - (45 : ℝ)) 1175 + synmonth + synmonth - (2415020.0 : ℝ)) / (36525 : ℝ))) - ((0.009173 : ℝ) * (((meanphase ((176384705 / 72 : ℝ) + 0.5 - (45 : ℝ)) 1175 + synmonth + synmonth - (2415020.0 : ℝ)) / (36525 : ℝ)) * ((meanphase ((176384705 / 72 : ℝ) + 0.5 - (45 : ℝ)) 1175 + synmonth + synmonth - (2415020.0 : ℝ)) / (36525 : ℝ))))) - -0.92054109755548| ≤ 1.81e-10 := by rw [dsin, sin_torad_shift270 ((166.56 : ℝ) + ((132.87 : ℝ) * ((meanphase ((176384705 / 72 : ℝ) + 0.5 - (45 : ℝ)) 1175 + synmonth + synmonth - (2415020.0 : ℝ)) / (36525 : ℝ))) - ((0.009173 : ℝ) * (((meanphase ((176384705 / 72 : ℝ) + 0.5 - (45 : ℝ)) 1175 + synmonth + synmonth - (2415020.0 : ℝ)) / (36525 : ℝ)) * ((meanphase ((176384705 / 72 : ℝ) + 0.5 - (45 : ℝ)) 1175 + synmonth + synmonth - (2415020.0 : ℝ)) / (36525 : ℝ))))) 0]; exact ball_neg _ _ (-0.92054109755548) 1.81e-10 b96 (by norm_num [abs_of_nonneg, abs_of_nonpos])
  have b98 := ball_refl (0.00033 : ℝ)
  have b99 := ball_mul _ _ _ _ (-0.000303778562193308) 5.98e-14 b98 b97 (by norm_num [abs_of_nonneg, abs_of_nonpos])
  have b100 := ball_add _ _ _ _ 2449778.26200913 5.53e-9 b85 b99 (by norm_num [abs_of_nonneg, abs_of_nonpos])
  have b101 : |meanphase (meanphase ((176384705 / 72 : ℝ) + 0.5 - (45 : ℝ)) 1175 + synmonth + synmonth) (1175 + 1 + 1) - 2449778.26200913| ≤ 5.53e-9 := by
    simp only [meanphase]
    exact ball_center _ _ _ _ b100 (by norm_num [abs_of_nonneg, abs_of_nonpos])
  rw [show (19 : ℕ) = 18 + 1 from rfl, phasehuntLoop_succ,
    if_neg (fun hc => absurd hc.2 (not_lt.2 (ball_le _ _ _ b101 (by norm_num))))]
  have b102 := ball_add _ _ _ _ 2449807.7925973 0.000000011 b69 synmonth_ball (by norm_num [abs_of_nonneg, abs_of_nonpos])
  have b103 : |(2415020.0 : ℝ) - 2415020| ≤ 0 := by norm_num
  have b104 := ball_sub _ _ _ _ 34787.7925973 0.000000011 b102 b103 (by norm_num [abs_of_nonneg, abs_of_nonpos])
  have b105 := ball_refl (36525 : ℝ)
  have b106 := ball_div _ _ _ _ 0.952437853451061 3.02e-13 b104 b105 (by norm_num) (by norm_num [abs_of_nonneg, abs_of_nonpos])
  have b107 := ball_mul _ _ _ _ 0.907137864686465 5.76e-13 b106 b106 (by norm_num [abs_of_nonneg, abs_of_nonpos])
  have b108 := ball_mul _ _ _ _ 0.863992440626156 8.23e-13 b107 b106 (by norm_num [abs_of_nonneg, abs_of_nonpos])
  have b109 : |(1175 + 1 + 1 + 1 : ℝ) - 1178| ≤ 0 := by norm_num
  have b110 := ball_refl (2415020.75933 : ℝ)
  have b111 := ball_mul _ _ _ _ 34787.03346504 0 synmonth_ball b109 (by norm_num [abs_of_nonneg, abs_of_nonpos])
  have b112 := ball_add _ _ _ _ 2449807.79279504 0 b110 b111 (by norm_num [abs_of_nonneg, abs_of_nonpos])
  have b113 := ball_refl (0.0001178 : ℝ)
  have b114 := ball_mul _ _ _ _ 0.000106860840460066 6.83e-17 b113 b107 (by norm_num [abs_of_nonneg, abs_of_nonpos])
  have b115 := ball_add _ _ _ _ 2449807.7929019 8.41e-10 b112 b114 (by norm_num [abs_of_nonneg, abs_of_nonpos])
  have b116 := ball_refl (0.000000155 : ℝ)
  have b117 := ball_mul _ _ _ _ 0.000000133918828297054 1.28e-19 b116 b108 (by norm_num [abs_of_nonneg, abs_of_nonpos])
  have b118 := ball_sub _ _ _ _ 2449807.79290177 4.76e-9 b115 b117 (by norm_num [abs_of_nonneg, abs_of_nonpos])
  have b119 := ball_refl (166.56 : ℝ)
  have b120 := ball_refl (132.87 : ℝ)
  have b121 := ball_mul _ _ _ _ 126.550417588042 4.07e-11 b120 b106 (by norm_num [abs_of_nonneg, abs_of_nonpos])
  have b122 := ball_add _ _ _ _ 293.110417588042 4.07e-11 b119 b121 (by norm_num [abs_of_nonneg, abs_of_nonpos])
  have b123 := ball_refl (0.009173 : ℝ)
  have b124 := ball_mul _ _ _ _ 0.00832117563276894 5.29e-15 b123 b107 (by norm_num [abs_of_nonneg, abs_of_nonpos])
  have b125 := ball_sub _ _ _ _ 293.102096412409 4.1e-11 b122 b124 (by norm_num [abs_of_nonneg, abs_of_nonpos])
  have b126 : |360 * ((0 : ℤ) : ℝ) + 270 - 270| ≤ 0 := by norm_num
  have b127 := ball_sub _ _ _ _ 23.102096412409 4.1e-11 b125 b126 (by norm_num [abs_of_nonneg, abs_of_nonpos])
  have b128 := ball_torad _ _ 0.403207646509707 7.17e-13 b127 (by norm_num [abs_of_nonneg, abs_of_nonpos])
  have b129 := ball_cos1 _ _ 0.919807141365948 1.81e-10 b128 (by norm_num [abs_of_nonneg, abs_of_nonpos]) (by norm_num [abs_of_nonneg, abs_of_nonpos])
  have b130 : |dsin ((166.56 : ℝ) + ((132.87 : ℝ) * ((meanphase ((176384705 / 72 : ℝ) + 0.5 - (45 : ℝ)) 1175 + synmonth + synmonth + synmonth - (2415020.0 : ℝ)) / (36525 : ℝ))) - ((0.009173 : ℝ) * (((meanphase ((176384705 / 72 : ℝ) + 0.5 - (45 : ℝ)) 1175 + synmonth + synmonth + synmonth - (2415020.0 : ℝ)) / (36525 : ℝ)) * ((meanphase ((176384705 / 72 : ℝ) + 0.5 - (45 : ℝ)) 1175 + synmonth + synmonth + synmonth - (2415020.0 : ℝ)) / (36525 : ℝ))))) - -0.919807141365948| ≤ 1.81e-10 := by rw [dsin, sin_torad_shift270 ((166.56 : ℝ) + ((132.87 : ℝ) * ((meanphase ((176384705 / 72 : ℝ) + 0.5 - (45 : ℝ)) 1175 + synmonth + synmonth + synmonth - (2415020.0 : ℝ)) / (36525 : ℝ))) - ((0.009173 : ℝ) * (((meanphase ((176384705 / 72 : ℝ) + 0.5 - (45 : ℝ)) 1175 + synmonth + synmonth + synmonth - (2415020.0 : ℝ)) / (36525 : ℝ)) * ((meanphase ((176384705 / 72 : ℝ) + 0.5 - (45 : ℝ)) 1175 + synmonth + synmonth + synmonth - (2415020.0 : ℝ)) / (36525 : ℝ))))) 0]; exact ball_neg _ _ (-0.919807141365948) 1.81e-10 b129 (by norm_num [abs_of_nonneg, abs_of_nonpos])
  have b131 := ball_refl (0.00033 : ℝ)
  have b132 := ball_mul _ _ _ _ (-0.000303536356650763) 5.98e-14 b131 b130 (by norm_num [abs_of_nonneg, abs_of_nonpos])
  have b133 := ball_add _ _ _ _ 2449807.79259823 8.41e-9 b118 b132 (by norm_num [abs_of_nonneg, abs_of_nonpos])
  have b134 : |meanphase (meanphase ((176384705 / 72 : ℝ) + 0.5 - (45 : ℝ)) 1175 + synmonth + synmonth + synmonth) (1175 + 1 + 1 + 1) - 2449807.79259823| ≤ 8.41e-9 := by
    simp only [meanphase]
    exact ball_center _ _ _ _ b133 (by norm_num [abs_of_nonneg, abs_of_nonpos])
  rw [show (18 : ℕ) = 17 + 1 from rfl, phasehuntLoop_succ,
    if_pos ⟨ball_le _ _ _ b101 (by norm_num),
      ball_gt _ _ _ b134 (by norm_num)⟩]
  simp only [Option.some.injEq, Prod.mk.injEq]
  refine ⟨by norm_num, by norm_num⟩

set_option maxHeartbeats 3200000 in
lemma tpball_1177_00 : |tpNewFull 1177 0.0 - 2449777.99302433| ≤ 0.0000000153 := by
  have b1 : |(1177 + 0.0 : ℝ) - 1177| ≤ 0 := by norm_num
  have b2 := ball_refl (1236.85 : ℝ)
  have b3 := ball_div _ _ _ _ 0.951610947164167 3.73e-17 b1 b2 (by norm_num) (by norm_num [abs_of_nonneg, abs_of_nonpos])
  have b4 := ball_mul _ _ _ _ 0.905563394762683 1.09e-16 b3 b3 (by norm_num [abs_of_nonneg, abs_of_nonpos])
  have b5 := ball_mul _ _ _ _ 0.861744039807315 3.74e-16 b4 b3 (by norm_num [abs_of_nonneg, abs_of_nonpos])
  have b6 : |(1177 + 0.0 : ℝ) - 1177| ≤ 0 := by norm_num
  have b7 := ball_refl (2415020.75933 : ℝ)
  have b8 := ball_mul _ _ _ _ 34757.50287636 0 synmonth_ball b6 (by norm_num [abs_of_nonneg, abs_of_nonpos])
  have b9 := ball_add _ _ _ _ 2449778.26220636 0 b7 b8 (by norm_num [abs_of_nonneg, abs_of_nonpos])
  have b10 := ball_refl (0.0001178 : ℝ)
  have b11 := ball_mul _ _ _ _ 0.000106675367903044 7.03e-20 b10 b4 (by norm_num [abs_of_nonneg, abs_of_nonpos])
  have b12 := ball_add _ _ _ _ 2449778.26231304 4.64e-9 b9 b11 (by norm_num [abs_of_nonneg, abs_of_nonpos])
  have b13 := ball_refl (0.000000155 : ℝ)
  have b14 := ball_mul _ _ _ _ 0.000000133570326170134 2.33e-22 b13 b5 (by norm_num [abs_of_nonneg, abs_of_nonpos])
  have b15 := ball_sub _ _ _ _ 2449778.26231291 8.22e-9 b12 b14 (by norm_num [abs_of_nonneg, abs_of_nonpos])
  have b16 := ball_refl (166.56 : ℝ)
  have b17 := ball_refl (132.87 : ℝ)
  have b18 := ball_mul _ _ _ _ 126.440546549703 1.36e-13 b17 b3 (by norm_num [abs_of_nonneg, abs_of_nonpos])
  have b19 := ball_add _ _ _ _ 293.000546549703 1.36e-13 b16 b18 (by norm_num [abs_of_nonneg, abs_of_nonpos])
  have b20 := ball_refl (0.009173 : ℝ)
  have b21 := ball_mul _ _ _ _ 0.00830673302015809 2.16e-18 b20 b4 (by norm_num [abs_of_nonneg, abs_of_nonpos])
  have b22 := ball_sub _ _ _ _ 292.992239816683 2.95e-13 b19 b21 (by norm_num [abs_of_nonneg, abs_of_nonpos])
  have b23 : |360 * ((0 : ℤ) : ℝ) + 270 - 270| ≤ 0 := by norm_num
  have b24 := ball_sub _ _ _ _ 22.992239816683 2.95e-13 b22 b23 (by norm_num [abs_of_nonneg, abs_of_nonpos])
  have b25 := ball_torad _ _ 0.401290287209256 5.38e-15 b24 (by norm_num [abs_of_nonneg, abs_of_nonpos])
  have b26 := ball_cos1 _ _ 0.92055776592619 1.81e-10 b25 (by norm_num [abs_of_nonneg, abs_of_nonpos]) (by norm_num [abs_of_nonneg, abs_of_nonpos])
  have b27 : |dsin ((166.56 : ℝ) + ((132.87 : ℝ) * ((1177 + 0.0 : ℝ) / (1236.85 : ℝ))) - ((0.009173 : ℝ) * (((1177 + 0.0 : ℝ) / (1236.85 : ℝ)) * ((1177 + 0.0 : ℝ) / (1236.85 : ℝ))))) - -0.92055776592619| ≤ 1.81e-10 := by rw [dsin, sin_torad_shift270 ((166.56 : ℝ) + ((132.87 : ℝ) * ((1177 + 0.0 : ℝ) / (1236.85 : ℝ))) - ((0.009173 : ℝ) * (((1177 + 0.0 : ℝ) / (1236.85 : ℝ)) * ((1177 + 0.0 : ℝ) / (1236.85 : ℝ))))) 0]; exact ball_neg _ _ (-0.92055776592619) 1.81e-10 b26 (by norm_num [abs_of_nonneg, abs_of_nonpos])
  have b28 := ball_refl (0.00033 : ℝ)
  have b29 := ball_mul _ _ _ _ (-0.000303784062755643) 5.98e-14 b28 b27 (by norm_num [abs_of_nonneg, abs_of_nonpos])
  have b30 := ball_add _ _ _ _ 2449778.26200913 0.0000000123 b15 b29 (by norm_num [abs_of_nonneg, abs_of_nonpos])
  have b31 := ball_refl (359.2242 : ℝ)
  have b32 := ball_refl (29.10535608 : ℝ)
  have b33 : |(1177 + 0.0 : ℝ) - 1177| ≤ 0 := by norm_num
  have b34 := ball_mul _ _ _ _ 34257.00410616 0 b32 b33 (by norm_num [abs_of_nonneg, abs_of_nonpos])
  have b35 := ball_add _ _ _ _ 34616.22830616 0 b31 b34 (by norm_num [abs_of_nonneg, abs_of_nonpos])
  have b36 := ball_refl (0.0000333 : ℝ)
  have b37 := ball_mul _ _ _ _ 0.0000301552610455973 4.76e-20 b36 b4 (by norm_num [abs_of_nonneg, abs_of_nonpos])
  have b38 := ball_sub _ _ _ _ 34616.2282760047 3.9e-11 b35 b37 (by norm_num [abs_of_nonneg, abs_of_nonpos])
  have b39 := ball_refl (0.00000347 : ℝ)
  have b40 := ball_mul _ _ _ _ 0.00000299025181813138 4.35e-21 b39 b5 (by norm_num [abs_of_nonneg, abs_of_nonpos])
  have b41 := ball_sub _ _ _ _ 34616.2282730144 8.72e-11 b38 b40 (by norm_num [abs_of_nonneg, abs_of_nonpos])
  have b42 := ball_refl (306.0253 : ℝ)
  have b43 := ball_refl (385.81691806 : ℝ)
  have b44 : |(1177 + 0.0 : ℝ) - 1177| ≤ 0 := by norm_num
  have b45 := ball_mul _ _ _ _ 454106.51255662 0 b43 b44 (by norm_num [abs_of_nonneg, abs_of_nonpos])
  have b46 := ball_add _ _ _ _ 454412.53785662 0 b42 b45 (by norm_num [abs_of_nonneg, abs_of_nonpos])
  have b47 := ball_refl (0.0107306 : ℝ)
  have b48 := ball_mul _ _ _ _ 0.00971723856384045 4.97e-18 b47 b4 (by norm_num [abs_of_nonneg, abs_of_nonpos])
  have b49 := ball_add _ _ _ _ 454412.547573859 4.37e-10 b46 b48 (by norm_num [abs_of_nonneg, abs_of_nonpos])
  have b50 := ball_refl (0.00001236 : ℝ)
  have b51 := ball_mul _ _ _ _ 0.0000106511563320184 1.81e-20 b50 b5 (by norm_num [abs_of_nonneg, abs_of_nonpos])
  have b52 := ball_add _ _ _ _ 454412.54758451 5.94e-10 b49 b51 (by norm_num [abs_of_nonneg, abs_of_nonpos])
  have b53 := ball_refl (21.2964 : ℝ)
  have b54 := ball_refl (390.67050646 : ℝ)
  have b55 : |(1177 + 0.0 : ℝ) - 1177| ≤ 0 := by norm_num
  have b56 := ball_mul _ _ _ _ 459819.18610342 0 b54 b55 (by norm_num [abs_of_nonneg, abs_of_nonpos])
  have b57 := ball_add _ _ _ _ 459840.48250342 0 b53 b56 (by norm_num [abs_of_nonneg, abs_of_nonpos])
  have b58 := ball_refl (0.0016528 : ℝ)
  have b59 := ball_mul _ _ _ _ 0.00149671517886376 2.65e-18 b58 b4 (by norm_num [abs_of_nonneg, abs_of_nonpos])
  have b60 := ball_sub _ _ _ _ 459840.481006705 1.79e-10 b57 b59 (by norm_num [abs_of_nonneg, abs_of_nonpos])
  have b61 := ball_refl (0.00000239 : ℝ)
  have b62 := ball_mul _ _ _ _ 0.00000205956825513948 3.75e-21 b61 b5 (by norm_num [abs_of_nonneg, abs_of_nonpos])
  have b63 := ball_sub _ _ _ _ 459840.481004645 6.11e-10 b60 b62 (by norm_num [abs_of_nonneg, abs_of_nonpos])
  have b64 := ball_refl (2 : ℝ)
  have b65 := ball_refl (3 : ℝ)
  have b66 := ball_mul _ _ _ _ 69232.4565460288 1.75e-10 b64 b41 (by norm_num [abs_of_nonneg, abs_of_nonpos])
  have b67 := ball_refl (2 : ℝ)
  have b68 := ball_mul _ _ _ _ 908825.09516902 1.19e-9 b67 b52 (by norm_num [abs_of_nonneg, abs_of_nonpos])
  have b69 := ball_mul _ _ _ _ 1363237.64275353 1.79e-9 b65 b52 (by norm_num [abs_of_nonneg, abs_of_nonpos])
  have b70 := ball_refl (2 : ℝ)
  have b71 := ball_mul _ _ _ _ 919680.96200929 1.23e-9 b70 b63 (by norm_num [abs_of_nonneg, abs_of_nonpos])
  have b72 := ball_add _ _ _ _ 489028.775857524 1.09e-9 b41 b52 (by norm_num [abs_of_nonneg, abs_of_nonpos])
  have b73 := ball_sub _ _ _ _ (-419796.319311496) 1.09e-9 b41 b52 (by norm_num [abs_of_nonneg, abs_of_nonpos])
  have b74 := ball_add _ _ _ _ 954297.190282304 1.72e-9 b71 b41 (by norm_num [abs_of_nonneg, abs_of_nonpos])
  have b75 := ball_sub _ _ _ _ 885064.733736276 1.72e-9 b71 b41 (by norm_num [abs_of_nonneg, abs_of_nonpos])
  have b76 := ball_add _ _ _ _ 1374093.5095938 1.83e-9 b71 b52 (by norm_num [abs_of_nonneg, abs_of_nonpos])
  have b77 := ball_sub _ _ _ _ 465268.41442478 1.83e-9 b71 b52 (by norm_num [abs_of_nonneg, abs_of_nonpos])
  have b78 := ball_add _ _ _ _ 943441.323442034 1.68e-9 b41 b68 (by norm_num [abs_of_nonneg, abs_of_nonpos])
  have b79 : |360 * ((96 : ℤ) : ℝ) + 90 - 34650| ≤ 0 := by norm_num
  have b80 := ball_sub _ _ _ _ (-33.7717269856) 8.72e-11 b41 b79 (by norm_num [abs_of_nonneg, abs_of_nonpos])
  have b81 := ball_torad _ _ (-0.58942782998334) 1.53e-12 b80 (by norm_num [abs_of_nonneg, abs_of_nonpos])
  have b82 := ball_cos1 _ _ 0.831258876162486 1.82e-10 b81 (by norm_num [abs_of_nonneg, abs_of_nonpos]) (by norm_num [abs_of_nonneg, abs_of_nonpos])
  have b83 : |dsin ((359.2242 : ℝ) + ((29.10535608 : ℝ) * (1177 + 0.0 : ℝ)) - ((0.0000333 : ℝ) * (((1177 + 0.0 : ℝ) / (1236.85 : ℝ)) * ((1177 + 0.0 : ℝ) / (1236.85 : ℝ)))) - ((0.00000347 : ℝ) * ((((1177 + 0.0 : ℝ) / (1236.85 : ℝ)) * ((1177 + 0.0 : ℝ) / (1236.85 : ℝ))) * ((1177 + 0.0 : ℝ) / (1236.85 : ℝ))))) - 0.831258876162486| ≤ 1.82e-10 := by rw [dsin, sin_torad_shift90 ((359.2242 : ℝ) + ((29.10535608 : ℝ) * (1177 + 0.0 : ℝ)) - ((0.0000333 : ℝ) * (((1177 + 0.0 : ℝ) / (1236.85 : ℝ)) * ((1177 + 0.0 : ℝ) / (1236.85 : ℝ)))) - ((0.00000347 : ℝ) * ((((1177 + 0.0 : ℝ) / (1236.85 : ℝ)) * ((1177 + 0.0 : ℝ) / (1236.85 : ℝ))) * ((1177 + 0.0 : ℝ) / (1236.85 : ℝ))))) 96]; exact b82
  have b84 : |360 * ((192 : ℤ) : ℝ) + 90 - 69210| ≤ 0 := by norm_num
  have b85 := ball_sub _ _ _ _ 22.4565460288 1.75e-10 b66 b84 (by norm_num [abs_of_nonneg, abs_of_nonpos])
  have b86 := ball_torad _ _ 0.391940666828217 3.06e-12 b85 (by norm_num [abs_of_nonneg, abs_of_nonpos])
  have b87 := ball_cos1 _ _ 0.924169499584705 1.84e-10 b86 (by norm_num [abs_of_nonneg, abs_of_nonpos]) (by norm_num [abs_of_nonneg, abs_of_nonpos])
  have b88 : |dsin ((2 : ℝ) * ((359.2242 : ℝ) + ((29.10535608 : ℝ) * (1177 + 0.0 : ℝ)) - ((0.0000333 : ℝ) * (((1177 + 0.0 : ℝ) / (1236.85 : ℝ)) * ((1177 + 0.0 : ℝ) / (1236.85 : ℝ)))) - ((0.00000347 : ℝ) * ((((1177 + 0.0 : ℝ) / (1236.85 : ℝ)) * ((1177 + 0.0 : ℝ) / (1236.85 : ℝ))) * ((1177 + 0.0 : ℝ) / (1236.85 : ℝ)))))) - 0.924169499584705| ≤ 1.84e-10 := by rw [dsin, sin_torad_shift90 ((2 : ℝ) * ((359.2242 : ℝ) + ((29.10535608 : ℝ) * (1177 + 0.0 : ℝ)) - ((0.0000333 : ℝ) * (((1177 + 0.0 : ℝ) / (1236.85 : ℝ)) * ((1177 + 0.0 : ℝ) / (1236.85 : ℝ)))) - ((0.00000347 : ℝ) * ((((1177 + 0.0 : ℝ) / (1236.85 : ℝ)) * ((1177 + 0.0 : ℝ) / (1236.85 : ℝ))) * ((1177 + 0.0 : ℝ) / (1236.85 : ℝ)))))) 192]; exact b87
  have b89 : |360 * ((1262 : ℤ) : ℝ) + 90 - 454410| ≤ 0 := by norm_num
  have b90 := ball_sub _ _ _ _ 2.54758451 5.94e-10 b52 b89 (by norm_num [abs_of_nonneg, abs_of_nonpos])
  have b91 := ball_torad _ _ 0.0444637376723064 1.04e-11 b90 (by norm_num [abs_of_nonneg, abs_of_nonpos])
  have b92 := ball_cos1 _ _ 0.999011650864696 1.91e-10 b91 (by norm_num [abs_of_nonneg, abs_of_nonpos]) (by norm_num [abs_of_nonneg, abs_of_nonpos])
  have b93 : |dsin ((306.0253 : ℝ) + ((385.81691806 : ℝ) * (1177 + 0.0 : ℝ)) + ((0.0107306 : ℝ) * (((1177 + 0.0 : ℝ) / (1236.85 : ℝ)) * ((1177 + 0.0 : ℝ) / (1236.85 : ℝ)))) + ((0.00001236 : ℝ) * ((((1177 + 0.0 : ℝ) / (1236.85 : ℝ)) * ((1177 + 0.0 : ℝ) / (1236.85 : ℝ))) * ((1177 + 0.0 : ℝ) / (1236.85 : ℝ))))) - 0.999011650864696| ≤ 1.91e-10 := by rw [dsin, sin_torad_shift90 ((306.0253 : ℝ) + ((385.81691806 : ℝ) * (1177 + 0.0 : ℝ)) + ((0.0107306 : ℝ) * (((1177 + 0.0 : ℝ) / (1236.85 : ℝ)) * ((1177 + 0.0 : ℝ) / (1236.85 : ℝ)))) + ((0.00001236 : ℝ) * ((((1177 + 0.0 : ℝ) / (1236.85 : ℝ)) * ((1177 + 0.0 : ℝ) / (1236.85 : ℝ))) * ((1177 + 0.0 : ℝ) / (1236.85 : ℝ))))) 1262]; exact b92
  have b94 : |360 * ((2524 : ℤ) : ℝ) + 180 - 908820| ≤ 0 := by norm_num
  have b95 := ball_sub _ _ _ _ 5.09516902 1.19e-9 b68 b94 (by norm_num [abs_of_nonneg, abs_of_nonpos])
  have b96 := ball_torad _ _ 0.0889274753446128 2.08e-11 b95 (by norm_num [abs_of_nonneg, abs_of_nonpos])
  have b97 := ball_sin1 _ _ 0.0888103138469925 2.01e-10 b96 (by norm_num [abs_of_nonneg, abs_of_nonpos]) (by norm_num [abs_of_nonneg, abs_of_nonpos])
  have b98 : |dsin ((2 : ℝ) * ((306.0253 : ℝ) + ((385.81691806 : ℝ) * (1177 + 0.0 : ℝ)) + ((0.0107306 : ℝ) * (((1177 + 0.0 : ℝ) / (1236.85 : ℝ)) * ((1177 + 0.0 : ℝ) / (1236.85 : ℝ)))) + ((0.00001236 : ℝ) * ((((1177 + 0.0 : ℝ) / (1236.85 : ℝ)) * ((1177 + 0.0 : ℝ) / (1236.85 : ℝ))) * ((1177 + 0.0 : ℝ) / (1236.85 : ℝ)))))) - -0.0888103138469925| ≤ 2.01e-10 := by rw [dsin, sin_torad_shift180 ((2 : ℝ) * ((306.0253 : ℝ) + ((385.81691806 : ℝ) * (1177 + 0.0 : ℝ)) + ((0.0107306 : ℝ) * (((1177 + 0.0 : ℝ) / (1236.85 : ℝ)) * ((1177 + 0.0 : ℝ) / (1236.85 : ℝ)))) + ((0.00001236 : ℝ) * ((((1177 + 0.0 : ℝ) / (1236.85 : ℝ)) * ((1177 + 0.0 : ℝ) / (1236.85 : ℝ))) * ((1177 + 0.0 : ℝ) / (1236.85 : ℝ)))))) 2524]; exact ball_neg _ _ (-0.0888103138469925) 2.01e-10 b97 (by norm_num [abs_of_nonneg, abs_of_nonpos])
  have b99 : |360 * ((3786 : ℤ) : ℝ) + 270 - 1363230| ≤ 0 := by norm_num
  have b100 := ball_sub _ _ _ _ 7.64275353 1.79e-9 b69 b99 (by norm_num [abs_of_nonneg, abs_of_nonpos])
  have b101 := ball_torad _ _ 0.133391213016919 3.13e-11 b100 (by norm_num [abs_of_nonneg, abs_of_nonpos])
  have b102 := ball_cos1 _ _ 0.991116575928608 2.12e-10 b101 (by norm_num [abs_of_nonneg, abs_of_nonpos]) (by norm_num [abs_of_nonneg, abs_of_nonpos])
  have b103 : |dsin ((3 : ℝ) * ((306.0253 : ℝ) + ((385.81691806 : ℝ) * (1177 + 0.0 : ℝ)) + ((0.0107306 : ℝ) * (((1177 + 0.0 : ℝ) / (1236.85 : ℝ)) * ((1177 + 0.0 : ℝ) / (1236.85 : ℝ)))) + ((0.00001236 : ℝ) * ((((1177 + 0.0 : ℝ) / (1236.85 : ℝ)) * ((1177 + 0.0 : ℝ) / (1236.85 : ℝ))) * ((1177 + 0.0 : ℝ) / (1236.85 : ℝ)))))) - -0.991116575928608| ≤ 2.12e-10 := by rw [dsin, sin_torad_shift270 ((3 : ℝ) * ((306.0253 : ℝ) + ((385.81691806 : ℝ) * (1177 + 0.0 : ℝ)) + ((0.0107306 : ℝ) * (((1177 + 0.0 : ℝ) / (1236.85 : ℝ)) * ((1177 + 0.0 : ℝ) / (1236.85 : ℝ)))) + ((0.00001236 : ℝ) * ((((1177 + 0.0 : ℝ) / (1236.85 : ℝ)) * ((1177 + 0.0 : ℝ) / (1236.85 : ℝ))) * ((1177 + 0.0 : ℝ) / (1236.85 : ℝ)))))) 3786]; exact ball_neg _ _ (-0.991116575928608) 2.12e-10 b102 (by norm_num [abs_of_nonneg, abs_of_nonpos])
  have b104 : |360 * ((2554 : ℤ) : ℝ) + 270 - 919710| ≤ 0 := by norm_num
  have b105 := ball_sub _ _ _ _ (-29.03799071) 1.23e-9 b71 b104 (by norm_num [abs_of_nonneg, abs_of_nonpos])
  have b106 := ball_torad _ _ (-0.506808546053026) 2.15e-11 b105 (by norm_num [abs_of_nonneg, abs_of_nonpos])
  have b107 := ball_cos1 _ _ 0.874298055589635 2.02e-10 b106 (by norm_num [abs_of_nonneg, abs_of_nonpos]) (by norm_num [abs_of_nonneg, abs_of_nonpos])
  have b108 : |dsin ((2 : ℝ) * ((21.2964 : ℝ) + ((390.67050646 : ℝ) * (1177 + 0.0 : ℝ)) - ((0.0016528 : ℝ) * (((1177 + 0.0 : ℝ) / (1236.85 : ℝ)) * ((1177 + 0.0 : ℝ) / (1236.85 : ℝ)))) - ((0.00000239 : ℝ) * ((((1177 + 0.0 : ℝ) / (1236.85 : ℝ)) * ((1177 + 0.0 : ℝ) / (1236.85 : ℝ))) * ((1177 + 0.0 : ℝ) / (1236.85 : ℝ)))))) - -0.874298055589635| ≤ 2.02e-10 := by rw [dsin, sin_torad_shift270 ((2 : ℝ) * ((21.2964 : ℝ) + ((390.67050646 : ℝ) * (1177 + 0.0 : ℝ)) - ((0.0016528 : ℝ) * (((1177 + 0.0 : ℝ) / (1236.85 : ℝ)) * ((1177 + 0.0 : ℝ) / (1236.85 : ℝ)))) - ((0.00000239 : ℝ) * ((((1177 + 0.0 : ℝ) / (1236.85 : ℝ)) * ((1177 + 0.0 : ℝ) / (1236.85 : ℝ))) * ((1177 + 0.0 : ℝ) / (1236.85 : ℝ)))))) 2554]; exact ball_neg _ _ (-0.874298055589635) 2.02e-10 b107 (by norm_num [abs_of_nonneg, abs_of_nonpos])
  have b109 : |360 * ((1358 : ℤ) : ℝ) + 180 - 489060| ≤ 0 := by norm_num
  have b110 := ball_sub _ _ _ _ (-31.224142476) 1.09e-9 b72 b109 (by norm_num [abs_of_nonneg, abs_of_nonpos])
  have b111 := ball_torad _ _ (-0.544964092318015) 1.91e-11 b110 (by norm_num [abs_of_nonneg, abs_of_nonpos])
  have b112 := ball_sin1 _ _ (-0.518387384531435) 0.0000000002 b111 (by norm_num [abs_of_nonneg, abs_of_nonpos]) (by norm_num [abs_of_nonneg, abs_of_nonpos])
  have b113 : |dsin ((359.2242 : ℝ) + ((29.10535608 : ℝ) * (1177 + 0.0 : ℝ)) - ((0.0000333 : ℝ) * (((1177 + 0.0 : ℝ) / (1236.85 : ℝ)) * ((1177 + 0.0 : ℝ) / (1236.85 : ℝ)))) - ((0.00000347 : ℝ) * ((((1177 + 0.0 : ℝ) / (1236.85 : ℝ)) * ((1177 + 0.0 : ℝ) / (1236.85 : ℝ))) * ((1177 + 0.0 : ℝ) / (1236.85 : ℝ)))) + ((306.0253 : ℝ) + ((385.81691806 : ℝ) * (1177 + 0.0 : ℝ)) + ((0.0107306 : ℝ) * (((1177 + 0.0 : ℝ) / (1236.85 : ℝ)) * ((1177 + 0.0 : ℝ) / (1236.85 : ℝ)))) + ((0.00001236 : ℝ) * ((((1177 + 0.0 : ℝ) / (1236.85 : ℝ)) * ((1177 + 0.0 : ℝ) / (1236.85 : ℝ))) * ((1177 + 0.0 : ℝ) / (1236.85 : ℝ)))))) - 0.518387384531435| ≤ 0.0000000002 := by rw [dsin, sin_torad_shift180 ((359.2242 : ℝ) + ((29.10535608 : ℝ) * (1177 + 0.0 : ℝ)) - ((0.0000333 : ℝ) * (((1177 + 0.0 : ℝ) / (1236.85 : ℝ)) * ((1177 + 0.0 : ℝ) / (1236.85 : ℝ)))) - ((0.00000347 : ℝ) * ((((1177 + 0.0 : ℝ) / (1236.85 : ℝ)) * ((1177 + 0.0 : ℝ) / (1236.85 : ℝ))) * ((1177 + 0.0 : ℝ) / (1236.85 : ℝ)))) + ((306.0253 : ℝ) + ((385.81691806 : ℝ) * (1177 + 0.0 : ℝ)) + ((0.0107306 : ℝ) * (((1177 + 0.0 : ℝ) / (1236.85 : ℝ)) * ((1177 + 0.0 : ℝ) / (1236.85 : ℝ)))) + ((0.00001236 : ℝ) * ((((1177 + 0.0 : ℝ) / (1236.85 : ℝ)) * ((1177 + 0.0 : ℝ) / (1236.85 : ℝ))) * ((1177 + 0.0 : ℝ) / (1236.85 : ℝ)))))) 1358]; exact ball_neg _ _ 0.518387384531435 0.0000000002 b112 (by norm_num [abs_of_nonneg, abs_of_nonpos])
  have b114 : |360 * ((-1166 : ℤ) : ℝ) - -419760| ≤ 0 := by norm_num
  have b115 := ball_sub _ _ _ _ (-36.319311496) 1.09e-9 b73 b114 (by norm_num [abs_of_nonneg, abs_of_nonpos])
  have b116 := ball_torad _ _ (-0.633891567662627) 1.91e-11 b115 (by norm_num [abs_of_nonneg, abs_of_nonpos])
  have b117 := ball_sin1 _ _ (-0.592284782640333) 0.0000000002 b116 (by norm_num [abs_of_nonneg, abs_of_nonpos]) (by norm_num [abs_of_nonneg, abs_of_nonpos])
  have b118 : |dsin ((359.2242 : ℝ) + ((29.10535608 : ℝ) * (1177 + 0.0 : ℝ)) - ((0.0000333 : ℝ) * (((1177 + 0.0 : ℝ) / (1236.85 : ℝ)) * ((1177 + 0.0 : ℝ) / (1236.85 : ℝ)))) - ((0.00000347 : ℝ) * ((((1177 + 0.0 : ℝ) / (1236.85 : ℝ)) * ((1177 + 0.0 : ℝ) / (1236.85 : ℝ))) * ((1177 + 0.0 : ℝ) / (1236.85 : ℝ)))) - ((306.0253 : ℝ) + ((385.81691806 : ℝ) * (1177 + 0.0 : ℝ)) + ((0.0107306 : ℝ) * (((1177 + 0.0 : ℝ) / (1236.85 : ℝ)) * ((1177 + 0.0 : ℝ) / (1236.85 : ℝ)))) + ((0.00001236 : ℝ) * ((((1177 + 0.0 : ℝ) / (1236.85 : ℝ)) * ((1177 + 0.0 : ℝ) / (1236.85 : ℝ))) * ((1177 + 0.0 : ℝ) / (1236.85 : ℝ)))))) - -0.592284782640333| ≤ 0.0000000002 := by rw [dsin, sin_torad_shift ((359.2242 : ℝ) + ((29.10535608 : ℝ) * (1177 + 0.0 : ℝ)) - ((0.0000333 : ℝ) * (((1177 + 0.0 : ℝ) / (1236.85 : ℝ)) * ((1177 + 0.0 : ℝ) / (1236.85 : ℝ)))) - ((0.00000347 : ℝ) * ((((1177 + 0.0 : ℝ) / (1236.85 : ℝ)) * ((1177 + 0.0 : ℝ) / (1236.85 : ℝ))) * ((1177 + 0.0 : ℝ) / (1236.85 : ℝ)))) - ((306.0253 : ℝ) + ((385.81691806 : ℝ) * (1177 + 0.0 : ℝ)) + ((0.0107306 : ℝ) * (((1177 + 0.0 : ℝ) / (1236.85 : ℝ)) * ((1177 + 0.0 : ℝ) / (1236.85 : ℝ)))) + ((0.00001236 : ℝ) * ((((1177 + 0.0 : ℝ) / (1236.85 : ℝ)) * ((1177 + 0.0 : ℝ) / (1236.85 : ℝ))) * ((1177 + 0.0 : ℝ) / (1236.85 : ℝ)))))) (-1166)]; exact b117
  have b119 : |360 * ((2650 : ℤ) : ℝ) + 270 - 954270| ≤ 0 := by norm_num
  have b120 := ball_sub _ _ _ _ 27.190282304 1.72e-9 b74 b119 (by norm_num [abs_of_nonneg, abs_of_nonpos])
  have b121 := ball_torad _ _ 0.47455995075155 3.01e-11 b120 (by norm_num [abs_of_nonneg, abs_of_nonpos])
  have b122 := ball_cos1 _ _ 0.889493886953836 2.11e-10 b121 (by norm_num [abs_of_nonneg, abs_of_nonpos]) (by norm_num [abs_of_nonneg, abs_of_nonpos])
  have b123 : |dsin ((2 : ℝ) * ((21.2964 : ℝ) + ((390.67050646 : ℝ) * (1177 + 0.0 : ℝ)) - ((0.0016528 : ℝ) * (((1177 + 0.0 : ℝ) / (1236.85 : ℝ)) * ((1177 + 0.0 : ℝ) / (1236.85 : ℝ)))) - ((0.00000239 : ℝ) * ((((1177 + 0.0 : ℝ) / (1236.85 : ℝ)) * ((1177 + 0.0 : ℝ) / (1236.85 : ℝ))) * ((1177 + 0.0 : ℝ) / (1236.85 : ℝ))))) + ((359.2242 : ℝ) + ((29.10535608 : ℝ) * (1177 + 0.0 : ℝ)) - ((0.0000333 : ℝ) * (((1177 + 0.0 : ℝ) / (1236.85 : ℝ)) * ((1177 + 0.0 : ℝ) / (1236.85 : ℝ)))) - ((0.00000347 : ℝ) * ((((1177 + 0.0 : ℝ) / (1236.85 : ℝ)) * ((1177 + 0.0 : ℝ) / (1236.85 : ℝ))) * ((1177 + 0.0 : ℝ) / (1236.85 : ℝ)))))) - -0.889493886953836| ≤ 2.11e-10 := by rw [dsin, sin_torad_shift270 ((2 : ℝ) * ((21.2964 : ℝ) + ((390.67050646 : ℝ) * (1177 + 0.0 : ℝ)) - ((0.0016528 : ℝ) * (((1177 + 0.0 : ℝ) / (1236.85 : ℝ)) * ((1177 + 0.0 : ℝ) / (1236.85 : ℝ)))) - ((0.00000239 : ℝ) * ((((1177 + 0.0 : ℝ) / (1236.85 : ℝ)) * ((1177 + 0.0 : ℝ) / (1236.85 : ℝ))) * ((1177 + 0.0 : ℝ) / (1236.85 : ℝ))))) + ((359.2242 : ℝ) + ((29.10535608 : ℝ) * (1177 + 0.0 : ℝ)) - ((0.0000333 : ℝ) * (((1177 + 0.0 : ℝ) / (1236.85 : ℝ)) * ((1177 + 0.0 : ℝ) / (1236.85 : ℝ)))) - ((0.00000347 : ℝ) * ((((1177 + 0.0 : ℝ) / (1236.85 : ℝ)) * ((1177 + 0.0 : ℝ) / (1236.85 : ℝ))) * ((1177 + 0.0 : ℝ) / (1236.85 : ℝ)))))) 2650]; exact ball_neg _ _ (-0.889493886953836) 2.11e-10 b122 (by norm_num [abs_of_nonneg, abs_of_nonpos])
  have b124 : |360 * ((2458 : ℤ) : ℝ) + 180 - 885060| ≤ 0 := by norm_num
  have b125 := ball_sub _ _ _ _ 4.733736276 1.72e-9 b75 b124 (by norm_num [abs_of_nonneg, abs_of_nonpos])
  have b126 := ball_torad _ _ 0.082619283937295 3.01e-11 b125 (by norm_num [abs_of_nonneg, abs_of_nonpos])
  have b127 := ball_sin1 _ _ 0.0825253235485919 2.11e-10 b126 (by norm_num [abs_of_nonneg, abs_of_nonpos]) (by norm_num [abs_of_nonneg, abs_of_nonpos])
  have b128 : |dsin ((2 : ℝ) * ((21.2964 : ℝ) + ((390.67050646 : ℝ) * (1177 + 0.0 : ℝ)) - ((0.0016528 : ℝ) * (((1177 + 0.0 : ℝ) / (1236.85 : ℝ)) * ((1177 + 0.0 : ℝ) / (1236.85 : ℝ)))) - ((0.00000239 : ℝ) * ((((1177 + 0.0 : ℝ) / (1236.85 : ℝ)) * ((1177 + 0.0 : ℝ) / (1236.85 : ℝ))) * ((1177 + 0.0 : ℝ) / (1236.85 : ℝ))))) - ((359.2242 : ℝ) + ((29.10535608 : ℝ) * (1177 + 0.0 : ℝ)) - ((0.0000333 : ℝ) * (((1177 + 0.0 : ℝ) / (1236.85 : ℝ)) * ((1177 + 0.0 : ℝ) / (1236.85 : ℝ)))) - ((0.00000347 : ℝ) * ((((1177 + 0.0 : ℝ) / (1236.85 : ℝ)) * ((1177 + 0.0 : ℝ) / (1236.85 : ℝ))) * ((1177 + 0.0 : ℝ) / (1236.85 : ℝ)))))) - -0.0825253235485919| ≤ 2.11e-10 := by rw [dsin, sin_torad_shift180 ((2 : ℝ) * ((21.2964 : ℝ) + ((390.67050646 : ℝ) * (1177 + 0.0 : ℝ)) - ((0.0016528 : ℝ) * (((1177 + 0.0 : ℝ) / (1236.85 : ℝ)) * ((1177 + 0.0 : ℝ) / (1236.85 : ℝ)))) - ((0.00000239 : ℝ) * ((((1177 + 0.0 : ℝ) / (1236.85 : ℝ)) * ((1177 + 0.0 : ℝ) / (1236.85 : ℝ))) * ((1177 + 0.0 : ℝ) / (1236.85 : ℝ))))) - ((359.2242 : ℝ) + ((29.10535608 : ℝ) * (1177 + 0.0 : ℝ)) - ((0.0000333 : ℝ) * (((1177 + 0.0 : ℝ) / (1236.85 : ℝ)) * ((1177 + 0.0 : ℝ) / (1236.85 : ℝ)))) - ((0.00000347 : ℝ) * ((((1177 + 0.0 : ℝ) / (1236.85 : ℝ)) * ((1177 + 0.0 : ℝ) / (1236.85 : ℝ))) * ((1177 + 0.0 : ℝ) / (1236.85 : ℝ)))))) 2458]; exact ball_neg _ _ (-0.0825253235485919) 2.11e-10 b127 (by norm_num [abs_of_nonneg, abs_of_nonpos])
  have b129 : |360 * ((3817 : ℤ) : ℝ) - 1374120| ≤ 0 := by norm_num
  have b130 := ball_sub _ _ _ _ (-26.4904062) 1.83e-9 b76 b129 (by norm_num [abs_of_nonneg, abs_of_nonpos])
  have b131 := ball_torad _ _ (-0.462344808380719) 3.2e-11 b130 (by norm_num [abs_of_nonneg, abs_of_nonpos])
  have b132 := ball_sin1 _ _ (-0.446047956005118) 2.13e-10 b131 (by norm_num [abs_of_nonneg, abs_of_nonpos]) (by norm_num [abs_of_nonneg, abs_of_nonpos])
  have b133 : |dsin ((2 : ℝ) * ((21.2964 : ℝ) + ((390.67050646 : ℝ) * (1177 + 0.0 : ℝ)) - ((0.0016528 : ℝ) * (((1177 + 0.0 : ℝ) / (1236.85 : ℝ)) * ((1177 + 0.0 : ℝ) / (1236.85 : ℝ)))) - ((0.00000239 : ℝ) * ((((1177 + 0.0 : ℝ) / (1236.85 : ℝ)) * ((1177 + 0.0 : ℝ) / (1236.85 : ℝ))) * ((1177 + 0.0 : ℝ) / (1236.85 : ℝ))))) + ((306.0253 : ℝ) + ((385.81691806 : ℝ) * (1177 + 0.0 : ℝ)) + ((0.0107306 : ℝ) * (((1177 + 0.0 : ℝ) / (1236.85 : ℝ)) * ((1177 + 0.0 : ℝ) / (1236.85 : ℝ)))) + ((0.00001236 : ℝ) * ((((1177 + 0.0 : ℝ) / (1236.85 : ℝ)) * ((1177 + 0.0 : ℝ) / (1236.85 : ℝ))) * ((1177 + 0.0 : ℝ) / (1236.85 : ℝ)))))) - -0.446047956005118| ≤ 2.13e-10 := by rw [dsin, sin_torad_shift ((2 : ℝ) * ((21.2964 : ℝ) + ((390.67050646 : ℝ) * (1177 + 0.0 : ℝ)) - ((0.0016528 : ℝ) * (((1177 + 0.0 : ℝ) / (1236.85 : ℝ)) * ((1177 + 0.0 : ℝ) / (1236.85 : ℝ)))) - ((0.00000239 : ℝ) * ((((1177 + 0.0 : ℝ) / (1236.85 : ℝ)) * ((1177 + 0.0 : ℝ) / (1236.85 : ℝ))) * ((1177 + 0.0 : ℝ) / (1236.85 : ℝ))))) + ((306.0253 : ℝ) + ((385.81691806 : ℝ) * (1177 + 0.0 : ℝ)) + ((0.0107306 : ℝ) * (((1177 + 0.0 : ℝ) / (1236.85 : ℝ)) * ((1177 + 0.0 : ℝ) / (1236.85 : ℝ)))) + ((0.00001236 : ℝ) * ((((1177 + 0.0 : ℝ) / (1236.85 : ℝ)) * ((1177 + 0.0 : ℝ) / (1236.85 : ℝ))) * ((1177 + 0.0 : ℝ) / (1236.85 : ℝ)))))) 3817]; exact b132
  have b134 : |360 * ((1292 : ℤ) : ℝ) + 180 - 465300| ≤ 0 := by norm_num
  have b135 := ball_sub _ _ _ _ (-31.58557522) 1.83e-9 b77 b134 (by norm_num [abs_of_nonneg, abs_of_nonpos])
  have b136 := ball_torad _ _ (-0.551272283725332) 3.2e-11 b135 (by norm_num [abs_of_nonneg, abs_of_nonpos])
  have b137 := ball_sin1 _ _ (-0.523771458674442) 2.13e-10 b136 (by norm_num [abs_of_nonneg, abs_of_nonpos]) (by norm_num [abs_of_nonneg, abs_of_nonpos])
  have b138 : |dsin ((2 : ℝ) * ((21.2964 : ℝ) + ((390.67050646 : ℝ) * (1177 + 0.0 : ℝ)) - ((0.0016528 : ℝ) * (((1177 + 0.0 : ℝ) / (1236.85 : ℝ)) * ((1177 + 0.0 : ℝ) / (1236.85 : ℝ)))) - ((0.00000239 : ℝ) * ((((1177 + 0.0 : ℝ) / (1236.85 : ℝ)) * ((1177 + 0.0 : ℝ) / (1236.85 : ℝ))) * ((1177 + 0.0 : ℝ) / (1236.85 : ℝ))))) - ((306.0253 : ℝ) + ((385.81691806 : ℝ) * (1177 + 0.0 : ℝ)) + ((0.0107306 : ℝ) * (((1177 + 0.0 : ℝ) / (1236.85 : ℝ)) * ((1177 + 0.0 : ℝ) / (1236.85 : ℝ)))) + ((0.00001236 : ℝ) * ((((1177 + 0.0 : ℝ) / (1236.85 : ℝ)) * ((1177 + 0.0 : ℝ) / (1236.85 : ℝ))) * ((1177 + 0.0 : ℝ) / (1236.85 : ℝ)))))) - 0.523771458674442| ≤ 2.13e-10 := by rw [dsin, sin_torad_shift180 ((2 : ℝ) * ((21.2964 : ℝ) + ((390.67050646 : ℝ) * (1177 + 0.0 : ℝ)) - ((0.0016528 : ℝ) * (((1177 + 0.0 : ℝ) / (1236.85 : ℝ)) * ((1177 + 0.0 : ℝ) / (1236.85 : ℝ)))) - ((0.00000239 : ℝ) * ((((1177 + 0.0 : ℝ) / (1236.85 : ℝ)) * ((1177 + 0.0 : ℝ) / (1236.85 : ℝ))) * ((1177 + 0.0 : ℝ) / (1236.85 : ℝ))))) - ((306.0253 : ℝ) + ((385.81691806 : ℝ) * (1177 + 0.0 : ℝ)) + ((0.0107306 : ℝ) * (((1177 + 0.0 : ℝ) / (1236.85 : ℝ)) * ((1177 + 0.0 : ℝ) / (1236.85 : ℝ)))) + ((0.00001236 : ℝ) * ((((1177 + 0.0 : ℝ) / (1236.85 : ℝ)) * ((1177 + 0.0 : ℝ) / (1236.85 : ℝ))) * ((1177 + 0.0 : ℝ) / (1236.85 : ℝ)))))) 1292]; exact ball_neg _ _ 0.523771458674442 2.13e-10 b137 (by norm_num [abs_of_nonneg, abs_of_nonpos])
  have b139 : |360 * ((2620 : ℤ) : ℝ) + 270 - 943470| ≤ 0 := by norm_num
  have b140 := ball_sub _ _ _ _ (-28.676557966) 1.68e-9 b78 b139 (by norm_num [abs_of_nonneg, abs_of_nonpos])
  have b141 := ball_torad _ _ (-0.500500354645708) 2.94e-11 b140 (by norm_num [abs_of_nonneg, abs_of_nonpos])
  have b142 := ball_cos1 _ _ 0.877342569251382 2.1e-10 b141 (by norm_num [abs_of_nonneg, abs_of_nonpos]) (by norm_num [abs_of_nonneg, abs_of_nonpos])
  have b143 : |dsin ((359.2242 : ℝ) + ((29.10535608 : ℝ) * (1177 + 0.0 : ℝ)) - ((0.0000333 : ℝ) * (((1177 + 0.0 : ℝ) / (1236.85 : ℝ)) * ((1177 + 0.0 : ℝ) / (1236.85 : ℝ)))) - ((0.00000347 : ℝ) * ((((1177 + 0.0 : ℝ) / (1236.85 : ℝ)) * ((1177 + 0.0 : ℝ) / (1236.85 : ℝ))) * ((1177 + 0.0 : ℝ) / (1236.85 : ℝ)))) + ((2 : ℝ) * ((306.0253 : ℝ) + ((385.81691806 : ℝ) * (1177 + 0.0 : ℝ)) + ((0.0107306 : ℝ) * (((1177 + 0.0 : ℝ) / (1236.85 : ℝ)) * ((1177 + 0.0 : ℝ) / (1236.85 : ℝ)))) + ((0.00001236 : ℝ) * ((((1177 + 0.0 : ℝ) / (1236.85 : ℝ)) * ((1177 + 0.0 : ℝ) / (1236.85 : ℝ))) * ((1177 + 0.0 : ℝ) / (1236.85 : ℝ))))))) - -0.877342569251382| ≤ 2.1e-10 := by rw [dsin, sin_torad_shift270 ((359.2242 : ℝ) + ((29.10535608 : ℝ) * (1177 + 0.0 : ℝ)) - ((0.0000333 : ℝ) * (((1177 + 0.0 : ℝ) / (1236.85 : ℝ)) * ((1177 + 0.0 : ℝ) / (1236.85 : ℝ)))) - ((0.00000347 : ℝ) * ((((1177 + 0.0 : ℝ) / (1236.85 : ℝ)) * ((1177 + 0.0 : ℝ) / (1236.85 : ℝ))) * ((1177 + 0.0 : ℝ) / (1236.85 : ℝ)))) + ((2 : ℝ) * ((306.0253 : ℝ) + ((385.81691806 : ℝ) * (1177 + 0.0 : ℝ)) + ((0.0107306 : ℝ) * (((1177 + 0.0 : ℝ) / (1236.85 : ℝ)) * ((1177 + 0.0 : ℝ) / (1236.85 : ℝ)))) + ((0.00001236 : ℝ) * ((((1177 + 0.0 : ℝ) / (1236.85 : ℝ)) * ((1177 + 0.0 : ℝ) / (1236.85 : ℝ))) * ((1177 + 0.0 : ℝ) / (1236.85 : ℝ))))))) 2620]; exact ball_neg _ _ (-0.877342569251382) 2.1e-10 b142 (by norm_num [abs_of_nonneg, abs_of_nonpos])
  have b144 := ball_refl (0.1734 : ℝ)
  have b145 := ball_refl (0.000393 : ℝ)
  have b146 := ball_mul _ _ _ _ 0.000373983102235518 3.84e-19 b145 b3 (by norm_num [abs_of_nonneg, abs_of_nonpos])
  have b147 := ball_sub _ _ _ _ 0.173026016897764 4.83e-16 b144 b146 (by norm_num [abs_of_nonneg, abs_of_nonpos])
  have b148 := ball_mul _ _ _ _ 0.143829412353307 3.15e-11 b147 b83 (by norm_num [abs_of_nonneg, abs_of_nonpos])
  have b149 := ball_refl (0.0021 : ℝ)
  have b150 := ball_mul _ _ _ _ 0.00194075594912788 3.87e-13 b149 b88 (by norm_num [abs_of_nonneg, abs_of_nonpos])
  have b151 := ball_add _ _ _ _ 0.145770168302435 3.19e-11 b148 b150 (by norm_num [abs_of_nonneg, abs_of_nonpos])
  have b152 := ball_refl (0.4068 : ℝ)
  have b153 := ball_mul _ _ _ _ 0.406397939571758 7.77e-11 b152 b93 (by norm_num [abs_of_nonneg, abs_of_nonpos])
  have b154 := ball_sub _ _ _ _ (-0.260627771269323) 1.1e-10 b151 b153 (by norm_num [abs_of_nonneg, abs_of_nonpos])
  have b155 := ball_refl (0.0161 : ℝ)
  have b156 := ball_mul _ _ _ _ (-0.00142984605293658) 3.24e-12 b155 b98 (by norm_num [abs_of_nonneg, abs_of_nonpos])
  have b157 := ball_add _ _ _ _ (-0.26205761732226) 1.14e-10 b154 b156 (by norm_num [abs_of_nonneg, abs_of_nonpos])
  have b158 := ball_refl (0.0004 : ℝ)
  have b159 := ball_mul _ _ _ _ (-0.000396446630371443) 8.49e-14 b158 b103 (by norm_num [abs_of_nonneg, abs_of_nonpos])
  have b160 := ball_sub _ _ _ _ (-0.261661170691889) 1.15e-10 b157 b159 (by norm_num [abs_of_nonneg, abs_of_nonpos])
  have b161 := ball_refl (0.0104 : ℝ)
  have b162 := ball_mul _ _ _ _ (-0.0090926997781322) 2.11e-12 b161 b108 (by norm_num [abs_of_nonneg, abs_of_nonpos])
  have b163 := ball_add _ _ _ _ (-0.270753870470021) 1.18e-10 b160 b162 (by norm_num [abs_of_nonneg, abs_of_nonpos])
  have b164 := ball_refl (0.0051 : ℝ)
  have b165 := ball_mul _ _ _ _ 0.00264377566111032 1.03e-12 b164 b113 (by norm_num [abs_of_nonneg, abs_of_nonpos])
  have b166 := ball_sub _ _ _ _ (-0.273397646131131) 1.2e-10 b163 b165 (by norm_num [abs_of_nonneg, abs_of_nonpos])
  have b167 := ball_refl (0.0074 : ℝ)
  have b168 := ball_mul _ _ _ _ (-0.00438290739153846) 1.49e-12 b167 b118 (by norm_num [abs_of_nonneg, abs_of_nonpos])
  have b169 := ball_sub _ _ _ _ (-0.269014738739593) 1.22e-10 b166 b168 (by norm_num [abs_of_nonneg, abs_of_nonpos])
  have b170 := ball_refl (0.0004 : ℝ)
  have b171 := ball_mul _ _ _ _ (-0.000355797554781534) 8.45e-14 b170 b123 (by norm_num [abs_of_nonneg, abs_of_nonpos])
  have b172 := ball_add _ _ _ _ (-0.269370536294375) 1.23e-10 b169 b171 (by norm_num [abs_of_nonneg, abs_of_nonpos])
  have b173 := ball_refl (0.0004 : ℝ)
  have b174 := ball_mul _ _ _ _ (-0.0000330101294194368) 8.45e-14 b173 b128 (by norm_num [abs_of_nonneg, abs_of_nonpos])
  have b175 := ball_sub _ _ _ _ (-0.269337526164956) 1.24e-10 b172 b174 (by norm_num [abs_of_nonneg, abs_of_nonpos])
  have b176 := ball_refl (0.0006 : ℝ)
  have b177 := ball_mul _ _ _ _ (-0.000267628773603071) 1.28e-13 b176 b133 (by norm_num [abs_of_nonneg, abs_of_nonpos])
  have b178 := ball_sub _ _ _ _ (-0.269069897391353) 1.25e-10 b175 b177 (by norm_num [abs_of_nonneg, abs_of_nonpos])
  have b179 : |(0.0010 : ℝ) - 0.001| ≤ 0 := by norm_num
  have b180 := ball_mul _ _ _ _ 0.000523771458674442 2.13e-13 b179 b138 (by norm_num [abs_of_nonneg, abs_of_nonpos])
  have b181 := ball_add _ _ _ _ (-0.268546125932679) 1.26e-10 b178 b180 (by norm_num [abs_of_nonneg, abs_of_nonpos])
  have b182 := ball_refl (0.0005 : ℝ)
  have b183 := ball_mul _ _ _ _ (-0.000438671284625691) 1.05e-13 b182 b143 (by norm_num [abs_of_nonneg, abs_of_nonpos])
  have b184 := ball_add _ _ _ _ (-0.268984797217305) 1.27e-10 b181 b183 (by norm_num [abs_of_nonneg, abs_of_nonpos])
  have b185 := ball_add _ _ _ _ 2449777.99302433 0.0000000153 b30 b184 (by norm_num [abs_of_nonneg, abs_of_nonpos])
  have b186 : |tpNewFull 1177 0.0 - 2449777.99302433| ≤ 0.0000000153 := by
    simp only [tpNewFull]
    exact ball_center _ _ _ _ b185 (by norm_num [abs_of_nonneg, abs_of_nonpos])
  exact b186

set_option maxHeartbeats 3200000 in
lemma tpball_1178_00 : |tpNewFull 1178 0.0 - 2449807.59082337| ≤ 0.0000000106 := by
  have b1 : |(1178 + 0.0 : ℝ) - 1178| ≤ 0 := by norm_num
  have b2 := ball_refl (1236.85 : ℝ)
  have b3 := ball_div _ _ _ _ 0.952419452641792 3.52e-16 b1 b2 (by norm_num) (by norm_num [abs_of_nonneg, abs_of_nonpos])
  have b4 := ball_mul _ _ _ _ 0.907102813770491 9.97e-16 b3 b3 (by norm_num [abs_of_nonneg, abs_of_nonpos])
  have b5 := ball_mul _ _ _ _ 0.86394236538112 1.69e-15 b4 b3 (by norm_num [abs_of_nonneg, abs_of_nonpos])
  have b6 : |(1178 + 0.0 : ℝ) - 1178| ≤ 0 := by norm_num
  have b7 := ball_refl (2415020.75933 : ℝ)
  have b8 := ball_mul _ _ _ _ 34787.03346504 0 synmonth_ball b6 (by norm_num [abs_of_nonneg, abs_of_nonpos])
  have b9 := ball_add _ _ _ _ 2449807.79279504 0 b7 b8 (by norm_num [abs_of_nonneg, abs_of_nonpos])
  have b10 := ball_refl (0.0001178 : ℝ)
  have b11 := ball_mul _ _ _ _ 0.000106856711462164 2.78e-19 b10 b4 (by norm_num [abs_of_nonneg, abs_of_nonpos])
  have b12 := ball_add _ _ _ _ 2449807.7929019 3.29e-9 b9 b11 (by norm_num [abs_of_nonneg, abs_of_nonpos])
  have b13 := ball_refl (0.000000155 : ℝ)
  have b14 := ball_mul _ _ _ _ 0.000000133911066634074 6.62e-22 b13 b5 (by norm_num [abs_of_nonneg, abs_of_nonpos])
  have b15 := ball_sub _ _ _ _ 2449807.79290177 7.21e-9 b12 b14 (by norm_num [abs_of_nonneg, abs_of_nonpos])
  have b16 := ball_refl (166.56 : ℝ)
  have b17 := ball_refl (132.87 : ℝ)
  have b18 := ball_mul _ _ _ _ 126.547972672515 1.44e-13 b17 b3 (by norm_num [abs_of_nonneg, abs_of_nonpos])
  have b19 := ball_add _ _ _ _ 293.107972672515 1.44e-13 b16 b18 (by norm_num [abs_of_nonneg, abs_of_nonpos])
  have b20 := ball_refl (0.009173 : ℝ)
  have b21 := ball_mul _ _ _ _ 0.00832085411071671 1.31e-17 b20 b4 (by norm_num [abs_of_nonneg, abs_of_nonpos])
  have b22 := ball_sub _ _ _ _ 293.099651818404 4.28e-13 b19 b21 (by norm_num [abs_of_nonneg, abs_of_nonpos])
  have b23 : |360 * ((0 : ℤ) : ℝ) + 270 - 270| ≤ 0 := by norm_num
  have b24 := ball_sub _ _ _ _ 23.099651818404 4.28e-13 b22 b23 (by norm_num [abs_of_nonneg, abs_of_nonpos])
  have b25 := ball_torad _ _ 0.403164980295445 7.57e-15 b24 (by norm_num [abs_of_nonneg, abs_of_nonpos])
  have b26 := ball_cos1 _ _ 0.919823881504159 1.81e-10 b25 (by norm_num [abs_of_nonneg, abs_of_nonpos]) (by norm_num [abs_of_nonneg, abs_of_nonpos])
  have b27 : |dsin ((166.56 : ℝ) + ((132.87 : ℝ) * ((1178 + 0.0 : ℝ) / (1236.85 : ℝ))) - ((0.009173 : ℝ) * (((1178 + 0.0 : ℝ) / (1236.85 : ℝ)) * ((1178 + 0.0 : ℝ) / (1236.85 : ℝ))))) - -0.919823881504159| ≤ 1.81e-10 := by rw [dsin, sin_torad_shift270 ((166.56 : ℝ) + ((132.87 : ℝ) * ((1178 + 0.0 : ℝ) / (1236.85 : ℝ))) - ((0.009173 : ℝ) * (((1178 + 0.0 : ℝ) / (1236.85 : ℝ)) * ((1178 + 0.0 : ℝ) / (1236.85 : ℝ))))) 0]; exact ball_neg _ _ (-0.919823881504159) 1.81e-10 b26 (by norm_num [abs_of_nonneg, abs_of_nonpos])
  have b28 := ball_refl (0.00033 : ℝ)
  have b29 := ball_mul _ _ _ _ (-0.000303541880896372) 5.98e-14 b28 b27 (by norm_num [abs_of_nonneg, abs_of_nonpos])
  have b30 := ball_add _ _ _ _ 2449807.79259823 0.0000000091 b15 b29 (by norm_num [abs_of_nonneg, abs_of_nonpos])
  have b31 := ball_refl (359.2242 : ℝ)
  have b32 := ball_refl (29.10535608 : ℝ)
  have b33 : |(1178 + 0.0 : ℝ) - 1178| ≤ 0 := by norm_num
  have b34 := ball_mul _ _ _ _ 34286.10946224 0 b32 b33 (by norm_num [abs_of_nonneg, abs_of_nonpos])
  have b35 := ball_add _ _ _ _ 34645.33366224 0 b31 b34 (by norm_num [abs_of_nonneg, abs_of_nonpos])
  have b36 := ball_refl (0.0000333 : ℝ)
  have b37 := ball_mul _ _ _ _ 0.0000302065236985574 8.3e-20 b36 b4 (by norm_num [abs_of_nonneg, abs_of_nonpos])
  have b38 := ball_sub _ _ _ _ 34645.3336320335 2.37e-11 b35 b37 (by norm_num [abs_of_nonneg, abs_of_nonpos])
  have b39 := ball_refl (0.00000347 : ℝ)
  have b40 := ball_mul _ _ _ _ 0.00000299788000787249 9.47e-21 b39 b5 (by norm_num [abs_of_nonneg, abs_of_nonpos])
  have b41 := ball_sub _ _ _ _ 34645.3336290356 4.37e-11 b38 b40 (by norm_num [abs_of_nonneg, abs_of_nonpos])
  have b42 := ball_refl (306.0253 : ℝ)
  have b43 := ball_refl (385.81691806 : ℝ)
  have b44 : |(1178 + 0.0 : ℝ) - 1178| ≤ 0 := by norm_num
  have b45 := ball_mul _ _ _ _ 454492.32947468 0 b43 b44 (by norm_num [abs_of_nonneg, abs_of_nonpos])
  have b46 := ball_add _ _ _ _ 454798.35477468 0 b42 b45 (by norm_num [abs_of_nonneg, abs_of_nonpos])
  have b47 := ball_refl (0.0107306 : ℝ)
  have b48 := ball_mul _ _ _ _ 0.00973375745344563 1.15e-17 b47 b4 (by norm_num [abs_of_nonneg, abs_of_nonpos])
  have b49 := ball_add _ _ _ _ 454798.364508437 4.54e-10 b46 b48 (by norm_num [abs_of_nonneg, abs_of_nonpos])
  have b50 := ball_refl (0.00001236 : ℝ)
  have b51 := ball_mul _ _ _ _ 0.0000106783276361106 6.41e-20 b50 b5 (by norm_num [abs_of_nonneg, abs_of_nonpos])
  have b52 := ball_add _ _ _ _ 454798.364519115 7.82e-10 b49 b51 (by norm_num [abs_of_nonneg, abs_of_nonpos])
  have b53 := ball_refl (21.2964 : ℝ)
  have b54 := ball_refl (390.67050646 : ℝ)
  have b55 : |(1178 + 0.0 : ℝ) - 1178| ≤ 0 := by norm_num
  have b56 := ball_mul _ _ _ _ 460209.85660988 0 b54 b55 (by norm_num [abs_of_nonneg, abs_of_nonpos])
  have b57 := ball_add _ _ _ _ 460231.15300988 0 b53 b56 (by norm_num [abs_of_nonneg, abs_of_nonpos])
  have b58 := ball_refl (0.0016528 : ℝ)
  have b59 := ball_mul _ _ _ _ 0.00149925953059987 4.13e-18 b58 b4 (by norm_num [abs_of_nonneg, abs_of_nonpos])
  have b60 := ball_sub _ _ _ _ 460231.15151062 4.7e-10 b57 b59 (by norm_num [abs_of_nonneg, abs_of_nonpos])
  have b61 := ball_refl (0.00000239 : ℝ)
  have b62 := ball_mul _ _ _ _ 0.00000206482225326088 7.24e-21 b61 b5 (by norm_num [abs_of_nonneg, abs_of_nonpos])
  have b63 := ball_sub _ _ _ _ 460231.151508555 6.48e-10 b60 b62 (by norm_num [abs_of_nonneg, abs_of_nonpos])
  have b64 := ball_refl (2 : ℝ)
  have b65 := ball_refl (3 : ℝ)
  have b66 := ball_mul _ _ _ _ 69290.6672580712 8.74e-11 b64 b41 (by norm_num [abs_of_nonneg, abs_of_nonpos])
  have b67 := ball_refl (2 : ℝ)
  have b68 := ball_mul _ _ _ _ 909596.72903823 1.57e-9 b67 b52 (by norm_num [abs_of_nonneg, abs_of_nonpos])
  have b69 := ball_mul _ _ _ _ 1364395.09355735 7.35e-9 b65 b52 (by norm_num [abs_of_nonneg, abs_of_nonpos])
  have b70 := ball_refl (2 : ℝ)
  have b71 := ball_mul _ _ _ _ 920462.30301711 0.0000000013 b70 b63 (by norm_num [abs_of_nonneg, abs_of_nonpos])
  have b72 := ball_add _ _ _ _ 489443.698148151 1.23e-9 b41 b52 (by norm_num [abs_of_nonneg, abs_of_nonpos])
  have b73 := ball_sub _ _ _ _ (-420153.030890079) 1.23e-9 b41 b52 (by norm_num [abs_of_nonneg, abs_of_nonpos])
  have b74 := ball_add _ _ _ _ 955107.636646146 1.75e-9 b71 b41 (by norm_num [abs_of_nonneg, abs_of_nonpos])
  have b75 := ball_sub _ _ _ _ 885816.969388074 1.75e-9 b71 b41 (by norm_num [abs_of_nonneg, abs_of_nonpos])
  have b76 := ball_add _ _ _ _ 1375260.66753623 7.09e-9 b71 b52 (by norm_num [abs_of_nonneg, abs_of_nonpos])
  have b77 := ball_sub _ _ _ _ 465663.938497995 2.09e-9 b71 b52 (by norm_num [abs_of_nonneg, abs_of_nonpos])
  have b78 := ball_add _ _ _ _ 944242.062667266 2.02e-9 b41 b68 (by norm_num [abs_of_nonneg, abs_of_nonpos])
  have b79 : |360 * ((96 : ℤ) : ℝ) + 90 - 34650| ≤ 0 := by norm_num
  have b80 := ball_sub _ _ _ _ (-4.6663709644) 4.37e-11 b41 b79 (by norm_num [abs_of_nonneg, abs_of_nonpos])
  have b81 := ball_torad _ _ (-0.0814435374482431) 7.64e-13 b80 (by norm_num [abs_of_nonneg, abs_of_nonpos])
  have b82 := ball_cos1 _ _ 0.996685307921575 1.81e-10 b81 (by norm_num [abs_of_nonneg, abs_of_nonpos]) (by norm_num [abs_of_nonneg, abs_of_nonpos])
  have b83 : |dsin ((359.2242 : ℝ) + ((29.10535608 : ℝ) * (1178 + 0.0 : ℝ)) - ((0.0000333 : ℝ) * (((1178 + 0.0 : ℝ) / (1236.85 : ℝ)) * ((1178 + 0.0 : ℝ) / (1236.85 : ℝ)))) - ((0.00000347 : ℝ) * ((((1178 + 0.0 : ℝ) / (1236.85 : ℝ)) * ((1178 + 0.0 : ℝ) / (1236.85 : ℝ))) * ((1178 + 0.0 : ℝ) / (1236.85 : ℝ))))) - 0.996685307921575| ≤ 1.81e-10 := by rw [dsin, sin_torad_shift90 ((359.2242 : ℝ) + ((29.10535608 : ℝ) * (1178 + 0.0 : ℝ)) - ((0.0000333 : ℝ) * (((1178 + 0.0 : ℝ) / (1236.85 : ℝ)) * ((1178 + 0.0 : ℝ) / (1236.85 : ℝ)))) - ((0.00000347 : ℝ) * ((((1178 + 0.0 : ℝ) / (1236.85 : ℝ)) * ((1178 + 0.0 : ℝ) / (1236.85 : ℝ))) * ((1178 + 0.0 : ℝ) / (1236.85 : ℝ))))) 96]; exact b82
  have b84 : |360 * ((192 : ℤ) : ℝ) + 180 - 69300| ≤ 0 := by norm_num
  have b85 := ball_sub _ _ _ _ (-9.3327419288) 8.74e-11 b66 b84 (by norm_num [abs_of_nonneg, abs_of_nonpos])
  have b86 := ball_torad _ _ (-0.162887074896486) 1.53e-12 b85 (by norm_num [abs_of_nonneg, abs_of_nonpos])
  have b87 := ball_sin1 _ _ (-0.162167737787497) 1.82e-10 b86 (by norm_num [abs_of_nonneg, abs_of_nonpos]) (by norm_num [abs_of_nonneg, abs_of_nonpos])
  have b88 : |dsin ((2 : ℝ) * ((359.2242 : ℝ) + ((29.10535608 : ℝ) * (1178 + 0.0 : ℝ)) - ((0.0000333 : ℝ) * (((1178 + 0.0 : ℝ) / (1236.85 : ℝ)) * ((1178 + 0.0 : ℝ) / (1236.85 : ℝ)))) - ((0.00000347 : ℝ) * ((((1178 + 0.0 : ℝ) / (1236.85 : ℝ)) * ((1178 + 0.0 : ℝ) / (1236.85 : ℝ))) * ((1178 + 0.0 : ℝ) / (1236.85 : ℝ)))))) - 0.162167737787497| ≤ 1.82e-10 := by rw [dsin, sin_torad_shift180 ((2 : ℝ) * ((359.2242 : ℝ) + ((29.10535608 : ℝ) * (1178 + 0.0 : ℝ)) - ((0.0000333 : ℝ) * (((1178 + 0.0 : ℝ) / (1236.85 : ℝ)) * ((1178 + 0.0 : ℝ) / (1236.85 : ℝ)))) - ((0.00000347 : ℝ) * ((((1178 + 0.0 : ℝ) / (1236.85 : ℝ)) * ((1178 + 0.0 : ℝ) / (1236.85 : ℝ))) * ((1178 + 0.0 : ℝ) / (1236.85 : ℝ)))))) 192]; exact ball_neg _ _ 0.162167737787497 1.82e-10 b87 (by norm_num [abs_of_nonneg, abs_of_nonpos])
  have b89 : |360 * ((1263 : ℤ) : ℝ) + 90 - 454770| ≤ 0 := by norm_num
  have b90 := ball_sub _ _ _ _ 28.364519115 7.82e-10 b52 b89 (by norm_num [abs_of_nonneg, abs_of_nonpos])
  have b91 := ball_torad _ _ 0.495054249301618 1.37e-11 b90 (by norm_num [abs_of_nonneg, abs_of_nonpos])
  have b92 := ball_cos1 _ _ 0.879942938406021 1.94e-10 b91 (by norm_num [abs_of_nonneg, abs_of_nonpos]) (by norm_num [abs_of_nonneg, abs_of_nonpos])
  have b93 : |dsin ((306.0253 : ℝ) + ((385.81691806 : ℝ) * (1178 + 0.0 : ℝ)) + ((0.0107306 : ℝ) * (((1178 + 0.0 : ℝ) / (1236.85 : ℝ)) * ((1178 + 0.0 : ℝ) / (1236.85 : ℝ)))) + ((0.00001236 : ℝ) * ((((1178 + 0.0 : ℝ) / (1236.85 : ℝ)) * ((1178 + 0.0 : ℝ) / (1236.85 : ℝ))) * ((1178 + 0.0 : ℝ) / (1236.85 : ℝ))))) - 0.879942938406021| ≤ 1.94e-10 := by rw [dsin, sin_torad_shift90 ((306.0253 : ℝ) + ((385.81691806 : ℝ) * (1178 + 0.0 : ℝ)) + ((0.0107306 : ℝ) * (((1178 + 0.0 : ℝ) / (1236.85 : ℝ)) * ((1178 + 0.0 : ℝ) / (1236.85 : ℝ)))) + ((0.00001236 : ℝ) * ((((1178 + 0.0 : ℝ) / (1236.85 : ℝ)) * ((1178 + 0.0 : ℝ) / (1236.85 : ℝ))) * ((1178 + 0.0 : ℝ) / (1236.85 : ℝ))))) 1263]; exact b92
  have b94 : |360 * ((2526 : ℤ) : ℝ) + 270 - 909630| ≤ 0 := by norm_num
  have b95 := ball_sub _ _ _ _ (-33.27096177) 1.57e-9 b68 b94 (by norm_num [abs_of_nonneg, abs_of_nonpos])
  have b96 := ball_torad _ _ (-0.58068782819166) 2.75e-11 b95 (by norm_num [abs_of_nonneg, abs_of_nonpos])
  have b97 := ball_cos1 _ _ 0.836085505763066 2.08e-10 b96 (by norm_num [abs_of_nonneg, abs_of_nonpos]) (by norm_num [abs_of_nonneg, abs_of_nonpos])
  have b98 : |dsin ((2 : ℝ) * ((306.0253 : ℝ) + ((385.81691806 : ℝ) * (1178 + 0.0 : ℝ)) + ((0.0107306 : ℝ) * (((1178 + 0.0 : ℝ) / (1236.85 : ℝ)) * ((1178 + 0.0 : ℝ) / (1236.85 : ℝ)))) + ((0.00001236 : ℝ) * ((((1178 + 0.0 : ℝ) / (1236.85 : ℝ)) * ((1178 + 0.0 : ℝ) / (1236.85 : ℝ))) * ((1178 + 0.0 : ℝ) / (1236.85 : ℝ)))))) - -0.836085505763066| ≤ 2.08e-10 := by rw [dsin, sin_torad_shift270 ((2 : ℝ) * ((306.0253 : ℝ) + ((385.81691806 : ℝ) * (1178 + 0.0 : ℝ)) + ((0.0107306 : ℝ) * (((1178 + 0.0 : ℝ) / (1236.85 : ℝ)) * ((1178 + 0.0 : ℝ) / (1236.85 : ℝ)))) + ((0.00001236 : ℝ) * ((((1178 + 0.0 : ℝ) / (1236.85 : ℝ)) * ((1178 + 0.0 : ℝ) / (1236.85 : ℝ))) * ((1178 + 0.0 : ℝ) / (1236.85 : ℝ)))))) 2526]; exact ball_neg _ _ (-0.836085505763066) 2.08e-10 b97 (by norm_num [abs_of_nonneg, abs_of_nonpos])
  have b99 : |360 * ((3790 : ℤ) : ℝ) - 1364400| ≤ 0 := by norm_num
  have b100 := ball_sub _ _ _ _ (-4.90644265) 7.35e-9 b69 b99 (by norm_num [abs_of_nonneg, abs_of_nonpos])
  have b101 := ball_torad _ _ (-0.0856335788027758) 1.29e-10 b100 (by norm_num [abs_of_nonneg, abs_of_nonpos])
  have b102 := ball_sin1 _ _ (-0.0855289570973472) 3.1e-10 b101 (by norm_num [abs_of_nonneg, abs_of_nonpos]) (by norm_num [abs_of_nonneg, abs_of_nonpos])
  have b103 : |dsin ((3 : ℝ) * ((306.0253 : ℝ) + ((385.81691806 : ℝ) * (1178 + 0.0 : ℝ)) + ((0.0107306 : ℝ) * (((1178 + 0.0 : ℝ) / (1236.85 : ℝ)) * ((1178 + 0.0 : ℝ) / (1236.85 : ℝ)))) + ((0.00001236 : ℝ) * ((((1178 + 0.0 : ℝ) / (1236.85 : ℝ)) * ((1178 + 0.0 : ℝ) / (1236.85 : ℝ))) * ((1178 + 0.0 : ℝ) / (1236.85 : ℝ)))))) - -0.0855289570973472| ≤ 3.1e-10 := by rw [dsin, sin_torad_shift ((3 : ℝ) * ((306.0253 : ℝ) + ((385.81691806 : ℝ) * (1178 + 0.0 : ℝ)) + ((0.0107306 : ℝ) * (((1178 + 0.0 : ℝ) / (1236.85 : ℝ)) * ((1178 + 0.0 : ℝ) / (1236.85 : ℝ)))) + ((0.00001236 : ℝ) * ((((1178 + 0.0 : ℝ) / (1236.85 : ℝ)) * ((1178 + 0.0 : ℝ) / (1236.85 : ℝ))) * ((1178 + 0.0 : ℝ) / (1236.85 : ℝ)))))) 3790]; exact b102
  have b104 : |360 * ((2556 : ℤ) : ℝ) + 270 - 920430| ≤ 0 := by norm_num
  have b105 := ball_sub _ _ _ _ 32.30301711 0.0000000013 b71 b104 (by norm_num [abs_of_nonneg, abs_of_nonpos])
  have b106 := ball_torad _ _ 0.563794006897563 2.27e-11 b105 (by norm_num [abs_of_nonneg, abs_of_nonpos])
  have b107 := ball_cos1 _ _ 0.845233693854948 2.03e-10 b106 (by norm_num [abs_of_nonneg, abs_of_nonpos]) (by norm_num [abs_of_nonneg, abs_of_nonpos])
  have b108 : |dsin ((2 : ℝ) * ((21.2964 : ℝ) + ((390.67050646 : ℝ) * (1178 + 0.0 : ℝ)) - ((0.0016528 : ℝ) * (((1178 + 0.0 : ℝ) / (1236.85 : ℝ)) * ((1178 + 0.0 : ℝ) / (1236.85 : ℝ)))) - ((0.00000239 : ℝ) * ((((1178 + 0.0 : ℝ) / (1236.85 : ℝ)) * ((1178 + 0.0 : ℝ) / (1236.85 : ℝ))) * ((1178 + 0.0 : ℝ) / (1236.85 : ℝ)))))) - -0.845233693854948| ≤ 2.03e-10 := by rw [dsin, sin_torad_shift270 ((2 : ℝ) * ((21.2964 : ℝ) + ((390.67050646 : ℝ) * (1178 + 0.0 : ℝ)) - ((0.0016528 : ℝ) * (((1178 + 0.0 : ℝ) / (1236.85 : ℝ)) * ((1178 + 0.0 : ℝ) / (1236.85 : ℝ)))) - ((0.00000239 : ℝ) * ((((1178 + 0.0 : ℝ) / (1236.85 : ℝ)) * ((1178 + 0.0 : ℝ) / (1236.85 : ℝ))) * ((1178 + 0.0 : ℝ) / (1236.85 : ℝ)))))) 2556]; exact ball_neg _ _ (-0.845233693854948) 2.03e-10 b107 (by norm_num [abs_of_nonneg, abs_of_nonpos])
  have b109 : |360 * ((1359 : ℤ) : ℝ) + 180 - 489420| ≤ 0 := by norm_num
  have b110 := ball_sub _ _ _ _ 23.698148151 1.23e-9 b72 b109 (by norm_num [abs_of_nonneg, abs_of_nonpos])
  have b111 := ball_torad _ _ 0.413610711860356 2.15e-11 b110 (by norm_num [abs_of_nonneg, abs_of_nonpos])
  have b112 := ball_sin1 _ _ 0.401918181441426 2.02e-10 b111 (by norm_num [abs_of_nonneg, abs_of_nonpos]) (by norm_num [abs_of_nonneg, abs_of_nonpos])
  have b113 : |dsin ((359.2242 : ℝ) + ((29.10535608 : ℝ) * (1178 + 0.0 : ℝ)) - ((0.0000333 : ℝ) * (((1178 + 0.0 : ℝ) / (1236.85 : ℝ)) * ((1178 + 0.0 : ℝ) / (1236.85 : ℝ)))) - ((0.00000347 : ℝ) * ((((1178 + 0.0 : ℝ) / (1236.85 : ℝ)) * ((1178 + 0.0 : ℝ) / (1236.85 : ℝ))) * ((1178 + 0.0 : ℝ) / (1236.85 : ℝ)))) + ((306.0253 : ℝ) + ((385.81691806 : ℝ) * (1178 + 0.0 : ℝ)) + ((0.0107306 : ℝ) * (((1178 + 0.0 : ℝ) / (1236.85 : ℝ)) * ((1178 + 0.0 : ℝ) / (1236.85 : ℝ)))) + ((0.00001236 : ℝ) * ((((1178 + 0.0 : ℝ) / (1236.85 : ℝ)) * ((1178 + 0.0 : ℝ) / (1236.85 : ℝ))) * ((1178 + 0.0 : ℝ) / (1236.85 : ℝ)))))) - -0.401918181441426| ≤ 2.02e-10 := by rw [dsin, sin_torad_shift180 ((359.2242 : ℝ) + ((29.10535608 : ℝ) * (1178 + 0.0 : ℝ)) - ((0.0000333 : ℝ) * (((1178 + 0.0 : ℝ) / (1236.85 : ℝ)) * ((1178 + 0.0 : ℝ) / (1236.85 : ℝ)))) - ((0.00000347 : ℝ) * ((((1178 + 0.0 : ℝ) / (1236.85 : ℝ)) * ((1178 + 0.0 : ℝ) / (1236.85 : ℝ))) * ((1178 + 0.0 : ℝ) / (1236.85 : ℝ)))) + ((306.0253 : ℝ) + ((385.81691806 : ℝ) * (1178 + 0.0 : ℝ)) + ((0.0107306 : ℝ) * (((1178 + 0.0 : ℝ) / (1236.85 : ℝ)) * ((1178 + 0.0 : ℝ) / (1236.85 : ℝ)))) + ((0.00001236 : ℝ) * ((((1178 + 0.0 : ℝ) / (1236.85 : ℝ)) * ((1178 + 0.0 : ℝ) / (1236.85 : ℝ))) * ((1178 + 0.0 : ℝ) / (1236.85 : ℝ)))))) 1359]; exact ball_neg _ _ (-0.401918181441426) 2.02e-10 b112 (by norm_num [abs_of_nonneg, abs_of_nonpos])
  have b114 : |360 * ((-1167 : ℤ) : ℝ) - -420120| ≤ 0 := by norm_num
  have b115 := ball_sub _ _ _ _ (-33.030890079) 1.23e-9 b73 b114 (by norm_num [abs_of_nonneg, abs_of_nonpos])
  have b116 := ball_torad _ _ (-0.57649778674288) 2.15e-11 b115 (by norm_num [abs_of_nonneg, abs_of_nonpos])
  have b117 := ball_sin1 _ _ (-0.545091111308963) 2.02e-10 b116 (by norm_num [abs_of_nonneg, abs_of_nonpos]) (by norm_num [abs_of_nonneg, abs_of_nonpos])
  have b118 : |dsin ((359.2242 : ℝ) + ((29.10535608 : ℝ) * (1178 + 0.0 : ℝ)) - ((0.0000333 : ℝ) * (((1178 + 0.0 : ℝ) / (1236.85 : ℝ)) * ((1178 + 0.0 : ℝ) / (1236.85 : ℝ)))) - ((0.00000347 : ℝ) * ((((1178 + 0.0 : ℝ) / (1236.85 : ℝ)) * ((1178 + 0.0 : ℝ) / (1236.85 : ℝ))) * ((1178 + 0.0 : ℝ) / (1236.85 : ℝ)))) - ((306.0253 : ℝ) + ((385.81691806 : ℝ) * (1178 + 0.0 : ℝ)) + ((0.0107306 : ℝ) * (((1178 + 0.0 : ℝ) / (1236.85 : ℝ)) * ((1178 + 0.0 : ℝ) / (1236.85 : ℝ)))) + ((0.00001236 : ℝ) * ((((1178 + 0.0 : ℝ) / (1236.85 : ℝ)) * ((1178 + 0.0 : ℝ) / (1236.85 : ℝ))) * ((1178 + 0.0 : ℝ) / (1236.85 : ℝ)))))) - -0.545091111308963| ≤ 2.02e-10 := by rw [dsin, sin_torad_shift ((359.2242 : ℝ) + ((29.10535608 : ℝ) * (1178 + 0.0 : ℝ)) - ((0.0000333 : ℝ) * (((1178 + 0.0 : ℝ) / (1236.85 : ℝ)) * ((1178 + 0.0 : ℝ) / (1236.85 : ℝ)))) - ((0.00000347 : ℝ) * ((((1178 + 0.0 : ℝ) / (1236.85 : ℝ)) * ((1178 + 0.0 : ℝ) / (1236.85 : ℝ))) * ((1178 + 0.0 : ℝ) / (1236.85 : ℝ)))) - ((306.0253 : ℝ) + ((385.81691806 : ℝ) * (1178 + 0.0 : ℝ)) + ((0.0107306 : ℝ) * (((1178 + 0.0 : ℝ) / (1236.85 : ℝ)) * ((1178 + 0.0 : ℝ) / (1236.85 : ℝ)))) + ((0.00001236 : ℝ) * ((((1178 + 0.0 : ℝ) / (1236.85 : ℝ)) * ((1178 + 0.0 : ℝ) / (1236.85 : ℝ))) * ((1178 + 0.0 : ℝ) / (1236.85 : ℝ)))))) (-1167)]; exact b117
  have b119 : |360 * ((2653 : ℤ) : ℝ) - 955080| ≤ 0 := by norm_num
  have b120 := ball_sub _ _ _ _ 27.636646146 1.75e-9 b74 b119 (by norm_num [abs_of_nonneg, abs_of_nonpos])
  have b121 := ball_torad _ _ 0.482350469456301 3.06e-11 b120 (by norm_num [abs_of_nonneg, abs_of_nonpos])
  have b122 := ball_sin1 _ _ 0.463862752498999 2.11e-10 b121 (by norm_num [abs_of_nonneg, abs_of_nonpos]) (by norm_num [abs_of_nonneg, abs_of_nonpos])
  have b123 : |dsin ((2 : ℝ) * ((21.2964 : ℝ) + ((390.67050646 : ℝ) * (1178 + 0.0 : ℝ)) - ((0.0016528 : ℝ) * (((1178 + 0.0 : ℝ) / (1236.85 : ℝ)) * ((1178 + 0.0 : ℝ) / (1236.85 : ℝ)))) - ((0.00000239 : ℝ) * ((((1178 + 0.0 : ℝ) / (1236.85 : ℝ)) * ((1178 + 0.0 : ℝ) / (1236.85 : ℝ))) * ((1178 + 0.0 : ℝ) / (1236.85 : ℝ))))) + ((359.2242 : ℝ) + ((29.10535608 : ℝ) * (1178 + 0.0 : ℝ)) - ((0.0000333 : ℝ) * (((1178 + 0.0 : ℝ) / (1236.85 : ℝ)) * ((1178 + 0.0 : ℝ) / (1236.85 : ℝ)))) - ((0.00000347 : ℝ) * ((((1178 + 0.0 : ℝ) / (1236.85 : ℝ)) * ((1178 + 0.0 : ℝ) / (1236.85 : ℝ))) * ((1178 + 0.0 : ℝ) / (1236.85 : ℝ)))))) - 0.463862752498999| ≤ 2.11e-10 := by rw [dsin, sin_torad_shift ((2 : ℝ) * ((21.2964 : ℝ) + ((390.67050646 : ℝ) * (1178 + 0.0 : ℝ)) - ((0.0016528 : ℝ) * (((1178 + 0.0 : ℝ) / (1236.85 : ℝ)) * ((1178 + 0.0 : ℝ) / (1236.85 : ℝ)))) - ((0.00000239 : ℝ) * ((((1178 + 0.0 : ℝ) / (1236.85 : ℝ)) * ((1178 + 0.0 : ℝ) / (1236.85 : ℝ))) * ((1178 + 0.0 : ℝ) / (1236.85 : ℝ))))) + ((359.2242 : ℝ) + ((29.10535608 : ℝ) * (1178 + 0.0 : ℝ)) - ((0.0000333 : ℝ) * (((1178 + 0.0 : ℝ) / (1236.85 : ℝ)) * ((1178 + 0.0 : ℝ) / (1236.85 : ℝ)))) - ((0.00000347 : ℝ) * ((((1178 + 0.0 : ℝ) / (1236.85 : ℝ)) * ((1178 + 0.0 : ℝ) / (1236.85 : ℝ))) * ((1178 + 0.0 : ℝ) / (1236.85 : ℝ)))))) 2653]; exact b122
  have b124 : |360 * ((2460 : ℤ) : ℝ) + 180 - 885780| ≤ 0 := by norm_num
  have b125 := ball_sub _ _ _ _ 36.969388074 1.75e-9 b75 b124 (by norm_num [abs_of_nonneg, abs_of_nonpos])
  have b126 := ball_torad _ _ 0.645237544338825 3.06e-11 b125 (by norm_num [abs_of_nonneg, abs_of_nonpos])
  have b127 := ball_sin1 _ _ 0.601388243175505 2.11e-10 b126 (by norm_num [abs_of_nonneg, abs_of_nonpos]) (by norm_num [abs_of_nonneg, abs_of_nonpos])
  have b128 : |dsin ((2 : ℝ) * ((21.2964 : ℝ) + ((390.67050646 : ℝ) * (1178 + 0.0 : ℝ)) - ((0.0016528 : ℝ) * (((1178 + 0.0 : ℝ) / (1236.85 : ℝ)) * ((1178 + 0.0 : ℝ) / (1236.85 : ℝ)))) - ((0.00000239 : ℝ) * ((((1178 + 0.0 : ℝ) / (1236.85 : ℝ)) * ((1178 + 0.0 : ℝ) / (1236.85 : ℝ))) * ((1178 + 0.0 : ℝ) / (1236.85 : ℝ))))) - ((359.2242 : ℝ) + ((29.10535608 : ℝ) * (1178 + 0.0 : ℝ)) - ((0.0000333 : ℝ) * (((1178 + 0.0 : ℝ) / (1236.85 : ℝ)) * ((1178 + 0.0 : ℝ) / (1236.85 : ℝ)))) - ((0.00000347 : ℝ) * ((((1178 + 0.0 : ℝ) / (1236.85 : ℝ)) * ((1178 + 0.0 : ℝ) / (1236.85 : ℝ))) * ((1178 + 0.0 : ℝ) / (1236.85 : ℝ)))))) - -0.601388243175505| ≤ 2.11e-10 := by rw [dsin, sin_torad_shift180 ((2 : ℝ) * ((21.2964 : ℝ) + ((390.67050646 : ℝ) * (1178 + 0.0 : ℝ)) - ((0.0016528 : ℝ) * (((1178 + 0.0 : ℝ) / (1236.85 : ℝ)) * ((1178 + 0.0 : ℝ) / (1236.85 : ℝ)))) - ((0.00000239 : ℝ) * ((((1178 + 0.0 : ℝ) / (1236.85 : ℝ)) * ((1178 + 0.0 : ℝ) / (1236.85 : ℝ))) * ((1178 + 0.0 : ℝ) / (1236.85 : ℝ))))) - ((359.2242 : ℝ) + ((29.10535608 : ℝ) * (1178 + 0.0 : ℝ)) - ((0.0000333 : ℝ) * (((1178 + 0.0 : ℝ) / (1236.85 : ℝ)) * ((1178 + 0.0 : ℝ) / (1236.85 : ℝ)))) - ((0.00000347 : ℝ) * ((((1178 + 0.0 : ℝ) / (1236.85 : ℝ)) * ((1178 + 0.0 : ℝ) / (1236.85 : ℝ))) * ((1178 + 0.0 : ℝ) / (1236.85 : ℝ)))))) 2460]; exact ball_neg _ _ (-0.601388243175505) 2.11e-10 b127 (by norm_num [abs_of_nonneg, abs_of_nonpos])
  have b129 : |360 * ((3820 : ℤ) : ℝ) + 90 - 1375290| ≤ 0 := by norm_num
  have b130 := ball_sub _ _ _ _ (-29.33246377) 7.09e-9 b76 b129 (by norm_num [abs_of_nonneg, abs_of_nonpos])
  have b131 := ball_torad _ _ (-0.511948070508449) 1.24e-10 b130 (by norm_num [abs_of_nonneg, abs_of_nonpos])
  have b132 := ball_cos1 _ _ 0.871791848526823 3.05e-10 b131 (by norm_num [abs_of_nonneg, abs_of_nonpos]) (by norm_num [abs_of_nonneg, abs_of_nonpos])
  have b133 : |dsin ((2 : ℝ) * ((21.2964 : ℝ) + ((390.67050646 : ℝ) * (1178 + 0.0 : ℝ)) - ((0.0016528 : ℝ) * (((1178 + 0.0 : ℝ) / (1236.85 : ℝ)) * ((1178 + 0.0 : ℝ) / (1236.85 : ℝ)))) - ((0.00000239 : ℝ) * ((((1178 + 0.0 : ℝ) / (1236.85 : ℝ)) * ((1178 + 0.0 : ℝ) / (1236.85 : ℝ))) * ((1178 + 0.0 : ℝ) / (1236.85 : ℝ))))) + ((306.0253 : ℝ) + ((385.81691806 : ℝ) * (1178 + 0.0 : ℝ)) + ((0.0107306 : ℝ) * (((1178 + 0.0 : ℝ) / (1236.85 : ℝ)) * ((1178 + 0.0 : ℝ) / (1236.85 : ℝ)))) + ((0.00001236 : ℝ) * ((((1178 + 0.0 : ℝ) / (1236.85 : ℝ)) * ((1178 + 0.0 : ℝ) / (1236.85 : ℝ))) * ((1178 + 0.0 : ℝ) / (1236.85 : ℝ)))))) - 0.871791848526823| ≤ 3.05e-10 := by rw [dsin, sin_torad_shift90 ((2 : ℝ) * ((21.2964 : ℝ) + ((390.67050646 : ℝ) * (1178 + 0.0 : ℝ)) - ((0.0016528 : ℝ) * (((1178 + 0.0 : ℝ) / (1236.85 : ℝ)) * ((1178 + 0.0 : ℝ) / (1236.85 : ℝ)))) - ((0.00000239 : ℝ) * ((((1178 + 0.0 : ℝ) / (1236.85 : ℝ)) * ((1178 + 0.0 : ℝ) / (1236.85 : ℝ))) * ((1178 + 0.0 : ℝ) / (1236.85 : ℝ))))) + ((306.0253 : ℝ) + ((385.81691806 : ℝ) * (1178 + 0.0 : ℝ)) + ((0.0107306 : ℝ) * (((1178 + 0.0 : ℝ) / (1236.85 : ℝ)) * ((1178 + 0.0 : ℝ) / (1236.85 : ℝ)))) + ((0.00001236 : ℝ) * ((((1178 + 0.0 : ℝ) / (1236.85 : ℝ)) * ((1178 + 0.0 : ℝ) / (1236.85 : ℝ))) * ((1178 + 0.0 : ℝ) / (1236.85 : ℝ)))))) 3820]; exact b132
  have b134 : |360 * ((1293 : ℤ) : ℝ) + 180 - 465660| ≤ 0 := by norm_num
  have b135 := ball_sub _ _ _ _ 3.938497995 2.09e-9 b77 b134 (by norm_num [abs_of_nonneg, abs_of_nonpos])
  have b136 := ball_torad _ _ 0.0687397575959452 3.65e-11 b135 (by norm_num [abs_of_nonneg, abs_of_nonpos])
  have b137 := ball_sin1 _ _ 0.0686856360575883 2.17e-10 b136 (by norm_num [abs_of_nonneg, abs_of_nonpos]) (by norm_num [abs_of_nonneg, abs_of_nonpos])
  have b138 : |dsin ((2 : ℝ) * ((21.2964 : ℝ) + ((390.67050646 : ℝ) * (1178 + 0.0 : ℝ)) - ((0.0016528 : ℝ) * (((1178 + 0.0 : ℝ) / (1236.85 : ℝ)) * ((1178 + 0.0 : ℝ) / (1236.85 : ℝ)))) - ((0.00000239 : ℝ) * ((((1178 + 0.0 : ℝ) / (1236.85 : ℝ)) * ((1178 + 0.0 : ℝ) / (1236.85 : ℝ))) * ((1178 + 0.0 : ℝ) / (1236.85 : ℝ))))) - ((306.0253 : ℝ) + ((385.81691806 : ℝ) * (1178 + 0.0 : ℝ)) + ((0.0107306 : ℝ) * (((1178 + 0.0 : ℝ) / (1236.85 : ℝ)) * ((1178 + 0.0 : ℝ) / (1236.85 : ℝ)))) + ((0.00001236 : ℝ) * ((((1178 + 0.0 : ℝ) / (1236.85 : ℝ)) * ((1178 + 0.0 : ℝ) / (1236.85 : ℝ))) * ((1178 + 0.0 : ℝ) / (1236.85 : ℝ)))))) - -0.0686856360575883| ≤ 2.17e-10 := by rw [dsin, sin_torad_shift180 ((2 : ℝ) * ((21.2964 : ℝ) + ((390.67050646 : ℝ) * (1178 + 0.0 : ℝ)) - ((0.0016528 : ℝ) * (((1178 + 0.0 : ℝ) / (1236.85 : ℝ)) * ((1178 + 0.0 : ℝ) / (1236.85 : ℝ)))) - ((0.00000239 : ℝ) * ((((1178 + 0.0 : ℝ) / (1236.85 : ℝ)) * ((1178 + 0.0 : ℝ) / (1236.85 : ℝ))) * ((1178 + 0.0 : ℝ) / (1236.85 : ℝ))))) - ((306.0253 : ℝ) + ((385.81691806 : ℝ) * (1178 + 0.0 : ℝ)) + ((0.0107306 : ℝ) * (((1178 + 0.0 : ℝ) / (1236.85 : ℝ)) * ((1178 + 0.0 : ℝ) / (1236.85 : ℝ)))) + ((0.00001236 : ℝ) * ((((1178 + 0.0 : ℝ) / (1236.85 : ℝ)) * ((1178 + 0.0 : ℝ) / (1236.85 : ℝ))) * ((1178 + 0.0 : ℝ) / (1236.85 : ℝ)))))) 1293]; exact ball_neg _ _ (-0.0686856360575883) 2.17e-10 b137 (by norm_num [abs_of_nonneg, abs_of_nonpos])
  have b139 : |360 * ((2623 : ℤ) : ℝ) - 944280| ≤ 0 := by norm_num
  have b140 := ball_sub _ _ _ _ (-37.937332734) 2.02e-9 b78 b139 (by norm_num [abs_of_nonneg, abs_of_nonpos])
  have b141 := ball_torad _ _ (-0.662131365632922) 3.53e-11 b140 (by norm_num [abs_of_nonneg, abs_of_nonpos])
  have b142 := ball_sin1 _ _ (-0.614799220381959) 2.16e-10 b141 (by norm_num [abs_of_nonneg, abs_of_nonpos]) (by norm_num [abs_of_nonneg, abs_of_nonpos])
  have b143 : |dsin ((359.2242 : ℝ) + ((29.10535608 : ℝ) * (1178 + 0.0 : ℝ)) - ((0.0000333 : ℝ) * (((1178 + 0.0 : ℝ) / (1236.85 : ℝ)) * ((1178 + 0.0 : ℝ) / (1236.85 : ℝ)))) - ((0.00000347 : ℝ) * ((((1178 + 0.0 : ℝ) / (1236.85 : ℝ)) * ((1178 + 0.0 : ℝ) / (1236.85 : ℝ))) * ((1178 + 0.0 : ℝ) / (1236.85 : ℝ)))) + ((2 : ℝ) * ((306.0253 : ℝ) + ((385.81691806 : ℝ) * (1178 + 0.0 : ℝ)) + ((0.0107306 : ℝ) * (((1178 + 0.0 : ℝ) / (1236.85 : ℝ)) * ((1178 + 0.0 : ℝ) / (1236.85 : ℝ)))) + ((0.00001236 : ℝ) * ((((1178 + 0.0 : ℝ) / (1236.85 : ℝ)) * ((1178 + 0.0 : ℝ) / (1236.85 : ℝ))) * ((1178 + 0.0 : ℝ) / (1236.85 : ℝ))))))) - -0.614799220381959| ≤ 2.16e-10 := by rw [dsin, sin_torad_shift ((359.2242 : ℝ) + ((29.10535608 : ℝ) * (1178 + 0.0 : ℝ)) - ((0.0000333 : ℝ) * (((1178 + 0.0 : ℝ) / (1236.85 : ℝ)) * ((1178 + 0.0 : ℝ) / (1236.85 : ℝ)))) - ((0.00000347 : ℝ) * ((((1178 + 0.0 : ℝ) / (1236.85 : ℝ)) * ((1178 + 0.0 : ℝ) / (1236.85 : ℝ))) * ((1178 + 0.0 : ℝ) / (1236.85 : ℝ)))) + ((2 : ℝ) * ((306.0253 : ℝ) + ((385.81691806 : ℝ) * (1178 + 0.0 : ℝ)) + ((0.0107306 : ℝ) * (((1178 + 0.0 : ℝ) / (1236.85 : ℝ)) * ((1178 + 0.0 : ℝ) / (1236.85 : ℝ)))) + ((0.00001236 : ℝ) * ((((1178 + 0.0 : ℝ) / (1236.85 : ℝ)) * ((1178 + 0.0 : ℝ) / (1236.85 : ℝ))) * ((1178 + 0.0 : ℝ) / (1236.85 : ℝ))))))) 2623]; exact b142
  have b144 := ball_refl (0.1734 : ℝ)
  have b145 := ball_refl (0.000393 : ℝ)
  have b146 := ball_mul _ _ _ _ 0.000374300844888224 3.95e-19 b145 b3 (by norm_num [abs_of_nonneg, abs_of_nonpos])
  have b147 := ball_sub _ _ _ _ 0.173025699155112 2.25e-16 b144 b146 (by norm_num [abs_of_nonneg, abs_of_nonpos])
  have b148 := ball_mul _ _ _ _ 0.172452172240759 3.14e-11 b147 b83 (by norm_num [abs_of_nonneg, abs_of_nonpos])
  have b149 := ball_refl (0.0021 : ℝ)
  have b150 := ball_mul _ _ _ _ 0.000340552249353744 3.83e-13 b149 b88 (by norm_num [abs_of_nonneg, abs_of_nonpos])
  have b151 := ball_add _ _ _ _ 0.172792724490113 3.18e-11 b148 b150 (by norm_num [abs_of_nonneg, abs_of_nonpos])
  have b152 := ball_refl (0.4068 : ℝ)
  have b153 := ball_mul _ _ _ _ 0.357960787343569 7.9e-11 b152 b93 (by norm_num [abs_of_nonneg, abs_of_nonpos])
  have b154 := ball_sub _ _ _ _ (-0.185168062853456) 1.11e-10 b151 b153 (by norm_num [abs_of_nonneg, abs_of_nonpos])
  have b155 := ball_refl (0.0161 : ℝ)
  have b156 := ball_mul _ _ _ _ (-0.0134609766427854) 3.35e-12 b155 b98 (by norm_num [abs_of_nonneg, abs_of_nonpos])
  have b157 := ball_add _ _ _ _ (-0.198629039496241) 1.15e-10 b154 b156 (by norm_num [abs_of_nonneg, abs_of_nonpos])
  have b158 := ball_refl (0.0004 : ℝ)
  have b159 := ball_mul _ _ _ _ (-0.0000342115828389389) 1.25e-13 b158 b103 (by norm_num [abs_of_nonneg, abs_of_nonpos])
  have b160 := ball_sub _ _ _ _ (-0.198594827913402) 1.16e-10 b157 b159 (by norm_num [abs_of_nonneg, abs_of_nonpos])
  have b161 := ball_refl (0.0104 : ℝ)
  have b162 := ball_mul _ _ _ _ (-0.00879043041609146) 2.12e-12 b161 b108 (by norm_num [abs_of_nonneg, abs_of_nonpos])
  have b163 := ball_add _ _ _ _ (-0.207385258329493) 1.19e-10 b160 b162 (by norm_num [abs_of_nonneg, abs_of_nonpos])
  have b164 := ball_refl (0.0051 : ℝ)
  have b165 := ball_mul _ _ _ _ (-0.00204978272535127) 1.04e-12 b164 b113 (by norm_num [abs_of_nonneg, abs_of_nonpos])
  have b166 := ball_sub _ _ _ _ (-0.205335475604142) 1.21e-10 b163 b165 (by norm_num [abs_of_nonneg, abs_of_nonpos])
  have b167 := ball_refl (0.0074 : ℝ)
  have b168 := ball_mul _ _ _ _ (-0.00403367422368633) 1.5e-12 b167 b118 (by norm_num [abs_of_nonneg, abs_of_nonpos])
  have b169 := ball_sub _ _ _ _ (-0.201301801380456) 1.23e-10 b166 b168 (by norm_num [abs_of_nonneg, abs_of_nonpos])
  have b170 := ball_refl (0.0004 : ℝ)
  have b171 := ball_mul _ _ _ _ 0.0001855451009996 8.45e-14 b170 b123 (by norm_num [abs_of_nonneg, abs_of_nonpos])
  have b172 := ball_add _ _ _ _ (-0.201116256279456) 1.24e-10 b169 b171 (by norm_num [abs_of_nonneg, abs_of_nonpos])
  have b173 := ball_refl (0.0004 : ℝ)
  have b174 := ball_mul _ _ _ _ (-0.000240555297270202) 8.44e-14 b173 b128 (by norm_num [abs_of_nonneg, abs_of_nonpos])
  have b175 := ball_sub _ _ _ _ (-0.200875700982186) 1.25e-10 b172 b174 (by norm_num [abs_of_nonneg, abs_of_nonpos])
  have b176 := ball_refl (0.0006 : ℝ)
  have b177 := ball_mul _ _ _ _ 0.000523075109116094 1.84e-13 b176 b133 (by norm_num [abs_of_nonneg, abs_of_nonpos])
  have b178 := ball_sub _ _ _ _ (-0.201398776091302) 1.26e-10 b175 b177 (by norm_num [abs_of_nonneg, abs_of_nonpos])
  have b179 : |(0.0010 : ℝ) - 0.001| ≤ 0 := by norm_num
  have b180 := ball_mul _ _ _ _ (-0.0000686856360575883) 2.17e-13 b179 b138 (by norm_num [abs_of_nonneg, abs_of_nonpos])
  have b181 := ball_add _ _ _ _ (-0.20146746172736) 1.27e-10 b178 b180 (by norm_num [abs_of_nonneg, abs_of_nonpos])
  have b182 := ball_refl (0.0005 : ℝ)
  have b183 := ball_mul _ _ _ _ (-0.00030739961019098) 1.09e-13 b182 b143 (by norm_num [abs_of_nonneg, abs_of_nonpos])
  have b184 := ball_add _ _ _ _ (-0.201774861337551) 1.28e-10 b181 b183 (by norm_num [abs_of_nonneg, abs_of_nonpos])
  have b185 := ball_add _ _ _ _ 2449807.59082337 0.0000000106 b30 b184 (by norm_num [abs_of_nonneg, abs_of_nonpos])
  have b186 : |tpNewFull 1178 0.0 - 2449807.59082337| ≤ 0.0000000106 := by
    simp only [tpNewFull]
    exact ball_center _ _ _ _ b185 (by norm_num [abs_of_nonneg, abs_of_nonpos])
  exact b186

set_option maxHeartbeats 3200000 in
/-- Claim C6.  At Unix time 794886000 (1995-03-11T01:40:00Z), the
`mooncal` computation reports Brown lunation number 893, computed as
`floor(((phases[0] + 7) - lunatbase) / synmonth) + 1` with
`lunatbase = 2423436.0`; the last new moon is JD 2449777.9930243203 and the
next new moon JD 2449807.5908233593 (both to within `1e-6` days), and the
implied next lunation number is 894. -/
theorem claim_C6_lunation :
    mooncalM 794886000 20 =
      some (893, tpNewFull 1177 0.0, tpQuarter 1177 0.25, tpNewFull 1177 0.5,
        tpQuarter 1177 0.75, tpNewFull 1178 0.0) ∧
    (893 : ℤ) = ⌊((tpNewFull 1177 0.0 + 7) - lunatbase) / synmonth⌋ + 1 ∧
    |tpNewFull 1177 0.0 - 2449777.9930243203| ≤ 1e-6 ∧
    |tpNewFull 1178 0.0 - 2449807.5908233593| ≤ 1e-6 ∧
    (893 : ℤ) + 1 = 894 := by
  have hjd : ((jtimeJD 794886000 : ℚ) : ℝ) = (176384705 / 72 : ℝ) := by
    rw [show jtimeJD 794886000 = (176384705 / 72 : ℚ) from by
      simp only [jtimeJD]
      rw [show gmtimeM 794886000 = (1995, 3, 11, 1, 40, 0) from by decide]
      norm_num [ucttoj, cTrunc, cQuot]]
    norm_num
  have hph : phasehunt ((176384705 / 72 : ℝ) + 0.5) 20 =
      some (tpNewFull 1177 0.0, tpQuarter 1177 0.25, tpNewFull 1177 0.5,
        tpQuarter 1177 0.75, tpNewFull 1178 0.0) :=
    phasehunt_eval ((176384705 / 72 : ℝ) + 0.5) 20 1995 1 25 1175 1177 1178
      (by norm_num [jyearR, cTruncR]) (by norm_num) huntC6_loop
  have b1 := ball_refl (7 : ℝ)
  have b2 := ball_add _ _ _ _ 2449784.99302433 0.0000000153 tpball_1177_00 b1 (by norm_num [abs_of_nonneg, abs_of_nonpos])
  have b3 := ball_sub _ _ _ _ 26348.99302433 0.0000000153 b2 lunatbase_ball (by norm_num [abs_of_nonneg, abs_of_nonpos])
  have b4 := ball_div _ _ _ _ 892.261014836295 5.19e-10 b3 synmonth_ball (by norm_num) (by norm_num [abs_of_nonneg, abs_of_nonpos])
  have hfl := ball_floor _ _ 892 b4 (by norm_num) (by norm_num)
  refine ⟨?_, ?_, ?_, ?_, by norm_num⟩
  · simp only [mooncalM, hjd, hph, hfl]
    norm_num [Option.some.injEq, Prod.mk.injEq]
  · rw [hfl]; norm_num
  · exact ball_center _ _ _ _ tpball_1177_00 (by norm_num [abs_of_nonneg, abs_of_nonpos])
  · exact ball_center _ _ _ _ tpball_1178_00 (by norm_num [abs_of_nonneg, abs_of_nonpos])

set_option maxHeartbeats 3200000 in
lemma huntC1_loop :
    phasehuntLoop ((2449818.3 : ℝ))
      (meanphase ((2449818.3 : ℝ) - (45 : ℝ)) 1176) 1176
      (meanphase ((2449818.3 : ℝ) - (45 : ℝ)) 1176) 20 = some (1178, 1179) := by
  have b1 := ball_refl (2449818.3 : ℝ)
  have b2 := ball_refl (45 : ℝ)
  have b3 := ball_sub _ _ _ _ 2449773.3 0 b1 b2 (by norm_num [abs_of_nonneg, abs_of_nonpos])
  have b4 : |(2415020.0 : ℝ) - 2415020| ≤ 0 := by norm_num
  have b5 := ball_sub _ _ _ _ 34753.3 0 b3 b4 (by norm_num [abs_of_nonneg, abs_of_nonpos])
  have b6 := ball_refl (36525 : ℝ)
  have b7 := ball_div _ _ _ _ 0.951493497604381 4.39e-16 b5 b6 (by norm_num) (by norm_num [abs_of_nonneg, abs_of_nonpos])
  have b8 := ball_mul _ _ _ _ 0.905339875983418 1.03e-15 b7 b7 (by norm_num [abs_of_nonneg, abs_of_nonpos])
  have b9 := ball_mul _ _ _ _ 0.861425005120179 1.46e-15 b8 b7 (by norm_num [abs_of_nonneg, abs_of_nonpos])
  have b10 := ball_refl (1176 : ℝ)
  have b11 := ball_refl (2415020.75933 : ℝ)
  have b12 := ball_mul _ _ _ _ 34727.97228768 0 synmonth_ball b10 (by norm_num [abs_of_nonneg, abs_of_nonpos])
  have b13 := ball_add _ _ _ _ 2449748.73161768 0 b11 b12 (by norm_num [abs_of_nonneg, abs_of_nonpos])
  have b14 := ball_refl (0.0001178 : ℝ)
  have b15 := ball_mul _ _ _ _ 0.000106649037390847 4.81e-19 b14 b8 (by norm_num [abs_of_nonneg, abs_of_nonpos])
  have b16 := ball_add _ _ _ _ 2449748.73172433 9.63e-10 b13 b15 (by norm_num [abs_of_nonneg, abs_of_nonpos])
  have b17 := ball_refl (0.000000155 : ℝ)
  have b18 := ball_mul _ _ _ _ 0.000000133520875793628 4.82e-22 b17 b9 (by norm_num [abs_of_nonneg, abs_of_nonpos])
  have b19 := ball_sub _ _ _ _ 2449748.7317242 4.49e-9 b16 b18 (by norm_num [abs_of_nonneg, abs_of_nonpos])
  have b20 := ball_refl (166.56 : ℝ)
  have b21 := ball_refl (132.87 : ℝ)
  have b22 := ball_mul _ _ _ _ 126.424941026694 1.62e-13 b21 b7 (by norm_num [abs_of_nonneg, abs_of_nonpos])
  have b23 := ball_add _ _ _ _ 292.984941026694 1.62e-13 b20 b22 (by norm_num [abs_of_nonneg, abs_of_nonpos])
  have b24 := ball_refl (0.009173 : ℝ)
  have b25 := ball_mul _ _ _ _ 0.00830468268239589 1.28e-17 b24 b8 (by norm_num [abs_of_nonneg, abs_of_nonpos])
  have b26 := ball_sub _ _ _ _ 292.976636344012 5.58e-13 b23 b25 (by norm_num [abs_of_nonneg, abs_of_nonpos])
  have b27 : |360 * ((0 : ℤ) : ℝ) + 270 - 270| ≤ 0 := by norm_num
  have b28 := ball_sub _ _ _ _ 22.976636344012 5.58e-13 b26 b27 (by norm_num [abs_of_nonneg, abs_of_nonpos])
  have b29 := ball_torad _ _ 0.401017955236402 9.87e-15 b28 (by norm_num [abs_of_nonneg, abs_of_nonpos])
  have b30 := ball_cos1 _ _ 0.920664106413849 1.81e-10 b29 (by norm_num [abs_of_nonneg, abs_of_nonpos]) (by norm_num [abs_of_nonneg, abs_of_nonpos])
  have b31 : |dsin ((166.56 : ℝ) + ((132.87 : ℝ) * (((2449818.3 : ℝ) - (45 : ℝ) - (2415020.0 : ℝ)) / (36525 : ℝ))) - ((0.009173 : ℝ) * ((((2449818.3 : ℝ) - (45 : ℝ) - (2415020.0 : ℝ)) / (36525 : ℝ)) * (((2449818.3 : ℝ) - (45 : ℝ) - (2415020.0 : ℝ)) / (36525 : ℝ))))) - -0.920664106413849| ≤ 1.81e-10 := by rw [dsin, sin_torad_shift270 ((166.56 : ℝ) + ((132.87 : ℝ) * (((2449818.3 : ℝ) - (45 : ℝ) - (2415020.0 : ℝ)) / (36525 : ℝ))) - ((0.009173 : ℝ) * ((((2449818.3 : ℝ) - (45 : ℝ) - (2415020.0 : ℝ)) / (36525 : ℝ)) * (((2449818.3 : ℝ) - (45 : ℝ) - (2415020.0 : ℝ)) / (36525 : ℝ))))) 0]; exact ball_neg _ _ (-0.920664106413849) 1.81e-10 b30 (by norm_num [abs_of_nonneg, abs_of_nonpos])
  have b32 := ball_refl (0.00033 : ℝ)
  have b33 := ball_mul _ _ _ _ (-0.00030381915511657) 5.98e-14 b32 b31 (by norm_num [abs_of_nonneg, abs_of_nonpos])
  have b34 := ball_add _ _ _ _ 2449748.73142038 5.34e-9 b19 b33 (by norm_num [abs_of_nonneg, abs_of_nonpos])
  have b35 : |meanphase ((2449818.3 : ℝ) - (45 : ℝ)) 1176 - 2449748.73142038| ≤ 5.34e-9 := by
    simp only [meanphase]
    exact ball_center _ _ _ _ b34 (by norm_num [abs_of_nonneg, abs_of_nonpos])
  have b36 := ball_add _ _ _ _ 2449778.26200906 5.34e-9 b35 synmonth_ball (by norm_num [abs_of_nonneg, abs_of_nonpos])
  have b37 : |(2415020.0 : ℝ) - 2415020| ≤ 0 := by norm_num
  have b38 := ball_sub _ _ _ _ 34758.26200906 5.34e-9 b36 b37 (by norm_num [abs_of_nonneg, abs_of_nonpos])
  have b39 := ball_refl (36525 : ℝ)
  have b40 := ball_div _ _ _ _ 0.951629350008487 1.47e-13 b38 b39 (by norm_num) (by norm_num [abs_of_nonneg, abs_of_nonpos])
  have b41 := ball_mul _ _ _ _ 0.905598419797575 2.81e-13 b40 b40 (by norm_num [abs_of_nonneg, abs_of_nonpos])
  have b42 := ball_mul _ _ _ _ 0.861794035600679 4.01e-13 b41 b40 (by norm_num [abs_of_nonneg, abs_of_nonpos])
  have b43 : |(1176 + 1 : ℝ) - 1177| ≤ 0 := by norm_num
  have b44 := ball_refl (2415020.75933 : ℝ)
  have b45 := ball_mul _ _ _ _ 34757.50287636 0 synmonth_ball b43 (by norm_num [abs_of_nonneg, abs_of_nonpos])
  have b46 := ball_add _ _ _ _ 2449778.26220636 0 b44 b45 (by norm_num [abs_of_nonneg, abs_of_nonpos])
  have b47 := ball_refl (0.0001178 : ℝ)
  have b48 := ball_mul _ _ _ _ 0.000106679493852154 3.35e-17 b47 b41 (by norm_num [abs_of_nonneg, abs_of_nonpos])
  have b49 := ball_add _ _ _ _ 2449778.26231304 5.07e-10 b46 b48 (by norm_num [abs_of_nonneg, abs_of_nonpos])
  have b50 := ball_refl (0.000000155 : ℝ)
  have b51 := ball_mul _ _ _ _ 0.000000133578075518105 6.24e-20 b50 b42 (by norm_num [abs_of_nonneg, abs_of_nonpos])
  have b52 := ball_sub _ _ _ _ 2449778.26231291 4.09e-9 b49 b51 (by norm_num [abs_of_nonneg, abs_of_nonpos])
  have b53 := ball_refl (166.56 : ℝ)
  have b54 := ball_refl (132.87 : ℝ)
  have b55 := ball_mul _ _ _ _ 126.442991735628 1.99e-11 b54 b40 (by norm_num [abs_of_nonneg, abs_of_nonpos])
  have b56 := ball_add _ _ _ _ 293.002991735628 1.99e-11 b53 b55 (by norm_num [abs_of_nonneg, abs_of_nonpos])
  have b57 := ball_refl (0.009173 : ℝ)
  have b58 := ball_mul _ _ _ _ 0.00830705430480316 2.59e-15 b57 b41 (by norm_num [abs_of_nonneg, abs_of_nonpos])
  have b59 := ball_sub _ _ _ _ 292.994684681323 2.01e-11 b56 b58 (by norm_num [abs_of_nonneg, abs_of_nonpos])
  have b60 : |360 * ((0 : ℤ) : ℝ) + 270 - 270| ≤ 0 := by norm_num
  have b61 := ball_sub _ _ _ _ 22.994684681323 2.01e-11 b59 b60 (by norm_num [abs_of_nonneg, abs_of_nonpos])
  have b62 := ball_torad _ _ 0.401332958146989 3.52e-13 b61 (by norm_num [abs_of_nonneg, abs_of_nonpos])
  have b63 := ball_cos1 _ _ 0.920541097544564 1.81e-10 b62 (by norm_num [abs_of_nonneg, abs_of_nonpos]) (by norm_num [abs_of_nonneg, abs_of_nonpos])
  have b64 : |dsin ((166.56 : ℝ) + ((132.87 : ℝ) * ((meanphase ((2449818.3 : ℝ) - (45 : ℝ)) 1176 + synmonth - (2415020.0 : ℝ)) / (36525 : ℝ))) - ((0.009173 : ℝ) * (((meanphase ((2449818.3 : ℝ) - (45 : ℝ)) 1176 + synmonth - (2415020.0 : ℝ)) / (36525 : ℝ)) * ((meanphase ((2449818.3 : ℝ) - (45 : ℝ)) 1176 + synmonth - (2415020.0 : ℝ)) / (36525 : ℝ))))) - -0.920541097544564| ≤ 1.81e-10 := by rw [dsin, sin_torad_shift270 ((166.56 : ℝ) + ((132.87 : ℝ) * ((meanphase ((2449818.3 : ℝ) - (45 : ℝ)) 1176 + synmonth - (2415020.0 : ℝ)) / (36525 : ℝ))) - ((0.009173 : ℝ) * (((meanphase ((2449818.3 : ℝ) - (45 : ℝ)) 1176 + synmonth - (2415020.0 : ℝ)) / (36525 : ℝ)) * ((meanphase ((2449818.3 : ℝ) - (45 : ℝ)) 1176 + synmonth - (2415020.0 : ℝ)) / (36525 : ℝ))))) 0]; exact ball_neg _ _ (-0.920541097544564) 1.81e-10 b63 (by norm_num [abs_of_nonneg, abs_of_nonpos])
  have b65 := ball_refl (0.00033 : ℝ)
  have b66 := ball_mul _ _ _ _ (-0.000303778562189706) 5.98e-14 b65 b64 (by norm_num [abs_of_nonneg, abs_of_nonpos])
  have b67 := ball_add _ _ _ _ 2449778.26200913 5.53e-9 b52 b66 (by norm_num [abs_of_nonneg, abs_of_nonpos])
  have b68 : |meanphase (meanphase ((2449818.3 : ℝ) - (45 : ℝ)) 1176 + synmonth) (1176 + 1) - 2449778.26200913| ≤ 5.53e-9 := by
    simp only [meanphase]
    exact ball_center _ _ _ _ b67 (by norm_num [abs_of_nonneg, abs_of_nonpos])
  rw [show (20 : ℕ) = 19 + 1 from rfl, phasehuntLoop_succ,
    if_neg (fun hc => absurd hc.2 (not_lt.2 (ball_le _ _ _ b68 (by norm_num))))]
  have b69 := ball_add _ _ _ _ 2449807.79259774 5.34e-9 b36 synmonth_ball (by norm_num [abs_of_nonneg, abs_of_nonpos])
  have b70 : |(2415020.0 : ℝ) - 2415020| ≤ 0 := by norm_num
  have b71 := ball_sub _ _ _ _ 34787.79259774 5.34e-9 b69 b70 (by norm_num [abs_of_nonneg, abs_of_nonpos])
  have b72 := ball_refl (36525 : ℝ)
  have b73 := ball_div _ _ _ _ 0.952437853463107 1.47e-13 b71 b72 (by norm_num) (by norm_num [abs_of_nonneg, abs_of_nonpos])
  have b74 := ball_mul _ _ _ _ 0.907137864709411 2.81e-13 b73 b73 (by norm_num [abs_of_nonneg, abs_of_nonpos])
  have b75 := ball_mul _ _ _ _ 0.863992440658938 4.02e-13 b74 b73 (by norm_num [abs_of_nonneg, abs_of_nonpos])
  have b76 : |(1176 + 1 + 1 : ℝ) - 1178| ≤ 0 := by norm_num
  have b77 := ball_refl (2415020.75933 : ℝ)
  have b78 := ball_mul _ _ _ _ 34787.03346504 0 synmonth_ball b76 (by norm_num [abs_of_nonneg, abs_of_nonpos])
  have b79 := ball_add _ _ _ _ 2449807.79279504 0 b77 b78 (by norm_num [abs_of_nonneg, abs_of_nonpos])
  have b80 := ball_refl (0.0001178 : ℝ)
  have b81 := ball_mul _ _ _ _ 0.000106860840462769 3.35e-17 b80 b74 (by norm_num [abs_of_nonneg, abs_of_nonpos])
  have b82 := ball_add _ _ _ _ 2449807.7929019 8.41e-10 b79 b81 (by norm_num [abs_of_nonneg, abs_of_nonpos])
  have b83 := ball_refl (0.000000155 : ℝ)
  have b84 := ball_mul _ _ _ _ 0.000000133918828302135 6.27e-20 b83 b75 (by norm_num [abs_of_nonneg, abs_of_nonpos])
  have b85 := ball_sub _ _ _ _ 2449807.79290177 4.76e-9 b82 b84 (by norm_num [abs_of_nonneg, abs_of_nonpos])
  have b86 := ball_refl (166.56 : ℝ)
  have b87 := ball_refl (132.87 : ℝ)
  have b88 := ball_mul _ _ _ _ 126.550417589643 1.96e-11 b87 b73 (by norm_num [abs_of_nonneg, abs_of_nonpos])
  have b89 := ball_add _ _ _ _ 293.110417589643 1.96e-11 b86 b88 (by norm_num [abs_of_nonneg, abs_of_nonpos])
  have b90 := ball_refl (0.009173 : ℝ)
  have b91 := ball_mul _ _ _ _ 0.00832117563297943 2.59e-15 b90 b74 (by norm_num [abs_of_nonneg, abs_of_nonpos])
  have b92 := ball_sub _ _ _ _ 293.10209641401 1.97e-11 b89 b91 (by norm_num [abs_of_nonneg, abs_of_nonpos])
  have b93 : |360 * ((0 : ℤ) : ℝ) + 270 - 270| ≤ 0 := by norm_num
  have b94 := ball_sub _ _ _ _ 23.10209641401 1.97e-11 b92 b93 (by norm_num [abs_of_nonneg, abs_of_nonpos])
  have b95 := ball_torad _ _ 0.40320764653765 3.45e-13 b94 (by norm_num [abs_of_nonneg, abs_of_nonpos])
  have b96 := ball_cos1 _ _ 0.919807141354984 1.81e-10 b95 (by norm_num [abs_of_nonneg, abs_of_nonpos]) (by norm_num [abs_of_nonneg, abs_of_nonpos])
  have b97 : |dsin ((166.56 : ℝ) + ((132.87 : ℝ) * ((meanphase ((2449818.3 : ℝ) - (45 : ℝ)) 1176 + synmonth + synmonth - (2415020.0 : ℝ)) / (36525 : ℝ))) - ((0.009173 : ℝ) * (((meanphase ((2449818.3 : ℝ) - (45 : ℝ)) 1176 + synmonth + synmonth - (2415020.0 : ℝ)) / (36525 : ℝ)) * ((meanphase ((2449818.3 : ℝ) - (45 : ℝ)) 1176 + synmonth + synmonth - (2415020.0 : ℝ)) / (36525 : ℝ))))) - -0.919807141354984| ≤ 1.81e-10 := by rw [dsin, sin_torad_shift270 ((166.56 : ℝ) + ((132.87 : ℝ) * ((meanphase ((2449818.3 : ℝ) - (45 : ℝ)) 1176 + synmonth + synmonth - (2415020.0 : ℝ)) / (36525 : ℝ))) - ((0.009173 : ℝ) * (((meanphase ((2449818.3 : ℝ) - (45 : ℝ)) 1176 + synmonth + synmonth - (2415020.0 : ℝ)) / (36525 : ℝ)) * ((meanphase ((2449818.3 : ℝ) - (45 : ℝ)) 1176 + synmonth + synmonth - (2415020.0 : ℝ)) / (36525 : ℝ))))) 0]; exact ball_neg _ _ (-0.919807141354984) 1.81e-10 b96 (by norm_num [abs_of_nonneg, abs_of_nonpos])
  have b98 := ball_refl (0.00033 : ℝ)
  have b99 := ball_mul _ _ _ _ (-0.000303536356647145) 5.98e-14 b98 b97 (by norm_num [abs_of_nonneg, abs_of_nonpos])
  have b100 := ball_add _ _ _ _ 2449807.79259823 8.41e-9 b85 b99 (by norm_num [abs_of_nonneg, abs_of_nonpos])
  have b101 : |meanphase (meanphase ((2449818.3 : ℝ) - (45 : ℝ)) 1176 + synmonth + synmonth) (1176 + 1 + 1) - 2449807.79259823| ≤ 8.41e-9 := by
    simp only [meanphase]
    exact ball_center _ _ _ _ b100 (by norm_num [abs_of_nonneg, abs_of_nonpos])
  rw [show (19 : ℕ) = 18 + 1 from rfl, phasehuntLoop_succ,
    if_neg (fun hc => absurd hc.2 (not_lt.2 (ball_le _ _ _ b101 (by norm_num))))]
  have b102 := ball_add _ _ _ _ 2449837.32318642 5.34e-9 b69 synmonth_ball (by norm_num [abs_of_nonneg, abs_of_nonpos])
  have b103 : |(2415020.0 : ℝ) - 2415020| ≤ 0 := by norm_num
  have b104 := ball_sub _ _ _ _ 34817.32318642 5.34e-9 b102 b103 (by norm_num [abs_of_nonneg, abs_of_nonpos])
  have b105 := ball_refl (36525 : ℝ)
  have b106 := ball_div _ _ _ _ 0.953246356917728 1.47e-13 b104 b105 (by norm_num) (by norm_num [abs_of_nonneg, abs_of_nonpos])
  have b107 := ball_mul _ _ _ _ 0.90867861697692 2.81e-13 b106 b106 (by norm_num [abs_of_nonneg, abs_of_nonpos])
  have b108 := ball_mul _ _ _ _ 0.866194581242289 4.02e-13 b107 b106 (by norm_num [abs_of_nonneg, abs_of_nonpos])
  have b109 : |(1176 + 1 + 1 + 1 : ℝ) - 1179| ≤ 0 := by norm_num
  have b110 := ball_refl (2415020.75933 : ℝ)
  have b111 := ball_mul _ _ _ _ 34816.56405372 0 synmonth_ball b109 (by norm_num [abs_of_nonneg, abs_of_nonpos])
  have b112 := ball_add _ _ _ _ 2449837.32338372 0 b110 b111 (by norm_num [abs_of_nonneg, abs_of_nonpos])
  have b113 := ball_refl (0.0001178 : ℝ)
  have b114 := ball_mul _ _ _ _ 0.000107042341079881 3.33e-17 b113 b107 (by norm_num [abs_of_nonneg, abs_of_nonpos])
  have b115 := ball_add _ _ _ _ 2449837.32349076 2.35e-9 b112 b114 (by norm_num [abs_of_nonneg, abs_of_nonpos])
  have b116 := ball_refl (0.000000155 : ℝ)
  have b117 := ball_mul _ _ _ _ 0.000000134260160092555 6.26e-20 b116 b108 (by norm_num [abs_of_nonneg, abs_of_nonpos])
  have b118 := ball_sub _ _ _ _ 2449837.32349063 6.62e-9 b115 b117 (by norm_num [abs_of_nonneg, abs_of_nonpos])
  have b119 := ball_refl (166.56 : ℝ)
  have b120 := ball_refl (132.87 : ℝ)
  have b121 := ball_mul _ _ _ _ 126.657843443659 2.01e-11 b120 b106 (by norm_num [abs_of_nonneg, abs_of_nonpos])
  have b122 := ball_add _ _ _ _ 293.217843443659 2.01e-11 b119 b121 (by norm_num [abs_of_nonneg, abs_of_nonpos])
  have b123 := ball_refl (0.009173 : ℝ)
  have b124 := ball_mul _ _ _ _ 0.00833530895352929 2.59e-15 b123 b107 (by norm_num [abs_of_nonneg, abs_of_nonpos])
  have b125 := ball_sub _ _ _ _ 293.209508134705 2.06e-11 b122 b124 (by norm_num [abs_of_nonneg, abs_of_nonpos])
  have b126 : |360 * ((0 : ℤ) : ℝ) + 270 - 270| ≤ 0 := by norm_num
  have b127 := ball_sub _ _ _ _ 23.209508134705 2.06e-11 b125 b126 (by norm_num [abs_of_nonneg, abs_of_nonpos])
  have b128 := ball_torad _ _ 0.40508233471901 3.6e-13 b127 (by norm_num [abs_of_nonneg, abs_of_nonpos])
  have b129 := ball_cos1 _ _ 0.919069952626591 1.81e-10 b128 (by norm_num [abs_of_nonneg, abs_of_nonpos]) (by norm_num [abs_of_nonneg, abs_of_nonpos])
  have b130 : |dsin ((166.56 : ℝ) + ((132.87 : ℝ) * ((meanphase ((2449818.3 : ℝ) - (45 : ℝ)) 1176 + synmonth + synmonth + synmonth - (2415020.0 : ℝ)) / (36525 : ℝ))) - ((0.009173 : ℝ) * (((meanphase ((2449818.3 : ℝ) - (45 : ℝ)) 1176 + synmonth + synmonth + synmonth - (2415020.0 : ℝ)) / (36525 : ℝ)) * ((meanphase ((2449818.3 : ℝ) - (45 : ℝ)) 1176 + synmonth + synmonth + synmonth - (2415020.0 : ℝ)) / (36525 : ℝ))))) - -0.919069952626591| ≤ 1.81e-10 := by rw [dsin, sin_torad_shift270 ((166.56 : ℝ) + ((132.87 : ℝ) * ((meanphase ((2449818.3 : ℝ) - (45 : ℝ)) 1176 + synmonth + synmonth + synmonth - (2415020.0 : ℝ)) / (36525 : ℝ))) - ((0.009173 : ℝ) * (((meanphase ((2449818.3 : ℝ) - (45 : ℝ)) 1176 + synmonth + synmonth + synmonth - (2415020.0 : ℝ)) / (36525 : ℝ)) * ((meanphase ((2449818.3 : ℝ) - (45 : ℝ)) 1176 + synmonth + synmonth + synmonth - (2415020.0 : ℝ)) / (36525 : ℝ))))) 0]; exact ball_neg _ _ (-0.919069952626591) 1.81e-10 b129 (by norm_num [abs_of_nonneg, abs_of_nonpos])
  have b131 := ball_refl (0.00033 : ℝ)
  have b132 := ball_mul _ _ _ _ (-0.000303293084366775) 5.98e-14 b131 b130 (by norm_num [abs_of_nonneg, abs_of_nonpos])
  have b133 := ball_add _ _ _ _ 2449837.32318734 9.71e-9 b118 b132 (by norm_num [abs_of_nonneg, abs_of_nonpos])
  have b134 : |meanphase (meanphase ((2449818.3 : ℝ) - (45 : ℝ)) 1176 + synmonth + synmonth + synmonth) (1176 + 1 + 1 + 1) - 2449837.32318734| ≤ 9.71e-9 := by
    simp only [meanphase]
    exact ball_center _ _ _ _ b133 (by norm_num [abs_of_nonneg, abs_of_nonpos])
  rw [show (18 : ℕ) = 17 + 1 from rfl, phasehuntLoop_succ,
    if_pos ⟨ball_le _ _ _ b101 (by norm_num),
      ball_gt _ _ _ b134 (by norm_num)⟩]
  simp only [Option.some.injEq, Prod.mk.injEq]
  refine ⟨by norm_num, by norm_num⟩

set_option maxHeartbeats 3200000 in
lemma huntC1_nt1 :
    |meanphase ((2449818.3 : ℝ) - (45 : ℝ)) 1176 - (2415020.75933 + synmonth * 1176)| ≤ 0.1 := by
  have b1 := ball_refl (2449818.3 : ℝ)
  have b2 := ball_refl (45 : ℝ)
  have b3 := ball_sub _ _ _ _ 2449773.3 0 b1 b2 (by norm_num [abs_of_nonneg, abs_of_nonpos])
  have b4 : |(2415020.0 : ℝ) - 2415020| ≤ 0 := by norm_num
  have b5 := ball_sub _ _ _ _ 34753.3 0 b3 b4 (by norm_num [abs_of_nonneg, abs_of_nonpos])
  have b6 := ball_refl (36525 : ℝ)
  have b7 := ball_div _ _ _ _ 0.951493497604381 4.39e-16 b5 b6 (by norm_num) (by norm_num [abs_of_nonneg, abs_of_nonpos])
  have b8 := ball_mul _ _ _ _ 0.905339875983418 1.03e-15 b7 b7 (by norm_num [abs_of_nonneg, abs_of_nonpos])
  have b9 := ball_mul _ _ _ _ 0.861425005120179 1.46e-15 b8 b7 (by norm_num [abs_of_nonneg, abs_of_nonpos])
  have b10 := ball_refl (1176 : ℝ)
  have b11 := ball_refl (2415020.75933 : ℝ)
  have b12 := ball_mul _ _ _ _ 34727.97228768 0 synmonth_ball b10 (by norm_num [abs_of_nonneg, abs_of_nonpos])
  have b13 := ball_add _ _ _ _ 2449748.73161768 0 b11 b12 (by norm_num [abs_of_nonneg, abs_of_nonpos])
  have b14 := ball_refl (0.0001178 : ℝ)
  have b15 := ball_mul _ _ _ _ 0.000106649037390847 4.81e-19 b14 b8 (by norm_num [abs_of_nonneg, abs_of_nonpos])
  have b16 := ball_add _ _ _ _ 2449748.73172433 9.63e-10 b13 b15 (by norm_num [abs_of_nonneg, abs_of_nonpos])
  have b17 := ball_refl (0.000000155 : ℝ)
  have b18 := ball_mul _ _ _ _ 0.000000133520875793628 4.82e-22 b17 b9 (by norm_num [abs_of_nonneg, abs_of_nonpos])
  have b19 := ball_sub _ _ _ _ 2449748.7317242 4.49e-9 b16 b18 (by norm_num [abs_of_nonneg, abs_of_nonpos])
  have b20 := ball_refl (166.56 : ℝ)
  have b21 := ball_refl (132.87 : ℝ)
  have b22 := ball_mul _ _ _ _ 126.424941026694 1.62e-13 b21 b7 (by norm_num [abs_of_nonneg, abs_of_nonpos])
  have b23 := ball_add _ _ _ _ 292.984941026694 1.62e-13 b20 b22 (by norm_num [abs_of_nonneg, abs_of_nonpos])
  have b24 := ball_refl (0.009173 : ℝ)
  have b25 := ball_mul _ _ _ _ 0.00830468268239589 1.28e-17 b24 b8 (by norm_num [abs_of_nonneg, abs_of_nonpos])
  have b26 := ball_sub _ _ _ _ 292.976636344012 5.58e-13 b23 b25 (by norm_num [abs_of_nonneg, abs_of_nonpos])
  have b27 : |360 * ((0 : ℤ) : ℝ) + 270 - 270| ≤ 0 := by norm_num
  have b28 := ball_sub _ _ _ _ 22.976636344012 5.58e-13 b26 b27 (by norm_num [abs_of_nonneg, abs_of_nonpos])
  have b29 := ball_torad _ _ 0.401017955236402 9.87e-15 b28 (by norm_num [abs_of_nonneg, abs_of_nonpos])
  have b30 := ball_cos1 _ _ 0.920664106413849 1.81e-10 b29 (by norm_num [abs_of_nonneg, abs_of_nonpos]) (by norm_num [abs_of_nonneg, abs_of_nonpos])
  have b31 : |dsin ((166.56 : ℝ) + ((132.87 : ℝ) * (((2449818.3 : ℝ) - (45 : ℝ) - (2415020.0 : ℝ)) / (36525 : ℝ))) - ((0.009173 : ℝ) * ((((2449818.3 : ℝ) - (45 : ℝ) - (2415020.0 : ℝ)) / (36525 : ℝ)) * (((2449818.3 : ℝ) - (45 : ℝ) - (2415020.0 : ℝ)) / (36525 : ℝ))))) - -0.920664106413849| ≤ 1.81e-10 := by rw [dsin, sin_torad_shift270 ((166.56 : ℝ) + ((132.87 : ℝ) * (((2449818.3 : ℝ) - (45 : ℝ) - (2415020.0 : ℝ)) / (36525 : ℝ))) - ((0.009173 : ℝ) * ((((2449818.3 : ℝ) - (45 : ℝ) - (2415020.0 : ℝ)) / (36525 : ℝ)) * (((2449818.3 : ℝ) - (45 : ℝ) - (2415020.0 : ℝ)) / (36525 : ℝ))))) 0]; exact ball_neg _ _ (-0.920664106413849) 1.81e-10 b30 (by norm_num [abs_of_nonneg, abs_of_nonpos])
  have b32 := ball_refl (0.00033 : ℝ)
  have b33 := ball_mul _ _ _ _ (-0.00030381915511657) 5.98e-14 b32 b31 (by norm_num [abs_of_nonneg, abs_of_nonpos])
  have b34 := ball_add _ _ _ _ 2449748.73142038 5.34e-9 b19 b33 (by norm_num [abs_of_nonneg, abs_of_nonpos])
  have b35 : |meanphase ((2449818.3 : ℝ) - (45 : ℝ)) 1176 - 2449748.73142038| ≤ 5.34e-9 := by
    simp only [meanphase]
    exact ball_center _ _ _ _ b34 (by norm_num [abs_of_nonneg, abs_of_nonpos])
  exact ball_center _ _ _ _ b35 (by norm_num [synmonth, abs_of_nonneg, abs_of_nonpos])

set_option maxHeartbeats 3200000 in
lemma tpball_1178_25 : |tpQuarter 1178 0.25 - 2449815.73279705| ≤ 0.0000000115 := by
  have b1 : |(1178 + 0.25 : ℝ) - 1178.25| ≤ 0 := by norm_num
  have b2 := ball_refl (1236.85 : ℝ)
  have b3 := ball_div _ _ _ _ 0.952621579011198 2e-16 b1 b2 (by norm_num) (by norm_num [abs_of_nonneg, abs_of_nonpos])
  have b4 := ball_mul _ _ _ _ 0.907487872797788 5.35e-16 b3 b3 (by norm_num [abs_of_nonneg, abs_of_nonpos])
  have b5 := ball_mul _ _ _ _ 0.864492530318142 6.93e-16 b4 b3 (by norm_num [abs_of_nonneg, abs_of_nonpos])
  have b6 : |(1178 + 0.25 : ℝ) - 1178.25| ≤ 0 := by norm_num
  have b7 := ball_refl (2415020.75933 : ℝ)
  have b8 := ball_mul _ _ _ _ 34794.41611221 0 synmonth_ball b6 (by norm_num [abs_of_nonneg, abs_of_nonpos])
  have b9 := ball_add _ _ _ _ 2449815.17544221 0 b7 b8 (by norm_num [abs_of_nonneg, abs_of_nonpos])
  have b10 := ball_refl (0.0001178 : ℝ)
  have b11 := ball_mul _ _ _ _ 0.000106902071415579 4.9e-19 b10 b4 (by norm_num [abs_of_nonneg, abs_of_nonpos])
  have b12 := ball_add _ _ _ _ 2449815.17554911 2.08e-9 b9 b11 (by norm_num [abs_of_nonneg, abs_of_nonpos])
  have b13 := ball_refl (0.000000155 : ℝ)
  have b14 := ball_mul _ _ _ _ 0.000000133996342199312 1.18e-22 b13 b5 (by norm_num [abs_of_nonneg, abs_of_nonpos])
  have b15 := ball_sub _ _ _ _ 2449815.17554898 6.08e-9 b12 b14 (by norm_num [abs_of_nonneg, abs_of_nonpos])
  have b16 := ball_refl (166.56 : ℝ)
  have b17 := ball_refl (132.87 : ℝ)
  have b18 := ball_mul _ _ _ _ 126.574829203218 1.49e-13 b17 b3 (by norm_num [abs_of_nonneg, abs_of_nonpos])
  have b19 := ball_add _ _ _ _ 293.134829203218 1.49e-13 b16 b18 (by norm_num [abs_of_nonneg, abs_of_nonpos])
  have b20 := ball_refl (0.009173 : ℝ)
  have b21 := ball_mul _ _ _ _ 0.00832438625717411 5.59e-18 b20 b4 (by norm_num [abs_of_nonneg, abs_of_nonpos])
  have b22 := ball_sub _ _ _ _ 293.126504816961 3.24e-13 b19 b21 (by norm_num [abs_of_nonneg, abs_of_nonpos])
  have b23 : |360 * ((0 : ℤ) : ℝ) + 270 - 270| ≤ 0 := by norm_num
  have b24 := ball_sub _ _ _ _ 23.126504816961 3.24e-13 b22 b23 (by norm_num [abs_of_nonneg, abs_of_nonpos])
  have b25 := ball_torad _ _ 0.403633653534298 5.69e-15 b24 (by norm_num [abs_of_nonneg, abs_of_nonpos])
  have b26 := ball_cos1 _ _ 0.919639905201691 1.81e-10 b25 (by norm_num [abs_of_nonneg, abs_of_nonpos]) (by norm_num [abs_of_nonneg, abs_of_nonpos])
  have b27 : |dsin ((166.56 : ℝ) + ((132.87 : ℝ) * ((1178 + 0.25 : ℝ) / (1236.85 : ℝ))) - ((0.009173 : ℝ) * (((1178 + 0.25 : ℝ) / (1236.85 : ℝ)) * ((1178 + 0.25 : ℝ) / (1236.85 : ℝ))))) - -0.919639905201691| ≤ 1.81e-10 := by rw [dsin, sin_torad_shift270 ((166.56 : ℝ) + ((132.87 : ℝ) * ((1178 + 0.25 : ℝ) / (1236.85 : ℝ))) - ((0.009173 : ℝ) * (((1178 + 0.25 : ℝ) / (1236.85 : ℝ)) * ((1178 + 0.25 : ℝ) / (1236.85 : ℝ))))) 0]; exact ball_neg _ _ (-0.919639905201691) 1.81e-10 b26 (by norm_num [abs_of_nonneg, abs_of_nonpos])
  have b28 := ball_refl (0.00033 : ℝ)
  have b29 := ball_mul _ _ _ _ (-0.000303481168716558) 5.98e-14 b28 b27 (by norm_num [abs_of_nonneg, abs_of_nonpos])
  have b30 := ball_add _ _ _ _ 2449815.1752455 7.25e-9 b15 b29 (by norm_num [abs_of_nonneg, abs_of_nonpos])
  have b31 := ball_refl (359.2242 : ℝ)
  have b32 := ball_refl (29.10535608 : ℝ)
  have b33 : |(1178 + 0.25 : ℝ) - 1178.25| ≤ 0 := by norm_num
  have b34 := ball_mul _ _ _ _ 34293.38580126 0 b32 b33 (by norm_num [abs_of_nonneg, abs_of_nonpos])
  have b35 := ball_add _ _ _ _ 34652.61000126 0 b31 b34 (by norm_num [abs_of_nonneg, abs_of_nonpos])
  have b36 := ball_refl (0.0000333 : ℝ)
  have b37 := ball_mul _ _ _ _ 0.0000302193461641663 5.83e-20 b36 b4 (by norm_num [abs_of_nonneg, abs_of_nonpos])
  have b38 := ball_sub _ _ _ _ 34652.6099710407 4.62e-11 b35 b37 (by norm_num [abs_of_nonneg, abs_of_nonpos])
  have b39 := ball_refl (0.00000347 : ℝ)
  have b40 := ball_mul _ _ _ _ 0.00000299978908020395 5.15e-21 b39 b5 (by norm_num [abs_of_nonneg, abs_of_nonpos])
  have b41 := ball_sub _ _ _ _ 34652.6099680409 5.72e-11 b38 b40 (by norm_num [abs_of_nonneg, abs_of_nonpos])
  have b42 := ball_refl (306.0253 : ℝ)
  have b43 := ball_refl (385.81691806 : ℝ)
  have b44 : |(1178 + 0.25 : ℝ) - 1178.25| ≤ 0 := by norm_num
  have b45 := ball_mul _ _ _ _ 454588.783704195 0 b43 b44 (by norm_num [abs_of_nonneg, abs_of_nonpos])
  have b46 := ball_add _ _ _ _ 454894.809004195 0 b42 b45 (by norm_num [abs_of_nonneg, abs_of_nonpos])
  have b47 := ball_refl (0.0107306 : ℝ)
  have b48 := ball_mul _ _ _ _ 0.00973788936784394 9.66e-18 b47 b4 (by norm_num [abs_of_nonneg, abs_of_nonpos])
  have b49 := ball_add _ _ _ _ 454894.818742084 3.68e-10 b46 b48 (by norm_num [abs_of_nonneg, abs_of_nonpos])
  have b50 := ball_refl (0.00001236 : ℝ)
  have b51 := ball_mul _ _ _ _ 0.0000106851276747322 4.37e-20 b50 b5 (by norm_num [abs_of_nonneg, abs_of_nonpos])
  have b52 := ball_add _ _ _ _ 454894.818752769 4.96e-10 b49 b51 (by norm_num [abs_of_nonneg, abs_of_nonpos])
  have b53 := ball_refl (21.2964 : ℝ)
  have b54 := ball_refl (390.67050646 : ℝ)
  have b55 : |(1178 + 0.25 : ℝ) - 1178.25| ≤ 0 := by norm_num
  have b56 := ball_mul _ _ _ _ 460307.524236495 0 b54 b55 (by norm_num [abs_of_nonneg, abs_of_nonpos])
  have b57 := ball_add _ _ _ _ 460328.820636495 0 b53 b56 (by norm_num [abs_of_nonneg, abs_of_nonpos])
  have b58 := ball_refl (0.0016528 : ℝ)
  have b59 := ball_mul _ _ _ _ 0.00149989595616018 4.9e-18 b58 b4 (by norm_num [abs_of_nonneg, abs_of_nonpos])
  have b60 := ball_sub _ _ _ _ 460328.819136599 4.39e-11 b57 b59 (by norm_num [abs_of_nonneg, abs_of_nonpos])
  have b61 := ball_refl (0.00000239 : ℝ)
  have b62 := ball_mul _ _ _ _ 0.00000206613714746036 2.28e-21 b61 b5 (by norm_num [abs_of_nonneg, abs_of_nonpos])
  have b63 := ball_sub _ _ _ _ 460328.819134533 1.82e-10 b60 b62 (by norm_num [abs_of_nonneg, abs_of_nonpos])
  have b64 := ball_refl (2 : ℝ)
  have b65 := ball_refl (3 : ℝ)
  have b66 := ball_mul _ _ _ _ 69305.2199360818 1.15e-10 b64 b41 (by norm_num [abs_of_nonneg, abs_of_nonpos])
  have b67 := ball_refl (2 : ℝ)
  have b68 := ball_mul _ _ _ _ 909789.637505538 9.92e-10 b67 b52 (by norm_num [abs_of_nonneg, abs_of_nonpos])
  have b69 := ball_mul _ _ _ _ 1364684.45625831 4.49e-9 b65 b52 (by norm_num [abs_of_nonneg, abs_of_nonpos])
  have b70 := ball_refl (2 : ℝ)
  have b71 := ball_mul _ _ _ _ 920657.638269066 3.64e-10 b70 b63 (by norm_num [abs_of_nonneg, abs_of_nonpos])
  have b72 := ball_add _ _ _ _ 489547.42872081 6.54e-10 b41 b52 (by norm_num [abs_of_nonneg, abs_of_nonpos])
  have b73 := ball_sub _ _ _ _ (-420242.208784728) 6.54e-10 b41 b52 (by norm_num [abs_of_nonneg, abs_of_nonpos])
  have b74 := ball_add _ _ _ _ 955310.248237107 5.22e-10 b71 b41 (by norm_num [abs_of_nonneg, abs_of_nonpos])
  have b75 := ball_sub _ _ _ _ 886005.028301025 5.22e-10 b71 b41 (by norm_num [abs_of_nonneg, abs_of_nonpos])
  have b76 := ball_add _ _ _ _ 1375552.45702184 5.86e-9 b71 b52 (by norm_num [abs_of_nonneg, abs_of_nonpos])
  have b77 := ball_sub _ _ _ _ 465762.819516297 8.6e-10 b71 b52 (by norm_num [abs_of_nonneg, abs_of_nonpos])
  have b78 := ball_add _ _ _ _ 944442.247473579 1.15e-9 b41 b68 (by norm_num [abs_of_nonneg, abs_of_nonpos])
  have b79 := ball_sub _ _ _ _ (-875137.027537497) 1.15e-9 b41 b68 (by norm_num [abs_of_nonneg, abs_of_nonpos])
  have b80 := ball_add _ _ _ _ 524200.038688851 8.11e-10 b66 b52 (by norm_num [abs_of_nonneg, abs_of_nonpos])
  have b81 : |360 * ((96 : ℤ) : ℝ) + 90 - 34650| ≤ 0 := by norm_num
  have b82 := ball_sub _ _ _ _ 2.6099680409 5.72e-11 b41 b81 (by norm_num [abs_of_nonneg, abs_of_nonpos])
  have b83 := ball_torad _ _ 0.045552535685531 9.99e-13 b82 (by norm_num [abs_of_nonneg, abs_of_nonpos])
  have b84 := ball_cos1 _ _ 0.998962662640736 1.81e-10 b83 (by norm_num [abs_of_nonneg, abs_of_nonpos]) (by norm_num [abs_of_nonneg, abs_of_nonpos])
  have b85 : |dsin ((359.2242 : ℝ) + ((29.10535608 : ℝ) * (1178 + 0.25 : ℝ)) - ((0.0000333 : ℝ) * (((1178 + 0.25 : ℝ) / (1236.85 : ℝ)) * ((1178 + 0.25 : ℝ) / (1236.85 : ℝ)))) - ((0.00000347 : ℝ) * ((((1178 + 0.25 : ℝ) / (1236.85 : ℝ)) * ((1178 + 0.25 : ℝ) / (1236.85 : ℝ))) * ((1178 + 0.25 : ℝ) / (1236.85 : ℝ))))) - 0.998962662640736| ≤ 1.81e-10 := by rw [dsin, sin_torad_shift90 ((359.2242 : ℝ) + ((29.10535608 : ℝ) * (1178 + 0.25 : ℝ)) - ((0.0000333 : ℝ) * (((1178 + 0.25 : ℝ) / (1236.85 : ℝ)) * ((1178 + 0.25 : ℝ) / (1236.85 : ℝ)))) - ((0.00000347 : ℝ) * ((((1178 + 0.25 : ℝ) / (1236.85 : ℝ)) * ((1178 + 0.25 : ℝ) / (1236.85 : ℝ))) * ((1178 + 0.25 : ℝ) / (1236.85 : ℝ))))) 96]; exact b84
  have b86 : |360 * ((192 : ℤ) : ℝ) + 180 - 69300| ≤ 0 := by norm_num
  have b87 := ball_sub _ _ _ _ 5.2199360818 1.15e-10 b66 b86 (by norm_num [abs_of_nonneg, abs_of_nonpos])
  have b88 := ball_torad _ _ 0.0911050713710621 2.01e-12 b87 (by norm_num [abs_of_nonneg, abs_of_nonpos])
  have b89 := ball_sin1 _ _ 0.0909790929471276 1.83e-10 b88 (by norm_num [abs_of_nonneg, abs_of_nonpos]) (by norm_num [abs_of_nonneg, abs_of_nonpos])
  have b90 : |dsin ((2 : ℝ) * ((359.2242 : ℝ) + ((29.10535608 : ℝ) * (1178 + 0.25 : ℝ)) - ((0.0000333 : ℝ) * (((1178 + 0.25 : ℝ) / (1236.85 : ℝ)) * ((1178 + 0.25 : ℝ) / (1236.85 : ℝ)))) - ((0.00000347 : ℝ) * ((((1178 + 0.25 : ℝ) / (1236.85 : ℝ)) * ((1178 + 0.25 : ℝ) / (1236.85 : ℝ))) * ((1178 + 0.25 : ℝ) / (1236.85 : ℝ)))))) - -0.0909790929471276| ≤ 1.83e-10 := by rw [dsin, sin_torad_shift180 ((2 : ℝ) * ((359.2242 : ℝ) + ((29.10535608 : ℝ) * (1178 + 0.25 : ℝ)) - ((0.0000333 : ℝ) * (((1178 + 0.25 : ℝ) / (1236.85 : ℝ)) * ((1178 + 0.25 : ℝ) / (1236.85 : ℝ)))) - ((0.00000347 : ℝ) * ((((1178 + 0.25 : ℝ) / (1236.85 : ℝ)) * ((1178 + 0.25 : ℝ) / (1236.85 : ℝ))) * ((1178 + 0.25 : ℝ) / (1236.85 : ℝ)))))) 192]; exact ball_neg _ _ (-0.0909790929471276) 1.83e-10 b89 (by norm_num [abs_of_nonneg, abs_of_nonpos])
  have b91 : |360 * ((1263 : ℤ) : ℝ) + 180 - 454860| ≤ 0 := by norm_num
  have b92 := ball_sub _ _ _ _ 34.818752769 4.96e-10 b52 b91 (by norm_num [abs_of_nonneg, abs_of_nonpos])
  have b93 := ball_torad _ _ 0.607701877256943 8.67e-12 b92 (by norm_num [abs_of_nonneg, abs_of_nonpos])
  have b94 := ball_sin1 _ _ 0.570982297245854 1.89e-10 b93 (by norm_num [abs_of_nonneg, abs_of_nonpos]) (by norm_num [abs_of_nonneg, abs_of_nonpos])
  have b95 : |dsin ((306.0253 : ℝ) + ((385.81691806 : ℝ) * (1178 + 0.25 : ℝ)) + ((0.0107306 : ℝ) * (((1178 + 0.25 : ℝ) / (1236.85 : ℝ)) * ((1178 + 0.25 : ℝ) / (1236.85 : ℝ)))) + ((0.00001236 : ℝ) * ((((1178 + 0.25 : ℝ) / (1236.85 : ℝ)) * ((1178 + 0.25 : ℝ) / (1236.85 : ℝ))) * ((1178 + 0.25 : ℝ) / (1236.85 : ℝ))))) - -0.570982297245854| ≤ 1.89e-10 := by rw [dsin, sin_torad_shift180 ((306.0253 : ℝ) + ((385.81691806 : ℝ) * (1178 + 0.25 : ℝ)) + ((0.0107306 : ℝ) * (((1178 + 0.25 : ℝ) / (1236.85 : ℝ)) * ((1178 + 0.25 : ℝ) / (1236.85 : ℝ)))) + ((0.00001236 : ℝ) * ((((1178 + 0.25 : ℝ) / (1236.85 : ℝ)) * ((1178 + 0.25 : ℝ) / (1236.85 : ℝ))) * ((1178 + 0.25 : ℝ) / (1236.85 : ℝ))))) 1263]; exact ball_neg _ _ (-0.570982297245854) 1.89e-10 b94 (by norm_num [abs_of_nonneg, abs_of_nonpos])
  have b96 : |360 * ((2527 : ℤ) : ℝ) + 90 - 909810| ≤ 0 := by norm_num
  have b97 := ball_sub _ _ _ _ (-20.362494462) 9.92e-10 b68 b96 (by norm_num [abs_of_nonneg, abs_of_nonpos])
  have b98 := ball_torad _ _ (-0.355392572281011) 1.74e-11 b97 (by norm_num [abs_of_nonneg, abs_of_nonpos])
  have b99 := ball_cos1 _ _ 0.937509962228562 1.98e-10 b98 (by norm_num [abs_of_nonneg, abs_of_nonpos]) (by norm_num [abs_of_nonneg, abs_of_nonpos])
  have b100 : |dsin ((2 : ℝ) * ((306.0253 : ℝ) + ((385.81691806 : ℝ) * (1178 + 0.25 : ℝ)) + ((0.0107306 : ℝ) * (((1178 + 0.25 : ℝ) / (1236.85 : ℝ)) * ((1178 + 0.25 : ℝ) / (1236.85 : ℝ)))) + ((0.00001236 : ℝ) * ((((1178 + 0.25 : ℝ) / (1236.85 : ℝ)) * ((1178 + 0.25 : ℝ) / (1236.85 : ℝ))) * ((1178 + 0.25 : ℝ) / (1236.85 : ℝ)))))) - 0.937509962228562| ≤ 1.98e-10 := by rw [dsin, sin_torad_shift90 ((2 : ℝ) * ((306.0253 : ℝ) + ((385.81691806 : ℝ) * (1178 + 0.25 : ℝ)) + ((0.0107306 : ℝ) * (((1178 + 0.25 : ℝ) / (1236.85 : ℝ)) * ((1178 + 0.25 : ℝ) / (1236.85 : ℝ)))) + ((0.00001236 : ℝ) * ((((1178 + 0.25 : ℝ) / (1236.85 : ℝ)) * ((1178 + 0.25 : ℝ) / (1236.85 : ℝ))) * ((1178 + 0.25 : ℝ) / (1236.85 : ℝ)))))) 2527]; exact b99
  have b101 : |360 * ((3790 : ℤ) : ℝ) + 270 - 1364670| ≤ 0 := by norm_num
  have b102 := ball_sub _ _ _ _ 14.45625831 4.49e-9 b69 b101 (by norm_num [abs_of_nonneg, abs_of_nonpos])
  have b103 := ball_torad _ _ 0.252309305028291 7.84e-11 b102 (by norm_num [abs_of_nonneg, abs_of_nonpos])
  have b104 := ball_cos1 _ _ 0.968338507460931 2.59e-10 b103 (by norm_num [abs_of_nonneg, abs_of_nonpos]) (by norm_num [abs_of_nonneg, abs_of_nonpos])
  have b105 : |dsin ((3 : ℝ) * ((306.0253 : ℝ) + ((385.81691806 : ℝ) * (1178 + 0.25 : ℝ)) + ((0.0107306 : ℝ) * (((1178 + 0.25 : ℝ) / (1236.85 : ℝ)) * ((1178 + 0.25 : ℝ) / (1236.85 : ℝ)))) + ((0.00001236 : ℝ) * ((((1178 + 0.25 : ℝ) / (1236.85 : ℝ)) * ((1178 + 0.25 : ℝ) / (1236.85 : ℝ))) * ((1178 + 0.25 : ℝ) / (1236.85 : ℝ)))))) - -0.968338507460931| ≤ 2.59e-10 := by rw [dsin, sin_torad_shift270 ((3 : ℝ) * ((306.0253 : ℝ) + ((385.81691806 : ℝ) * (1178 + 0.25 : ℝ)) + ((0.0107306 : ℝ) * (((1178 + 0.25 : ℝ) / (1236.85 : ℝ)) * ((1178 + 0.25 : ℝ) / (1236.85 : ℝ)))) + ((0.00001236 : ℝ) * ((((1178 + 0.25 : ℝ) / (1236.85 : ℝ)) * ((1178 + 0.25 : ℝ) / (1236.85 : ℝ))) * ((1178 + 0.25 : ℝ) / (1236.85 : ℝ)))))) 3790]; exact ball_neg _ _ (-0.968338507460931) 2.59e-10 b104 (by norm_num [abs_of_nonneg, abs_of_nonpos])
  have b106 : |360 * ((2557 : ℤ) : ℝ) + 180 - 920700| ≤ 0 := by norm_num
  have b107 := ball_sub _ _ _ _ (-42.361730934) 3.64e-10 b71 b106 (by norm_num [abs_of_nonneg, abs_of_nonpos])
  have b108 := ball_torad _ _ (-0.739351681642233) 6.36e-12 b107 (by norm_num [abs_of_nonneg, abs_of_nonpos])
  have b109 := ball_sin1 _ _ (-0.673809007228038) 1.87e-10 b108 (by norm_num [abs_of_nonneg, abs_of_nonpos]) (by norm_num [abs_of_nonneg, abs_of_nonpos])
  have b110 : |dsin ((2 : ℝ) * ((21.2964 : ℝ) + ((390.67050646 : ℝ) * (1178 + 0.25 : ℝ)) - ((0.0016528 : ℝ) * (((1178 + 0.25 : ℝ) / (1236.85 : ℝ)) * ((1178 + 0.25 : ℝ) / (1236.85 : ℝ)))) - ((0.00000239 : ℝ) * ((((1178 + 0.25 : ℝ) / (1236.85 : ℝ)) * ((1178 + 0.25 : ℝ) / (1236.85 : ℝ))) * ((1178 + 0.25 : ℝ) / (1236.85 : ℝ)))))) - 0.673809007228038| ≤ 1.87e-10 := by rw [dsin, sin_torad_shift180 ((2 : ℝ) * ((21.2964 : ℝ) + ((390.67050646 : ℝ) * (1178 + 0.25 : ℝ)) - ((0.0016528 : ℝ) * (((1178 + 0.25 : ℝ) / (1236.85 : ℝ)) * ((1178 + 0.25 : ℝ) / (1236.85 : ℝ)))) - ((0.00000239 : ℝ) * ((((1178 + 0.25 : ℝ) / (1236.85 : ℝ)) * ((1178 + 0.25 : ℝ) / (1236.85 : ℝ))) * ((1178 + 0.25 : ℝ) / (1236.85 : ℝ)))))) 2557]; exact ball_neg _ _ 0.673809007228038 1.87e-10 b109 (by norm_num [abs_of_nonneg, abs_of_nonpos])
  have b111 : |360 * ((1359 : ℤ) : ℝ) + 270 - 489510| ≤ 0 := by norm_num
  have b112 := ball_sub _ _ _ _ 37.42872081 6.54e-10 b72 b111 (by norm_num [abs_of_nonneg, abs_of_nonpos])
  have b113 := ball_torad _ _ 0.653254412944219 1.15e-11 b112 (by norm_num [abs_of_nonneg, abs_of_nonpos])
  have b114 := ball_cos1 _ _ 0.79411005981412 1.92e-10 b113 (by norm_num [abs_of_nonneg, abs_of_nonpos]) (by norm_num [abs_of_nonneg, abs_of_nonpos])
  have b115 : |dsin ((359.2242 : ℝ) + ((29.10535608 : ℝ) * (1178 + 0.25 : ℝ)) - ((0.0000333 : ℝ) * (((1178 + 0.25 : ℝ) / (1236.85 : ℝ)) * ((1178 + 0.25 : ℝ) / (1236.85 : ℝ)))) - ((0.00000347 : ℝ) * ((((1178 + 0.25 : ℝ) / (1236.85 : ℝ)) * ((1178 + 0.25 : ℝ) / (1236.85 : ℝ))) * ((1178 + 0.25 : ℝ) / (1236.85 : ℝ)))) + ((306.0253 : ℝ) + ((385.81691806 : ℝ) * (1178 + 0.25 : ℝ)) + ((0.0107306 : ℝ) * (((1178 + 0.25 : ℝ) / (1236.85 : ℝ)) * ((1178 + 0.25 : ℝ) / (1236.85 : ℝ)))) + ((0.00001236 : ℝ) * ((((1178 + 0.25 : ℝ) / (1236.85 : ℝ)) * ((1178 + 0.25 : ℝ) / (1236.85 : ℝ))) * ((1178 + 0.25 : ℝ) / (1236.85 : ℝ)))))) - -0.79411005981412| ≤ 1.92e-10 := by rw [dsin, sin_torad_shift270 ((359.2242 : ℝ) + ((29.10535608 : ℝ) * (1178 + 0.25 : ℝ)) - ((0.0000333 : ℝ) * (((1178 + 0.25 : ℝ) / (1236.85 : ℝ)) * ((1178 + 0.25 : ℝ) / (1236.85 : ℝ)))) - ((0.00000347 : ℝ) * ((((1178 + 0.25 : ℝ) / (1236.85 : ℝ)) * ((1178 + 0.25 : ℝ) / (1236.85 : ℝ))) * ((1178 + 0.25 : ℝ) / (1236.85 : ℝ)))) + ((306.0253 : ℝ) + ((385.81691806 : ℝ) * (1178 + 0.25 : ℝ)) + ((0.0107306 : ℝ) * (((1178 + 0.25 : ℝ) / (1236.85 : ℝ)) * ((1178 + 0.25 : ℝ) / (1236.85 : ℝ)))) + ((0.00001236 : ℝ) * ((((1178 + 0.25 : ℝ) / (1236.85 : ℝ)) * ((1178 + 0.25 : ℝ) / (1236.85 : ℝ))) * ((1178 + 0.25 : ℝ) / (1236.85 : ℝ)))))) 1359]; exact ball_neg _ _ (-0.79411005981412) 1.92e-10 b114 (by norm_num [abs_of_nonneg, abs_of_nonpos])
  have b116 : |360 * ((-1168 : ℤ) : ℝ) + 270 - -420210| ≤ 0 := by norm_num
  have b117 := ball_sub _ _ _ _ (-32.208784728) 6.54e-10 b73 b116 (by norm_num [abs_of_nonneg, abs_of_nonpos])
  have b118 := ball_torad _ _ (-0.562149341569666) 1.15e-11 b117 (by norm_num [abs_of_nonneg, abs_of_nonpos])
  have b119 := ball_cos1 _ _ 0.846111454297632 1.92e-10 b118 (by norm_num [abs_of_nonneg, abs_of_nonpos]) (by norm_num [abs_of_nonneg, abs_of_nonpos])
  have b120 : |dsin ((359.2242 : ℝ) + ((29.10535608 : ℝ) * (1178 + 0.25 : ℝ)) - ((0.0000333 : ℝ) * (((1178 + 0.25 : ℝ) / (1236.85 : ℝ)) * ((1178 + 0.25 : ℝ) / (1236.85 : ℝ)))) - ((0.00000347 : ℝ) * ((((1178 + 0.25 : ℝ) / (1236.85 : ℝ)) * ((1178 + 0.25 : ℝ) / (1236.85 : ℝ))) * ((1178 + 0.25 : ℝ) / (1236.85 : ℝ)))) - ((306.0253 : ℝ) + ((385.81691806 : ℝ) * (1178 + 0.25 : ℝ)) + ((0.0107306 : ℝ) * (((1178 + 0.25 : ℝ) / (1236.85 : ℝ)) * ((1178 + 0.25 : ℝ) / (1236.85 : ℝ)))) + ((0.00001236 : ℝ) * ((((1178 + 0.25 : ℝ) / (1236.85 : ℝ)) * ((1178 + 0.25 : ℝ) / (1236.85 : ℝ))) * ((1178 + 0.25 : ℝ) / (1236.85 : ℝ)))))) - -0.846111454297632| ≤ 1.92e-10 := by rw [dsin, sin_torad_shift270 ((359.2242 : ℝ) + ((29.10535608 : ℝ) * (1178 + 0.25 : ℝ)) - ((0.0000333 : ℝ) * (((1178 + 0.25 : ℝ) / (1236.85 : ℝ)) * ((1178 + 0.25 : ℝ) / (1236.85 : ℝ)))) - ((0.00000347 : ℝ) * ((((1178 + 0.25 : ℝ) / (1236.85 : ℝ)) * ((1178 + 0.25 : ℝ) / (1236.85 : ℝ))) * ((1178 + 0.25 : ℝ) / (1236.85 : ℝ)))) - ((306.0253 : ℝ) + ((385.81691806 : ℝ) * (1178 + 0.25 : ℝ)) + ((0.0107306 : ℝ) * (((1178 + 0.25 : ℝ) / (1236.85 : ℝ)) * ((1178 + 0.25 : ℝ) / (1236.85 : ℝ)))) + ((0.00001236 : ℝ) * ((((1178 + 0.25 : ℝ) / (1236.85 : ℝ)) * ((1178 + 0.25 : ℝ) / (1236.85 : ℝ))) * ((1178 + 0.25 : ℝ) / (1236.85 : ℝ)))))) (-1168)]; exact ball_neg _ _ (-0.846111454297632) 1.92e-10 b119 (by norm_num [abs_of_nonneg, abs_of_nonpos])
  have b121 : |360 * ((2653 : ℤ) : ℝ) + 270 - 955350| ≤ 0 := by norm_num
  have b122 := ball_sub _ _ _ _ (-39.751762893) 5.22e-10 b74 b121 (by norm_num [abs_of_nonneg, abs_of_nonpos])
  have b123 := ball_torad _ _ (-0.693799145954956) 9.12e-12 b122 (by norm_num [abs_of_nonneg, abs_of_nonpos])
  have b124 := ball_cos1 _ _ 0.768822157266738 1.9e-10 b123 (by norm_num [abs_of_nonneg, abs_of_nonpos]) (by norm_num [abs_of_nonneg, abs_of_nonpos])
  have b125 : |dsin ((2 : ℝ) * ((21.2964 : ℝ) + ((390.67050646 : ℝ) * (1178 + 0.25 : ℝ)) - ((0.0016528 : ℝ) * (((1178 + 0.25 : ℝ) / (1236.85 : ℝ)) * ((1178 + 0.25 : ℝ) / (1236.85 : ℝ)))) - ((0.00000239 : ℝ) * ((((1178 + 0.25 : ℝ) / (1236.85 : ℝ)) * ((1178 + 0.25 : ℝ) / (1236.85 : ℝ))) * ((1178 + 0.25 : ℝ) / (1236.85 : ℝ))))) + ((359.2242 : ℝ) + ((29.10535608 : ℝ) * (1178 + 0.25 : ℝ)) - ((0.0000333 : ℝ) * (((1178 + 0.25 : ℝ) / (1236.85 : ℝ)) * ((1178 + 0.25 : ℝ) / (1236.85 : ℝ)))) - ((0.00000347 : ℝ) * ((((1178 + 0.25 : ℝ) / (1236.85 : ℝ)) * ((1178 + 0.25 : ℝ) / (1236.85 : ℝ))) * ((1178 + 0.25 : ℝ) / (1236.85 : ℝ)))))) - -0.768822157266738| ≤ 1.9e-10 := by rw [dsin, sin_torad_shift270 ((2 : ℝ) * ((21.2964 : ℝ) + ((390.67050646 : ℝ) * (1178 + 0.25 : ℝ)) - ((0.0016528 : ℝ) * (((1178 + 0.25 : ℝ) / (1236.85 : ℝ)) * ((1178 + 0.25 : ℝ) / (1236.85 : ℝ)))) - ((0.00000239 : ℝ) * ((((1178 + 0.25 : ℝ) / (1236.85 : ℝ)) * ((1178 + 0.25 : ℝ) / (1236.85 : ℝ))) * ((1178 + 0.25 : ℝ) / (1236.85 : ℝ))))) + ((359.2242 : ℝ) + ((29.10535608 : ℝ) * (1178 + 0.25 : ℝ)) - ((0.0000333 : ℝ) * (((1178 + 0.25 : ℝ) / (1236.85 : ℝ)) * ((1178 + 0.25 : ℝ) / (1236.85 : ℝ)))) - ((0.00000347 : ℝ) * ((((1178 + 0.25 : ℝ) / (1236.85 : ℝ)) * ((1178 + 0.25 : ℝ) / (1236.85 : ℝ))) * ((1178 + 0.25 : ℝ) / (1236.85 : ℝ)))))) 2653]; exact ball_neg _ _ (-0.768822157266738) 1.9e-10 b124 (by norm_num [abs_of_nonneg, abs_of_nonpos])
  have b126 : |360 * ((2461 : ℤ) : ℝ) + 90 - 886050| ≤ 0 := by norm_num
  have b127 := ball_sub _ _ _ _ (-44.971698975) 5.22e-10 b75 b126 (by norm_num [abs_of_nonneg, abs_of_nonpos])
  have b128 := ball_torad _ _ (-0.784904217329509) 9.12e-12 b127 (by norm_num [abs_of_nonneg, abs_of_nonpos])
  have b129 := ball_cos1 _ _ 0.707455967525995 1.9e-10 b128 (by norm_num [abs_of_nonneg, abs_of_nonpos]) (by norm_num [abs_of_nonneg, abs_of_nonpos])
  have b130 : |dsin ((2 : ℝ) * ((21.2964 : ℝ) + ((390.67050646 : ℝ) * (1178 + 0.25 : ℝ)) - ((0.0016528 : ℝ) * (((1178 + 0.25 : ℝ) / (1236.85 : ℝ)) * ((1178 + 0.25 : ℝ) / (1236.85 : ℝ)))) - ((0.00000239 : ℝ) * ((((1178 + 0.25 : ℝ) / (1236.85 : ℝ)) * ((1178 + 0.25 : ℝ) / (1236.85 : ℝ))) * ((1178 + 0.25 : ℝ) / (1236.85 : ℝ))))) - ((359.2242 : ℝ) + ((29.10535608 : ℝ) * (1178 + 0.25 : ℝ)) - ((0.0000333 : ℝ) * (((1178 + 0.25 : ℝ) / (1236.85 : ℝ)) * ((1178 + 0.25 : ℝ) / (1236.85 : ℝ)))) - ((0.00000347 : ℝ) * ((((1178 + 0.25 : ℝ) / (1236.85 : ℝ)) * ((1178 + 0.25 : ℝ) / (1236.85 : ℝ))) * ((1178 + 0.25 : ℝ) / (1236.85 : ℝ)))))) - 0.707455967525995| ≤ 1.9e-10 := by rw [dsin, sin_torad_shift90 ((2 : ℝ) * ((21.2964 : ℝ) + ((390.67050646 : ℝ) * (1178 + 0.25 : ℝ)) - ((0.0016528 : ℝ) * (((1178 + 0.25 : ℝ) / (1236.85 : ℝ)) * ((1178 + 0.25 : ℝ) / (1236.85 : ℝ)))) - ((0.00000239 : ℝ) * ((((1178 + 0.25 : ℝ) / (1236.85 : ℝ)) * ((1178 + 0.25 : ℝ) / (1236.85 : ℝ))) * ((1178 + 0.25 : ℝ) / (1236.85 : ℝ))))) - ((359.2242 : ℝ) + ((29.10535608 : ℝ) * (1178 + 0.25 : ℝ)) - ((0.0000333 : ℝ) * (((1178 + 0.25 : ℝ) / (1236.85 : ℝ)) * ((1178 + 0.25 : ℝ) / (1236.85 : ℝ)))) - ((0.00000347 : ℝ) * ((((1178 + 0.25 : ℝ) / (1236.85 : ℝ)) * ((1178 + 0.25 : ℝ) / (1236.85 : ℝ))) * ((1178 + 0.25 : ℝ) / (1236.85 : ℝ)))))) 2461]; exact b129
  have b131 : |360 * ((3821 : ℤ) : ℝ) - 1375560| ≤ 0 := by norm_num
  have b132 := ball_sub _ _ _ _ (-7.54297816) 5.86e-9 b76 b131 (by norm_num [abs_of_nonneg, abs_of_nonpos])
  have b133 := ball_torad _ _ (-0.131649804298024) 1.03e-10 b132 (by norm_num [abs_of_nonneg, abs_of_nonpos])
  have b134 := ball_sin1 _ _ (-0.131269848529017) 2.84e-10 b133 (by norm_num [abs_of_nonneg, abs_of_nonpos]) (by norm_num [abs_of_nonneg, abs_of_nonpos])
  have b135 : |dsin ((2 : ℝ) * ((21.2964 : ℝ) + ((390.67050646 : ℝ) * (1178 + 0.25 : ℝ)) - ((0.0016528 : ℝ) * (((1178 + 0.25 : ℝ) / (1236.85 : ℝ)) * ((1178 + 0.25 : ℝ) / (1236.85 : ℝ)))) - ((0.00000239 : ℝ) * ((((1178 + 0.25 : ℝ) / (1236.85 : ℝ)) * ((1178 + 0.25 : ℝ) / (1236.85 : ℝ))) * ((1178 + 0.25 : ℝ) / (1236.85 : ℝ))))) + ((306.0253 : ℝ) + ((385.81691806 : ℝ) * (1178 + 0.25 : ℝ)) + ((0.0107306 : ℝ) * (((1178 + 0.25 : ℝ) / (1236.85 : ℝ)) * ((1178 + 0.25 : ℝ) / (1236.85 : ℝ)))) + ((0.00001236 : ℝ) * ((((1178 + 0.25 : ℝ) / (1236.85 : ℝ)) * ((1178 + 0.25 : ℝ) / (1236.85 : ℝ))) * ((1178 + 0.25 : ℝ) / (1236.85 : ℝ)))))) - -0.131269848529017| ≤ 2.84e-10 := by rw [dsin, sin_torad_shift ((2 : ℝ) * ((21.2964 : ℝ) + ((390.67050646 : ℝ) * (1178 + 0.25 : ℝ)) - ((0.0016528 : ℝ) * (((1178 + 0.25 : ℝ) / (1236.85 : ℝ)) * ((1178 + 0.25 : ℝ) / (1236.85 : ℝ)))) - ((0.00000239 : ℝ) * ((((1178 + 0.25 : ℝ) / (1236.85 : ℝ)) * ((1178 + 0.25 : ℝ) / (1236.85 : ℝ))) * ((1178 + 0.25 : ℝ) / (1236.85 : ℝ))))) + ((306.0253 : ℝ) + ((385.81691806 : ℝ) * (1178 + 0.25 : ℝ)) + ((0.0107306 : ℝ) * (((1178 + 0.25 : ℝ) / (1236.85 : ℝ)) * ((1178 + 0.25 : ℝ) / (1236.85 : ℝ)))) + ((0.00001236 : ℝ) * ((((1178 + 0.25 : ℝ) / (1236.85 : ℝ)) * ((1178 + 0.25 : ℝ) / (1236.85 : ℝ))) * ((1178 + 0.25 : ℝ) / (1236.85 : ℝ)))))) 3821]; exact b134
  have b136 : |360 * ((1293 : ℤ) : ℝ) + 270 - 465750| ≤ 0 := by norm_num
  have b137 := ball_sub _ _ _ _ 12.819516297 8.6e-10 b77 b136 (by norm_num [abs_of_nonneg, abs_of_nonpos])
  have b138 := ball_torad _ _ 0.223742767895721 1.51e-11 b137 (by norm_num [abs_of_nonneg, abs_of_nonpos])
  have b139 := ball_cos1 _ _ 0.975073833080638 1.96e-10 b138 (by norm_num [abs_of_nonneg, abs_of_nonpos]) (by norm_num [abs_of_nonneg, abs_of_nonpos])
  have b140 : |dsin ((2 : ℝ) * ((21.2964 : ℝ) + ((390.67050646 : ℝ) * (1178 + 0.25 : ℝ)) - ((0.0016528 : ℝ) * (((1178 + 0.25 : ℝ) / (1236.85 : ℝ)) * ((1178 + 0.25 : ℝ) / (1236.85 : ℝ)))) - ((0.00000239 : ℝ) * ((((1178 + 0.25 : ℝ) / (1236.85 : ℝ)) * ((1178 + 0.25 : ℝ) / (1236.85 : ℝ))) * ((1178 + 0.25 : ℝ) / (1236.85 : ℝ))))) - ((306.0253 : ℝ) + ((385.81691806 : ℝ) * (1178 + 0.25 : ℝ)) + ((0.0107306 : ℝ) * (((1178 + 0.25 : ℝ) / (1236.85 : ℝ)) * ((1178 + 0.25 : ℝ) / (1236.85 : ℝ)))) + ((0.00001236 : ℝ) * ((((1178 + 0.25 : ℝ) / (1236.85 : ℝ)) * ((1178 + 0.25 : ℝ) / (1236.85 : ℝ))) * ((1178 + 0.25 : ℝ) / (1236.85 : ℝ)))))) - -0.975073833080638| ≤ 1.96e-10 := by rw [dsin, sin_torad_shift270 ((2 : ℝ) * ((21.2964 : ℝ) + ((390.67050646 : ℝ) * (1178 + 0.25 : ℝ)) - ((0.0016528 : ℝ) * (((1178 + 0.25 : ℝ) / (1236.85 : ℝ)) * ((1178 + 0.25 : ℝ) / (1236.85 : ℝ)))) - ((0.00000239 : ℝ) * ((((1178 + 0.25 : ℝ) / (1236.85 : ℝ)) * ((1178 + 0.25 : ℝ) / (1236.85 : ℝ))) * ((1178 + 0.25 : ℝ) / (1236.85 : ℝ))))) - ((306.0253 : ℝ) + ((385.81691806 : ℝ) * (1178 + 0.25 : ℝ)) + ((0.0107306 : ℝ) * (((1178 + 0.25 : ℝ) / (1236.85 : ℝ)) * ((1178 + 0.25 : ℝ) / (1236.85 : ℝ)))) + ((0.00001236 : ℝ) * ((((1178 + 0.25 : ℝ) / (1236.85 : ℝ)) * ((1178 + 0.25 : ℝ) / (1236.85 : ℝ))) * ((1178 + 0.25 : ℝ) / (1236.85 : ℝ)))))) 1293]; exact ball_neg _ _ (-0.975073833080638) 1.96e-10 b139 (by norm_num [abs_of_nonneg, abs_of_nonpos])
  have b141 : |360 * ((2623 : ℤ) : ℝ) + 180 - 944460| ≤ 0 := by norm_num
  have b142 := ball_sub _ _ _ _ (-17.752526421) 1.15e-9 b78 b141 (by norm_num [abs_of_nonneg, abs_of_nonpos])
  have b143 := ball_torad _ _ (-0.309840036593735) 2.01e-11 b142 (by norm_num [abs_of_nonneg, abs_of_nonpos])
  have b144 := ball_sin1 _ _ (-0.304906294019389) 2.01e-10 b143 (by norm_num [abs_of_nonneg, abs_of_nonpos]) (by norm_num [abs_of_nonneg, abs_of_nonpos])
  have b145 : |dsin ((359.2242 : ℝ) + ((29.10535608 : ℝ) * (1178 + 0.25 : ℝ)) - ((0.0000333 : ℝ) * (((1178 + 0.25 : ℝ) / (1236.85 : ℝ)) * ((1178 + 0.25 : ℝ) / (1236.85 : ℝ)))) - ((0.00000347 : ℝ) * ((((1178 + 0.25 : ℝ) / (1236.85 : ℝ)) * ((1178 + 0.25 : ℝ) / (1236.85 : ℝ))) * ((1178 + 0.25 : ℝ) / (1236.85 : ℝ)))) + ((2 : ℝ) * ((306.0253 : ℝ) + ((385.81691806 : ℝ) * (1178 + 0.25 : ℝ)) + ((0.0107306 : ℝ) * (((1178 + 0.25 : ℝ) / (1236.85 : ℝ)) * ((1178 + 0.25 : ℝ) / (1236.85 : ℝ)))) + ((0.00001236 : ℝ) * ((((1178 + 0.25 : ℝ) / (1236.85 : ℝ)) * ((1178 + 0.25 : ℝ) / (1236.85 : ℝ))) * ((1178 + 0.25 : ℝ) / (1236.85 : ℝ))))))) - 0.304906294019389| ≤ 2.01e-10 := by rw [dsin, sin_torad_shift180 ((359.2242 : ℝ) + ((29.10535608 : ℝ) * (1178 + 0.25 : ℝ)) - ((0.0000333 : ℝ) * (((1178 + 0.25 : ℝ) / (1236.85 : ℝ)) * ((1178 + 0.25 : ℝ) / (1236.85 : ℝ)))) - ((0.00000347 : ℝ) * ((((1178 + 0.25 : ℝ) / (1236.85 : ℝ)) * ((1178 + 0.25 : ℝ) / (1236.85 : ℝ))) * ((1178 + 0.25 : ℝ) / (1236.85 : ℝ)))) + ((2 : ℝ) * ((306.0253 : ℝ) + ((385.81691806 : ℝ) * (1178 + 0.25 : ℝ)) + ((0.0107306 : ℝ) * (((1178 + 0.25 : ℝ) / (1236.85 : ℝ)) * ((1178 + 0.25 : ℝ) / (1236.85 : ℝ)))) + ((0.00001236 : ℝ) * ((((1178 + 0.25 : ℝ) / (1236.85 : ℝ)) * ((1178 + 0.25 : ℝ) / (1236.85 : ℝ))) * ((1178 + 0.25 : ℝ) / (1236.85 : ℝ))))))) 2623]; exact ball_neg _ _ 0.304906294019389 2.01e-10 b144 (by norm_num [abs_of_nonneg, abs_of_nonpos])
  have b146 : |360 * ((-2431 : ℤ) : ℝ) - -875160| ≤ 0 := by norm_num
  have b147 := ball_sub _ _ _ _ 22.972462503 1.15e-9 b79 b146 (by norm_num [abs_of_nonneg, abs_of_nonpos])
  have b148 := ball_torad _ _ 0.400945107968288 2.01e-11 b147 (by norm_num [abs_of_nonneg, abs_of_nonpos])
  have b149 := ball_sin1 _ _ 0.390288670343889 2.01e-10 b148 (by norm_num [abs_of_nonneg, abs_of_nonpos]) (by norm_num [abs_of_nonneg, abs_of_nonpos])
  have b150 : |dsin ((359.2242 : ℝ) + ((29.10535608 : ℝ) * (1178 + 0.25 : ℝ)) - ((0.0000333 : ℝ) * (((1178 + 0.25 : ℝ) / (1236.85 : ℝ)) * ((1178 + 0.25 : ℝ) / (1236.85 : ℝ)))) - ((0.00000347 : ℝ) * ((((1178 + 0.25 : ℝ) / (1236.85 : ℝ)) * ((1178 + 0.25 : ℝ) / (1236.85 : ℝ))) * ((1178 + 0.25 : ℝ) / (1236.85 : ℝ)))) - ((2 : ℝ) * ((306.0253 : ℝ) + ((385.81691806 : ℝ) * (1178 + 0.25 : ℝ)) + ((0.0107306 : ℝ) * (((1178 + 0.25 : ℝ) / (1236.85 : ℝ)) * ((1178 + 0.25 : ℝ) / (1236.85 : ℝ)))) + ((0.00001236 : ℝ) * ((((1178 + 0.25 : ℝ) / (1236.85 : ℝ)) * ((1178 + 0.25 : ℝ) / (1236.85 : ℝ))) * ((1178 + 0.25 : ℝ) / (1236.85 : ℝ))))))) - 0.390288670343889| ≤ 2.01e-10 := by rw [dsin, sin_torad_shift ((359.2242 : ℝ) + ((29.10535608 : ℝ) * (1178 + 0.25 : ℝ)) - ((0.0000333 : ℝ) * (((1178 + 0.25 : ℝ) / (1236.85 : ℝ)) * ((1178 + 0.25 : ℝ) / (1236.85 : ℝ)))) - ((0.00000347 : ℝ) * ((((1178 + 0.25 : ℝ) / (1236.85 : ℝ)) * ((1178 + 0.25 : ℝ) / (1236.85 : ℝ))) * ((1178 + 0.25 : ℝ) / (1236.85 : ℝ)))) - ((2 : ℝ) * ((306.0253 : ℝ) + ((385.81691806 : ℝ) * (1178 + 0.25 : ℝ)) + ((0.0107306 : ℝ) * (((1178 + 0.25 : ℝ) / (1236.85 : ℝ)) * ((1178 + 0.25 : ℝ) / (1236.85 : ℝ)))) + ((0.00001236 : ℝ) * ((((1178 + 0.25 : ℝ) / (1236.85 : ℝ)) * ((1178 + 0.25 : ℝ) / (1236.85 : ℝ))) * ((1178 + 0.25 : ℝ) / (1236.85 : ℝ))))))) (-2431)]; exact b149
  have b151 : |360 * ((1456 : ℤ) : ℝ) - 524160| ≤ 0 := by norm_num
  have b152 := ball_sub _ _ _ _ 40.038688851 8.11e-10 b80 b151 (by norm_num [abs_of_nonneg, abs_of_nonpos])
  have b153 := ball_torad _ _ 0.698806948631495 1.42e-11 b152 (by norm_num [abs_of_nonneg, abs_of_nonpos])
  have b154 := ball_sin1 _ _ 0.643304732953897 1.95e-10 b153 (by norm_num [abs_of_nonneg, abs_of_nonpos]) (by norm_num [abs_of_nonneg, abs_of_nonpos])
  have b155 : |dsin ((2 : ℝ) * ((359.2242 : ℝ) + ((29.10535608 : ℝ) * (1178 + 0.25 : ℝ)) - ((0.0000333 : ℝ) * (((1178 + 0.25 : ℝ) / (1236.85 : ℝ)) * ((1178 + 0.25 : ℝ) / (1236.85 : ℝ)))) - ((0.00000347 : ℝ) * ((((1178 + 0.25 : ℝ) / (1236.85 : ℝ)) * ((1178 + 0.25 : ℝ) / (1236.85 : ℝ))) * ((1178 + 0.25 : ℝ) / (1236.85 : ℝ))))) + ((306.0253 : ℝ) + ((385.81691806 : ℝ) * (1178 + 0.25 : ℝ)) + ((0.0107306 : ℝ) * (((1178 + 0.25 : ℝ) / (1236.85 : ℝ)) * ((1178 + 0.25 : ℝ) / (1236.85 : ℝ)))) + ((0.00001236 : ℝ) * ((((1178 + 0.25 : ℝ) / (1236.85 : ℝ)) * ((1178 + 0.25 : ℝ) / (1236.85 : ℝ))) * ((1178 + 0.25 : ℝ) / (1236.85 : ℝ)))))) - 0.643304732953897| ≤ 1.95e-10 := by rw [dsin, sin_torad_shift ((2 : ℝ) * ((359.2242 : ℝ) + ((29.10535608 : ℝ) * (1178 + 0.25 : ℝ)) - ((0.0000333 : ℝ) * (((1178 + 0.25 : ℝ) / (1236.85 : ℝ)) * ((1178 + 0.25 : ℝ) / (1236.85 : ℝ)))) - ((0.00000347 : ℝ) * ((((1178 + 0.25 : ℝ) / (1236.85 : ℝ)) * ((1178 + 0.25 : ℝ) / (1236.85 : ℝ))) * ((1178 + 0.25 : ℝ) / (1236.85 : ℝ))))) + ((306.0253 : ℝ) + ((385.81691806 : ℝ) * (1178 + 0.25 : ℝ)) + ((0.0107306 : ℝ) * (((1178 + 0.25 : ℝ) / (1236.85 : ℝ)) * ((1178 + 0.25 : ℝ) / (1236.85 : ℝ)))) + ((0.00001236 : ℝ) * ((((1178 + 0.25 : ℝ) / (1236.85 : ℝ)) * ((1178 + 0.25 : ℝ) / (1236.85 : ℝ))) * ((1178 + 0.25 : ℝ) / (1236.85 : ℝ)))))) 1456]; exact b154
  have b156 := ball_refl (0.1721 : ℝ)
  have b157 := ball_refl (0.0004 : ℝ)
  have b158 := ball_mul _ _ _ _ 0.000381048631604479 2.8e-19 b157 b3 (by norm_num [abs_of_nonneg, abs_of_nonpos])
  have b159 := ball_sub _ _ _ _ 0.171718951368396 4.8e-16 b156 b158 (by norm_num [abs_of_nonneg, abs_of_nonpos])
  have b160 := ball_mul _ _ _ _ 0.171540820884848 3.11e-11 b159 b85 (by norm_num [abs_of_nonneg, abs_of_nonpos])
  have b161 := ball_refl (0.0021 : ℝ)
  have b162 := ball_mul _ _ _ _ (-0.000191056095188968) 3.85e-13 b161 b90 (by norm_num [abs_of_nonneg, abs_of_nonpos])
  have b163 := ball_add _ _ _ _ 0.171349764789659 3.15e-11 b160 b162 (by norm_num [abs_of_nonneg, abs_of_nonpos])
  have b164 : |(0.6280 : ℝ) - 0.628| ≤ 0 := by norm_num
  have b165 := ball_mul _ _ _ _ (-0.358576882670396) 1.19e-10 b164 b95 (by norm_num [abs_of_nonneg, abs_of_nonpos])
  have b166 := ball_sub _ _ _ _ 0.529926647460055 1.51e-10 b163 b165 (by norm_num [abs_of_nonneg, abs_of_nonpos])
  have b167 := ball_refl (0.0089 : ℝ)
  have b168 := ball_mul _ _ _ _ 0.0083438386638342 1.77e-12 b167 b100 (by norm_num [abs_of_nonneg, abs_of_nonpos])
  have b169 := ball_add _ _ _ _ 0.538270486123889 1.53e-10 b166 b168 (by norm_num [abs_of_nonneg, abs_of_nonpos])
  have b170 := ball_refl (0.0004 : ℝ)
  have b171 := ball_mul _ _ _ _ (-0.000387335402984372) 1.04e-13 b170 b105 (by norm_num [abs_of_nonneg, abs_of_nonpos])
  have b172 := ball_sub _ _ _ _ 0.538657821526873 1.54e-10 b169 b171 (by norm_num [abs_of_nonneg, abs_of_nonpos])
  have b173 := ball_refl (0.0079 : ℝ)
  have b174 := ball_mul _ _ _ _ 0.0053230911571015 1.48e-12 b173 b110 (by norm_num [abs_of_nonneg, abs_of_nonpos])
  have b175 := ball_add _ _ _ _ 0.543980912683975 1.56e-10 b172 b174 (by norm_num [abs_of_nonneg, abs_of_nonpos])
  have b176 := ball_refl (0.0119 : ℝ)
  have b177 := ball_mul _ _ _ _ (-0.00944990971178803) 2.29e-12 b176 b115 (by norm_num [abs_of_nonneg, abs_of_nonpos])
  have b178 := ball_sub _ _ _ _ 0.553430822395763 1.59e-10 b175 b177 (by norm_num [abs_of_nonneg, abs_of_nonpos])
  have b179 := ball_refl (0.0047 : ℝ)
  have b180 := ball_mul _ _ _ _ (-0.00397672383519887) 9.03e-13 b179 b120 (by norm_num [abs_of_nonneg, abs_of_nonpos])
  have b181 := ball_sub _ _ _ _ 0.557407546230962 1.6e-10 b178 b180 (by norm_num [abs_of_nonneg, abs_of_nonpos])
  have b182 := ball_refl (0.0003 : ℝ)
  have b183 := ball_mul _ _ _ _ (-0.000230646647180021) 5.71e-14 b182 b125 (by norm_num [abs_of_nonneg, abs_of_nonpos])
  have b184 := ball_add _ _ _ _ 0.557176899583782 1.61e-10 b181 b183 (by norm_num [abs_of_nonneg, abs_of_nonpos])
  have b185 := ball_refl (0.0004 : ℝ)
  have b186 := ball_mul _ _ _ _ 0.000282982387010398 7.6e-14 b185 b130 (by norm_num [abs_of_nonneg, abs_of_nonpos])
  have b187 := ball_sub _ _ _ _ 0.556893917196772 1.62e-10 b184 b186 (by norm_num [abs_of_nonneg, abs_of_nonpos])
  have b188 := ball_refl (0.0006 : ℝ)
  have b189 := ball_mul _ _ _ _ (-0.0000787619091174102) 1.71e-13 b188 b135 (by norm_num [abs_of_nonneg, abs_of_nonpos])
  have b190 := ball_sub _ _ _ _ 0.556972679105889 1.63e-10 b187 b189 (by norm_num [abs_of_nonneg, abs_of_nonpos])
  have b191 := ball_refl (0.0021 : ℝ)
  have b192 := ball_mul _ _ _ _ (-0.00204765504946934) 4.12e-13 b191 b140 (by norm_num [abs_of_nonneg, abs_of_nonpos])
  have b193 := ball_add _ _ _ _ 0.55492502405642 1.64e-10 b190 b192 (by norm_num [abs_of_nonneg, abs_of_nonpos])
  have b194 := ball_refl (0.0003 : ℝ)
  have b195 := ball_mul _ _ _ _ 0.0000914718882058167 6.03e-14 b194 b145 (by norm_num [abs_of_nonneg, abs_of_nonpos])
  have b196 := ball_add _ _ _ _ 0.555016495944626 1.65e-10 b193 b195 (by norm_num [abs_of_nonneg, abs_of_nonpos])
  have b197 := ball_refl (0.0004 : ℝ)
  have b198 := ball_mul _ _ _ _ 0.000156115468137556 8.05e-14 b197 b150 (by norm_num [abs_of_nonneg, abs_of_nonpos])
  have b199 := ball_add _ _ _ _ 0.555172611412764 1.66e-10 b196 b198 (by norm_num [abs_of_nonneg, abs_of_nonpos])
  have b200 := ball_refl (0.0003 : ℝ)
  have b201 := ball_mul _ _ _ _ 0.000192991419886169 5.86e-14 b200 b155 (by norm_num [abs_of_nonneg, abs_of_nonpos])
  have b202 := ball_sub _ _ _ _ 0.554979619992878 1.67e-10 b199 b201 (by norm_num [abs_of_nonneg, abs_of_nonpos])
  have b203 := ball_add _ _ _ _ 2449815.73022512 7.43e-9 b30 b202 (by norm_num [abs_of_nonneg, abs_of_nonpos])
  have b204 : |360 * ((96 : ℤ) : ℝ) + 90 - 34650| ≤ 0 := by norm_num
  have b205 := ball_sub _ _ _ _ 2.6099680409 5.72e-11 b41 b204 (by norm_num [abs_of_nonneg, abs_of_nonpos])
  have b206 := ball_torad _ _ 0.045552535685531 9.99e-13 b205 (by norm_num [abs_of_nonneg, abs_of_nonpos])
  have b207 := ball_sin1 _ _ 0.0455367834802886 1.81e-10 b206 (by norm_num [abs_of_nonneg, abs_of_nonpos]) (by norm_num [abs_of_nonneg, abs_of_nonpos])
  have b208 : |dcos ((359.2242 : ℝ) + ((29.10535608 : ℝ) * (1178 + 0.25 : ℝ)) - ((0.0000333 : ℝ) * (((1178 + 0.25 : ℝ) / (1236.85 : ℝ)) * ((1178 + 0.25 : ℝ) / (1236.85 : ℝ)))) - ((0.00000347 : ℝ) * ((((1178 + 0.25 : ℝ) / (1236.85 : ℝ)) * ((1178 + 0.25 : ℝ) / (1236.85 : ℝ))) * ((1178 + 0.25 : ℝ) / (1236.85 : ℝ))))) - -0.0455367834802886| ≤ 1.81e-10 := by rw [dcos, cos_torad_shift90 ((359.2242 : ℝ) + ((29.10535608 : ℝ) * (1178 + 0.25 : ℝ)) - ((0.0000333 : ℝ) * (((1178 + 0.25 : ℝ) / (1236.85 : ℝ)) * ((1178 + 0.25 : ℝ) / (1236.85 : ℝ)))) - ((0.00000347 : ℝ) * ((((1178 + 0.25 : ℝ) / (1236.85 : ℝ)) * ((1178 + 0.25 : ℝ) / (1236.85 : ℝ))) * ((1178 + 0.25 : ℝ) / (1236.85 : ℝ))))) 96]; exact ball_neg _ _ (-0.0455367834802886) 1.81e-10 b207 (by norm_num [abs_of_nonneg, abs_of_nonpos])
  have b209 : |360 * ((1263 : ℤ) : ℝ) + 180 - 454860| ≤ 0 := by norm_num
  have b210 := ball_sub _ _ _ _ 34.818752769 4.96e-10 b52 b209 (by norm_num [abs_of_nonneg, abs_of_nonpos])
  have b211 := ball_torad _ _ 0.607701877256943 8.67e-12 b210 (by norm_num [abs_of_nonneg, abs_of_nonpos])
  have b212 := ball_cos1 _ _ 0.820962371994955 1.89e-10 b211 (by norm_num [abs_of_nonneg, abs_of_nonpos]) (by norm_num [abs_of_nonneg, abs_of_nonpos])
  have b213 : |dcos ((306.0253 : ℝ) + ((385.81691806 : ℝ) * (1178 + 0.25 : ℝ)) + ((0.0107306 : ℝ) * (((1178 + 0.25 : ℝ) / (1236.85 : ℝ)) * ((1178 + 0.25 : ℝ) / (1236.85 : ℝ)))) + ((0.00001236 : ℝ) * ((((1178 + 0.25 : ℝ) / (1236.85 : ℝ)) * ((1178 + 0.25 : ℝ) / (1236.85 : ℝ))) * ((1178 + 0.25 : ℝ) / (1236.85 : ℝ))))) - -0.820962371994955| ≤ 1.89e-10 := by rw [dcos, cos_torad_shift180 ((306.0253 : ℝ) + ((385.81691806 : ℝ) * (1178 + 0.25 : ℝ)) + ((0.0107306 : ℝ) * (((1178 + 0.25 : ℝ) / (1236.85 : ℝ)) * ((1178 + 0.25 : ℝ) / (1236.85 : ℝ)))) + ((0.00001236 : ℝ) * ((((1178 + 0.25 : ℝ) / (1236.85 : ℝ)) * ((1178 + 0.25 : ℝ) / (1236.85 : ℝ))) * ((1178 + 0.25 : ℝ) / (1236.85 : ℝ))))) 1263]; exact ball_neg _ _ (-0.820962371994955) 1.89e-10 b212 (by norm_num [abs_of_nonneg, abs_of_nonpos])
  have b214 := ball_refl (0.0028 : ℝ)
  have b215 := ball_refl (0.0004 : ℝ)
  have b216 := ball_mul _ _ _ _ (-0.0000182147133921154) 7.25e-14 b215 b208 (by norm_num [abs_of_nonneg, abs_of_nonpos])
  have b217 := ball_sub _ _ _ _ 0.00281821471339212 7.26e-14 b214 b216 (by norm_num [abs_of_nonneg, abs_of_nonpos])
  have b218 := ball_refl (0.0003 : ℝ)
  have b219 := ball_mul _ _ _ _ (-0.000246288711598487) 5.68e-14 b218 b213 (by norm_num [abs_of_nonneg, abs_of_nonpos])
  have b220 := ball_add _ _ _ _ 0.00257192600179363 1.3e-13 b217 b219 (by norm_num [abs_of_nonneg, abs_of_nonpos])
  have b221 := ball_add _ _ _ _ 2449815.73279705 0.0000000115 b203 b220 (by norm_num [abs_of_nonneg, abs_of_nonpos])
  have b222 : |tpQuarter 1178 0.25 - 2449815.73279705| ≤ 0.0000000115 := by
    simp only [tpQuarter]
    rw [if_pos (by norm_num : ((0.25) : ℝ) < 0.5)]
    exact ball_center _ _ _ _ b221 (by norm_num [abs_of_nonneg, abs_of_nonpos])
  exact b222

set_option maxHeartbeats 3200000 in
lemma tpball_1178_50 : |tpNewFull 1178 0.5 - 2449823.00676048| ≤ 8.89e-9 := by
  have b1 : |(1178 + 0.5 : ℝ) - 1178.5| ≤ 0 := by norm_num
  have b2 := ball_refl (1236.85 : ℝ)
  have b3 := ball_div _ _ _ _ 0.952823705380604 4.65e-17 b1 b2 (by norm_num) (by norm_num [abs_of_nonneg, abs_of_nonpos])
  have b4 := ball_mul _ _ _ _ 0.907873013535224 1.41e-16 b3 b3 (by norm_num [abs_of_nonneg, abs_of_nonpos])
  have b5 := ball_mul _ _ _ _ 0.865042928771687 5.57e-16 b4 b3 (by norm_num [abs_of_nonneg, abs_of_nonpos])
  have b6 : |(1178 + 0.5 : ℝ) - 1178.5| ≤ 0 := by norm_num
  have b7 := ball_refl (2415020.75933 : ℝ)
  have b8 := ball_mul _ _ _ _ 34801.79875938 0 synmonth_ball b6 (by norm_num [abs_of_nonneg, abs_of_nonpos])
  have b9 := ball_add _ _ _ _ 2449822.55808938 0 b7 b8 (by norm_num [abs_of_nonneg, abs_of_nonpos])
  have b10 := ball_refl (0.0001178 : ℝ)
  have b11 := ball_mul _ _ _ _ 0.000106947440994449 4.04e-19 b10 b4 (by norm_num [abs_of_nonneg, abs_of_nonpos])
  have b12 := ball_add _ _ _ _ 2449822.55819633 2.56e-9 b9 b11 (by norm_num [abs_of_nonneg, abs_of_nonpos])
  have b13 := ball_refl (0.000000155 : ℝ)
  have b14 := ball_mul _ _ _ _ 0.000000134081653959611 5.72e-22 b13 b5 (by norm_num [abs_of_nonneg, abs_of_nonpos])
  have b15 := ball_sub _ _ _ _ 2449822.5581962 6.65e-9 b12 b14 (by norm_num [abs_of_nonneg, abs_of_nonpos])
  have b16 := ball_refl (166.56 : ℝ)
  have b17 := ball_refl (132.87 : ℝ)
  have b18 := ball_mul _ _ _ _ 126.601685733921 1.53e-13 b17 b3 (by norm_num [abs_of_nonneg, abs_of_nonpos])
  have b19 := ball_add _ _ _ _ 293.161685733921 1.53e-13 b16 b18 (by norm_num [abs_of_nonneg, abs_of_nonpos])
  have b20 := ball_refl (0.009173 : ℝ)
  have b21 := ball_mul _ _ _ _ 0.00832791915315861 1.55e-18 b20 b4 (by norm_num [abs_of_nonneg, abs_of_nonpos])
  have b22 := ball_sub _ _ _ _ 293.153357814768 3.12e-13 b19 b21 (by norm_num [abs_of_nonneg, abs_of_nonpos])
  have b23 : |360 * ((0 : ℤ) : ℝ) + 270 - 270| ≤ 0 := by norm_num
  have b24 := ball_sub _ _ _ _ 23.153357814768 3.12e-13 b22 b23 (by norm_num [abs_of_nonneg, abs_of_nonpos])
  have b25 := ball_torad _ _ 0.404102326760061 5.51e-15 b24 (by norm_num [abs_of_nonneg, abs_of_nonpos])
  have b26 := ball_cos1 _ _ 0.919455726901234 1.81e-10 b25 (by norm_num [abs_of_nonneg, abs_of_nonpos]) (by norm_num [abs_of_nonneg, abs_of_nonpos])
  have b27 : |dsin ((166.56 : ℝ) + ((132.87 : ℝ) * ((1178 + 0.5 : ℝ) / (1236.85 : ℝ))) - ((0.009173 : ℝ) * (((1178 + 0.5 : ℝ) / (1236.85 : ℝ)) * ((1178 + 0.5 : ℝ) / (1236.85 : ℝ))))) - -0.919455726901234| ≤ 1.81e-10 := by rw [dsin, sin_torad_shift270 ((166.56 : ℝ) + ((132.87 : ℝ) * ((1178 + 0.5 : ℝ) / (1236.85 : ℝ))) - ((0.009173 : ℝ) * (((1178 + 0.5 : ℝ) / (1236.85 : ℝ)) * ((1178 + 0.5 : ℝ) / (1236.85 : ℝ))))) 0]; exact ball_neg _ _ (-0.919455726901234) 1.81e-10 b26 (by norm_num [abs_of_nonneg, abs_of_nonpos])
  have b28 := ball_refl (0.00033 : ℝ)
  have b29 := ball_mul _ _ _ _ (-0.000303420389877407) 5.98e-14 b28 b27 (by norm_num [abs_of_nonneg, abs_of_nonpos])
  have b30 := ball_add _ _ _ _ 2449822.55789278 7.04e-9 b15 b29 (by norm_num [abs_of_nonneg, abs_of_nonpos])
  have b31 := ball_refl (359.2242 : ℝ)
  have b32 := ball_refl (29.10535608 : ℝ)
  have b33 : |(1178 + 0.5 : ℝ) - 1178.5| ≤ 0 := by norm_num
  have b34 := ball_mul _ _ _ _ 34300.66214028 0 b32 b33 (by norm_num [abs_of_nonneg, abs_of_nonpos])
  have b35 := ball_add _ _ _ _ 34659.88634028 0 b31 b34 (by norm_num [abs_of_nonneg, abs_of_nonpos])
  have b36 := ball_refl (0.0000333 : ℝ)
  have b37 := ball_mul _ _ _ _ 0.000030232171350723 4.55e-20 b36 b4 (by norm_num [abs_of_nonneg, abs_of_nonpos])
  have b38 := ball_sub _ _ _ _ 34659.8863100478 2.87e-11 b35 b37 (by norm_num [abs_of_nonneg, abs_of_nonpos])
  have b39 := ball_refl (0.00000347 : ℝ)
  have b40 := ball_mul _ _ _ _ 0.00000300169896283775 5.83e-21 b39 b5 (by norm_num [abs_of_nonneg, abs_of_nonpos])
  have b41 := ball_sub _ _ _ _ 34659.8863070461 2.98e-11 b38 b40 (by norm_num [abs_of_nonneg, abs_of_nonpos])
  have b42 := ball_refl (306.0253 : ℝ)
  have b43 := ball_refl (385.81691806 : ℝ)
  have b44 : |(1178 + 0.5 : ℝ) - 1178.5| ≤ 0 := by norm_num
  have b45 := ball_mul _ _ _ _ 454685.23793371 0 b43 b44 (by norm_num [abs_of_nonneg, abs_of_nonpos])
  have b46 := ball_add _ _ _ _ 454991.26323371 0 b42 b45 (by norm_num [abs_of_nonneg, abs_of_nonpos])
  have b47 := ball_refl (0.0107306 : ℝ)
  have b48 := ball_mul _ _ _ _ 0.00974202215904107 6.17e-18 b47 b4 (by norm_num [abs_of_nonneg, abs_of_nonpos])
  have b49 := ball_add _ _ _ _ 454991.272975732 1.6e-10 b46 b48 (by norm_num [abs_of_nonneg, abs_of_nonpos])
  have b50 := ball_refl (0.00001236 : ℝ)
  have b51 := ball_mul _ _ _ _ 0.0000106919305996181 5.56e-20 b50 b5 (by norm_num [abs_of_nonneg, abs_of_nonpos])
  have b52 := ball_add _ _ _ _ 454991.272986424 2.3e-10 b49 b51 (by norm_num [abs_of_nonneg, abs_of_nonpos])
  have b53 := ball_refl (21.2964 : ℝ)
  have b54 := ball_refl (390.67050646 : ℝ)
  have b55 : |(1178 + 0.5 : ℝ) - 1178.5| ≤ 0 := by norm_num
  have b56 := ball_mul _ _ _ _ 460405.19186311 0 b54 b55 (by norm_num [abs_of_nonneg, abs_of_nonpos])
  have b57 := ball_add _ _ _ _ 460426.48826311 0 b53 b56 (by norm_num [abs_of_nonneg, abs_of_nonpos])
  have b58 := ball_refl (0.0016528 : ℝ)
  have b59 := ball_mul _ _ _ _ 0.00150053251677102 2.01e-18 b58 b4 (by norm_num [abs_of_nonneg, abs_of_nonpos])
  have b60 := ball_sub _ _ _ _ 460426.486762577 4.84e-10 b57 b59 (by norm_num [abs_of_nonneg, abs_of_nonpos])
  have b61 := ball_refl (0.00000239 : ℝ)
  have b62 := ball_mul _ _ _ _ 0.00000206745259976433 3.27e-21 b61 b5 (by norm_num [abs_of_nonneg, abs_of_nonpos])
  have b63 := ball_sub _ _ _ _ 460426.48676051 9.37e-10 b60 b62 (by norm_num [abs_of_nonneg, abs_of_nonpos])
  have b64 := ball_refl (2 : ℝ)
  have b65 := ball_refl (3 : ℝ)
  have b66 := ball_mul _ _ _ _ 69319.7726140922 5.96e-11 b64 b41 (by norm_num [abs_of_nonneg, abs_of_nonpos])
  have b67 := ball_refl (2 : ℝ)
  have b68 := ball_mul _ _ _ _ 909982.545972848 4.6e-10 b67 b52 (by norm_num [abs_of_nonneg, abs_of_nonpos])
  have b69 := ball_mul _ _ _ _ 1364973.81895927 2.69e-9 b65 b52 (by norm_num [abs_of_nonneg, abs_of_nonpos])
  have b70 := ball_refl (2 : ℝ)
  have b71 := ball_mul _ _ _ _ 920852.97352102 1.88e-9 b70 b63 (by norm_num [abs_of_nonneg, abs_of_nonpos])
  have b72 := ball_add _ _ _ _ 489651.15929347 3.6e-10 b41 b52 (by norm_num [abs_of_nonneg, abs_of_nonpos])
  have b73 := ball_sub _ _ _ _ (-420331.386679378) 3.6e-10 b41 b52 (by norm_num [abs_of_nonneg, abs_of_nonpos])
  have b74 := ball_add _ _ _ _ 955512.859828066 2.01e-9 b71 b41 (by norm_num [abs_of_nonneg, abs_of_nonpos])
  have b75 := ball_sub _ _ _ _ 886193.087213974 2.01e-9 b71 b41 (by norm_num [abs_of_nonneg, abs_of_nonpos])
  have b76 := ball_add _ _ _ _ 1375844.24650744 6.11e-9 b71 b52 (by norm_num [abs_of_nonneg, abs_of_nonpos])
  have b77 := ball_sub _ _ _ _ 465861.700534596 2.11e-9 b71 b52 (by norm_num [abs_of_nonneg, abs_of_nonpos])
  have b78 := ball_add _ _ _ _ 944642.432279894 5.9e-10 b41 b68 (by norm_num [abs_of_nonneg, abs_of_nonpos])
  have b79 : |360 * ((96 : ℤ) : ℝ) + 90 - 34650| ≤ 0 := by norm_num
  have b80 := ball_sub _ _ _ _ 9.8863070461 2.98e-11 b41 b79 (by norm_num [abs_of_nonneg, abs_of_nonpos])
  have b81 := ball_torad _ _ 0.17254860881756 5.21e-13 b80 (by norm_num [abs_of_nonneg, abs_of_nonpos])
  have b82 := ball_cos1 _ _ 0.985150386864416 1.81e-10 b81 (by norm_num [abs_of_nonneg, abs_of_nonpos]) (by norm_num [abs_of_nonneg, abs_of_nonpos])
  have b83 : |dsin ((359.2242 : ℝ) + ((29.10535608 : ℝ) * (1178 + 0.5 : ℝ)) - ((0.0000333 : ℝ) * (((1178 + 0.5 : ℝ) / (1236.85 : ℝ)) * ((1178 + 0.5 : ℝ) / (1236.85 : ℝ)))) - ((0.00000347 : ℝ) * ((((1178 + 0.5 : ℝ) / (1236.85 : ℝ)) * ((1178 + 0.5 : ℝ) / (1236.85 : ℝ))) * ((1178 + 0.5 : ℝ) / (1236.85 : ℝ))))) - 0.985150386864416| ≤ 1.81e-10 := by rw [dsin, sin_torad_shift90 ((359.2242 : ℝ) + ((29.10535608 : ℝ) * (1178 + 0.5 : ℝ)) - ((0.0000333 : ℝ) * (((1178 + 0.5 : ℝ) / (1236.85 : ℝ)) * ((1178 + 0.5 : ℝ) / (1236.85 : ℝ)))) - ((0.00000347 : ℝ) * ((((1178 + 0.5 : ℝ) / (1236.85 : ℝ)) * ((1178 + 0.5 : ℝ) / (1236.85 : ℝ))) * ((1178 + 0.5 : ℝ) / (1236.85 : ℝ))))) 96]; exact b82
  have b84 : |360 * ((192 : ℤ) : ℝ) + 180 - 69300| ≤ 0 := by norm_num
  have b85 := ball_sub _ _ _ _ 19.7726140922 5.96e-11 b66 b84 (by norm_num [abs_of_nonneg, abs_of_nonpos])
  have b86 := ball_torad _ _ 0.34509721763512 1.05e-12 b85 (by norm_num [abs_of_nonneg, abs_of_nonpos])
  have b87 := ball_sin1 _ _ 0.338288164779425 1.82e-10 b86 (by norm_num [abs_of_nonneg, abs_of_nonpos]) (by norm_num [abs_of_nonneg, abs_of_nonpos])
  have b88 : |dsin ((2 : ℝ) * ((359.2242 : ℝ) + ((29.10535608 : ℝ) * (1178 + 0.5 : ℝ)) - ((0.0000333 : ℝ) * (((1178 + 0.5 : ℝ) / (1236.85 : ℝ)) * ((1178 + 0.5 : ℝ) / (1236.85 : ℝ)))) - ((0.00000347 : ℝ) * ((((1178 + 0.5 : ℝ) / (1236.85 : ℝ)) * ((1178 + 0.5 : ℝ) / (1236.85 : ℝ))) * ((1178 + 0.5 : ℝ) / (1236.85 : ℝ)))))) - -0.338288164779425| ≤ 1.82e-10 := by rw [dsin, sin_torad_shift180 ((2 : ℝ) * ((359.2242 : ℝ) + ((29.10535608 : ℝ) * (1178 + 0.5 : ℝ)) - ((0.0000333 : ℝ) * (((1178 + 0.5 : ℝ) / (1236.85 : ℝ)) * ((1178 + 0.5 : ℝ) / (1236.85 : ℝ)))) - ((0.00000347 : ℝ) * ((((1178 + 0.5 : ℝ) / (1236.85 : ℝ)) * ((1178 + 0.5 : ℝ) / (1236.85 : ℝ))) * ((1178 + 0.5 : ℝ) / (1236.85 : ℝ)))))) 192]; exact ball_neg _ _ (-0.338288164779425) 1.82e-10 b87 (by norm_num [abs_of_nonneg, abs_of_nonpos])
  have b89 : |360 * ((1263 : ℤ) : ℝ) + 270 - 454950| ≤ 0 := by norm_num
  have b90 := ball_sub _ _ _ _ 41.272986424 2.3e-10 b52 b89 (by norm_num [abs_of_nonneg, abs_of_nonpos])
  have b91 := ball_torad _ _ 0.72034950522972 4.02e-12 b90 (by norm_num [abs_of_nonneg, abs_of_nonpos])
  have b92 := ball_cos1 _ _ 0.751575224836449 1.85e-10 b91 (by norm_num [abs_of_nonneg, abs_of_nonpos]) (by norm_num [abs_of_nonneg, abs_of_nonpos])
  have b93 : |dsin ((306.0253 : ℝ) + ((385.81691806 : ℝ) * (1178 + 0.5 : ℝ)) + ((0.0107306 : ℝ) * (((1178 + 0.5 : ℝ) / (1236.85 : ℝ)) * ((1178 + 0.5 : ℝ) / (1236.85 : ℝ)))) + ((0.00001236 : ℝ) * ((((1178 + 0.5 : ℝ) / (1236.85 : ℝ)) * ((1178 + 0.5 : ℝ) / (1236.85 : ℝ))) * ((1178 + 0.5 : ℝ) / (1236.85 : ℝ))))) - -0.751575224836449| ≤ 1.85e-10 := by rw [dsin, sin_torad_shift270 ((306.0253 : ℝ) + ((385.81691806 : ℝ) * (1178 + 0.5 : ℝ)) + ((0.0107306 : ℝ) * (((1178 + 0.5 : ℝ) / (1236.85 : ℝ)) * ((1178 + 0.5 : ℝ) / (1236.85 : ℝ)))) + ((0.00001236 : ℝ) * ((((1178 + 0.5 : ℝ) / (1236.85 : ℝ)) * ((1178 + 0.5 : ℝ) / (1236.85 : ℝ))) * ((1178 + 0.5 : ℝ) / (1236.85 : ℝ))))) 1263]; exact ball_neg _ _ (-0.751575224836449) 1.85e-10 b92 (by norm_num [abs_of_nonneg, abs_of_nonpos])
  have b94 : |360 * ((2527 : ℤ) : ℝ) + 270 - 909990| ≤ 0 := by norm_num
  have b95 := ball_sub _ _ _ _ (-7.454027152) 4.6e-10 b68 b94 (by norm_num [abs_of_nonneg, abs_of_nonpos])
  have b96 := ball_torad _ _ (-0.130097316335456) 8.04e-12 b95 (by norm_num [abs_of_nonneg, abs_of_nonpos])
  have b97 := ball_cos1 _ _ 0.99154927349982 1.89e-10 b96 (by norm_num [abs_of_nonneg, abs_of_nonpos]) (by norm_num [abs_of_nonneg, abs_of_nonpos])
  have b98 : |dsin ((2 : ℝ) * ((306.0253 : ℝ) + ((385.81691806 : ℝ) * (1178 + 0.5 : ℝ)) + ((0.0107306 : ℝ) * (((1178 + 0.5 : ℝ) / (1236.85 : ℝ)) * ((1178 + 0.5 : ℝ) / (1236.85 : ℝ)))) + ((0.00001236 : ℝ) * ((((1178 + 0.5 : ℝ) / (1236.85 : ℝ)) * ((1178 + 0.5 : ℝ) / (1236.85 : ℝ))) * ((1178 + 0.5 : ℝ) / (1236.85 : ℝ)))))) - -0.99154927349982| ≤ 1.89e-10 := by rw [dsin, sin_torad_shift270 ((2 : ℝ) * ((306.0253 : ℝ) + ((385.81691806 : ℝ) * (1178 + 0.5 : ℝ)) + ((0.0107306 : ℝ) * (((1178 + 0.5 : ℝ) / (1236.85 : ℝ)) * ((1178 + 0.5 : ℝ) / (1236.85 : ℝ)))) + ((0.00001236 : ℝ) * ((((1178 + 0.5 : ℝ) / (1236.85 : ℝ)) * ((1178 + 0.5 : ℝ) / (1236.85 : ℝ))) * ((1178 + 0.5 : ℝ) / (1236.85 : ℝ)))))) 2527]; exact ball_neg _ _ (-0.99154927349982) 1.89e-10 b97 (by norm_num [abs_of_nonneg, abs_of_nonpos])
  have b99 : |360 * ((3791 : ℤ) : ℝ) + 180 - 1364940| ≤ 0 := by norm_num
  have b100 := ball_sub _ _ _ _ 33.81895927 2.69e-9 b69 b99 (by norm_num [abs_of_nonneg, abs_of_nonpos])
  have b101 := ball_torad _ _ 0.590252188859358 4.7e-11 b100 (by norm_num [abs_of_nonneg, abs_of_nonpos])
  have b102 := ball_sin1 _ _ 0.556570559200386 2.28e-10 b101 (by norm_num [abs_of_nonneg, abs_of_nonpos]) (by norm_num [abs_of_nonneg, abs_of_nonpos])
  have b103 : |dsin ((3 : ℝ) * ((306.0253 : ℝ) + ((385.81691806 : ℝ) * (1178 + 0.5 : ℝ)) + ((0.0107306 : ℝ) * (((1178 + 0.5 : ℝ) / (1236.85 : ℝ)) * ((1178 + 0.5 : ℝ) / (1236.85 : ℝ)))) + ((0.00001236 : ℝ) * ((((1178 + 0.5 : ℝ) / (1236.85 : ℝ)) * ((1178 + 0.5 : ℝ) / (1236.85 : ℝ))) * ((1178 + 0.5 : ℝ) / (1236.85 : ℝ)))))) - -0.556570559200386| ≤ 2.28e-10 := by rw [dsin, sin_torad_shift180 ((3 : ℝ) * ((306.0253 : ℝ) + ((385.81691806 : ℝ) * (1178 + 0.5 : ℝ)) + ((0.0107306 : ℝ) * (((1178 + 0.5 : ℝ) / (1236.85 : ℝ)) * ((1178 + 0.5 : ℝ) / (1236.85 : ℝ)))) + ((0.00001236 : ℝ) * ((((1178 + 0.5 : ℝ) / (1236.85 : ℝ)) * ((1178 + 0.5 : ℝ) / (1236.85 : ℝ))) * ((1178 + 0.5 : ℝ) / (1236.85 : ℝ)))))) 3791]; exact ball_neg _ _ (-0.556570559200386) 2.28e-10 b102 (by norm_num [abs_of_nonneg, abs_of_nonpos])
  have b104 : |360 * ((2558 : ℤ) : ℝ) - 920880| ≤ 0 := by norm_num
  have b105 := ball_sub _ _ _ _ (-27.02647898) 1.88e-9 b71 b104 (by norm_num [abs_of_nonneg, abs_of_nonpos])
  have b106 := ball_torad _ _ (-0.471701043422039) 3.29e-11 b105 (by norm_num [abs_of_nonneg, abs_of_nonpos])
  have b107 := ball_sin1 _ _ (-0.454402225795493) 2.13e-10 b106 (by norm_num [abs_of_nonneg, abs_of_nonpos]) (by norm_num [abs_of_nonneg, abs_of_nonpos])
  have b108 : |dsin ((2 : ℝ) * ((21.2964 : ℝ) + ((390.67050646 : ℝ) * (1178 + 0.5 : ℝ)) - ((0.0016528 : ℝ) * (((1178 + 0.5 : ℝ) / (1236.85 : ℝ)) * ((1178 + 0.5 : ℝ) / (1236.85 : ℝ)))) - ((0.00000239 : ℝ) * ((((1178 + 0.5 : ℝ) / (1236.85 : ℝ)) * ((1178 + 0.5 : ℝ) / (1236.85 : ℝ))) * ((1178 + 0.5 : ℝ) / (1236.85 : ℝ)))))) - -0.454402225795493| ≤ 2.13e-10 := by rw [dsin, sin_torad_shift ((2 : ℝ) * ((21.2964 : ℝ) + ((390.67050646 : ℝ) * (1178 + 0.5 : ℝ)) - ((0.0016528 : ℝ) * (((1178 + 0.5 : ℝ) / (1236.85 : ℝ)) * ((1178 + 0.5 : ℝ) / (1236.85 : ℝ)))) - ((0.00000239 : ℝ) * ((((1178 + 0.5 : ℝ) / (1236.85 : ℝ)) * ((1178 + 0.5 : ℝ) / (1236.85 : ℝ))) * ((1178 + 0.5 : ℝ) / (1236.85 : ℝ)))))) 2558]; exact b107
  have b109 : |360 * ((1360 : ℤ) : ℝ) + 90 - 489690| ≤ 0 := by norm_num
  have b110 := ball_sub _ _ _ _ (-38.84070653) 3.6e-10 b72 b109 (by norm_num [abs_of_nonneg, abs_of_nonpos])
  have b111 := ball_torad _ _ (-0.677898212749362) 6.29e-12 b110 (by norm_num [abs_of_nonneg, abs_of_nonpos])
  have b112 := ball_cos1 _ _ 0.778892589472267 1.87e-10 b111 (by norm_num [abs_of_nonneg, abs_of_nonpos]) (by norm_num [abs_of_nonneg, abs_of_nonpos])
  have b113 : |dsin ((359.2242 : ℝ) + ((29.10535608 : ℝ) * (1178 + 0.5 : ℝ)) - ((0.0000333 : ℝ) * (((1178 + 0.5 : ℝ) / (1236.85 : ℝ)) * ((1178 + 0.5 : ℝ) / (1236.85 : ℝ)))) - ((0.00000347 : ℝ) * ((((1178 + 0.5 : ℝ) / (1236.85 : ℝ)) * ((1178 + 0.5 : ℝ) / (1236.85 : ℝ))) * ((1178 + 0.5 : ℝ) / (1236.85 : ℝ)))) + ((306.0253 : ℝ) + ((385.81691806 : ℝ) * (1178 + 0.5 : ℝ)) + ((0.0107306 : ℝ) * (((1178 + 0.5 : ℝ) / (1236.85 : ℝ)) * ((1178 + 0.5 : ℝ) / (1236.85 : ℝ)))) + ((0.00001236 : ℝ) * ((((1178 + 0.5 : ℝ) / (1236.85 : ℝ)) * ((1178 + 0.5 : ℝ) / (1236.85 : ℝ))) * ((1178 + 0.5 : ℝ) / (1236.85 : ℝ)))))) - 0.778892589472267| ≤ 1.87e-10 := by rw [dsin, sin_torad_shift90 ((359.2242 : ℝ) + ((29.10535608 : ℝ) * (1178 + 0.5 : ℝ)) - ((0.0000333 : ℝ) * (((1178 + 0.5 : ℝ) / (1236.85 : ℝ)) * ((1178 + 0.5 : ℝ) / (1236.85 : ℝ)))) - ((0.00000347 : ℝ) * ((((1178 + 0.5 : ℝ) / (1236.85 : ℝ)) * ((1178 + 0.5 : ℝ) / (1236.85 : ℝ))) * ((1178 + 0.5 : ℝ) / (1236.85 : ℝ)))) + ((306.0253 : ℝ) + ((385.81691806 : ℝ) * (1178 + 0.5 : ℝ)) + ((0.0107306 : ℝ) * (((1178 + 0.5 : ℝ) / (1236.85 : ℝ)) * ((1178 + 0.5 : ℝ) / (1236.85 : ℝ)))) + ((0.00001236 : ℝ) * ((((1178 + 0.5 : ℝ) / (1236.85 : ℝ)) * ((1178 + 0.5 : ℝ) / (1236.85 : ℝ))) * ((1178 + 0.5 : ℝ) / (1236.85 : ℝ)))))) 1360]; exact b112
  have b114 : |360 * ((-1168 : ℤ) : ℝ) + 180 - -420300| ≤ 0 := by norm_num
  have b115 := ball_sub _ _ _ _ (-31.386679378) 3.6e-10 b73 b114 (by norm_num [abs_of_nonneg, abs_of_nonpos])
  have b116 := ball_torad _ _ (-0.547800896413906) 6.29e-12 b115 (by norm_num [abs_of_nonneg, abs_of_nonpos])
  have b117 := ball_sin1 _ _ (-0.520811176836001) 1.87e-10 b116 (by norm_num [abs_of_nonneg, abs_of_nonpos]) (by norm_num [abs_of_nonneg, abs_of_nonpos])
  have b118 : |dsin ((359.2242 : ℝ) + ((29.10535608 : ℝ) * (1178 + 0.5 : ℝ)) - ((0.0000333 : ℝ) * (((1178 + 0.5 : ℝ) / (1236.85 : ℝ)) * ((1178 + 0.5 : ℝ) / (1236.85 : ℝ)))) - ((0.00000347 : ℝ) * ((((1178 + 0.5 : ℝ) / (1236.85 : ℝ)) * ((1178 + 0.5 : ℝ) / (1236.85 : ℝ))) * ((1178 + 0.5 : ℝ) / (1236.85 : ℝ)))) - ((306.0253 : ℝ) + ((385.81691806 : ℝ) * (1178 + 0.5 : ℝ)) + ((0.0107306 : ℝ) * (((1178 + 0.5 : ℝ) / (1236.85 : ℝ)) * ((1178 + 0.5 : ℝ) / (1236.85 : ℝ)))) + ((0.00001236 : ℝ) * ((((1178 + 0.5 : ℝ) / (1236.85 : ℝ)) * ((1178 + 0.5 : ℝ) / (1236.85 : ℝ))) * ((1178 + 0.5 : ℝ) / (1236.85 : ℝ)))))) - 0.520811176836001| ≤ 1.87e-10 := by rw [dsin, sin_torad_shift180 ((359.2242 : ℝ) + ((29.10535608 : ℝ) * (1178 + 0.5 : ℝ)) - ((0.0000333 : ℝ) * (((1178 + 0.5 : ℝ) / (1236.85 : ℝ)) * ((1178 + 0.5 : ℝ) / (1236.85 : ℝ)))) - ((0.00000347 : ℝ) * ((((1178 + 0.5 : ℝ) / (1236.85 : ℝ)) * ((1178 + 0.5 : ℝ) / (1236.85 : ℝ))) * ((1178 + 0.5 : ℝ) / (1236.85 : ℝ)))) - ((306.0253 : ℝ) + ((385.81691806 : ℝ) * (1178 + 0.5 : ℝ)) + ((0.0107306 : ℝ) * (((1178 + 0.5 : ℝ) / (1236.85 : ℝ)) * ((1178 + 0.5 : ℝ) / (1236.85 : ℝ)))) + ((0.00001236 : ℝ) * ((((1178 + 0.5 : ℝ) / (1236.85 : ℝ)) * ((1178 + 0.5 : ℝ) / (1236.85 : ℝ))) * ((1178 + 0.5 : ℝ) / (1236.85 : ℝ)))))) (-1168)]; exact ball_neg _ _ 0.520811176836001 1.87e-10 b117 (by norm_num [abs_of_nonneg, abs_of_nonpos])
  have b119 : |360 * ((2654 : ℤ) : ℝ) + 90 - 955530| ≤ 0 := by norm_num
  have b120 := ball_sub _ _ _ _ (-17.140171934) 2.01e-9 b74 b119 (by norm_num [abs_of_nonneg, abs_of_nonpos])
  have b121 := ball_torad _ _ (-0.299152434606224) 3.51e-11 b120 (by norm_num [abs_of_nonneg, abs_of_nonpos])
  have b122 := ball_cos1 _ _ 0.955586618654816 2.16e-10 b121 (by norm_num [abs_of_nonneg, abs_of_nonpos]) (by norm_num [abs_of_nonneg, abs_of_nonpos])
  have b123 : |dsin ((2 : ℝ) * ((21.2964 : ℝ) + ((390.67050646 : ℝ) * (1178 + 0.5 : ℝ)) - ((0.0016528 : ℝ) * (((1178 + 0.5 : ℝ) / (1236.85 : ℝ)) * ((1178 + 0.5 : ℝ) / (1236.85 : ℝ)))) - ((0.00000239 : ℝ) * ((((1178 + 0.5 : ℝ) / (1236.85 : ℝ)) * ((1178 + 0.5 : ℝ) / (1236.85 : ℝ))) * ((1178 + 0.5 : ℝ) / (1236.85 : ℝ))))) + ((359.2242 : ℝ) + ((29.10535608 : ℝ) * (1178 + 0.5 : ℝ)) - ((0.0000333 : ℝ) * (((1178 + 0.5 : ℝ) / (1236.85 : ℝ)) * ((1178 + 0.5 : ℝ) / (1236.85 : ℝ)))) - ((0.00000347 : ℝ) * ((((1178 + 0.5 : ℝ) / (1236.85 : ℝ)) * ((1178 + 0.5 : ℝ) / (1236.85 : ℝ))) * ((1178 + 0.5 : ℝ) / (1236.85 : ℝ)))))) - 0.955586618654816| ≤ 2.16e-10 := by rw [dsin, sin_torad_shift90 ((2 : ℝ) * ((21.2964 : ℝ) + ((390.67050646 : ℝ) * (1178 + 0.5 : ℝ)) - ((0.0016528 : ℝ) * (((1178 + 0.5 : ℝ) / (1236.85 : ℝ)) * ((1178 + 0.5 : ℝ) / (1236.85 : ℝ)))) - ((0.00000239 : ℝ) * ((((1178 + 0.5 : ℝ) / (1236.85 : ℝ)) * ((1178 + 0.5 : ℝ) / (1236.85 : ℝ))) * ((1178 + 0.5 : ℝ) / (1236.85 : ℝ))))) + ((359.2242 : ℝ) + ((29.10535608 : ℝ) * (1178 + 0.5 : ℝ)) - ((0.0000333 : ℝ) * (((1178 + 0.5 : ℝ) / (1236.85 : ℝ)) * ((1178 + 0.5 : ℝ) / (1236.85 : ℝ)))) - ((0.00000347 : ℝ) * ((((1178 + 0.5 : ℝ) / (1236.85 : ℝ)) * ((1178 + 0.5 : ℝ) / (1236.85 : ℝ))) * ((1178 + 0.5 : ℝ) / (1236.85 : ℝ)))))) 2654]; exact b122
  have b124 : |360 * ((2461 : ℤ) : ℝ) + 270 - 886230| ≤ 0 := by norm_num
  have b125 := ball_sub _ _ _ _ (-36.912786026) 2.01e-9 b75 b124 (by norm_num [abs_of_nonneg, abs_of_nonpos])
  have b126 := ball_torad _ _ (-0.644249652237853) 3.51e-11 b125 (by norm_num [abs_of_nonneg, abs_of_nonpos])
  have b127 := ball_cos1 _ _ 0.79955064984832 2.16e-10 b126 (by norm_num [abs_of_nonneg, abs_of_nonpos]) (by norm_num [abs_of_nonneg, abs_of_nonpos])
  have b128 : |dsin ((2 : ℝ) * ((21.2964 : ℝ) + ((390.67050646 : ℝ) * (1178 + 0.5 : ℝ)) - ((0.0016528 : ℝ) * (((1178 + 0.5 : ℝ) / (1236.85 : ℝ)) * ((1178 + 0.5 : ℝ) / (1236.85 : ℝ)))) - ((0.00000239 : ℝ) * ((((1178 + 0.5 : ℝ) / (1236.85 : ℝ)) * ((1178 + 0.5 : ℝ) / (1236.85 : ℝ))) * ((1178 + 0.5 : ℝ) / (1236.85 : ℝ))))) - ((359.2242 : ℝ) + ((29.10535608 : ℝ) * (1178 + 0.5 : ℝ)) - ((0.0000333 : ℝ) * (((1178 + 0.5 : ℝ) / (1236.85 : ℝ)) * ((1178 + 0.5 : ℝ) / (1236.85 : ℝ)))) - ((0.00000347 : ℝ) * ((((1178 + 0.5 : ℝ) / (1236.85 : ℝ)) * ((1178 + 0.5 : ℝ) / (1236.85 : ℝ))) * ((1178 + 0.5 : ℝ) / (1236.85 : ℝ)))))) - -0.79955064984832| ≤ 2.16e-10 := by rw [dsin, sin_torad_shift270 ((2 : ℝ) * ((21.2964 : ℝ) + ((390.67050646 : ℝ) * (1178 + 0.5 : ℝ)) - ((0.0016528 : ℝ) * (((1178 + 0.5 : ℝ) / (1236.85 : ℝ)) * ((1178 + 0.5 : ℝ) / (1236.85 : ℝ)))) - ((0.00000239 : ℝ) * ((((1178 + 0.5 : ℝ) / (1236.85 : ℝ)) * ((1178 + 0.5 : ℝ) / (1236.85 : ℝ))) * ((1178 + 0.5 : ℝ) / (1236.85 : ℝ))))) - ((359.2242 : ℝ) + ((29.10535608 : ℝ) * (1178 + 0.5 : ℝ)) - ((0.0000333 : ℝ) * (((1178 + 0.5 : ℝ) / (1236.85 : ℝ)) * ((1178 + 0.5 : ℝ) / (1236.85 : ℝ)))) - ((0.00000347 : ℝ) * ((((1178 + 0.5 : ℝ) / (1236.85 : ℝ)) * ((1178 + 0.5 : ℝ) / (1236.85 : ℝ))) * ((1178 + 0.5 : ℝ) / (1236.85 : ℝ)))))) 2461]; exact ball_neg _ _ (-0.79955064984832) 2.16e-10 b127 (by norm_num [abs_of_nonneg, abs_of_nonpos])
  have b129 : |360 * ((3821 : ℤ) : ℝ) + 270 - 1375830| ≤ 0 := by norm_num
  have b130 := ball_sub _ _ _ _ 14.24650744 6.11e-9 b76 b129 (by norm_num [abs_of_nonneg, abs_of_nonpos])
  have b131 := ball_torad _ _ 0.248648461737869 1.07e-10 b130 (by norm_num [abs_of_nonneg, abs_of_nonpos])
  have b132 := ball_cos1 _ _ 0.96924591259143 2.88e-10 b131 (by norm_num [abs_of_nonneg, abs_of_nonpos]) (by norm_num [abs_of_nonneg, abs_of_nonpos])
  have b133 : |dsin ((2 : ℝ) * ((21.2964 : ℝ) + ((390.67050646 : ℝ) * (1178 + 0.5 : ℝ)) - ((0.0016528 : ℝ) * (((1178 + 0.5 : ℝ) / (1236.85 : ℝ)) * ((1178 + 0.5 : ℝ) / (1236.85 : ℝ)))) - ((0.00000239 : ℝ) * ((((1178 + 0.5 : ℝ) / (1236.85 : ℝ)) * ((1178 + 0.5 : ℝ) / (1236.85 : ℝ))) * ((1178 + 0.5 : ℝ) / (1236.85 : ℝ))))) + ((306.0253 : ℝ) + ((385.81691806 : ℝ) * (1178 + 0.5 : ℝ)) + ((0.0107306 : ℝ) * (((1178 + 0.5 : ℝ) / (1236.85 : ℝ)) * ((1178 + 0.5 : ℝ) / (1236.85 : ℝ)))) + ((0.00001236 : ℝ) * ((((1178 + 0.5 : ℝ) / (1236.85 : ℝ)) * ((1178 + 0.5 : ℝ) / (1236.85 : ℝ))) * ((1178 + 0.5 : ℝ) / (1236.85 : ℝ)))))) - -0.96924591259143| ≤ 2.88e-10 := by rw [dsin, sin_torad_shift270 ((2 : ℝ) * ((21.2964 : ℝ) + ((390.67050646 : ℝ) * (1178 + 0.5 : ℝ)) - ((0.0016528 : ℝ) * (((1178 + 0.5 : ℝ) / (1236.85 : ℝ)) * ((1178 + 0.5 : ℝ) / (1236.85 : ℝ)))) - ((0.00000239 : ℝ) * ((((1178 + 0.5 : ℝ) / (1236.85 : ℝ)) * ((1178 + 0.5 : ℝ) / (1236.85 : ℝ))) * ((1178 + 0.5 : ℝ) / (1236.85 : ℝ))))) + ((306.0253 : ℝ) + ((385.81691806 : ℝ) * (1178 + 0.5 : ℝ)) + ((0.0107306 : ℝ) * (((1178 + 0.5 : ℝ) / (1236.85 : ℝ)) * ((1178 + 0.5 : ℝ) / (1236.85 : ℝ)))) + ((0.00001236 : ℝ) * ((((1178 + 0.5 : ℝ) / (1236.85 : ℝ)) * ((1178 + 0.5 : ℝ) / (1236.85 : ℝ))) * ((1178 + 0.5 : ℝ) / (1236.85 : ℝ)))))) 3821]; exact ball_neg _ _ (-0.96924591259143) 2.88e-10 b132 (by norm_num [abs_of_nonneg, abs_of_nonpos])
  have b134 : |360 * ((1294 : ℤ) : ℝ) - 465840| ≤ 0 := by norm_num
  have b135 := ball_sub _ _ _ _ 21.700534596 2.11e-9 b77 b134 (by norm_num [abs_of_nonneg, abs_of_nonpos])
  have b136 := ball_torad _ _ 0.378745778143137 3.69e-11 b135 (by norm_num [abs_of_nonneg, abs_of_nonpos])
  have b137 := ball_sin1 _ _ 0.369755426492369 2.17e-10 b136 (by norm_num [abs_of_nonneg, abs_of_nonpos]) (by norm_num [abs_of_nonneg, abs_of_nonpos])
  have b138 : |dsin ((2 : ℝ) * ((21.2964 : ℝ) + ((390.67050646 : ℝ) * (1178 + 0.5 : ℝ)) - ((0.0016528 : ℝ) * (((1178 + 0.5 : ℝ) / (1236.85 : ℝ)) * ((1178 + 0.5 : ℝ) / (1236.85 : ℝ)))) - ((0.00000239 : ℝ) * ((((1178 + 0.5 : ℝ) / (1236.85 : ℝ)) * ((1178 + 0.5 : ℝ) / (1236.85 : ℝ))) * ((1178 + 0.5 : ℝ) / (1236.85 : ℝ))))) - ((306.0253 : ℝ) + ((385.81691806 : ℝ) * (1178 + 0.5 : ℝ)) + ((0.0107306 : ℝ) * (((1178 + 0.5 : ℝ) / (1236.85 : ℝ)) * ((1178 + 0.5 : ℝ) / (1236.85 : ℝ)))) + ((0.00001236 : ℝ) * ((((1178 + 0.5 : ℝ) / (1236.85 : ℝ)) * ((1178 + 0.5 : ℝ) / (1236.85 : ℝ))) * ((1178 + 0.5 : ℝ) / (1236.85 : ℝ)))))) - 0.369755426492369| ≤ 2.17e-10 := by rw [dsin, sin_torad_shift ((2 : ℝ) * ((21.2964 : ℝ) + ((390.67050646 : ℝ) * (1178 + 0.5 : ℝ)) - ((0.0016528 : ℝ) * (((1178 + 0.5 : ℝ) / (1236.85 : ℝ)) * ((1178 + 0.5 : ℝ) / (1236.85 : ℝ)))) - ((0.00000239 : ℝ) * ((((1178 + 0.5 : ℝ) / (1236.85 : ℝ)) * ((1178 + 0.5 : ℝ) / (1236.85 : ℝ))) * ((1178 + 0.5 : ℝ) / (1236.85 : ℝ))))) - ((306.0253 : ℝ) + ((385.81691806 : ℝ) * (1178 + 0.5 : ℝ)) + ((0.0107306 : ℝ) * (((1178 + 0.5 : ℝ) / (1236.85 : ℝ)) * ((1178 + 0.5 : ℝ) / (1236.85 : ℝ)))) + ((0.00001236 : ℝ) * ((((1178 + 0.5 : ℝ) / (1236.85 : ℝ)) * ((1178 + 0.5 : ℝ) / (1236.85 : ℝ))) * ((1178 + 0.5 : ℝ) / (1236.85 : ℝ)))))) 1294]; exact b137
  have b139 : |360 * ((2624 : ℤ) : ℝ) - 944640| ≤ 0 := by norm_num
  have b140 := ball_sub _ _ _ _ 2.432279894 5.9e-10 b78 b139 (by norm_num [abs_of_nonneg, abs_of_nonpos])
  have b141 := ball_torad _ _ 0.0424512924803587 1.04e-11 b140 (by norm_num [abs_of_nonneg, abs_of_nonpos])
  have b142 := ball_sin1 _ _ 0.0424385432969365 1.91e-10 b141 (by norm_num [abs_of_nonneg, abs_of_nonpos]) (by norm_num [abs_of_nonneg, abs_of_nonpos])
  have b143 : |dsin ((359.2242 : ℝ) + ((29.10535608 : ℝ) * (1178 + 0.5 : ℝ)) - ((0.0000333 : ℝ) * (((1178 + 0.5 : ℝ) / (1236.85 : ℝ)) * ((1178 + 0.5 : ℝ) / (1236.85 : ℝ)))) - ((0.00000347 : ℝ) * ((((1178 + 0.5 : ℝ) / (1236.85 : ℝ)) * ((1178 + 0.5 : ℝ) / (1236.85 : ℝ))) * ((1178 + 0.5 : ℝ) / (1236.85 : ℝ)))) + ((2 : ℝ) * ((306.0253 : ℝ) + ((385.81691806 : ℝ) * (1178 + 0.5 : ℝ)) + ((0.0107306 : ℝ) * (((1178 + 0.5 : ℝ) / (1236.85 : ℝ)) * ((1178 + 0.5 : ℝ) / (1236.85 : ℝ)))) + ((0.00001236 : ℝ) * ((((1178 + 0.5 : ℝ) / (1236.85 : ℝ)) * ((1178 + 0.5 : ℝ) / (1236.85 : ℝ))) * ((1178 + 0.5 : ℝ) / (1236.85 : ℝ))))))) - 0.0424385432969365| ≤ 1.91e-10 := by rw [dsin, sin_torad_shift ((359.2242 : ℝ) + ((29.10535608 : ℝ) * (1178 + 0.5 : ℝ)) - ((0.0000333 : ℝ) * (((1178 + 0.5 : ℝ) / (1236.85 : ℝ)) * ((1178 + 0.5 : ℝ) / (1236.85 : ℝ)))) - ((0.00000347 : ℝ) * ((((1178 + 0.5 : ℝ) / (1236.85 : ℝ)) * ((1178 + 0.5 : ℝ) / (1236.85 : ℝ))) * ((1178 + 0.5 : ℝ) / (1236.85 : ℝ)))) + ((2 : ℝ) * ((306.0253 : ℝ) + ((385.81691806 : ℝ) * (1178 + 0.5 : ℝ)) + ((0.0107306 : ℝ) * (((1178 + 0.5 : ℝ) / (1236.85 : ℝ)) * ((1178 + 0.5 : ℝ) / (1236.85 : ℝ)))) + ((0.00001236 : ℝ) * ((((1178 + 0.5 : ℝ) / (1236.85 : ℝ)) * ((1178 + 0.5 : ℝ) / (1236.85 : ℝ))) * ((1178 + 0.5 : ℝ) / (1236.85 : ℝ))))))) 2624]; exact b142
  have b144 := ball_refl (0.1734 : ℝ)
  have b145 := ball_refl (0.000393 : ℝ)
  have b146 := ball_mul _ _ _ _ 0.000374459716214577 3.91e-19 b145 b3 (by norm_num [abs_of_nonneg, abs_of_nonpos])
  have b147 := ball_sub _ _ _ _ 0.173025540283785 4.24e-16 b144 b146 (by norm_num [abs_of_nonneg, abs_of_nonpos])
  have b148 := ball_mul _ _ _ _ 0.170456177947995 3.14e-11 b147 b83 (by norm_num [abs_of_nonneg, abs_of_nonpos])
  have b149 := ball_refl (0.0021 : ℝ)
  have b150 := ball_mul _ _ _ _ (-0.000710405146036793) 3.83e-13 b149 b88 (by norm_num [abs_of_nonneg, abs_of_nonpos])
  have b151 := ball_add _ _ _ _ 0.169745772801958 3.18e-11 b148 b150 (by norm_num [abs_of_nonneg, abs_of_nonpos])
  have b152 := ball_refl (0.4068 : ℝ)
  have b153 := ball_mul _ _ _ _ (-0.305740801463467) 7.53e-11 b152 b93 (by norm_num [abs_of_nonneg, abs_of_nonpos])
  have b154 := ball_sub _ _ _ _ 0.475486574265425 1.08e-10 b151 b153 (by norm_num [abs_of_nonneg, abs_of_nonpos])
  have b155 := ball_refl (0.0161 : ℝ)
  have b156 := ball_mul _ _ _ _ (-0.0159639433033471) 3.05e-12 b155 b98 (by norm_num [abs_of_nonneg, abs_of_nonpos])
  have b157 := ball_add _ _ _ _ 0.459522630962078 1.12e-10 b154 b156 (by norm_num [abs_of_nonneg, abs_of_nonpos])
  have b158 := ball_refl (0.0004 : ℝ)
  have b159 := ball_mul _ _ _ _ (-0.000222628223680154) 9.13e-14 b158 b103 (by norm_num [abs_of_nonneg, abs_of_nonpos])
  have b160 := ball_sub _ _ _ _ 0.459745259185758 1.13e-10 b157 b159 (by norm_num [abs_of_nonneg, abs_of_nonpos])
  have b161 := ball_refl (0.0104 : ℝ)
  have b162 := ball_mul _ _ _ _ (-0.00472578314827313) 2.22e-12 b161 b108 (by norm_num [abs_of_nonneg, abs_of_nonpos])
  have b163 := ball_add _ _ _ _ 0.455019476037485 1.16e-10 b160 b162 (by norm_num [abs_of_nonneg, abs_of_nonpos])
  have b164 := ball_refl (0.0051 : ℝ)
  have b165 := ball_mul _ _ _ _ 0.00397235220630856 9.54e-13 b164 b113 (by norm_num [abs_of_nonneg, abs_of_nonpos])
  have b166 := ball_sub _ _ _ _ 0.451047123831176 1.17e-10 b163 b165 (by norm_num [abs_of_nonneg, abs_of_nonpos])
  have b167 := ball_refl (0.0074 : ℝ)
  have b168 := ball_mul _ _ _ _ 0.00385400270858641 1.39e-12 b167 b118 (by norm_num [abs_of_nonneg, abs_of_nonpos])
  have b169 := ball_sub _ _ _ _ 0.44719312112259 1.19e-10 b166 b168 (by norm_num [abs_of_nonneg, abs_of_nonpos])
  have b170 := ball_refl (0.0004 : ℝ)
  have b171 := ball_mul _ _ _ _ 0.000382234647461926 8.65e-14 b170 b123 (by norm_num [abs_of_nonneg, abs_of_nonpos])
  have b172 := ball_add _ _ _ _ 0.447575355770052 1.2e-10 b169 b171 (by norm_num [abs_of_nonneg, abs_of_nonpos])
  have b173 := ball_refl (0.0004 : ℝ)
  have b174 := ball_mul _ _ _ _ (-0.000319820259939328) 8.64e-14 b173 b128 (by norm_num [abs_of_nonneg, abs_of_nonpos])
  have b175 := ball_sub _ _ _ _ 0.447895176029991 1.21e-10 b172 b174 (by norm_num [abs_of_nonneg, abs_of_nonpos])
  have b176 := ball_refl (0.0006 : ℝ)
  have b177 := ball_mul _ _ _ _ (-0.000581547547554858) 1.73e-13 b176 b133 (by norm_num [abs_of_nonneg, abs_of_nonpos])
  have b178 := ball_sub _ _ _ _ 0.448476723577546 1.22e-10 b175 b177 (by norm_num [abs_of_nonneg, abs_of_nonpos])
  have b179 : |(0.0010 : ℝ) - 0.001| ≤ 0 := by norm_num
  have b180 := ball_mul _ _ _ _ 0.000369755426492369 2.17e-13 b179 b138 (by norm_num [abs_of_nonneg, abs_of_nonpos])
  have b181 := ball_add _ _ _ _ 0.448846479004038 1.23e-10 b178 b180 (by norm_num [abs_of_nonneg, abs_of_nonpos])
  have b182 := ball_refl (0.0005 : ℝ)
  have b183 := ball_mul _ _ _ _ 0.0000212192716484683 9.56e-14 b182 b143 (by norm_num [abs_of_nonneg, abs_of_nonpos])
  have b184 := ball_add _ _ _ _ 0.448867698275686 1.24e-10 b181 b183 (by norm_num [abs_of_nonneg, abs_of_nonpos])
  have b185 := ball_add _ _ _ _ 2449823.00676048 8.89e-9 b30 b184 (by norm_num [abs_of_nonneg, abs_of_nonpos])
  have b186 : |tpNewFull 1178 0.5 - 2449823.00676048| ≤ 8.89e-9 := by
    simp only [tpNewFull]
    exact ball_center _ _ _ _ b185 (by norm_num [abs_of_nonneg, abs_of_nonpos])
  exact b186

set_option maxHeartbeats 3200000 in
lemma tpball_1178_75 : |tpQuarter 1178 0.75 - 2449829.6385181| ≤ 0.0000000128 := by
  have b1 : |(1178 + 0.75 : ℝ) - 1178.75| ≤ 0 := by norm_num
  have b2 := ball_refl (1236.85 : ℝ)
  have b3 := ball_div _ _ _ _ 0.95302583175001 1.07e-16 b1 b2 (by norm_num) (by norm_num [abs_of_nonneg, abs_of_nonpos])
  have b4 := ball_mul _ _ _ _ 0.908258235982798 5.73e-16 b3 b3 (by norm_num [abs_of_nonneg, abs_of_nonpos])
  have b5 := ball_mul _ _ _ _ 0.865593560791303 7.19e-16 b4 b3 (by norm_num [abs_of_nonneg, abs_of_nonpos])
  have b6 : |(1178 + 0.75 : ℝ) - 1178.75| ≤ 0 := by norm_num
  have b7 := ball_refl (2415020.75933 : ℝ)
  have b8 := ball_mul _ _ _ _ 34809.18140655 0 synmonth_ball b6 (by norm_num [abs_of_nonneg, abs_of_nonpos])
  have b9 := ball_add _ _ _ _ 2449829.94073655 0 b7 b8 (by norm_num [abs_of_nonneg, abs_of_nonpos])
  have b10 := ball_refl (0.0001178 : ℝ)
  have b11 := ball_mul _ _ _ _ 0.000106992820198774 4.64e-19 b10 b4 (by norm_num [abs_of_nonneg, abs_of_nonpos])
  have b12 := ball_add _ _ _ _ 2449829.94084354 2.83e-9 b9 b11 (by norm_num [abs_of_nonneg, abs_of_nonpos])
  have b13 := ball_refl (0.000000155 : ℝ)
  have b14 := ball_mul _ _ _ _ 0.000000134167001922652 1.47e-22 b13 b5 (by norm_num [abs_of_nonneg, abs_of_nonpos])
  have b15 := ball_sub _ _ _ _ 2449829.94084341 0.000000007 b12 b14 (by norm_num [abs_of_nonneg, abs_of_nonpos])
  have b16 := ball_refl (166.56 : ℝ)
  have b17 := ball_refl (132.87 : ℝ)
  have b18 := ball_mul _ _ _ _ 126.628542264624 1.86e-13 b17 b3 (by norm_num [abs_of_nonneg, abs_of_nonpos])
  have b19 := ball_add _ _ _ _ 293.188542264624 1.86e-13 b16 b18 (by norm_num [abs_of_nonneg, abs_of_nonpos])
  have b20 := ball_refl (0.009173 : ℝ)
  have b21 := ball_mul _ _ _ _ 0.00833145279867021 9.21e-18 b20 b4 (by norm_num [abs_of_nonneg, abs_of_nonpos])
  have b22 := ball_sub _ _ _ _ 293.180210811825 5.16e-13 b19 b21 (by norm_num [abs_of_nonneg, abs_of_nonpos])
  have b23 : |360 * ((0 : ℤ) : ℝ) + 270 - 270| ≤ 0 := by norm_num
  have b24 := ball_sub _ _ _ _ 23.180210811825 5.16e-13 b22 b23 (by norm_num [abs_of_nonneg, abs_of_nonpos])
  have b25 := ball_torad _ _ 0.404570999972734 9.07e-15 b24 (by norm_num [abs_of_nonneg, abs_of_nonpos])
  have b26 := ball_cos1 _ _ 0.919271346643261 1.81e-10 b25 (by norm_num [abs_of_nonneg, abs_of_nonpos]) (by norm_num [abs_of_nonneg, abs_of_nonpos])
  have b27 : |dsin ((166.56 : ℝ) + ((132.87 : ℝ) * ((1178 + 0.75 : ℝ) / (1236.85 : ℝ))) - ((0.009173 : ℝ) * (((1178 + 0.75 : ℝ) / (1236.85 : ℝ)) * ((1178 + 0.75 : ℝ) / (1236.85 : ℝ))))) - -0.919271346643261| ≤ 1.81e-10 := by rw [dsin, sin_torad_shift270 ((166.56 : ℝ) + ((132.87 : ℝ) * ((1178 + 0.75 : ℝ) / (1236.85 : ℝ))) - ((0.009173 : ℝ) * (((1178 + 0.75 : ℝ) / (1236.85 : ℝ)) * ((1178 + 0.75 : ℝ) / (1236.85 : ℝ))))) 0]; exact ball_neg _ _ (-0.919271346643261) 1.81e-10 b26 (by norm_num [abs_of_nonneg, abs_of_nonpos])
  have b28 := ball_refl (0.00033 : ℝ)
  have b29 := ball_mul _ _ _ _ (-0.000303359544392276) 5.98e-14 b28 b27 (by norm_num [abs_of_nonneg, abs_of_nonpos])
  have b30 := ball_add _ _ _ _ 2449829.94054005 7.46e-9 b15 b29 (by norm_num [abs_of_nonneg, abs_of_nonpos])
  have b31 := ball_refl (359.2242 : ℝ)
  have b32 := ball_refl (29.10535608 : ℝ)
  have b33 : |(1178 + 0.75 : ℝ) - 1178.75| ≤ 0 := by norm_num
  have b34 := ball_mul _ _ _ _ 34307.9384793 0 b32 b33 (by norm_num [abs_of_nonneg, abs_of_nonpos])
  have b35 := ball_add _ _ _ _ 34667.1626793 0 b31 b34 (by norm_num [abs_of_nonneg, abs_of_nonpos])
  have b36 := ball_refl (0.0000333 : ℝ)
  have b37 := ball_mul _ _ _ _ 0.0000302449992582272 4.57e-20 b36 b4 (by norm_num [abs_of_nonneg, abs_of_nonpos])
  have b38 := ball_sub _ _ _ _ 34667.162649055 7.42e-13 b35 b37 (by norm_num [abs_of_nonneg, abs_of_nonpos])
  have b39 := ball_refl (0.00000347 : ℝ)
  have b40 := ball_mul _ _ _ _ 0.00000300360965594582 3.91e-21 b39 b5 (by norm_num [abs_of_nonneg, abs_of_nonpos])
  have b41 := ball_sub _ _ _ _ 34667.1626460514 1.04e-11 b38 b40 (by norm_num [abs_of_nonneg, abs_of_nonpos])
  have b42 := ball_refl (306.0253 : ℝ)
  have b43 := ball_refl (385.81691806 : ℝ)
  have b44 : |(1178 + 0.75 : ℝ) - 1178.75| ≤ 0 := by norm_num
  have b45 := ball_mul _ _ _ _ 454781.692163225 0 b43 b44 (by norm_num [abs_of_nonneg, abs_of_nonpos])
  have b46 := ball_add _ _ _ _ 455087.717463225 0 b42 b45 (by norm_num [abs_of_nonneg, abs_of_nonpos])
  have b47 := ball_refl (0.0107306 : ℝ)
  have b48 := ball_mul _ _ _ _ 0.00974615582703701 8.37e-18 b47 b4 (by norm_num [abs_of_nonneg, abs_of_nonpos])
  have b49 := ball_add _ _ _ _ 455087.727209381 1.73e-10 b46 b48 (by norm_num [abs_of_nonneg, abs_of_nonpos])
  have b50 := ball_refl (0.00001236 : ℝ)
  have b51 := ball_mul _ _ _ _ 0.0000106987364113805 1.4e-20 b50 b5 (by norm_num [abs_of_nonneg, abs_of_nonpos])
  have b52 := ball_add _ _ _ _ 455087.72722008 4.37e-10 b49 b51 (by norm_num [abs_of_nonneg, abs_of_nonpos])
  have b53 := ball_refl (21.2964 : ℝ)
  have b54 := ball_refl (390.67050646 : ℝ)
  have b55 : |(1178 + 0.75 : ℝ) - 1178.75| ≤ 0 := by norm_num
  have b56 := ball_mul _ _ _ _ 460502.859489725 0 b54 b55 (by norm_num [abs_of_nonneg, abs_of_nonpos])
  have b57 := ball_add _ _ _ _ 460524.155889725 0 b53 b56 (by norm_num [abs_of_nonneg, abs_of_nonpos])
  have b58 := ball_refl (0.0016528 : ℝ)
  have b59 := ball_mul _ _ _ _ 0.00150116921243237 2.42e-18 b58 b4 (by norm_num [abs_of_nonneg, abs_of_nonpos])
  have b60 := ball_sub _ _ _ _ 460524.154388556 2.13e-10 b57 b59 (by norm_num [abs_of_nonneg, abs_of_nonpos])
  have b61 := ball_refl (0.00000239 : ℝ)
  have b62 := ball_mul _ _ _ _ 0.00000206876861029121 5.89e-21 b61 b5 (by norm_num [abs_of_nonneg, abs_of_nonpos])
  have b63 := ball_sub _ _ _ _ 460524.154386487 4.45e-10 b60 b62 (by norm_num [abs_of_nonneg, abs_of_nonpos])
  have b64 := ball_refl (2 : ℝ)
  have b65 := ball_refl (3 : ℝ)
  have b66 := ball_mul _ _ _ _ 69334.3252921028 2.08e-11 b64 b41 (by norm_num [abs_of_nonneg, abs_of_nonpos])
  have b67 := ball_refl (2 : ℝ)
  have b68 := ball_mul _ _ _ _ 910175.45444016 8.74e-10 b67 b52 (by norm_num [abs_of_nonneg, abs_of_nonpos])
  have b69 := ball_mul _ _ _ _ 1365263.18166024 1.32e-9 b65 b52 (by norm_num [abs_of_nonneg, abs_of_nonpos])
  have b70 := ball_refl (2 : ℝ)
  have b71 := ball_mul _ _ _ _ 921048.308772974 8.9e-10 b70 b63 (by norm_num [abs_of_nonneg, abs_of_nonpos])
  have b72 := ball_add _ _ _ _ 489754.889866131 8.48e-10 b41 b52 (by norm_num [abs_of_nonneg, abs_of_nonpos])
  have b73 := ball_sub _ _ _ _ (-420420.564574029) 8.48e-10 b41 b52 (by norm_num [abs_of_nonneg, abs_of_nonpos])
  have b74 := ball_add _ _ _ _ 955715.471419025 1.31e-9 b71 b41 (by norm_num [abs_of_nonneg, abs_of_nonpos])
  have b75 := ball_sub _ _ _ _ 886381.146126923 1.31e-9 b71 b41 (by norm_num [abs_of_nonneg, abs_of_nonpos])
  have b76 := ball_add _ _ _ _ 1376136.03599305 5.33e-9 b71 b52 (by norm_num [abs_of_nonneg, abs_of_nonpos])
  have b77 := ball_sub _ _ _ _ 465960.581552894 1.33e-9 b71 b52 (by norm_num [abs_of_nonneg, abs_of_nonpos])
  have b78 := ball_add _ _ _ _ 944842.617086211 1.29e-9 b41 b68 (by norm_num [abs_of_nonneg, abs_of_nonpos])
  have b79 := ball_sub _ _ _ _ (-875508.291794109) 1.29e-9 b41 b68 (by norm_num [abs_of_nonneg, abs_of_nonpos])
  have b80 := ball_add _ _ _ _ 524422.052512183 6.58e-10 b66 b52 (by norm_num [abs_of_nonneg, abs_of_nonpos])
  have b81 : |360 * ((96 : ℤ) : ℝ) + 90 - 34650| ≤ 0 := by norm_num
  have b82 := ball_sub _ _ _ _ 17.1626460514 1.04e-11 b41 b81 (by norm_num [abs_of_nonneg, abs_of_nonpos])
  have b83 := ball_torad _ _ 0.299544681951334 1.82e-13 b82 (by norm_num [abs_of_nonneg, abs_of_nonpos])
  have b84 := ball_cos1 _ _ 0.955470945777231 1.81e-10 b83 (by norm_num [abs_of_nonneg, abs_of_nonpos]) (by norm_num [abs_of_nonneg, abs_of_nonpos])
  have b85 : |dsin ((359.2242 : ℝ) + ((29.10535608 : ℝ) * (1178 + 0.75 : ℝ)) - ((0.0000333 : ℝ) * (((1178 + 0.75 : ℝ) / (1236.85 : ℝ)) * ((1178 + 0.75 : ℝ) / (1236.85 : ℝ)))) - ((0.00000347 : ℝ) * ((((1178 + 0.75 : ℝ) / (1236.85 : ℝ)) * ((1178 + 0.75 : ℝ) / (1236.85 : ℝ))) * ((1178 + 0.75 : ℝ) / (1236.85 : ℝ))))) - 0.955470945777231| ≤ 1.81e-10 := by rw [dsin, sin_torad_shift90 ((359.2242 : ℝ) + ((29.10535608 : ℝ) * (1178 + 0.75 : ℝ)) - ((0.0000333 : ℝ) * (((1178 + 0.75 : ℝ) / (1236.85 : ℝ)) * ((1178 + 0.75 : ℝ) / (1236.85 : ℝ)))) - ((0.00000347 : ℝ) * ((((1178 + 0.75 : ℝ) / (1236.85 : ℝ)) * ((1178 + 0.75 : ℝ) / (1236.85 : ℝ))) * ((1178 + 0.75 : ℝ) / (1236.85 : ℝ))))) 96]; exact b84
  have b86 : |360 * ((192 : ℤ) : ℝ) + 180 - 69300| ≤ 0 := by norm_num
  have b87 := ball_sub _ _ _ _ 34.3252921028 2.08e-11 b66 b86 (by norm_num [abs_of_nonneg, abs_of_nonpos])
  have b88 := ball_torad _ _ 0.599089363902668 3.64e-13 b87 (by norm_num [abs_of_nonneg, abs_of_nonpos])
  have b89 := ball_sin1 _ _ 0.563890658978199 1.81e-10 b88 (by norm_num [abs_of_nonneg, abs_of_nonpos]) (by norm_num [abs_of_nonneg, abs_of_nonpos])
  have b90 : |dsin ((2 : ℝ) * ((359.2242 : ℝ) + ((29.10535608 : ℝ) * (1178 + 0.75 : ℝ)) - ((0.0000333 : ℝ) * (((1178 + 0.75 : ℝ) / (1236.85 : ℝ)) * ((1178 + 0.75 : ℝ) / (1236.85 : ℝ)))) - ((0.00000347 : ℝ) * ((((1178 + 0.75 : ℝ) / (1236.85 : ℝ)) * ((1178 + 0.75 : ℝ) / (1236.85 : ℝ))) * ((1178 + 0.75 : ℝ) / (1236.85 : ℝ)))))) - -0.563890658978199| ≤ 1.81e-10 := by rw [dsin, sin_torad_shift180 ((2 : ℝ) * ((359.2242 : ℝ) + ((29.10535608 : ℝ) * (1178 + 0.75 : ℝ)) - ((0.0000333 : ℝ) * (((1178 + 0.75 : ℝ) / (1236.85 : ℝ)) * ((1178 + 0.75 : ℝ) / (1236.85 : ℝ)))) - ((0.00000347 : ℝ) * ((((1178 + 0.75 : ℝ) / (1236.85 : ℝ)) * ((1178 + 0.75 : ℝ) / (1236.85 : ℝ))) * ((1178 + 0.75 : ℝ) / (1236.85 : ℝ)))))) 192]; exact ball_neg _ _ (-0.563890658978199) 1.81e-10 b89 (by norm_num [abs_of_nonneg, abs_of_nonpos])
  have b91 : |360 * ((1264 : ℤ) : ℝ) + 90 - 455130| ≤ 0 := by norm_num
  have b92 := ball_sub _ _ _ _ (-42.27277992) 4.37e-10 b52 b91 (by norm_num [abs_of_nonneg, abs_of_nonpos])
  have b93 := ball_torad _ _ (-0.737799193574945) 7.64e-12 b92 (by norm_num [abs_of_nonneg, abs_of_nonpos])
  have b94 := ball_cos1 _ _ 0.739950746296472 1.88e-10 b93 (by norm_num [abs_of_nonneg, abs_of_nonpos]) (by norm_num [abs_of_nonneg, abs_of_nonpos])
  have b95 : |dsin ((306.0253 : ℝ) + ((385.81691806 : ℝ) * (1178 + 0.75 : ℝ)) + ((0.0107306 : ℝ) * (((1178 + 0.75 : ℝ) / (1236.85 : ℝ)) * ((1178 + 0.75 : ℝ) / (1236.85 : ℝ)))) + ((0.00001236 : ℝ) * ((((1178 + 0.75 : ℝ) / (1236.85 : ℝ)) * ((1178 + 0.75 : ℝ) / (1236.85 : ℝ))) * ((1178 + 0.75 : ℝ) / (1236.85 : ℝ))))) - 0.739950746296472| ≤ 1.88e-10 := by rw [dsin, sin_torad_shift90 ((306.0253 : ℝ) + ((385.81691806 : ℝ) * (1178 + 0.75 : ℝ)) + ((0.0107306 : ℝ) * (((1178 + 0.75 : ℝ) / (1236.85 : ℝ)) * ((1178 + 0.75 : ℝ) / (1236.85 : ℝ)))) + ((0.00001236 : ℝ) * ((((1178 + 0.75 : ℝ) / (1236.85 : ℝ)) * ((1178 + 0.75 : ℝ) / (1236.85 : ℝ))) * ((1178 + 0.75 : ℝ) / (1236.85 : ℝ))))) 1264]; exact b94
  have b96 : |360 * ((2528 : ℤ) : ℝ) + 90 - 910170| ≤ 0 := by norm_num
  have b97 := ball_sub _ _ _ _ 5.45444016 8.74e-10 b68 b96 (by norm_num [abs_of_nonneg, abs_of_nonpos])
  have b98 := ball_torad _ _ 0.0951979396450063 1.53e-11 b97 (by norm_num [abs_of_nonneg, abs_of_nonpos])
  have b99 := ball_cos1 _ _ 0.995472097259364 1.96e-10 b98 (by norm_num [abs_of_nonneg, abs_of_nonpos]) (by norm_num [abs_of_nonneg, abs_of_nonpos])
  have b100 : |dsin ((2 : ℝ) * ((306.0253 : ℝ) + ((385.81691806 : ℝ) * (1178 + 0.75 : ℝ)) + ((0.0107306 : ℝ) * (((1178 + 0.75 : ℝ) / (1236.85 : ℝ)) * ((1178 + 0.75 : ℝ) / (1236.85 : ℝ)))) + ((0.00001236 : ℝ) * ((((1178 + 0.75 : ℝ) / (1236.85 : ℝ)) * ((1178 + 0.75 : ℝ) / (1236.85 : ℝ))) * ((1178 + 0.75 : ℝ) / (1236.85 : ℝ)))))) - 0.995472097259364| ≤ 1.96e-10 := by rw [dsin, sin_torad_shift90 ((2 : ℝ) * ((306.0253 : ℝ) + ((385.81691806 : ℝ) * (1178 + 0.75 : ℝ)) + ((0.0107306 : ℝ) * (((1178 + 0.75 : ℝ) / (1236.85 : ℝ)) * ((1178 + 0.75 : ℝ) / (1236.85 : ℝ)))) + ((0.00001236 : ℝ) * ((((1178 + 0.75 : ℝ) / (1236.85 : ℝ)) * ((1178 + 0.75 : ℝ) / (1236.85 : ℝ))) * ((1178 + 0.75 : ℝ) / (1236.85 : ℝ)))))) 2528]; exact b99
  have b101 : |360 * ((3792 : ℤ) : ℝ) + 180 - 1365300| ≤ 0 := by norm_num
  have b102 := ball_sub _ _ _ _ (-36.81833976) 1.32e-9 b69 b101 (by norm_num [abs_of_nonneg, abs_of_nonpos])
  have b103 := ball_torad _ _ (-0.642601253929939) 2.31e-11 b102 (by norm_num [abs_of_nonneg, abs_of_nonpos])
  have b104 := ball_sin1 _ _ (-0.59927987328435) 2.04e-10 b103 (by norm_num [abs_of_nonneg, abs_of_nonpos]) (by norm_num [abs_of_nonneg, abs_of_nonpos])
  have b105 : |dsin ((3 : ℝ) * ((306.0253 : ℝ) + ((385.81691806 : ℝ) * (1178 + 0.75 : ℝ)) + ((0.0107306 : ℝ) * (((1178 + 0.75 : ℝ) / (1236.85 : ℝ)) * ((1178 + 0.75 : ℝ) / (1236.85 : ℝ)))) + ((0.00001236 : ℝ) * ((((1178 + 0.75 : ℝ) / (1236.85 : ℝ)) * ((1178 + 0.75 : ℝ) / (1236.85 : ℝ))) * ((1178 + 0.75 : ℝ) / (1236.85 : ℝ)))))) - 0.59927987328435| ≤ 2.04e-10 := by rw [dsin, sin_torad_shift180 ((3 : ℝ) * ((306.0253 : ℝ) + ((385.81691806 : ℝ) * (1178 + 0.75 : ℝ)) + ((0.0107306 : ℝ) * (((1178 + 0.75 : ℝ) / (1236.85 : ℝ)) * ((1178 + 0.75 : ℝ) / (1236.85 : ℝ)))) + ((0.00001236 : ℝ) * ((((1178 + 0.75 : ℝ) / (1236.85 : ℝ)) * ((1178 + 0.75 : ℝ) / (1236.85 : ℝ))) * ((1178 + 0.75 : ℝ) / (1236.85 : ℝ)))))) 3792]; exact ball_neg _ _ 0.59927987328435 2.04e-10 b104 (by norm_num [abs_of_nonneg, abs_of_nonpos])
  have b106 : |360 * ((2558 : ℤ) : ℝ) + 180 - 921060| ≤ 0 := by norm_num
  have b107 := ball_sub _ _ _ _ (-11.691227026) 8.9e-10 b71 b106 (by norm_num [abs_of_nonneg, abs_of_nonpos])
  have b108 := ball_torad _ _ (-0.204050405201845) 1.56e-11 b107 (by norm_num [abs_of_nonneg, abs_of_nonpos])
  have b109 := ball_sin1 _ _ (-0.202637357045197) 1.96e-10 b108 (by norm_num [abs_of_nonneg, abs_of_nonpos]) (by norm_num [abs_of_nonneg, abs_of_nonpos])
  have b110 : |dsin ((2 : ℝ) * ((21.2964 : ℝ) + ((390.67050646 : ℝ) * (1178 + 0.75 : ℝ)) - ((0.0016528 : ℝ) * (((1178 + 0.75 : ℝ) / (1236.85 : ℝ)) * ((1178 + 0.75 : ℝ) / (1236.85 : ℝ)))) - ((0.00000239 : ℝ) * ((((1178 + 0.75 : ℝ) / (1236.85 : ℝ)) * ((1178 + 0.75 : ℝ) / (1236.85 : ℝ))) * ((1178 + 0.75 : ℝ) / (1236.85 : ℝ)))))) - 0.202637357045197| ≤ 1.96e-10 := by rw [dsin, sin_torad_shift180 ((2 : ℝ) * ((21.2964 : ℝ) + ((390.67050646 : ℝ) * (1178 + 0.75 : ℝ)) - ((0.0016528 : ℝ) * (((1178 + 0.75 : ℝ) / (1236.85 : ℝ)) * ((1178 + 0.75 : ℝ) / (1236.85 : ℝ)))) - ((0.00000239 : ℝ) * ((((1178 + 0.75 : ℝ) / (1236.85 : ℝ)) * ((1178 + 0.75 : ℝ) / (1236.85 : ℝ))) * ((1178 + 0.75 : ℝ) / (1236.85 : ℝ)))))) 2558]; exact ball_neg _ _ 0.202637357045197 1.96e-10 b109 (by norm_num [abs_of_nonneg, abs_of_nonpos])
  have b111 : |360 * ((1360 : ℤ) : ℝ) + 180 - 489780| ≤ 0 := by norm_num
  have b112 := ball_sub _ _ _ _ (-25.110133869) 8.48e-10 b72 b111 (by norm_num [abs_of_nonneg, abs_of_nonpos])
  have b113 := ball_torad _ _ (-0.438254511630592) 1.49e-11 b112 (by norm_num [abs_of_nonneg, abs_of_nonpos])
  have b114 := ball_sin1 _ _ (-0.424359583501526) 1.95e-10 b113 (by norm_num [abs_of_nonneg, abs_of_nonpos]) (by norm_num [abs_of_nonneg, abs_of_nonpos])
  have b115 : |dsin ((359.2242 : ℝ) + ((29.10535608 : ℝ) * (1178 + 0.75 : ℝ)) - ((0.0000333 : ℝ) * (((1178 + 0.75 : ℝ) / (1236.85 : ℝ)) * ((1178 + 0.75 : ℝ) / (1236.85 : ℝ)))) - ((0.00000347 : ℝ) * ((((1178 + 0.75 : ℝ) / (1236.85 : ℝ)) * ((1178 + 0.75 : ℝ) / (1236.85 : ℝ))) * ((1178 + 0.75 : ℝ) / (1236.85 : ℝ)))) + ((306.0253 : ℝ) + ((385.81691806 : ℝ) * (1178 + 0.75 : ℝ)) + ((0.0107306 : ℝ) * (((1178 + 0.75 : ℝ) / (1236.85 : ℝ)) * ((1178 + 0.75 : ℝ) / (1236.85 : ℝ)))) + ((0.00001236 : ℝ) * ((((1178 + 0.75 : ℝ) / (1236.85 : ℝ)) * ((1178 + 0.75 : ℝ) / (1236.85 : ℝ))) * ((1178 + 0.75 : ℝ) / (1236.85 : ℝ)))))) - 0.424359583501526| ≤ 1.95e-10 := by rw [dsin, sin_torad_shift180 ((359.2242 : ℝ) + ((29.10535608 : ℝ) * (1178 + 0.75 : ℝ)) - ((0.0000333 : ℝ) * (((1178 + 0.75 : ℝ) / (1236.85 : ℝ)) * ((1178 + 0.75 : ℝ) / (1236.85 : ℝ)))) - ((0.00000347 : ℝ) * ((((1178 + 0.75 : ℝ) / (1236.85 : ℝ)) * ((1178 + 0.75 : ℝ) / (1236.85 : ℝ))) * ((1178 + 0.75 : ℝ) / (1236.85 : ℝ)))) + ((306.0253 : ℝ) + ((385.81691806 : ℝ) * (1178 + 0.75 : ℝ)) + ((0.0107306 : ℝ) * (((1178 + 0.75 : ℝ) / (1236.85 : ℝ)) * ((1178 + 0.75 : ℝ) / (1236.85 : ℝ)))) + ((0.00001236 : ℝ) * ((((1178 + 0.75 : ℝ) / (1236.85 : ℝ)) * ((1178 + 0.75 : ℝ) / (1236.85 : ℝ))) * ((1178 + 0.75 : ℝ) / (1236.85 : ℝ)))))) 1360]; exact ball_neg _ _ 0.424359583501526 1.95e-10 b114 (by norm_num [abs_of_nonneg, abs_of_nonpos])
  have b116 : |360 * ((-1168 : ℤ) : ℝ) + 90 - -420390| ≤ 0 := by norm_num
  have b117 := ball_sub _ _ _ _ (-30.564574029) 8.48e-10 b73 b116 (by norm_num [abs_of_nonneg, abs_of_nonpos])
  have b118 := ball_torad _ _ (-0.533452451275599) 1.49e-11 b117 (by norm_num [abs_of_nonneg, abs_of_nonpos])
  have b119 := ball_cos1 _ _ 0.861056602678542 1.95e-10 b118 (by norm_num [abs_of_nonneg, abs_of_nonpos]) (by norm_num [abs_of_nonneg, abs_of_nonpos])
  have b120 : |dsin ((359.2242 : ℝ) + ((29.10535608 : ℝ) * (1178 + 0.75 : ℝ)) - ((0.0000333 : ℝ) * (((1178 + 0.75 : ℝ) / (1236.85 : ℝ)) * ((1178 + 0.75 : ℝ) / (1236.85 : ℝ)))) - ((0.00000347 : ℝ) * ((((1178 + 0.75 : ℝ) / (1236.85 : ℝ)) * ((1178 + 0.75 : ℝ) / (1236.85 : ℝ))) * ((1178 + 0.75 : ℝ) / (1236.85 : ℝ)))) - ((306.0253 : ℝ) + ((385.81691806 : ℝ) * (1178 + 0.75 : ℝ)) + ((0.0107306 : ℝ) * (((1178 + 0.75 : ℝ) / (1236.85 : ℝ)) * ((1178 + 0.75 : ℝ) / (1236.85 : ℝ)))) + ((0.00001236 : ℝ) * ((((1178 + 0.75 : ℝ) / (1236.85 : ℝ)) * ((1178 + 0.75 : ℝ) / (1236.85 : ℝ))) * ((1178 + 0.75 : ℝ) / (1236.85 : ℝ)))))) - 0.861056602678542| ≤ 1.95e-10 := by rw [dsin, sin_torad_shift90 ((359.2242 : ℝ) + ((29.10535608 : ℝ) * (1178 + 0.75 : ℝ)) - ((0.0000333 : ℝ) * (((1178 + 0.75 : ℝ) / (1236.85 : ℝ)) * ((1178 + 0.75 : ℝ) / (1236.85 : ℝ)))) - ((0.00000347 : ℝ) * ((((1178 + 0.75 : ℝ) / (1236.85 : ℝ)) * ((1178 + 0.75 : ℝ) / (1236.85 : ℝ))) * ((1178 + 0.75 : ℝ) / (1236.85 : ℝ)))) - ((306.0253 : ℝ) + ((385.81691806 : ℝ) * (1178 + 0.75 : ℝ)) + ((0.0107306 : ℝ) * (((1178 + 0.75 : ℝ) / (1236.85 : ℝ)) * ((1178 + 0.75 : ℝ) / (1236.85 : ℝ)))) + ((0.00001236 : ℝ) * ((((1178 + 0.75 : ℝ) / (1236.85 : ℝ)) * ((1178 + 0.75 : ℝ) / (1236.85 : ℝ))) * ((1178 + 0.75 : ℝ) / (1236.85 : ℝ)))))) (-1168)]; exact b119
  have b121 : |360 * ((2654 : ℤ) : ℝ) + 270 - 955710| ≤ 0 := by norm_num
  have b122 := ball_sub _ _ _ _ 5.471419025 1.31e-9 b74 b121 (by norm_num [abs_of_nonneg, abs_of_nonpos])
  have b123 := ball_torad _ _ 0.0954942767425079 2.29e-11 b122 (by norm_num [abs_of_nonneg, abs_of_nonpos])
  have b124 := ball_cos1 _ _ 0.9954438854609 2.03e-10 b123 (by norm_num [abs_of_nonneg, abs_of_nonpos]) (by norm_num [abs_of_nonneg, abs_of_nonpos])
  have b125 : |dsin ((2 : ℝ) * ((21.2964 : ℝ) + ((390.67050646 : ℝ) * (1178 + 0.75 : ℝ)) - ((0.0016528 : ℝ) * (((1178 + 0.75 : ℝ) / (1236.85 : ℝ)) * ((1178 + 0.75 : ℝ) / (1236.85 : ℝ)))) - ((0.00000239 : ℝ) * ((((1178 + 0.75 : ℝ) / (1236.85 : ℝ)) * ((1178 + 0.75 : ℝ) / (1236.85 : ℝ))) * ((1178 + 0.75 : ℝ) / (1236.85 : ℝ))))) + ((359.2242 : ℝ) + ((29.10535608 : ℝ) * (1178 + 0.75 : ℝ)) - ((0.0000333 : ℝ) * (((1178 + 0.75 : ℝ) / (1236.85 : ℝ)) * ((1178 + 0.75 : ℝ) / (1236.85 : ℝ)))) - ((0.00000347 : ℝ) * ((((1178 + 0.75 : ℝ) / (1236.85 : ℝ)) * ((1178 + 0.75 : ℝ) / (1236.85 : ℝ))) * ((1178 + 0.75 : ℝ) / (1236.85 : ℝ)))))) - -0.9954438854609| ≤ 2.03e-10 := by rw [dsin, sin_torad_shift270 ((2 : ℝ) * ((21.2964 : ℝ) + ((390.67050646 : ℝ) * (1178 + 0.75 : ℝ)) - ((0.0016528 : ℝ) * (((1178 + 0.75 : ℝ) / (1236.85 : ℝ)) * ((1178 + 0.75 : ℝ) / (1236.85 : ℝ)))) - ((0.00000239 : ℝ) * ((((1178 + 0.75 : ℝ) / (1236.85 : ℝ)) * ((1178 + 0.75 : ℝ) / (1236.85 : ℝ))) * ((1178 + 0.75 : ℝ) / (1236.85 : ℝ))))) + ((359.2242 : ℝ) + ((29.10535608 : ℝ) * (1178 + 0.75 : ℝ)) - ((0.0000333 : ℝ) * (((1178 + 0.75 : ℝ) / (1236.85 : ℝ)) * ((1178 + 0.75 : ℝ) / (1236.85 : ℝ)))) - ((0.00000347 : ℝ) * ((((1178 + 0.75 : ℝ) / (1236.85 : ℝ)) * ((1178 + 0.75 : ℝ) / (1236.85 : ℝ))) * ((1178 + 0.75 : ℝ) / (1236.85 : ℝ)))))) 2654]; exact ball_neg _ _ (-0.9954438854609) 2.03e-10 b124 (by norm_num [abs_of_nonneg, abs_of_nonpos])
  have b126 : |360 * ((2462 : ℤ) : ℝ) + 90 - 886410| ≤ 0 := by norm_num
  have b127 := ball_sub _ _ _ _ (-28.853873077) 1.31e-9 b75 b126 (by norm_num [abs_of_nonneg, abs_of_nonpos])
  have b128 := ball_torad _ _ (-0.503595087146197) 2.29e-11 b127 (by norm_num [abs_of_nonneg, abs_of_nonpos])
  have b129 := ball_cos1 _ _ 0.87585331779343 2.03e-10 b128 (by norm_num [abs_of_nonneg, abs_of_nonpos]) (by norm_num [abs_of_nonneg, abs_of_nonpos])
  have b130 : |dsin ((2 : ℝ) * ((21.2964 : ℝ) + ((390.67050646 : ℝ) * (1178 + 0.75 : ℝ)) - ((0.0016528 : ℝ) * (((1178 + 0.75 : ℝ) / (1236.85 : ℝ)) * ((1178 + 0.75 : ℝ) / (1236.85 : ℝ)))) - ((0.00000239 : ℝ) * ((((1178 + 0.75 : ℝ) / (1236.85 : ℝ)) * ((1178 + 0.75 : ℝ) / (1236.85 : ℝ))) * ((1178 + 0.75 : ℝ) / (1236.85 : ℝ))))) - ((359.2242 : ℝ) + ((29.10535608 : ℝ) * (1178 + 0.75 : ℝ)) - ((0.0000333 : ℝ) * (((1178 + 0.75 : ℝ) / (1236.85 : ℝ)) * ((1178 + 0.75 : ℝ) / (1236.85 : ℝ)))) - ((0.00000347 : ℝ) * ((((1178 + 0.75 : ℝ) / (1236.85 : ℝ)) * ((1178 + 0.75 : ℝ) / (1236.85 : ℝ))) * ((1178 + 0.75 : ℝ) / (1236.85 : ℝ)))))) - 0.87585331779343| ≤ 2.03e-10 := by rw [dsin, sin_torad_shift90 ((2 : ℝ) * ((21.2964 : ℝ) + ((390.67050646 : ℝ) * (1178 + 0.75 : ℝ)) - ((0.0016528 : ℝ) * (((1178 + 0.75 : ℝ) / (1236.85 : ℝ)) * ((1178 + 0.75 : ℝ) / (1236.85 : ℝ)))) - ((0.00000239 : ℝ) * ((((1178 + 0.75 : ℝ) / (1236.85 : ℝ)) * ((1178 + 0.75 : ℝ) / (1236.85 : ℝ))) * ((1178 + 0.75 : ℝ) / (1236.85 : ℝ))))) - ((359.2242 : ℝ) + ((29.10535608 : ℝ) * (1178 + 0.75 : ℝ)) - ((0.0000333 : ℝ) * (((1178 + 0.75 : ℝ) / (1236.85 : ℝ)) * ((1178 + 0.75 : ℝ) / (1236.85 : ℝ)))) - ((0.00000347 : ℝ) * ((((1178 + 0.75 : ℝ) / (1236.85 : ℝ)) * ((1178 + 0.75 : ℝ) / (1236.85 : ℝ))) * ((1178 + 0.75 : ℝ) / (1236.85 : ℝ)))))) 2462]; exact b129
  have b131 : |360 * ((3822 : ℤ) : ℝ) + 180 - 1376100| ≤ 0 := by norm_num
  have b132 := ball_sub _ _ _ _ 36.03599305 5.33e-9 b76 b131 (by norm_num [abs_of_nonneg, abs_of_nonpos])
  have b133 := ball_torad _ _ 0.628946727948294 9.31e-11 b132 (by norm_num [abs_of_nonneg, abs_of_nonpos])
  have b134 := ball_sin1 _ _ 0.58829335851446 2.74e-10 b133 (by norm_num [abs_of_nonneg, abs_of_nonpos]) (by norm_num [abs_of_nonneg, abs_of_nonpos])
  have b135 : |dsin ((2 : ℝ) * ((21.2964 : ℝ) + ((390.67050646 : ℝ) * (1178 + 0.75 : ℝ)) - ((0.0016528 : ℝ) * (((1178 + 0.75 : ℝ) / (1236.85 : ℝ)) * ((1178 + 0.75 : ℝ) / (1236.85 : ℝ)))) - ((0.00000239 : ℝ) * ((((1178 + 0.75 : ℝ) / (1236.85 : ℝ)) * ((1178 + 0.75 : ℝ) / (1236.85 : ℝ))) * ((1178 + 0.75 : ℝ) / (1236.85 : ℝ))))) + ((306.0253 : ℝ) + ((385.81691806 : ℝ) * (1178 + 0.75 : ℝ)) + ((0.0107306 : ℝ) * (((1178 + 0.75 : ℝ) / (1236.85 : ℝ)) * ((1178 + 0.75 : ℝ) / (1236.85 : ℝ)))) + ((0.00001236 : ℝ) * ((((1178 + 0.75 : ℝ) / (1236.85 : ℝ)) * ((1178 + 0.75 : ℝ) / (1236.85 : ℝ))) * ((1178 + 0.75 : ℝ) / (1236.85 : ℝ)))))) - -0.58829335851446| ≤ 2.74e-10 := by rw [dsin, sin_torad_shift180 ((2 : ℝ) * ((21.2964 : ℝ) + ((390.67050646 : ℝ) * (1178 + 0.75 : ℝ)) - ((0.0016528 : ℝ) * (((1178 + 0.75 : ℝ) / (1236.85 : ℝ)) * ((1178 + 0.75 : ℝ) / (1236.85 : ℝ)))) - ((0.00000239 : ℝ) * ((((1178 + 0.75 : ℝ) / (1236.85 : ℝ)) * ((1178 + 0.75 : ℝ) / (1236.85 : ℝ))) * ((1178 + 0.75 : ℝ) / (1236.85 : ℝ))))) + ((306.0253 : ℝ) + ((385.81691806 : ℝ) * (1178 + 0.75 : ℝ)) + ((0.0107306 : ℝ) * (((1178 + 0.75 : ℝ) / (1236.85 : ℝ)) * ((1178 + 0.75 : ℝ) / (1236.85 : ℝ)))) + ((0.00001236 : ℝ) * ((((1178 + 0.75 : ℝ) / (1236.85 : ℝ)) * ((1178 + 0.75 : ℝ) / (1236.85 : ℝ))) * ((1178 + 0.75 : ℝ) / (1236.85 : ℝ)))))) 3822]; exact ball_neg _ _ (-0.58829335851446) 2.74e-10 b134 (by norm_num [abs_of_nonneg, abs_of_nonpos])
  have b136 : |360 * ((1294 : ℤ) : ℝ) + 90 - 465930| ≤ 0 := by norm_num
  have b137 := ball_sub _ _ _ _ 30.581552894 1.33e-9 b77 b136 (by norm_num [abs_of_nonneg, abs_of_nonpos])
  have b138 := ball_torad _ _ 0.5337487883731 2.33e-11 b137 (by norm_num [abs_of_nonneg, abs_of_nonpos])
  have b139 := ball_cos1 _ _ 0.860905874756398 2.04e-10 b138 (by norm_num [abs_of_nonneg, abs_of_nonpos]) (by norm_num [abs_of_nonneg, abs_of_nonpos])
  have b140 : |dsin ((2 : ℝ) * ((21.2964 : ℝ) + ((390.67050646 : ℝ) * (1178 + 0.75 : ℝ)) - ((0.0016528 : ℝ) * (((1178 + 0.75 : ℝ) / (1236.85 : ℝ)) * ((1178 + 0.75 : ℝ) / (1236.85 : ℝ)))) - ((0.00000239 : ℝ) * ((((1178 + 0.75 : ℝ) / (1236.85 : ℝ)) * ((1178 + 0.75 : ℝ) / (1236.85 : ℝ))) * ((1178 + 0.75 : ℝ) / (1236.85 : ℝ))))) - ((306.0253 : ℝ) + ((385.81691806 : ℝ) * (1178 + 0.75 : ℝ)) + ((0.0107306 : ℝ) * (((1178 + 0.75 : ℝ) / (1236.85 : ℝ)) * ((1178 + 0.75 : ℝ) / (1236.85 : ℝ)))) + ((0.00001236 : ℝ) * ((((1178 + 0.75 : ℝ) / (1236.85 : ℝ)) * ((1178 + 0.75 : ℝ) / (1236.85 : ℝ))) * ((1178 + 0.75 : ℝ) / (1236.85 : ℝ)))))) - 0.860905874756398| ≤ 2.04e-10 := by rw [dsin, sin_torad_shift90 ((2 : ℝ) * ((21.2964 : ℝ) + ((390.67050646 : ℝ) * (1178 + 0.75 : ℝ)) - ((0.0016528 : ℝ) * (((1178 + 0.75 : ℝ) / (1236.85 : ℝ)) * ((1178 + 0.75 : ℝ) / (1236.85 : ℝ)))) - ((0.00000239 : ℝ) * ((((1178 + 0.75 : ℝ) / (1236.85 : ℝ)) * ((1178 + 0.75 : ℝ) / (1236.85 : ℝ))) * ((1178 + 0.75 : ℝ) / (1236.85 : ℝ))))) - ((306.0253 : ℝ) + ((385.81691806 : ℝ) * (1178 + 0.75 : ℝ)) + ((0.0107306 : ℝ) * (((1178 + 0.75 : ℝ) / (1236.85 : ℝ)) * ((1178 + 0.75 : ℝ) / (1236.85 : ℝ)))) + ((0.00001236 : ℝ) * ((((1178 + 0.75 : ℝ) / (1236.85 : ℝ)) * ((1178 + 0.75 : ℝ) / (1236.85 : ℝ))) * ((1178 + 0.75 : ℝ) / (1236.85 : ℝ)))))) 1294]; exact b139
  have b141 : |360 * ((2624 : ℤ) : ℝ) + 180 - 944820| ≤ 0 := by norm_num
  have b142 := ball_sub _ _ _ _ 22.617086211 1.29e-9 b78 b141 (by norm_num [abs_of_nonneg, abs_of_nonpos])
  have b143 := ball_torad _ _ 0.394742621589359 2.26e-11 b142 (by norm_num [abs_of_nonneg, abs_of_nonpos])
  have b144 := ball_sin1 _ _ 0.384570616676555 2.03e-10 b143 (by norm_num [abs_of_nonneg, abs_of_nonpos]) (by norm_num [abs_of_nonneg, abs_of_nonpos])
  have b145 : |dsin ((359.2242 : ℝ) + ((29.10535608 : ℝ) * (1178 + 0.75 : ℝ)) - ((0.0000333 : ℝ) * (((1178 + 0.75 : ℝ) / (1236.85 : ℝ)) * ((1178 + 0.75 : ℝ) / (1236.85 : ℝ)))) - ((0.00000347 : ℝ) * ((((1178 + 0.75 : ℝ) / (1236.85 : ℝ)) * ((1178 + 0.75 : ℝ) / (1236.85 : ℝ))) * ((1178 + 0.75 : ℝ) / (1236.85 : ℝ)))) + ((2 : ℝ) * ((306.0253 : ℝ) + ((385.81691806 : ℝ) * (1178 + 0.75 : ℝ)) + ((0.0107306 : ℝ) * (((1178 + 0.75 : ℝ) / (1236.85 : ℝ)) * ((1178 + 0.75 : ℝ) / (1236.85 : ℝ)))) + ((0.00001236 : ℝ) * ((((1178 + 0.75 : ℝ) / (1236.85 : ℝ)) * ((1178 + 0.75 : ℝ) / (1236.85 : ℝ))) * ((1178 + 0.75 : ℝ) / (1236.85 : ℝ))))))) - -0.384570616676555| ≤ 2.03e-10 := by rw [dsin, sin_torad_shift180 ((359.2242 : ℝ) + ((29.10535608 : ℝ) * (1178 + 0.75 : ℝ)) - ((0.0000333 : ℝ) * (((1178 + 0.75 : ℝ) / (1236.85 : ℝ)) * ((1178 + 0.75 : ℝ) / (1236.85 : ℝ)))) - ((0.00000347 : ℝ) * ((((1178 + 0.75 : ℝ) / (1236.85 : ℝ)) * ((1178 + 0.75 : ℝ) / (1236.85 : ℝ))) * ((1178 + 0.75 : ℝ) / (1236.85 : ℝ)))) + ((2 : ℝ) * ((306.0253 : ℝ) + ((385.81691806 : ℝ) * (1178 + 0.75 : ℝ)) + ((0.0107306 : ℝ) * (((1178 + 0.75 : ℝ) / (1236.85 : ℝ)) * ((1178 + 0.75 : ℝ) / (1236.85 : ℝ)))) + ((0.00001236 : ℝ) * ((((1178 + 0.75 : ℝ) / (1236.85 : ℝ)) * ((1178 + 0.75 : ℝ) / (1236.85 : ℝ))) * ((1178 + 0.75 : ℝ) / (1236.85 : ℝ))))))) 2624]; exact ball_neg _ _ (-0.384570616676555) 2.03e-10 b144 (by norm_num [abs_of_nonneg, abs_of_nonpos])
  have b146 : |360 * ((-2432 : ℤ) : ℝ) - -875520| ≤ 0 := by norm_num
  have b147 := ball_sub _ _ _ _ 11.708205891 1.29e-9 b79 b146 (by norm_num [abs_of_nonneg, abs_of_nonpos])
  have b148 := ball_torad _ _ 0.204346742299346 2.26e-11 b147 (by norm_num [abs_of_nonneg, abs_of_nonpos])
  have b149 := ball_sin1 _ _ 0.202927537387025 2.03e-10 b148 (by norm_num [abs_of_nonneg, abs_of_nonpos]) (by norm_num [abs_of_nonneg, abs_of_nonpos])
  have b150 : |dsin ((359.2242 : ℝ) + ((29.10535608 : ℝ) * (1178 + 0.75 : ℝ)) - ((0.0000333 : ℝ) * (((1178 + 0.75 : ℝ) / (1236.85 : ℝ)) * ((1178 + 0.75 : ℝ) / (1236.85 : ℝ)))) - ((0.00000347 : ℝ) * ((((1178 + 0.75 : ℝ) / (1236.85 : ℝ)) * ((1178 + 0.75 : ℝ) / (1236.85 : ℝ))) * ((1178 + 0.75 : ℝ) / (1236.85 : ℝ)))) - ((2 : ℝ) * ((306.0253 : ℝ) + ((385.81691806 : ℝ) * (1178 + 0.75 : ℝ)) + ((0.0107306 : ℝ) * (((1178 + 0.75 : ℝ) / (1236.85 : ℝ)) * ((1178 + 0.75 : ℝ) / (1236.85 : ℝ)))) + ((0.00001236 : ℝ) * ((((1178 + 0.75 : ℝ) / (1236.85 : ℝ)) * ((1178 + 0.75 : ℝ) / (1236.85 : ℝ))) * ((1178 + 0.75 : ℝ) / (1236.85 : ℝ))))))) - 0.202927537387025| ≤ 2.03e-10 := by rw [dsin, sin_torad_shift ((359.2242 : ℝ) + ((29.10535608 : ℝ) * (1178 + 0.75 : ℝ)) - ((0.0000333 : ℝ) * (((1178 + 0.75 : ℝ) / (1236.85 : ℝ)) * ((1178 + 0.75 : ℝ) / (1236.85 : ℝ)))) - ((0.00000347 : ℝ) * ((((1178 + 0.75 : ℝ) / (1236.85 : ℝ)) * ((1178 + 0.75 : ℝ) / (1236.85 : ℝ))) * ((1178 + 0.75 : ℝ) / (1236.85 : ℝ)))) - ((2 : ℝ) * ((306.0253 : ℝ) + ((385.81691806 : ℝ) * (1178 + 0.75 : ℝ)) + ((0.0107306 : ℝ) * (((1178 + 0.75 : ℝ) / (1236.85 : ℝ)) * ((1178 + 0.75 : ℝ) / (1236.85 : ℝ)))) + ((0.00001236 : ℝ) * ((((1178 + 0.75 : ℝ) / (1236.85 : ℝ)) * ((1178 + 0.75 : ℝ) / (1236.85 : ℝ))) * ((1178 + 0.75 : ℝ) / (1236.85 : ℝ))))))) (-2432)]; exact b149
  have b151 : |360 * ((1456 : ℤ) : ℝ) + 270 - 524430| ≤ 0 := by norm_num
  have b152 := ball_sub _ _ _ _ (-7.947487817) 6.58e-10 b80 b151 (by norm_num [abs_of_nonneg, abs_of_nonpos])
  have b153 := ball_torad _ _ (-0.138709829668787) 1.15e-11 b152 (by norm_num [abs_of_nonneg, abs_of_nonpos])
  have b154 := ball_cos1 _ _ 0.990395206422433 1.92e-10 b153 (by norm_num [abs_of_nonneg, abs_of_nonpos]) (by norm_num [abs_of_nonneg, abs_of_nonpos])
  have b155 : |dsin ((2 : ℝ) * ((359.2242 : ℝ) + ((29.10535608 : ℝ) * (1178 + 0.75 : ℝ)) - ((0.0000333 : ℝ) * (((1178 + 0.75 : ℝ) / (1236.85 : ℝ)) * ((1178 + 0.75 : ℝ) / (1236.85 : ℝ)))) - ((0.00000347 : ℝ) * ((((1178 + 0.75 : ℝ) / (1236.85 : ℝ)) * ((1178 + 0.75 : ℝ) / (1236.85 : ℝ))) * ((1178 + 0.75 : ℝ) / (1236.85 : ℝ))))) + ((306.0253 : ℝ) + ((385.81691806 : ℝ) * (1178 + 0.75 : ℝ)) + ((0.0107306 : ℝ) * (((1178 + 0.75 : ℝ) / (1236.85 : ℝ)) * ((1178 + 0.75 : ℝ) / (1236.85 : ℝ)))) + ((0.00001236 : ℝ) * ((((1178 + 0.75 : ℝ) / (1236.85 : ℝ)) * ((1178 + 0.75 : ℝ) / (1236.85 : ℝ))) * ((1178 + 0.75 : ℝ) / (1236.85 : ℝ)))))) - -0.990395206422433| ≤ 1.92e-10 := by rw [dsin, sin_torad_shift270 ((2 : ℝ) * ((359.2242 : ℝ) + ((29.10535608 : ℝ) * (1178 + 0.75 : ℝ)) - ((0.0000333 : ℝ) * (((1178 + 0.75 : ℝ) / (1236.85 : ℝ)) * ((1178 + 0.75 : ℝ) / (1236.85 : ℝ)))) - ((0.00000347 : ℝ) * ((((1178 + 0.75 : ℝ) / (1236.85 : ℝ)) * ((1178 + 0.75 : ℝ) / (1236.85 : ℝ))) * ((1178 + 0.75 : ℝ) / (1236.85 : ℝ))))) + ((306.0253 : ℝ) + ((385.81691806 : ℝ) * (1178 + 0.75 : ℝ)) + ((0.0107306 : ℝ) * (((1178 + 0.75 : ℝ) / (1236.85 : ℝ)) * ((1178 + 0.75 : ℝ) / (1236.85 : ℝ)))) + ((0.00001236 : ℝ) * ((((1178 + 0.75 : ℝ) / (1236.85 : ℝ)) * ((1178 + 0.75 : ℝ) / (1236.85 : ℝ))) * ((1178 + 0.75 : ℝ) / (1236.85 : ℝ)))))) 1456]; exact ball_neg _ _ (-0.990395206422433) 1.92e-10 b154 (by norm_num [abs_of_nonneg, abs_of_nonpos])
  have b156 := ball_refl (0.1721 : ℝ)
  have b157 := ball_refl (0.0004 : ℝ)
  have b158 := ball_mul _ _ _ _ 0.000381210332700004 4.28e-20 b157 b3 (by norm_num [abs_of_nonneg, abs_of_nonpos])
  have b159 := ball_sub _ _ _ _ 0.1717187896673 4.05e-18 b156 b158 (by norm_num [abs_of_nonneg, abs_of_nonpos])
  have b160 := ball_mul _ _ _ _ 0.164072314371137 3.11e-11 b159 b85 (by norm_num [abs_of_nonneg, abs_of_nonpos])
  have b161 := ball_refl (0.0021 : ℝ)
  have b162 := ball_mul _ _ _ _ (-0.00118417038385422) 3.81e-13 b161 b90 (by norm_num [abs_of_nonneg, abs_of_nonpos])
  have b163 := ball_add _ _ _ _ 0.162888143987283 3.15e-11 b160 b162 (by norm_num [abs_of_nonneg, abs_of_nonpos])
  have b164 : |(0.6280 : ℝ) - 0.628| ≤ 0 := by norm_num
  have b165 := ball_mul _ _ _ _ 0.464689068674184 1.19e-10 b164 b95 (by norm_num [abs_of_nonneg, abs_of_nonpos])
  have b166 := ball_sub _ _ _ _ (-0.301800924686901) 1.51e-10 b163 b165 (by norm_num [abs_of_nonneg, abs_of_nonpos])
  have b167 := ball_refl (0.0089 : ℝ)
  have b168 := ball_mul _ _ _ _ 0.00885970166560834 1.75e-12 b167 b100 (by norm_num [abs_of_nonneg, abs_of_nonpos])
  have b169 := ball_add _ _ _ _ (-0.292941223021293) 1.53e-10 b166 b168 (by norm_num [abs_of_nonneg, abs_of_nonpos])
  have b170 := ball_refl (0.0004 : ℝ)
  have b171 := ball_mul _ _ _ _ 0.00023971194931374 8.16e-14 b170 b105 (by norm_num [abs_of_nonneg, abs_of_nonpos])
  have b172 := ball_sub _ _ _ _ (-0.293180934970607) 1.54e-10 b169 b171 (by norm_num [abs_of_nonneg, abs_of_nonpos])
  have b173 := ball_refl (0.0079 : ℝ)
  have b174 := ball_mul _ _ _ _ 0.00160083512065706 1.55e-12 b173 b110 (by norm_num [abs_of_nonneg, abs_of_nonpos])
  have b175 := ball_add _ _ _ _ (-0.29158009984995) 1.56e-10 b172 b174 (by norm_num [abs_of_nonneg, abs_of_nonpos])
  have b176 := ball_refl (0.0119 : ℝ)
  have b177 := ball_mul _ _ _ _ 0.00504987904366816 2.33e-12 b176 b115 (by norm_num [abs_of_nonneg, abs_of_nonpos])
  have b178 := ball_sub _ _ _ _ (-0.296629978893618) 1.59e-10 b175 b177 (by norm_num [abs_of_nonneg, abs_of_nonpos])
  have b179 := ball_refl (0.0047 : ℝ)
  have b180 := ball_mul _ _ _ _ 0.00404696603258915 9.17e-13 b179 b120 (by norm_num [abs_of_nonneg, abs_of_nonpos])
  have b181 := ball_sub _ _ _ _ (-0.300676944926207) 1.6e-10 b178 b180 (by norm_num [abs_of_nonneg, abs_of_nonpos])
  have b182 := ball_refl (0.0003 : ℝ)
  have b183 := ball_mul _ _ _ _ (-0.00029863316563827) 6.09e-14 b182 b125 (by norm_num [abs_of_nonneg, abs_of_nonpos])
  have b184 := ball_add _ _ _ _ (-0.300975578091845) 1.61e-10 b181 b183 (by norm_num [abs_of_nonneg, abs_of_nonpos])
  have b185 := ball_refl (0.0004 : ℝ)
  have b186 := ball_mul _ _ _ _ 0.000350341327117372 8.12e-14 b185 b130 (by norm_num [abs_of_nonneg, abs_of_nonpos])
  have b187 := ball_sub _ _ _ _ (-0.301325919418962) 1.62e-10 b184 b186 (by norm_num [abs_of_nonneg, abs_of_nonpos])
  have b188 := ball_refl (0.0006 : ℝ)
  have b189 := ball_mul _ _ _ _ (-0.000352976015108676) 1.65e-13 b188 b135 (by norm_num [abs_of_nonneg, abs_of_nonpos])
  have b190 := ball_sub _ _ _ _ (-0.300972943403853) 1.63e-10 b187 b189 (by norm_num [abs_of_nonneg, abs_of_nonpos])
  have b191 := ball_refl (0.0021 : ℝ)
  have b192 := ball_mul _ _ _ _ 0.00180790233698844 4.29e-13 b191 b140 (by norm_num [abs_of_nonneg, abs_of_nonpos])
  have b193 := ball_add _ _ _ _ (-0.299165041066865) 1.64e-10 b190 b192 (by norm_num [abs_of_nonneg, abs_of_nonpos])
  have b194 := ball_refl (0.0003 : ℝ)
  have b195 := ball_mul _ _ _ _ (-0.000115371185002967) 6.1e-14 b194 b145 (by norm_num [abs_of_nonneg, abs_of_nonpos])
  have b196 := ball_add _ _ _ _ (-0.299280412251868) 1.65e-10 b193 b195 (by norm_num [abs_of_nonneg, abs_of_nonpos])
  have b197 := ball_refl (0.0004 : ℝ)
  have b198 := ball_mul _ _ _ _ 0.00008117101495481 8.12e-14 b197 b150 (by norm_num [abs_of_nonneg, abs_of_nonpos])
  have b199 := ball_add _ _ _ _ (-0.299199241236913) 1.66e-10 b196 b198 (by norm_num [abs_of_nonneg, abs_of_nonpos])
  have b200 := ball_refl (0.0003 : ℝ)
  have b201 := ball_mul _ _ _ _ (-0.00029711856192673) 5.77e-14 b200 b155 (by norm_num [abs_of_nonneg, abs_of_nonpos])
  have b202 := ball_sub _ _ _ _ (-0.298902122674986) 1.67e-10 b199 b201 (by norm_num [abs_of_nonneg, abs_of_nonpos])
  have b203 := ball_add _ _ _ _ 2449829.64163793 0.0000000104 b30 b202 (by norm_num [abs_of_nonneg, abs_of_nonpos])
  have b204 : |360 * ((96 : ℤ) : ℝ) + 90 - 34650| ≤ 0 := by norm_num
  have b205 := ball_sub _ _ _ _ 17.1626460514 1.04e-11 b41 b204 (by norm_num [abs_of_nonneg, abs_of_nonpos])
  have b206 := ball_torad _ _ 0.299544681951334 1.82e-13 b205 (by norm_num [abs_of_nonneg, abs_of_nonpos])
  have b207 := ball_sin1 _ _ 0.295085194097506 1.81e-10 b206 (by norm_num [abs_of_nonneg, abs_of_nonpos]) (by norm_num [abs_of_nonneg, abs_of_nonpos])
  have b208 : |dcos ((359.2242 : ℝ) + ((29.10535608 : ℝ) * (1178 + 0.75 : ℝ)) - ((0.0000333 : ℝ) * (((1178 + 0.75 : ℝ) / (1236.85 : ℝ)) * ((1178 + 0.75 : ℝ) / (1236.85 : ℝ)))) - ((0.00000347 : ℝ) * ((((1178 + 0.75 : ℝ) / (1236.85 : ℝ)) * ((1178 + 0.75 : ℝ) / (1236.85 : ℝ))) * ((1178 + 0.75 : ℝ) / (1236.85 : ℝ))))) - -0.295085194097506| ≤ 1.81e-10 := by rw [dcos, cos_torad_shift90 ((359.2242 : ℝ) + ((29.10535608 : ℝ) * (1178 + 0.75 : ℝ)) - ((0.0000333 : ℝ) * (((1178 + 0.75 : ℝ) / (1236.85 : ℝ)) * ((1178 + 0.75 : ℝ) / (1236.85 : ℝ)))) - ((0.00000347 : ℝ) * ((((1178 + 0.75 : ℝ) / (1236.85 : ℝ)) * ((1178 + 0.75 : ℝ) / (1236.85 : ℝ))) * ((1178 + 0.75 : ℝ) / (1236.85 : ℝ))))) 96]; exact ball_neg _ _ (-0.295085194097506) 1.81e-10 b207 (by norm_num [abs_of_nonneg, abs_of_nonpos])
  have b209 : |360 * ((1264 : ℤ) : ℝ) + 90 - 455130| ≤ 0 := by norm_num
  have b210 := ball_sub _ _ _ _ (-42.27277992) 4.37e-10 b52 b209 (by norm_num [abs_of_nonneg, abs_of_nonpos])
  have b211 := ball_torad _ _ (-0.737799193574945) 7.64e-12 b210 (by norm_num [abs_of_nonneg, abs_of_nonpos])
  have b212 := ball_sin1 _ _ (-0.67266105361571) 1.88e-10 b211 (by norm_num [abs_of_nonneg, abs_of_nonpos]) (by norm_num [abs_of_nonneg, abs_of_nonpos])
  have b213 : |dcos ((306.0253 : ℝ) + ((385.81691806 : ℝ) * (1178 + 0.75 : ℝ)) + ((0.0107306 : ℝ) * (((1178 + 0.75 : ℝ) / (1236.85 : ℝ)) * ((1178 + 0.75 : ℝ) / (1236.85 : ℝ)))) + ((0.00001236 : ℝ) * ((((1178 + 0.75 : ℝ) / (1236.85 : ℝ)) * ((1178 + 0.75 : ℝ) / (1236.85 : ℝ))) * ((1178 + 0.75 : ℝ) / (1236.85 : ℝ))))) - 0.67266105361571| ≤ 1.88e-10 := by rw [dcos, cos_torad_shift90 ((306.0253 : ℝ) + ((385.81691806 : ℝ) * (1178 + 0.75 : ℝ)) + ((0.0107306 : ℝ) * (((1178 + 0.75 : ℝ) / (1236.85 : ℝ)) * ((1178 + 0.75 : ℝ) / (1236.85 : ℝ)))) + ((0.00001236 : ℝ) * ((((1178 + 0.75 : ℝ) / (1236.85 : ℝ)) * ((1178 + 0.75 : ℝ) / (1236.85 : ℝ))) * ((1178 + 0.75 : ℝ) / (1236.85 : ℝ))))) 1264]; exact ball_neg _ _ 0.67266105361571 1.88e-10 b212 (by norm_num [abs_of_nonneg, abs_of_nonpos])
  have b214 := ball_refl (-0.0028 : ℝ)
  have b215 := ball_refl (0.0004 : ℝ)
  have b216 := ball_mul _ _ _ _ (-0.000118034077639002) 7.25e-14 b215 b208 (by norm_num [abs_of_nonneg, abs_of_nonpos])
  have b217 := ball_add _ _ _ _ (-0.002918034077639) 7.26e-14 b214 b216 (by norm_num [abs_of_nonneg, abs_of_nonpos])
  have b218 := ball_refl (0.0003 : ℝ)
  have b219 := ball_mul _ _ _ _ 0.000201798316084713 5.64e-14 b218 b213 (by norm_num [abs_of_nonneg, abs_of_nonpos])
  have b220 := ball_sub _ _ _ _ (-0.00311983239372371) 1.3e-13 b217 b219 (by norm_num [abs_of_nonneg, abs_of_nonpos])
  have b221 := ball_add _ _ _ _ 2449829.6385181 0.0000000128 b203 b220 (by norm_num [abs_of_nonneg, abs_of_nonpos])
  have b222 : |tpQuarter 1178 0.75 - 2449829.6385181| ≤ 0.0000000128 := by
    simp only [tpQuarter]
    rw [if_neg (by norm_num : ¬(((0.75) : ℝ) < 0.5))]
    exact ball_center _ _ _ _ b221 (by norm_num [abs_of_nonneg, abs_of_nonpos])
  exact b222

set_option maxHeartbeats 3200000 in
lemma tpball_1179_00 : |tpNewFull 1179 0.0 - 2449837.23484216| ≤ 8.19e-9 := by
  have b1 : |(1179 + 0.0 : ℝ) - 1179| ≤ 0 := by norm_num
  have b2 := ball_refl (1236.85 : ℝ)
  have b3 := ball_div _ _ _ _ 0.953227958119416 2.6e-16 b1 b2 (by norm_num) (by norm_num [abs_of_nonneg, abs_of_nonpos])
  have b4 := ball_mul _ _ _ _ 0.908643540140511 6e-16 b3 b3 (by norm_num [abs_of_nonneg, abs_of_nonpos])
  have b5 := ball_mul _ _ _ _ 0.866144426426537 8.98e-16 b4 b3 (by norm_num [abs_of_nonneg, abs_of_nonpos])
  have b6 : |(1179 + 0.0 : ℝ) - 1179| ≤ 0 := by norm_num
  have b7 := ball_refl (2415020.75933 : ℝ)
  have b8 := ball_mul _ _ _ _ 34816.56405372 0 synmonth_ball b6 (by norm_num [abs_of_nonneg, abs_of_nonpos])
  have b9 := ball_add _ _ _ _ 2449837.32338372 0 b7 b8 (by norm_num [abs_of_nonneg, abs_of_nonpos])
  have b10 := ball_refl (0.0001178 : ℝ)
  have b11 := ball_mul _ _ _ _ 0.000107038209028552 2.67e-19 b10 b4 (by norm_num [abs_of_nonneg, abs_of_nonpos])
  have b12 := ball_add _ _ _ _ 2449837.32349076 0.0000000018 b9 b11 (by norm_num [abs_of_nonneg, abs_of_nonpos])
  have b13 := ball_refl (0.000000155 : ℝ)
  have b14 := ball_mul _ _ _ _ 0.000000134252386096113 3.75e-22 b13 b5 (by norm_num [abs_of_nonneg, abs_of_nonpos])
  have b15 := ball_sub _ _ _ _ 2449837.32349063 6.06e-9 b12 b14 (by norm_num [abs_of_nonneg, abs_of_nonpos])
  have b16 := ball_refl (166.56 : ℝ)
  have b17 := ball_refl (132.87 : ℝ)
  have b18 := ball_mul _ _ _ _ 126.655398795327 2.31e-13 b17 b3 (by norm_num [abs_of_nonneg, abs_of_nonpos])
  have b19 := ball_add _ _ _ _ 293.215398795327 2.31e-13 b16 b18 (by norm_num [abs_of_nonneg, abs_of_nonpos])
  have b20 := ball_refl (0.009173 : ℝ)
  have b21 := ball_mul _ _ _ _ 0.00833498719370891 8.11e-18 b20 b4 (by norm_num [abs_of_nonneg, abs_of_nonpos])
  have b22 := ball_sub _ _ _ _ 293.207063808133 5.23e-13 b19 b21 (by norm_num [abs_of_nonneg, abs_of_nonpos])
  have b23 : |360 * ((0 : ℤ) : ℝ) + 270 - 270| ≤ 0 := by norm_num
  have b24 := ball_sub _ _ _ _ 23.207063808133 5.23e-13 b22 b23 (by norm_num [abs_of_nonneg, abs_of_nonpos])
  have b25 := ball_torad _ _ 0.405039673172334 9.61e-15 b24 (by norm_num [abs_of_nonneg, abs_of_nonpos])
  have b26 := ball_cos1 _ _ 0.91908676446828 1.81e-10 b25 (by norm_num [abs_of_nonneg, abs_of_nonpos]) (by norm_num [abs_of_nonneg, abs_of_nonpos])
  have b27 : |dsin ((166.56 : ℝ) + ((132.87 : ℝ) * ((1179 + 0.0 : ℝ) / (1236.85 : ℝ))) - ((0.009173 : ℝ) * (((1179 + 0.0 : ℝ) / (1236.85 : ℝ)) * ((1179 + 0.0 : ℝ) / (1236.85 : ℝ))))) - -0.91908676446828| ≤ 1.81e-10 := by rw [dsin, sin_torad_shift270 ((166.56 : ℝ) + ((132.87 : ℝ) * ((1179 + 0.0 : ℝ) / (1236.85 : ℝ))) - ((0.009173 : ℝ) * (((1179 + 0.0 : ℝ) / (1236.85 : ℝ)) * ((1179 + 0.0 : ℝ) / (1236.85 : ℝ))))) 0]; exact ball_neg _ _ (-0.91908676446828) 1.81e-10 b26 (by norm_num [abs_of_nonneg, abs_of_nonpos])
  have b28 := ball_refl (0.00033 : ℝ)
  have b29 := ball_mul _ _ _ _ (-0.000303298632274532) 5.98e-14 b28 b27 (by norm_num [abs_of_nonneg, abs_of_nonpos])
  have b30 := ball_add _ _ _ _ 2449837.32318733 7.43e-9 b15 b29 (by norm_num [abs_of_nonneg, abs_of_nonpos])
  have b31 := ball_refl (359.2242 : ℝ)
  have b32 := ball_refl (29.10535608 : ℝ)
  have b33 : |(1179 + 0.0 : ℝ) - 1179| ≤ 0 := by norm_num
  have b34 := ball_mul _ _ _ _ 34315.21481832 0 b32 b33 (by norm_num [abs_of_nonneg, abs_of_nonpos])
  have b35 := ball_add _ _ _ _ 34674.43901832 0 b31 b34 (by norm_num [abs_of_nonneg, abs_of_nonpos])
  have b36 := ball_refl (0.0000333 : ℝ)
  have b37 := ball_mul _ _ _ _ 0.000030257829886679 3.63e-20 b36 b4 (by norm_num [abs_of_nonneg, abs_of_nonpos])
  have b38 := ball_sub _ _ _ _ 34674.4389880622 2.99e-11 b35 b37 (by norm_num [abs_of_nonneg, abs_of_nonpos])
  have b39 := ball_refl (0.00000347 : ℝ)
  have b40 := ball_mul _ _ _ _ 0.00000300552115970008 6.51e-21 b39 b5 (by norm_num [abs_of_nonneg, abs_of_nonpos])
  have b41 := ball_sub _ _ _ _ 34674.4389850567 5.11e-11 b38 b40 (by norm_num [abs_of_nonneg, abs_of_nonpos])
  have b42 := ball_refl (306.0253 : ℝ)
  have b43 := ball_refl (385.81691806 : ℝ)
  have b44 : |(1179 + 0.0 : ℝ) - 1179| ≤ 0 := by norm_num
  have b45 := ball_mul _ _ _ _ 454878.14639274 0 b43 b44 (by norm_num [abs_of_nonneg, abs_of_nonpos])
  have b46 := ball_add _ _ _ _ 455184.17169274 0 b42 b45 (by norm_num [abs_of_nonneg, abs_of_nonpos])
  have b47 := ball_refl (0.0107306 : ℝ)
  have b48 := ball_mul _ _ _ _ 0.00975029037183177 9.11e-18 b47 b4 (by norm_num [abs_of_nonneg, abs_of_nonpos])
  have b49 := ball_add _ _ _ _ 455184.18144303 3.72e-10 b46 b48 (by norm_num [abs_of_nonneg, abs_of_nonpos])
  have b50 := ball_refl (0.00001236 : ℝ)
  have b51 := ball_mul _ _ _ _ 0.000010705545110632 1.38e-20 b50 b5 (by norm_num [abs_of_nonneg, abs_of_nonpos])
  have b52 := ball_add _ _ _ _ 455184.181453736 8.27e-10 b49 b51 (by norm_num [abs_of_nonneg, abs_of_nonpos])
  have b53 := ball_refl (21.2964 : ℝ)
  have b54 := ball_refl (390.67050646 : ℝ)
  have b55 : |(1179 + 0.0 : ℝ) - 1179| ≤ 0 := by norm_num
  have b56 := ball_mul _ _ _ _ 460600.52711634 0 b54 b55 (by norm_num [abs_of_nonneg, abs_of_nonpos])
  have b57 := ball_add _ _ _ _ 460621.82351634 0 b53 b56 (by norm_num [abs_of_nonneg, abs_of_nonpos])
  have b58 := ball_refl (0.0016528 : ℝ)
  have b59 := ball_mul _ _ _ _ 0.00150180604314424 4.42e-18 b58 b4 (by norm_num [abs_of_nonneg, abs_of_nonpos])
  have b60 := ball_sub _ _ _ _ 460621.822014534 4.32e-11 b57 b59 (by norm_num [abs_of_nonneg, abs_of_nonpos])
  have b61 := ball_refl (0.00000239 : ℝ)
  have b62 := ball_mul _ _ _ _ 0.00000207008517915942 5.58e-21 b61 b5 (by norm_num [abs_of_nonneg, abs_of_nonpos])
  have b63 := ball_sub _ _ _ _ 460621.822012464 1.29e-10 b60 b62 (by norm_num [abs_of_nonneg, abs_of_nonpos])
  have b64 := ball_refl (2 : ℝ)
  have b65 := ball_refl (3 : ℝ)
  have b66 := ball_mul _ _ _ _ 69348.8779701134 1.03e-10 b64 b41 (by norm_num [abs_of_nonneg, abs_of_nonpos])
  have b67 := ball_refl (2 : ℝ)
  have b68 := ball_mul _ _ _ _ 910368.362907472 1.66e-9 b67 b52 (by norm_num [abs_of_nonneg, abs_of_nonpos])
  have b69 := ball_mul _ _ _ _ 1365552.54436121 4.49e-9 b65 b52 (by norm_num [abs_of_nonneg, abs_of_nonpos])
  have b70 := ball_refl (2 : ℝ)
  have b71 := ball_mul _ _ _ _ 921243.644024928 2.58e-10 b70 b63 (by norm_num [abs_of_nonneg, abs_of_nonpos])
  have b72 := ball_add _ _ _ _ 489858.620438793 1.18e-9 b41 b52 (by norm_num [abs_of_nonneg, abs_of_nonpos])
  have b73 := ball_sub _ _ _ _ (-420509.742468679) 1.18e-9 b41 b52 (by norm_num [abs_of_nonneg, abs_of_nonpos])
  have b74 := ball_add _ _ _ _ 955918.083009985 6.1e-10 b71 b41 (by norm_num [abs_of_nonneg, abs_of_nonpos])
  have b75 := ball_sub _ _ _ _ 886569.205039871 6.1e-10 b71 b41 (by norm_num [abs_of_nonneg, abs_of_nonpos])
  have b76 := ball_add _ _ _ _ 1376427.82547866 5.09e-9 b71 b52 (by norm_num [abs_of_nonneg, abs_of_nonpos])
  have b77 := ball_sub _ _ _ _ 466059.462571192 1.09e-9 b71 b52 (by norm_num [abs_of_nonneg, abs_of_nonpos])
  have b78 := ball_add _ _ _ _ 945042.801892529 2.02e-9 b41 b68 (by norm_num [abs_of_nonneg, abs_of_nonpos])
  have b79 : |360 * ((96 : ℤ) : ℝ) + 90 - 34650| ≤ 0 := by norm_num
  have b80 := ball_sub _ _ _ _ 24.4389850567 5.11e-11 b41 b79 (by norm_num [abs_of_nonneg, abs_of_nonpos])
  have b81 := ball_torad _ _ 0.426540755085108 8.93e-13 b80 (by norm_num [abs_of_nonneg, abs_of_nonpos])
  have b82 := ball_cos1 _ _ 0.910402366495061 1.81e-10 b81 (by norm_num [abs_of_nonneg, abs_of_nonpos]) (by norm_num [abs_of_nonneg, abs_of_nonpos])
  have b83 : |dsin ((359.2242 : ℝ) + ((29.10535608 : ℝ) * (1179 + 0.0 : ℝ)) - ((0.0000333 : ℝ) * (((1179 + 0.0 : ℝ) / (1236.85 : ℝ)) * ((1179 + 0.0 : ℝ) / (1236.85 : ℝ)))) - ((0.00000347 : ℝ) * ((((1179 + 0.0 : ℝ) / (1236.85 : ℝ)) * ((1179 + 0.0 : ℝ) / (1236.85 : ℝ))) * ((1179 + 0.0 : ℝ) / (1236.85 : ℝ))))) - 0.910402366495061| ≤ 1.81e-10 := by rw [dsin, sin_torad_shift90 ((359.2242 : ℝ) + ((29.10535608 : ℝ) * (1179 + 0.0 : ℝ)) - ((0.0000333 : ℝ) * (((1179 + 0.0 : ℝ) / (1236.85 : ℝ)) * ((1179 + 0.0 : ℝ) / (1236.85 : ℝ)))) - ((0.00000347 : ℝ) * ((((1179 + 0.0 : ℝ) / (1236.85 : ℝ)) * ((1179 + 0.0 : ℝ) / (1236.85 : ℝ))) * ((1179 + 0.0 : ℝ) / (1236.85 : ℝ))))) 96]; exact b82
  have b84 : |360 * ((192 : ℤ) : ℝ) + 270 - 69390| ≤ 0 := by norm_num
  have b85 := ball_sub _ _ _ _ (-41.1220298866) 1.03e-10 b66 b84 (by norm_num [abs_of_nonneg, abs_of_nonpos])
  have b86 := ball_torad _ _ (-0.71771481662468) 1.8e-12 b85 (by norm_num [abs_of_nonneg, abs_of_nonpos])
  have b87 := ball_cos1 _ _ 0.75331057973228 1.82e-10 b86 (by norm_num [abs_of_nonneg, abs_of_nonpos]) (by norm_num [abs_of_nonneg, abs_of_nonpos])
  have b88 : |dsin ((2 : ℝ) * ((359.2242 : ℝ) + ((29.10535608 : ℝ) * (1179 + 0.0 : ℝ)) - ((0.0000333 : ℝ) * (((1179 + 0.0 : ℝ) / (1236.85 : ℝ)) * ((1179 + 0.0 : ℝ) / (1236.85 : ℝ)))) - ((0.00000347 : ℝ) * ((((1179 + 0.0 : ℝ) / (1236.85 : ℝ)) * ((1179 + 0.0 : ℝ) / (1236.85 : ℝ))) * ((1179 + 0.0 : ℝ) / (1236.85 : ℝ)))))) - -0.75331057973228| ≤ 1.82e-10 := by rw [dsin, sin_torad_shift270 ((2 : ℝ) * ((359.2242 : ℝ) + ((29.10535608 : ℝ) * (1179 + 0.0 : ℝ)) - ((0.0000333 : ℝ) * (((1179 + 0.0 : ℝ) / (1236.85 : ℝ)) * ((1179 + 0.0 : ℝ) / (1236.85 : ℝ)))) - ((0.00000347 : ℝ) * ((((1179 + 0.0 : ℝ) / (1236.85 : ℝ)) * ((1179 + 0.0 : ℝ) / (1236.85 : ℝ))) * ((1179 + 0.0 : ℝ) / (1236.85 : ℝ)))))) 192]; exact ball_neg _ _ (-0.75331057973228) 1.82e-10 b87 (by norm_num [abs_of_nonneg, abs_of_nonpos])
  have b89 : |360 * ((1264 : ℤ) : ℝ) + 180 - 455220| ≤ 0 := by norm_num
  have b90 := ball_sub _ _ _ _ (-35.818546264) 8.27e-10 b52 b89 (by norm_num [abs_of_nonneg, abs_of_nonpos])
  have b91 := ball_torad _ _ (-0.625151565584714) 1.45e-11 b90 (by norm_num [abs_of_nonneg, abs_of_nonpos])
  have b92 := ball_sin1 _ _ (-0.58522018031856) 1.95e-10 b91 (by norm_num [abs_of_nonneg, abs_of_nonpos]) (by norm_num [abs_of_nonneg, abs_of_nonpos])
  have b93 : |dsin ((306.0253 : ℝ) + ((385.81691806 : ℝ) * (1179 + 0.0 : ℝ)) + ((0.0107306 : ℝ) * (((1179 + 0.0 : ℝ) / (1236.85 : ℝ)) * ((1179 + 0.0 : ℝ) / (1236.85 : ℝ)))) + ((0.00001236 : ℝ) * ((((1179 + 0.0 : ℝ) / (1236.85 : ℝ)) * ((1179 + 0.0 : ℝ) / (1236.85 : ℝ))) * ((1179 + 0.0 : ℝ) / (1236.85 : ℝ))))) - 0.58522018031856| ≤ 1.95e-10 := by rw [dsin, sin_torad_shift180 ((306.0253 : ℝ) + ((385.81691806 : ℝ) * (1179 + 0.0 : ℝ)) + ((0.0107306 : ℝ) * (((1179 + 0.0 : ℝ) / (1236.85 : ℝ)) * ((1179 + 0.0 : ℝ) / (1236.85 : ℝ)))) + ((0.00001236 : ℝ) * ((((1179 + 0.0 : ℝ) / (1236.85 : ℝ)) * ((1179 + 0.0 : ℝ) / (1236.85 : ℝ))) * ((1179 + 0.0 : ℝ) / (1236.85 : ℝ))))) 1264]; exact ball_neg _ _ 0.58522018031856 1.95e-10 b92 (by norm_num [abs_of_nonneg, abs_of_nonpos])
  have b94 : |360 * ((2528 : ℤ) : ℝ) + 270 - 910350| ≤ 0 := by norm_num
  have b95 := ball_sub _ _ _ _ 18.362907472 1.66e-9 b68 b94 (by norm_num [abs_of_nonneg, abs_of_nonpos])
  have b96 := ball_torad _ _ 0.320493195625468 2.9e-11 b95 (by norm_num [abs_of_nonneg, abs_of_nonpos])
  have b97 := ball_cos1 _ _ 0.949080159790193 2.1e-10 b96 (by norm_num [abs_of_nonneg, abs_of_nonpos]) (by norm_num [abs_of_nonneg, abs_of_nonpos])
  have b98 : |dsin ((2 : ℝ) * ((306.0253 : ℝ) + ((385.81691806 : ℝ) * (1179 + 0.0 : ℝ)) + ((0.0107306 : ℝ) * (((1179 + 0.0 : ℝ) / (1236.85 : ℝ)) * ((1179 + 0.0 : ℝ) / (1236.85 : ℝ)))) + ((0.00001236 : ℝ) * ((((1179 + 0.0 : ℝ) / (1236.85 : ℝ)) * ((1179 + 0.0 : ℝ) / (1236.85 : ℝ))) * ((1179 + 0.0 : ℝ) / (1236.85 : ℝ)))))) - -0.949080159790193| ≤ 2.1e-10 := by rw [dsin, sin_torad_shift270 ((2 : ℝ) * ((306.0253 : ℝ) + ((385.81691806 : ℝ) * (1179 + 0.0 : ℝ)) + ((0.0107306 : ℝ) * (((1179 + 0.0 : ℝ) / (1236.85 : ℝ)) * ((1179 + 0.0 : ℝ) / (1236.85 : ℝ)))) + ((0.00001236 : ℝ) * ((((1179 + 0.0 : ℝ) / (1236.85 : ℝ)) * ((1179 + 0.0 : ℝ) / (1236.85 : ℝ))) * ((1179 + 0.0 : ℝ) / (1236.85 : ℝ)))))) 2528]; exact ball_neg _ _ (-0.949080159790193) 2.1e-10 b97 (by norm_num [abs_of_nonneg, abs_of_nonpos])
  have b99 : |360 * ((3793 : ℤ) : ℝ) + 90 - 1365570| ≤ 0 := by norm_num
  have b100 := ball_sub _ _ _ _ (-17.45563879) 4.49e-9 b69 b99 (by norm_num [abs_of_nonneg, abs_of_nonpos])
  have b101 := ball_torad _ _ (-0.304658369924339) 7.84e-11 b100 (by norm_num [abs_of_nonneg, abs_of_nonpos])
  have b102 := ball_cos1 _ _ 0.953949486083632 2.59e-10 b101 (by norm_num [abs_of_nonneg, abs_of_nonpos]) (by norm_num [abs_of_nonneg, abs_of_nonpos])
  have b103 : |dsin ((3 : ℝ) * ((306.0253 : ℝ) + ((385.81691806 : ℝ) * (1179 + 0.0 : ℝ)) + ((0.0107306 : ℝ) * (((1179 + 0.0 : ℝ) / (1236.85 : ℝ)) * ((1179 + 0.0 : ℝ) / (1236.85 : ℝ)))) + ((0.00001236 : ℝ) * ((((1179 + 0.0 : ℝ) / (1236.85 : ℝ)) * ((1179 + 0.0 : ℝ) / (1236.85 : ℝ))) * ((1179 + 0.0 : ℝ) / (1236.85 : ℝ)))))) - 0.953949486083632| ≤ 2.59e-10 := by rw [dsin, sin_torad_shift90 ((3 : ℝ) * ((306.0253 : ℝ) + ((385.81691806 : ℝ) * (1179 + 0.0 : ℝ)) + ((0.0107306 : ℝ) * (((1179 + 0.0 : ℝ) / (1236.85 : ℝ)) * ((1179 + 0.0 : ℝ) / (1236.85 : ℝ)))) + ((0.00001236 : ℝ) * ((((1179 + 0.0 : ℝ) / (1236.85 : ℝ)) * ((1179 + 0.0 : ℝ) / (1236.85 : ℝ))) * ((1179 + 0.0 : ℝ) / (1236.85 : ℝ)))))) 3793]; exact b102
  have b104 : |360 * ((2559 : ℤ) : ℝ) - 921240| ≤ 0 := by norm_num
  have b105 := ball_sub _ _ _ _ 3.644024928 2.58e-10 b71 b104 (by norm_num [abs_of_nonneg, abs_of_nonpos])
  have b106 := ball_torad _ _ 0.0636002330183493 4.51e-12 b105 (by norm_num [abs_of_nonneg, abs_of_nonpos])
  have b107 := ball_sin1 _ _ 0.0635573646420981 1.85e-10 b106 (by norm_num [abs_of_nonneg, abs_of_nonpos]) (by norm_num [abs_of_nonneg, abs_of_nonpos])
  have b108 : |dsin ((2 : ℝ) * ((21.2964 : ℝ) + ((390.67050646 : ℝ) * (1179 + 0.0 : ℝ)) - ((0.0016528 : ℝ) * (((1179 + 0.0 : ℝ) / (1236.85 : ℝ)) * ((1179 + 0.0 : ℝ) / (1236.85 : ℝ)))) - ((0.00000239 : ℝ) * ((((1179 + 0.0 : ℝ) / (1236.85 : ℝ)) * ((1179 + 0.0 : ℝ) / (1236.85 : ℝ))) * ((1179 + 0.0 : ℝ) / (1236.85 : ℝ)))))) - 0.0635573646420981| ≤ 1.85e-10 := by rw [dsin, sin_torad_shift ((2 : ℝ) * ((21.2964 : ℝ) + ((390.67050646 : ℝ) * (1179 + 0.0 : ℝ)) - ((0.0016528 : ℝ) * (((1179 + 0.0 : ℝ) / (1236.85 : ℝ)) * ((1179 + 0.0 : ℝ) / (1236.85 : ℝ)))) - ((0.00000239 : ℝ) * ((((1179 + 0.0 : ℝ) / (1236.85 : ℝ)) * ((1179 + 0.0 : ℝ) / (1236.85 : ℝ))) * ((1179 + 0.0 : ℝ) / (1236.85 : ℝ)))))) 2559]; exact b107
  have b109 : |360 * ((1360 : ℤ) : ℝ) + 270 - 489870| ≤ 0 := by norm_num
  have b110 := ball_sub _ _ _ _ (-11.379561207) 1.18e-9 b72 b109 (by norm_num [abs_of_nonneg, abs_of_nonpos])
  have b111 := ball_torad _ _ (-0.19861081049437) 2.07e-11 b110 (by norm_num [abs_of_nonneg, abs_of_nonpos])
  have b112 := ball_cos1 _ _ 0.980341621412546 2.01e-10 b111 (by norm_num [abs_of_nonneg, abs_of_nonpos]) (by norm_num [abs_of_nonneg, abs_of_nonpos])
  have b113 : |dsin ((359.2242 : ℝ) + ((29.10535608 : ℝ) * (1179 + 0.0 : ℝ)) - ((0.0000333 : ℝ) * (((1179 + 0.0 : ℝ) / (1236.85 : ℝ)) * ((1179 + 0.0 : ℝ) / (1236.85 : ℝ)))) - ((0.00000347 : ℝ) * ((((1179 + 0.0 : ℝ) / (1236.85 : ℝ)) * ((1179 + 0.0 : ℝ) / (1236.85 : ℝ))) * ((1179 + 0.0 : ℝ) / (1236.85 : ℝ)))) + ((306.0253 : ℝ) + ((385.81691806 : ℝ) * (1179 + 0.0 : ℝ)) + ((0.0107306 : ℝ) * (((1179 + 0.0 : ℝ) / (1236.85 : ℝ)) * ((1179 + 0.0 : ℝ) / (1236.85 : ℝ)))) + ((0.00001236 : ℝ) * ((((1179 + 0.0 : ℝ) / (1236.85 : ℝ)) * ((1179 + 0.0 : ℝ) / (1236.85 : ℝ))) * ((1179 + 0.0 : ℝ) / (1236.85 : ℝ)))))) - -0.980341621412546| ≤ 2.01e-10 := by rw [dsin, sin_torad_shift270 ((359.2242 : ℝ) + ((29.10535608 : ℝ) * (1179 + 0.0 : ℝ)) - ((0.0000333 : ℝ) * (((1179 + 0.0 : ℝ) / (1236.85 : ℝ)) * ((1179 + 0.0 : ℝ) / (1236.85 : ℝ)))) - ((0.00000347 : ℝ) * ((((1179 + 0.0 : ℝ) / (1236.85 : ℝ)) * ((1179 + 0.0 : ℝ) / (1236.85 : ℝ))) * ((1179 + 0.0 : ℝ) / (1236.85 : ℝ)))) + ((306.0253 : ℝ) + ((385.81691806 : ℝ) * (1179 + 0.0 : ℝ)) + ((0.0107306 : ℝ) * (((1179 + 0.0 : ℝ) / (1236.85 : ℝ)) * ((1179 + 0.0 : ℝ) / (1236.85 : ℝ)))) + ((0.00001236 : ℝ) * ((((1179 + 0.0 : ℝ) / (1236.85 : ℝ)) * ((1179 + 0.0 : ℝ) / (1236.85 : ℝ))) * ((1179 + 0.0 : ℝ) / (1236.85 : ℝ)))))) 1360]; exact ball_neg _ _ (-0.980341621412546) 2.01e-10 b112 (by norm_num [abs_of_nonneg, abs_of_nonpos])
  have b114 : |360 * ((-1168 : ℤ) : ℝ) - -420480| ≤ 0 := by norm_num
  have b115 := ball_sub _ _ _ _ (-29.742468679) 1.18e-9 b73 b114 (by norm_num [abs_of_nonneg, abs_of_nonpos])
  have b116 := ball_torad _ _ (-0.519104006119838) 2.07e-11 b115 (by norm_num [abs_of_nonneg, abs_of_nonpos])
  have b117 := ball_sin1 _ _ (-0.49610237782474) 2.01e-10 b116 (by norm_num [abs_of_nonneg, abs_of_nonpos]) (by norm_num [abs_of_nonneg, abs_of_nonpos])
  have b118 : |dsin ((359.2242 : ℝ) + ((29.10535608 : ℝ) * (1179 + 0.0 : ℝ)) - ((0.0000333 : ℝ) * (((1179 + 0.0 : ℝ) / (1236.85 : ℝ)) * ((1179 + 0.0 : ℝ) / (1236.85 : ℝ)))) - ((0.00000347 : ℝ) * ((((1179 + 0.0 : ℝ) / (1236.85 : ℝ)) * ((1179 + 0.0 : ℝ) / (1236.85 : ℝ))) * ((1179 + 0.0 : ℝ) / (1236.85 : ℝ)))) - ((306.0253 : ℝ) + ((385.81691806 : ℝ) * (1179 + 0.0 : ℝ)) + ((0.0107306 : ℝ) * (((1179 + 0.0 : ℝ) / (1236.85 : ℝ)) * ((1179 + 0.0 : ℝ) / (1236.85 : ℝ)))) + ((0.00001236 : ℝ) * ((((1179 + 0.0 : ℝ) / (1236.85 : ℝ)) * ((1179 + 0.0 : ℝ) / (1236.85 : ℝ))) * ((1179 + 0.0 : ℝ) / (1236.85 : ℝ)))))) - -0.49610237782474| ≤ 2.01e-10 := by rw [dsin, sin_torad_shift ((359.2242 : ℝ) + ((29.10535608 : ℝ) * (1179 + 0.0 : ℝ)) - ((0.0000333 : ℝ) * (((1179 + 0.0 : ℝ) / (1236.85 : ℝ)) * ((1179 + 0.0 : ℝ) / (1236.85 : ℝ)))) - ((0.00000347 : ℝ) * ((((1179 + 0.0 : ℝ) / (1236.85 : ℝ)) * ((1179 + 0.0 : ℝ) / (1236.85 : ℝ))) * ((1179 + 0.0 : ℝ) / (1236.85 : ℝ)))) - ((306.0253 : ℝ) + ((385.81691806 : ℝ) * (1179 + 0.0 : ℝ)) + ((0.0107306 : ℝ) * (((1179 + 0.0 : ℝ) / (1236.85 : ℝ)) * ((1179 + 0.0 : ℝ) / (1236.85 : ℝ)))) + ((0.00001236 : ℝ) * ((((1179 + 0.0 : ℝ) / (1236.85 : ℝ)) * ((1179 + 0.0 : ℝ) / (1236.85 : ℝ))) * ((1179 + 0.0 : ℝ) / (1236.85 : ℝ)))))) (-1168)]; exact b117
  have b119 : |360 * ((2655 : ℤ) : ℝ) + 90 - 955890| ≤ 0 := by norm_num
  have b120 := ball_sub _ _ _ _ 28.083009985 6.1e-10 b74 b119 (by norm_num [abs_of_nonneg, abs_of_nonpos])
  have b121 := ball_torad _ _ 0.490140988108693 1.07e-11 b120 (by norm_num [abs_of_nonneg, abs_of_nonpos])
  have b122 := ball_cos1 _ _ 0.882266497187116 1.91e-10 b121 (by norm_num [abs_of_nonneg, abs_of_nonpos]) (by norm_num [abs_of_nonneg, abs_of_nonpos])
  have b123 : |dsin ((2 : ℝ) * ((21.2964 : ℝ) + ((390.67050646 : ℝ) * (1179 + 0.0 : ℝ)) - ((0.0016528 : ℝ) * (((1179 + 0.0 : ℝ) / (1236.85 : ℝ)) * ((1179 + 0.0 : ℝ) / (1236.85 : ℝ)))) - ((0.00000239 : ℝ) * ((((1179 + 0.0 : ℝ) / (1236.85 : ℝ)) * ((1179 + 0.0 : ℝ) / (1236.85 : ℝ))) * ((1179 + 0.0 : ℝ) / (1236.85 : ℝ))))) + ((359.2242 : ℝ) + ((29.10535608 : ℝ) * (1179 + 0.0 : ℝ)) - ((0.0000333 : ℝ) * (((1179 + 0.0 : ℝ) / (1236.85 : ℝ)) * ((1179 + 0.0 : ℝ) / (1236.85 : ℝ)))) - ((0.00000347 : ℝ) * ((((1179 + 0.0 : ℝ) / (1236.85 : ℝ)) * ((1179 + 0.0 : ℝ) / (1236.85 : ℝ))) * ((1179 + 0.0 : ℝ) / (1236.85 : ℝ)))))) - 0.882266497187116| ≤ 1.91e-10 := by rw [dsin, sin_torad_shift90 ((2 : ℝ) * ((21.2964 : ℝ) + ((390.67050646 : ℝ) * (1179 + 0.0 : ℝ)) - ((0.0016528 : ℝ) * (((1179 + 0.0 : ℝ) / (1236.85 : ℝ)) * ((1179 + 0.0 : ℝ) / (1236.85 : ℝ)))) - ((0.00000239 : ℝ) * ((((1179 + 0.0 : ℝ) / (1236.85 : ℝ)) * ((1179 + 0.0 : ℝ) / (1236.85 : ℝ))) * ((1179 + 0.0 : ℝ) / (1236.85 : ℝ))))) + ((359.2242 : ℝ) + ((29.10535608 : ℝ) * (1179 + 0.0 : ℝ)) - ((0.0000333 : ℝ) * (((1179 + 0.0 : ℝ) / (1236.85 : ℝ)) * ((1179 + 0.0 : ℝ) / (1236.85 : ℝ)))) - ((0.00000347 : ℝ) * ((((1179 + 0.0 : ℝ) / (1236.85 : ℝ)) * ((1179 + 0.0 : ℝ) / (1236.85 : ℝ))) * ((1179 + 0.0 : ℝ) / (1236.85 : ℝ)))))) 2655]; exact b122
  have b124 : |360 * ((2462 : ℤ) : ℝ) + 270 - 886590| ≤ 0 := by norm_num
  have b125 := ball_sub _ _ _ _ (-20.794960129) 6.1e-10 b75 b124 (by norm_num [abs_of_nonneg, abs_of_nonpos])
  have b126 := ball_torad _ _ (-0.362940522071995) 1.07e-11 b125 (by norm_num [abs_of_nonneg, abs_of_nonpos])
  have b127 := ball_cos1 _ _ 0.934856908819793 1.91e-10 b126 (by norm_num [abs_of_nonneg, abs_of_nonpos]) (by norm_num [abs_of_nonneg, abs_of_nonpos])
  have b128 : |dsin ((2 : ℝ) * ((21.2964 : ℝ) + ((390.67050646 : ℝ) * (1179 + 0.0 : ℝ)) - ((0.0016528 : ℝ) * (((1179 + 0.0 : ℝ) / (1236.85 : ℝ)) * ((1179 + 0.0 : ℝ) / (1236.85 : ℝ)))) - ((0.00000239 : ℝ) * ((((1179 + 0.0 : ℝ) / (1236.85 : ℝ)) * ((1179 + 0.0 : ℝ) / (1236.85 : ℝ))) * ((1179 + 0.0 : ℝ) / (1236.85 : ℝ))))) - ((359.2242 : ℝ) + ((29.10535608 : ℝ) * (1179 + 0.0 : ℝ)) - ((0.0000333 : ℝ) * (((1179 + 0.0 : ℝ) / (1236.85 : ℝ)) * ((1179 + 0.0 : ℝ) / (1236.85 : ℝ)))) - ((0.00000347 : ℝ) * ((((1179 + 0.0 : ℝ) / (1236.85 : ℝ)) * ((1179 + 0.0 : ℝ) / (1236.85 : ℝ))) * ((1179 + 0.0 : ℝ) / (1236.85 : ℝ)))))) - -0.934856908819793| ≤ 1.91e-10 := by rw [dsin, sin_torad_shift270 ((2 : ℝ) * ((21.2964 : ℝ) + ((390.67050646 : ℝ) * (1179 + 0.0 : ℝ)) - ((0.0016528 : ℝ) * (((1179 + 0.0 : ℝ) / (1236.85 : ℝ)) * ((1179 + 0.0 : ℝ) / (1236.85 : ℝ)))) - ((0.00000239 : ℝ) * ((((1179 + 0.0 : ℝ) / (1236.85 : ℝ)) * ((1179 + 0.0 : ℝ) / (1236.85 : ℝ))) * ((1179 + 0.0 : ℝ) / (1236.85 : ℝ))))) - ((359.2242 : ℝ) + ((29.10535608 : ℝ) * (1179 + 0.0 : ℝ)) - ((0.0000333 : ℝ) * (((1179 + 0.0 : ℝ) / (1236.85 : ℝ)) * ((1179 + 0.0 : ℝ) / (1236.85 : ℝ)))) - ((0.00000347 : ℝ) * ((((1179 + 0.0 : ℝ) / (1236.85 : ℝ)) * ((1179 + 0.0 : ℝ) / (1236.85 : ℝ))) * ((1179 + 0.0 : ℝ) / (1236.85 : ℝ)))))) 2462]; exact ball_neg _ _ (-0.934856908819793) 1.91e-10 b127 (by norm_num [abs_of_nonneg, abs_of_nonpos])
  have b129 : |360 * ((3823 : ℤ) : ℝ) + 180 - 1376460| ≤ 0 := by norm_num
  have b130 := ball_sub _ _ _ _ (-32.17452134) 5.09e-9 b76 b129 (by norm_num [abs_of_nonneg, abs_of_nonpos])
  have b131 := ball_torad _ _ (-0.561551332636178) 8.89e-11 b130 (by norm_num [abs_of_nonneg, abs_of_nonpos])
  have b132 := ball_sin1 _ _ (-0.532499932713501) 2.69e-10 b131 (by norm_num [abs_of_nonneg, abs_of_nonpos]) (by norm_num [abs_of_nonneg, abs_of_nonpos])
  have b133 : |dsin ((2 : ℝ) * ((21.2964 : ℝ) + ((390.67050646 : ℝ) * (1179 + 0.0 : ℝ)) - ((0.0016528 : ℝ) * (((1179 + 0.0 : ℝ) / (1236.85 : ℝ)) * ((1179 + 0.0 : ℝ) / (1236.85 : ℝ)))) - ((0.00000239 : ℝ) * ((((1179 + 0.0 : ℝ) / (1236.85 : ℝ)) * ((1179 + 0.0 : ℝ) / (1236.85 : ℝ))) * ((1179 + 0.0 : ℝ) / (1236.85 : ℝ))))) + ((306.0253 : ℝ) + ((385.81691806 : ℝ) * (1179 + 0.0 : ℝ)) + ((0.0107306 : ℝ) * (((1179 + 0.0 : ℝ) / (1236.85 : ℝ)) * ((1179 + 0.0 : ℝ) / (1236.85 : ℝ)))) + ((0.00001236 : ℝ) * ((((1179 + 0.0 : ℝ) / (1236.85 : ℝ)) * ((1179 + 0.0 : ℝ) / (1236.85 : ℝ))) * ((1179 + 0.0 : ℝ) / (1236.85 : ℝ)))))) - 0.532499932713501| ≤ 2.69e-10 := by rw [dsin, sin_torad_shift180 ((2 : ℝ) * ((21.2964 : ℝ) + ((390.67050646 : ℝ) * (1179 + 0.0 : ℝ)) - ((0.0016528 : ℝ) * (((1179 + 0.0 : ℝ) / (1236.85 : ℝ)) * ((1179 + 0.0 : ℝ) / (1236.85 : ℝ)))) - ((0.00000239 : ℝ) * ((((1179 + 0.0 : ℝ) / (1236.85 : ℝ)) * ((1179 + 0.0 : ℝ) / (1236.85 : ℝ))) * ((1179 + 0.0 : ℝ) / (1236.85 : ℝ))))) + ((306.0253 : ℝ) + ((385.81691806 : ℝ) * (1179 + 0.0 : ℝ)) + ((0.0107306 : ℝ) * (((1179 + 0.0 : ℝ) / (1236.85 : ℝ)) * ((1179 + 0.0 : ℝ) / (1236.85 : ℝ)))) + ((0.00001236 : ℝ) * ((((1179 + 0.0 : ℝ) / (1236.85 : ℝ)) * ((1179 + 0.0 : ℝ) / (1236.85 : ℝ))) * ((1179 + 0.0 : ℝ) / (1236.85 : ℝ)))))) 3823]; exact ball_neg _ _ 0.532499932713501 2.69e-10 b132 (by norm_num [abs_of_nonneg, abs_of_nonpos])
  have b134 : |360 * ((1294 : ℤ) : ℝ) + 180 - 466020| ≤ 0 := by norm_num
  have b135 := ball_sub _ _ _ _ 39.462571192 1.09e-9 b77 b134 (by norm_num [abs_of_nonneg, abs_of_nonpos])
  have b136 := ball_torad _ _ 0.688751798603063 1.91e-11 b135 (by norm_num [abs_of_nonneg, abs_of_nonpos])
  have b137 := ball_sin1 _ _ 0.635574016252842 0.0000000002 b136 (by norm_num [abs_of_nonneg, abs_of_nonpos]) (by norm_num [abs_of_nonneg, abs_of_nonpos])
  have b138 : |dsin ((2 : ℝ) * ((21.2964 : ℝ) + ((390.67050646 : ℝ) * (1179 + 0.0 : ℝ)) - ((0.0016528 : ℝ) * (((1179 + 0.0 : ℝ) / (1236.85 : ℝ)) * ((1179 + 0.0 : ℝ) / (1236.85 : ℝ)))) - ((0.00000239 : ℝ) * ((((1179 + 0.0 : ℝ) / (1236.85 : ℝ)) * ((1179 + 0.0 : ℝ) / (1236.85 : ℝ))) * ((1179 + 0.0 : ℝ) / (1236.85 : ℝ))))) - ((306.0253 : ℝ) + ((385.81691806 : ℝ) * (1179 + 0.0 : ℝ)) + ((0.0107306 : ℝ) * (((1179 + 0.0 : ℝ) / (1236.85 : ℝ)) * ((1179 + 0.0 : ℝ) / (1236.85 : ℝ)))) + ((0.00001236 : ℝ) * ((((1179 + 0.0 : ℝ) / (1236.85 : ℝ)) * ((1179 + 0.0 : ℝ) / (1236.85 : ℝ))) * ((1179 + 0.0 : ℝ) / (1236.85 : ℝ)))))) - -0.635574016252842| ≤ 0.0000000002 := by rw [dsin, sin_torad_shift180 ((2 : ℝ) * ((21.2964 : ℝ) + ((390.67050646 : ℝ) * (1179 + 0.0 : ℝ)) - ((0.0016528 : ℝ) * (((1179 + 0.0 : ℝ) / (1236.85 : ℝ)) * ((1179 + 0.0 : ℝ) / (1236.85 : ℝ)))) - ((0.00000239 : ℝ) * ((((1179 + 0.0 : ℝ) / (1236.85 : ℝ)) * ((1179 + 0.0 : ℝ) / (1236.85 : ℝ))) * ((1179 + 0.0 : ℝ) / (1236.85 : ℝ))))) - ((306.0253 : ℝ) + ((385.81691806 : ℝ) * (1179 + 0.0 : ℝ)) + ((0.0107306 : ℝ) * (((1179 + 0.0 : ℝ) / (1236.85 : ℝ)) * ((1179 + 0.0 : ℝ) / (1236.85 : ℝ)))) + ((0.00001236 : ℝ) * ((((1179 + 0.0 : ℝ) / (1236.85 : ℝ)) * ((1179 + 0.0 : ℝ) / (1236.85 : ℝ))) * ((1179 + 0.0 : ℝ) / (1236.85 : ℝ)))))) 1294]; exact ball_neg _ _ (-0.635574016252842) 0.0000000002 b137 (by norm_num [abs_of_nonneg, abs_of_nonpos])
  have b139 : |360 * ((2625 : ℤ) : ℝ) - 945000| ≤ 0 := by norm_num
  have b140 := ball_sub _ _ _ _ 42.801892529 2.02e-9 b78 b139 (by norm_num [abs_of_nonneg, abs_of_nonpos])
  have b141 := ball_torad _ _ 0.747033950715813 3.53e-11 b140 (by norm_num [abs_of_nonneg, abs_of_nonpos])
  have b142 := ball_sin1 _ _ 0.679465539617326 2.16e-10 b141 (by norm_num [abs_of_nonneg, abs_of_nonpos]) (by norm_num [abs_of_nonneg, abs_of_nonpos])
  have b143 : |dsin ((359.2242 : ℝ) + ((29.10535608 : ℝ) * (1179 + 0.0 : ℝ)) - ((0.0000333 : ℝ) * (((1179 + 0.0 : ℝ) / (1236.85 : ℝ)) * ((1179 + 0.0 : ℝ) / (1236.85 : ℝ)))) - ((0.00000347 : ℝ) * ((((1179 + 0.0 : ℝ) / (1236.85 : ℝ)) * ((1179 + 0.0 : ℝ) / (1236.85 : ℝ))) * ((1179 + 0.0 : ℝ) / (1236.85 : ℝ)))) + ((2 : ℝ) * ((306.0253 : ℝ) + ((385.81691806 : ℝ) * (1179 + 0.0 : ℝ)) + ((0.0107306 : ℝ) * (((1179 + 0.0 : ℝ) / (1236.85 : ℝ)) * ((1179 + 0.0 : ℝ) / (1236.85 : ℝ)))) + ((0.00001236 : ℝ) * ((((1179 + 0.0 : ℝ) / (1236.85 : ℝ)) * ((1179 + 0.0 : ℝ) / (1236.85 : ℝ))) * ((1179 + 0.0 : ℝ) / (1236.85 : ℝ))))))) - 0.679465539617326| ≤ 2.16e-10 := by rw [dsin, sin_torad_shift ((359.2242 : ℝ) + ((29.10535608 : ℝ) * (1179 + 0.0 : ℝ)) - ((0.0000333 : ℝ) * (((1179 + 0.0 : ℝ) / (1236.85 : ℝ)) * ((1179 + 0.0 : ℝ) / (1236.85 : ℝ)))) - ((0.00000347 : ℝ) * ((((1179 + 0.0 : ℝ) / (1236.85 : ℝ)) * ((1179 + 0.0 : ℝ) / (1236.85 : ℝ))) * ((1179 + 0.0 : ℝ) / (1236.85 : ℝ)))) + ((2 : ℝ) * ((306.0253 : ℝ) + ((385.81691806 : ℝ) * (1179 + 0.0 : ℝ)) + ((0.0107306 : ℝ) * (((1179 + 0.0 : ℝ) / (1236.85 : ℝ)) * ((1179 + 0.0 : ℝ) / (1236.85 : ℝ)))) + ((0.00001236 : ℝ) * ((((1179 + 0.0 : ℝ) / (1236.85 : ℝ)) * ((1179 + 0.0 : ℝ) / (1236.85 : ℝ))) * ((1179 + 0.0 : ℝ) / (1236.85 : ℝ))))))) 2625]; exact b142
  have b144 := ball_refl (0.1734 : ℝ)
  have b145 := ball_refl (0.000393 : ℝ)
  have b146 := ball_mul _ _ _ _ 0.00037461858754093 5.91e-19 b145 b3 (by norm_num [abs_of_nonneg, abs_of_nonpos])
  have b147 := ball_sub _ _ _ _ 0.173025381412459 7.06e-17 b144 b146 (by norm_num [abs_of_nonneg, abs_of_nonpos])
  have b148 := ball_mul _ _ _ _ 0.157522716701613 3.14e-11 b147 b83 (by norm_num [abs_of_nonneg, abs_of_nonpos])
  have b149 := ball_refl (0.0021 : ℝ)
  have b150 := ball_mul _ _ _ _ (-0.00158195221743779) 3.83e-13 b149 b88 (by norm_num [abs_of_nonneg, abs_of_nonpos])
  have b151 := ball_add _ _ _ _ 0.155940764484175 3.18e-11 b148 b150 (by norm_num [abs_of_nonneg, abs_of_nonpos])
  have b152 := ball_refl (0.4068 : ℝ)
  have b153 := ball_mul _ _ _ _ 0.23806756935359 7.94e-11 b152 b93 (by norm_num [abs_of_nonneg, abs_of_nonpos])
  have b154 := ball_sub _ _ _ _ (-0.082126804869415) 1.12e-10 b151 b153 (by norm_num [abs_of_nonneg, abs_of_nonpos])
  have b155 := ball_refl (0.0161 : ℝ)
  have b156 := ball_mul _ _ _ _ (-0.0152801905726221) 3.39e-12 b155 b98 (by norm_num [abs_of_nonneg, abs_of_nonpos])
  have b157 := ball_add _ _ _ _ (-0.0974069954420371) 1.16e-10 b154 b156 (by norm_num [abs_of_nonneg, abs_of_nonpos])
  have b158 := ball_refl (0.0004 : ℝ)
  have b159 := ball_mul _ _ _ _ 0.000381579794433453 1.04e-13 b158 b103 (by norm_num [abs_of_nonneg, abs_of_nonpos])
  have b160 := ball_sub _ _ _ _ (-0.0977885752364706) 1.17e-10 b157 b159 (by norm_num [abs_of_nonneg, abs_of_nonpos])
  have b161 := ball_refl (0.0104 : ℝ)
  have b162 := ball_mul _ _ _ _ 0.00066099659227782 1.93e-12 b161 b108 (by norm_num [abs_of_nonneg, abs_of_nonpos])
  have b163 := ball_add _ _ _ _ (-0.0971275786441928) 1.19e-10 b160 b162 (by norm_num [abs_of_nonneg, abs_of_nonpos])
  have b164 := ball_refl (0.0051 : ℝ)
  have b165 := ball_mul _ _ _ _ (-0.00499974226920398) 1.03e-12 b164 b113 (by norm_num [abs_of_nonneg, abs_of_nonpos])
  have b166 := ball_sub _ _ _ _ (-0.0921278363749888) 1.21e-10 b163 b165 (by norm_num [abs_of_nonneg, abs_of_nonpos])
  have b167 := ball_refl (0.0074 : ℝ)
  have b168 := ball_mul _ _ _ _ (-0.00367115759590308) 1.49e-12 b167 b118 (by norm_num [abs_of_nonneg, abs_of_nonpos])
  have b169 := ball_sub _ _ _ _ (-0.0884566787790857) 1.23e-10 b166 b168 (by norm_num [abs_of_nonneg, abs_of_nonpos])
  have b170 := ball_refl (0.0004 : ℝ)
  have b171 := ball_mul _ _ _ _ 0.000352906598874846 7.65e-14 b170 b123 (by norm_num [abs_of_nonneg, abs_of_nonpos])
  have b172 := ball_add _ _ _ _ (-0.0881037721802109) 1.24e-10 b169 b171 (by norm_num [abs_of_nonneg, abs_of_nonpos])
  have b173 := ball_refl (0.0004 : ℝ)
  have b174 := ball_mul _ _ _ _ (-0.000373942763527917) 7.65e-14 b173 b128 (by norm_num [abs_of_nonneg, abs_of_nonpos])
  have b175 := ball_sub _ _ _ _ (-0.087729829416683) 1.25e-10 b172 b174 (by norm_num [abs_of_nonneg, abs_of_nonpos])
  have b176 := ball_refl (0.0006 : ℝ)
  have b177 := ball_mul _ _ _ _ 0.000319499959628101 1.62e-13 b176 b133 (by norm_num [abs_of_nonneg, abs_of_nonpos])
  have b178 := ball_sub _ _ _ _ (-0.0880493293763111) 1.26e-10 b175 b177 (by norm_num [abs_of_nonneg, abs_of_nonpos])
  have b179 : |(0.0010 : ℝ) - 0.001| ≤ 0 := by norm_num
  have b180 := ball_mul _ _ _ _ (-0.000635574016252842) 2e-13 b179 b138 (by norm_num [abs_of_nonneg, abs_of_nonpos])
  have b181 := ball_add _ _ _ _ (-0.0886849033925639) 1.27e-10 b178 b180 (by norm_num [abs_of_nonneg, abs_of_nonpos])
  have b182 := ball_refl (0.0005 : ℝ)
  have b183 := ball_mul _ _ _ _ 0.000339732769808663 1.08e-13 b182 b143 (by norm_num [abs_of_nonneg, abs_of_nonpos])
  have b184 := ball_add _ _ _ _ (-0.0883451706227552) 1.28e-10 b181 b183 (by norm_num [abs_of_nonneg, abs_of_nonpos])
  have b185 := ball_add _ _ _ _ 2449837.23484216 8.19e-9 b30 b184 (by norm_num [abs_of_nonneg, abs_of_nonpos])
  have b186 : |tpNewFull 1179 0.0 - 2449837.23484216| ≤ 8.19e-9 := by
    simp only [tpNewFull]
    exact ball_center _ _ _ _ b185 (by norm_num [abs_of_nonneg, abs_of_nonpos])
  exact b186

set_option maxHeartbeats 1600000 in
/-- Claim C1 (amended).  Concretely, `phasehunt(2449818.3)` returns the
five `truephase` branch values at lunation indices 1178 and 1179, which are
the claimed strictly increasing Julian dates 2449807.5908233593,
2449815.7327970425, 2449823.006760471, 2449829.6385180936,
2449837.2348421547 (to within `1e-6` days).  In general, whenever the
search loop succeeds with exit index `|k| ≤ 13000` and era-consistent
initial state, the five results are strictly increasing and bracket the
search date to within `0.95` days on each side; the unamended claim
`result[0] ≤ jd` fails (see the counterexample at 2449571.6). -/
theorem claim_C1_phasehunt :
    (phasehunt (2449818.3 : ℝ) 20 =
        some (tpNewFull 1178 0.0, tpQuarter 1178 0.25, tpNewFull 1178 0.5,
          tpQuarter 1178 0.75, tpNewFull 1179 0.0) ∧
      |tpNewFull 1178 0.0 - 2449807.5908233593| ≤ 1e-6 ∧
      |tpQuarter 1178 0.25 - 2449815.7327970425| ≤ 1e-6 ∧
      |tpNewFull 1178 0.5 - 2449823.006760471| ≤ 1e-6 ∧
      |tpQuarter 1178 0.75 - 2449829.6385180936| ≤ 1e-6 ∧
      |tpNewFull 1179 0.0 - 2449837.2348421547| ≤ 1e-6) ∧
    (∀ sdate adate k1 nt1 fuel p,
      phasehuntLoop sdate adate k1 nt1 fuel = some p →
      |p.1| ≤ 13000 →
      |adate - (2415020.75933 + synmonth * k1)| ≤ 450000 →
      |nt1 - (2415020.75933 + synmonth * k1)| ≤ 0.1 →
      tpNewFull p.1 0.0 < tpQuarter p.1 0.25 ∧
      tpQuarter p.1 0.25 < tpNewFull p.1 0.5 ∧
      tpNewFull p.1 0.5 < tpQuarter p.1 0.75 ∧
      tpQuarter p.1 0.75 < tpNewFull (p.1 + 1) 0.0 ∧
      tpNewFull p.1 0.0 ≤ sdate + 0.95 ∧
      sdate - 0.95 < tpNewFull (p.1 + 1) 0.0) := by
  constructor
  · refine ⟨phasehunt_eval 2449818.3 20 1995 2 24 1176 1178 1179
      (by norm_num [jyearR, cTruncR]) (by norm_num) huntC1_loop, ?_, ?_, ?_, ?_, ?_⟩
    · exact ball_center _ _ _ _ tpball_1178_00 (by norm_num [abs_of_nonneg, abs_of_nonpos])
    · exact ball_center _ _ _ _ tpball_1178_25 (by norm_num [abs_of_nonneg, abs_of_nonpos])
    · exact ball_center _ _ _ _ tpball_1178_50 (by norm_num [abs_of_nonneg, abs_of_nonpos])
    · exact ball_center _ _ _ _ tpball_1178_75 (by norm_num [abs_of_nonneg, abs_of_nonpos])
    · exact ball_center _ _ _ _ tpball_1179_00 (by norm_num [abs_of_nonneg, abs_of_nonpos])
  · intro sdate adate k1 nt1 fuel p hL hk hoff hnt
    obtain ⟨hB, a2, ha2, hlt⟩ := phasehuntLoop_exit sdate fuel adate k1 nt1 p hL
    have hsyn : synmonth = 29.53058868 := by norm_num [synmonth]
    obtain ⟨hk1, hk2⟩ := abs_le.1 hk
    have hd0 := tpNewFull_dev p.1 0.0 (by rw [abs_le]; constructor <;> linarith)
    have hd1 := tpQuarter_dev p.1 0.25 (by rw [abs_le]; constructor <;> linarith)
    have hd2 := tpNewFull_dev p.1 0.5 (by rw [abs_le]; constructor <;> linarith)
    have hd3 := tpQuarter_dev p.1 0.75 (by rw [abs_le]; constructor <;> linarith)
    have hd4 := tpNewFull_dev (p.1 + 1) 0.0 (by rw [abs_le]; constructor <;> linarith)
    rw [hsyn] at hd0 hd1 hd2 hd3 hd4 hoff hnt
    obtain ⟨g0a, g0b⟩ := abs_le.1 hd0
    obtain ⟨g1a, g1b⟩ := abs_le.1 hd1
    obtain ⟨g2a, g2b⟩ := abs_le.1 hd2
    obtain ⟨g3a, g3b⟩ := abs_le.1 hd3
    obtain ⟨g4a, g4b⟩ := abs_le.1 hd4
    obtain ⟨hn1, hn2⟩ := abs_le.1 hnt
    refine ⟨by linarith, by linarith, by linarith, by linarith, ?_, ?_⟩
    · rcases hB with ⟨hpk, hle⟩ | ⟨a, haa, hle⟩
      · rw [← hpk] at hn1 hn2
        linarith
      · rw [hsyn] at haa
        have hap : |(29.53058868 : ℝ) * p.1| ≤ 383898 := by
          rw [abs_mul, abs_of_nonneg (by norm_num : (0 : ℝ) ≤ (29.53058868 : ℝ))]
          linarith [hk]
        have haw : |a - 2415020.75933| ≤ 833950 := by
          rw [show a - 2415020.75933 =
            (adate - (2415020.75933 + 29.53058868 * k1)) + 29.53058868 * p.1
            from by linarith]
          exact (abs_add _ _).trans (by linarith [hoff, hap])
        have hmp := meanphase_dev a p.1 haw
        rw [hsyn] at hmp
        obtain ⟨q1, q2⟩ := abs_le.1 hmp
        linarith
    · rw [hsyn] at ha2
      have hap2 : |(29.53058868 : ℝ) * (p.1 + 1)| ≤ 383928 := by
        rw [abs_mul, abs_of_nonneg (by norm_num : (0 : ℝ) ≤ (29.53058868 : ℝ))]
        have hpp : |p.1 + 1| ≤ 13001 := by rw [abs_le]; constructor <;> linarith
        linarith [hpp]
      have haw2 : |a2 - 2415020.75933| ≤ 833950 := by
        rw [show a2 - 2415020.75933 =
          (adate - (2415020.75933 + 29.53058868 * k1)) + 29.53058868 * (p.1 + 1)
          from by linarith]
        exact (abs_add _ _).trans (by linarith [hoff, hap2])
      have hmp2 := meanphase_dev a2 (p.1 + 1) haw2
      rw [hsyn] at hmp2
      obtain ⟨q1, q2⟩ := abs_le.1 hmp2
      linarith

/-- Witness for claim C1: the universal part applied to the successful
concrete search at 2449818.3 (exit pair (1178, 1179)). -/
theorem claim_C1_phasehunt_witness :
    tpNewFull ((1178 : ℝ), (1179 : ℝ)).1 0.0 < tpQuarter ((1178 : ℝ), (1179 : ℝ)).1 0.25 ∧
    tpQuarter ((1178 : ℝ), (1179 : ℝ)).1 0.25 < tpNewFull ((1178 : ℝ), (1179 : ℝ)).1 0.5 ∧
    tpNewFull ((1178 : ℝ), (1179 : ℝ)).1 0.5 < tpQuarter ((1178 : ℝ), (1179 : ℝ)).1 0.75 ∧
    tpQuarter ((1178 : ℝ), (1179 : ℝ)).1 0.75 <
      tpNewFull (((1178 : ℝ), (1179 : ℝ)).1 + 1) 0.0 ∧
    tpNewFull ((1178 : ℝ), (1179 : ℝ)).1 0.0 ≤ (2449818.3 : ℝ) + 0.95 ∧
    (2449818.3 : ℝ) - 0.95 < tpNewFull (((1178 : ℝ), (1179 : ℝ)).1 + 1) 0.0 :=
  claim_C1_phasehunt.2 2449818.3 (meanphase ((2449818.3 : ℝ) - (45 : ℝ)) 1176) 1176
    (meanphase ((2449818.3 : ℝ) - (45 : ℝ)) 1176) 20 ((1178 : ℝ), (1179 : ℝ))
    huntC1_loop (by norm_num) (huntC1_nt1.trans (by norm_num)) huntC1_nt1

set_option maxHeartbeats 3200000 in
lemma huntCx_loop :
    phasehuntLoop ((2449571.6 : ℝ))
      (meanphase ((2449571.6 : ℝ) - (45 : ℝ)) 1167) 1167
      (meanphase ((2449571.6 : ℝ) - (45 : ℝ)) 1167) 20 = some (1170, 1171) := by
  have b1 := ball_refl (2449571.6 : ℝ)
  have b2 := ball_refl (45 : ℝ)
  have b3 := ball_sub _ _ _ _ 2449526.6 0 b1 b2 (by norm_num [abs_of_nonneg, abs_of_nonpos])
  have b4 : |(2415020.0 : ℝ) - 2415020| ≤ 0 := by norm_num
  have b5 := ball_sub _ _ _ _ 34506.6 0 b3 b4 (by norm_num [abs_of_nonneg, abs_of_nonpos])
  have b6 := ball_refl (36525 : ℝ)
  have b7 := ball_div _ _ _ _ 0.944739219712526 3.33e-16 b5 b6 (by norm_num) (by norm_num [abs_of_nonneg, abs_of_nonpos])
  have b8 := ball_mul _ _ _ _ 0.892532193263032 1.11e-15 b7 b7 (by norm_num [abs_of_nonneg, abs_of_nonpos])
  have b9 := ball_mul _ _ _ _ 0.843210167831626 1.66e-15 b8 b7 (by norm_num [abs_of_nonneg, abs_of_nonpos])
  have b10 := ball_refl (1167 : ℝ)
  have b11 := ball_refl (2415020.75933 : ℝ)
  have b12 := ball_mul _ _ _ _ 34462.19698956 0 synmonth_ball b10 (by norm_num [abs_of_nonneg, abs_of_nonpos])
  have b13 := ball_add _ _ _ _ 2449482.95631956 0 b11 b12 (by norm_num [abs_of_nonneg, abs_of_nonpos])
  have b14 := ball_refl (0.0001178 : ℝ)
  have b15 := ball_mul _ _ _ _ 0.000105140292366385 3.01e-19 b14 b8 (by norm_num [abs_of_nonneg, abs_of_nonpos])
  have b16 := ball_add _ _ _ _ 2449482.9564247 2.93e-10 b13 b15 (by norm_num [abs_of_nonneg, abs_of_nonpos])
  have b17 := ball_refl (0.000000155 : ℝ)
  have b18 := ball_mul _ _ _ _ 0.000000130697576013902 2.88e-22 b17 b9 (by norm_num [abs_of_nonneg, abs_of_nonpos])
  have b19 := ball_sub _ _ _ _ 2449482.95642457 9.91e-10 b16 b18 (by norm_num [abs_of_nonneg, abs_of_nonpos])
  have b20 := ball_refl (166.56 : ℝ)
  have b21 := ball_refl (132.87 : ℝ)
  have b22 := ball_mul _ _ _ _ 125.527500123203 3.74e-13 b21 b7 (by norm_num [abs_of_nonneg, abs_of_nonpos])
  have b23 := ball_add _ _ _ _ 292.087500123203 3.74e-13 b20 b22 (by norm_num [abs_of_nonneg, abs_of_nonpos])
  have b24 := ball_refl (0.009173 : ℝ)
  have b25 := ball_mul _ _ _ _ 0.00818719780880179 1.28e-17 b24 b8 (by norm_num [abs_of_nonneg, abs_of_nonpos])
  have b26 := ball_sub _ _ _ _ 292.079312925394 5.73e-13 b23 b25 (by norm_num [abs_of_nonneg, abs_of_nonpos])
  have b27 : |360 * ((0 : ℤ) : ℝ) + 270 - 270| ≤ 0 := by norm_num
  have b28 := ball_sub _ _ _ _ 22.079312925394 5.73e-13 b26 b27 (by norm_num [abs_of_nonneg, abs_of_nonpos])
  have b29 := ball_torad _ _ 0.385356707126266 1.05e-14 b28 (by norm_num [abs_of_nonneg, abs_of_nonpos])
  have b30 := ball_cos1 _ _ 0.92666440909271 1.81e-10 b29 (by norm_num [abs_of_nonneg, abs_of_nonpos]) (by norm_num [abs_of_nonneg, abs_of_nonpos])
  have b31 : |dsin ((166.56 : ℝ) + ((132.87 : ℝ) * (((2449571.6 : ℝ) - (45 : ℝ) - (2415020.0 : ℝ)) / (36525 : ℝ))) - ((0.009173 : ℝ) * ((((2449571.6 : ℝ) - (45 : ℝ) - (2415020.0 : ℝ)) / (36525 : ℝ)) * (((2449571.6 : ℝ) - (45 : ℝ) - (2415020.0 : ℝ)) / (36525 : ℝ))))) - -0.92666440909271| ≤ 1.81e-10 := by rw [dsin, sin_torad_shift270 ((166.56 : ℝ) + ((132.87 : ℝ) * (((2449571.6 : ℝ) - (45 : ℝ) - (2415020.0 : ℝ)) / (36525 : ℝ))) - ((0.009173 : ℝ) * ((((2449571.6 : ℝ) - (45 : ℝ) - (2415020.0 : ℝ)) / (36525 : ℝ)) * (((2449571.6 : ℝ) - (45 : ℝ) - (2415020.0 : ℝ)) / (36525 : ℝ))))) 0]; exact ball_neg _ _ (-0.92666440909271) 1.81e-10 b30 (by norm_num [abs_of_nonneg, abs_of_nonpos])
  have b32 := ball_refl (0.00033 : ℝ)
  have b33 := ball_mul _ _ _ _ (-0.000305799255000594) 5.98e-14 b32 b31 (by norm_num [abs_of_nonneg, abs_of_nonpos])
  have b34 := ball_add _ _ _ _ 2449482.95611877 1.74e-9 b19 b33 (by norm_num [abs_of_nonneg, abs_of_nonpos])
  have b35 : |meanphase ((2449571.6 : ℝ) - (45 : ℝ)) 1167 - 2449482.95611877| ≤ 1.74e-9 := by
    simp only [meanphase]
    exact ball_center _ _ _ _ b34 (by norm_num [abs_of_nonneg, abs_of_nonpos])
  have b36 := ball_add _ _ _ _ 2449512.48670745 1.74e-9 b35 synmonth_ball (by norm_num [abs_of_nonneg, abs_of_nonpos])
  have b37 : |(2415020.0 : ℝ) - 2415020| ≤ 0 := by norm_num
  have b38 := ball_sub _ _ _ _ 34492.48670745 1.74e-9 b36 b37 (by norm_num [abs_of_nonneg, abs_of_nonpos])
  have b39 := ball_refl (36525 : ℝ)
  have b40 := ball_div _ _ _ _ 0.944352818821355 4.79e-14 b38 b39 (by norm_num) (by norm_num [abs_of_nonneg, abs_of_nonpos])
  have b41 := ball_mul _ _ _ _ 0.891802246415839 9.06e-14 b40 b40 (by norm_num [abs_of_nonneg, abs_of_nonpos])
  have b42 := ball_mul _ _ _ _ 0.842175965234014 1.29e-13 b41 b40 (by norm_num [abs_of_nonneg, abs_of_nonpos])
  have b43 : |(1167 + 1 : ℝ) - 1168| ≤ 0 := by norm_num
  have b44 := ball_refl (2415020.75933 : ℝ)
  have b45 := ball_mul _ _ _ _ 34491.72757824 0 synmonth_ball b43 (by norm_num [abs_of_nonneg, abs_of_nonpos])
  have b46 := ball_add _ _ _ _ 2449512.48690824 0 b44 b45 (by norm_num [abs_of_nonneg, abs_of_nonpos])
  have b47 := ball_refl (0.0001178 : ℝ)
  have b48 := ball_mul _ _ _ _ 0.000105054304627786 1.09e-17 b47 b41 (by norm_num [abs_of_nonneg, abs_of_nonpos])
  have b49 := ball_add _ _ _ _ 2449512.48701329 4.31e-9 b46 b48 (by norm_num [abs_of_nonneg, abs_of_nonpos])
  have b50 := ball_refl (0.000000155 : ℝ)
  have b51 := ball_mul _ _ _ _ 0.000000130537274611272 2.02e-20 b50 b42 (by norm_num [abs_of_nonneg, abs_of_nonpos])
  have b52 := ball_sub _ _ _ _ 2449512.48701316 4.85e-9 b49 b51 (by norm_num [abs_of_nonneg, abs_of_nonpos])
  have b53 := ball_refl (166.56 : ℝ)
  have b54 := ball_refl (132.87 : ℝ)
  have b55 := ball_mul _ _ _ _ 125.476159036793 6.81e-12 b54 b40 (by norm_num [abs_of_nonneg, abs_of_nonpos])
  have b56 := ball_add _ _ _ _ 292.036159036793 6.81e-12 b53 b55 (by norm_num [abs_of_nonneg, abs_of_nonpos])
  have b57 := ball_refl (0.009173 : ℝ)
  have b58 := ball_mul _ _ _ _ 0.00818050200637249 8.33e-16 b57 b41 (by norm_num [abs_of_nonneg, abs_of_nonpos])
  have b59 := ball_sub _ _ _ _ 292.027978534787 7.19e-12 b56 b58 (by norm_num [abs_of_nonneg, abs_of_nonpos])
  have b60 : |360 * ((0 : ℤ) : ℝ) + 270 - 270| ≤ 0 := by norm_num
  have b61 := ball_sub _ _ _ _ 22.027978534787 7.19e-12 b59 b60 (by norm_num [abs_of_nonneg, abs_of_nonpos])
  have b62 := ball_torad _ _ 0.384460752990669 1.26e-13 b61 (by norm_num [abs_of_nonneg, abs_of_nonpos])
  have b63 := ball_cos1 _ _ 0.927000817054067 1.81e-10 b62 (by norm_num [abs_of_nonneg, abs_of_nonpos]) (by norm_num [abs_of_nonneg, abs_of_nonpos])
  have b64 : |dsin ((166.56 : ℝ) + ((132.87 : ℝ) * ((meanphase ((2449571.6 : ℝ) - (45 : ℝ)) 1167 + synmonth - (2415020.0 : ℝ)) / (36525 : ℝ))) - ((0.009173 : ℝ) * (((meanphase ((2449571.6 : ℝ) - (45 : ℝ)) 1167 + synmonth - (2415020.0 : ℝ)) / (36525 : ℝ)) * ((meanphase ((2449571.6 : ℝ) - (45 : ℝ)) 1167 + synmonth - (2415020.0 : ℝ)) / (36525 : ℝ))))) - -0.927000817054067| ≤ 1.81e-10 := by rw [dsin, sin_torad_shift270 ((166.56 : ℝ) + ((132.87 : ℝ) * ((meanphase ((2449571.6 : ℝ) - (45 : ℝ)) 1167 + synmonth - (2415020.0 : ℝ)) / (36525 : ℝ))) - ((0.009173 : ℝ) * (((meanphase ((2449571.6 : ℝ) - (45 : ℝ)) 1167 + synmonth - (2415020.0 : ℝ)) / (36525 : ℝ)) * ((meanphase ((2449571.6 : ℝ) - (45 : ℝ)) 1167 + synmonth - (2415020.0 : ℝ)) / (36525 : ℝ))))) 0]; exact ball_neg _ _ (-0.927000817054067) 1.81e-10 b63 (by norm_num [abs_of_nonneg, abs_of_nonpos])
  have b65 := ball_refl (0.00033 : ℝ)
  have b66 := ball_mul _ _ _ _ (-0.000305910269627842) 5.98e-14 b65 b64 (by norm_num [abs_of_nonneg, abs_of_nonpos])
  have b67 := ball_add _ _ _ _ 2449512.48670725 5.12e-9 b52 b66 (by norm_num [abs_of_nonneg, abs_of_nonpos])
  have b68 : |meanphase (meanphase ((2449571.6 : ℝ) - (45 : ℝ)) 1167 + synmonth) (1167 + 1) - 2449512.48670725| ≤ 5.12e-9 := by
    simp only [meanphase]
    exact ball_center _ _ _ _ b67 (by norm_num [abs_of_nonneg, abs_of_nonpos])
  rw [show (20 : ℕ) = 19 + 1 from rfl, phasehuntLoop_succ,
    if_neg (fun hc => absurd hc.2 (not_lt.2 (ball_le _ _ _ b68 (by norm_num))))]
  have b69 := ball_add _ _ _ _ 2449542.01729613 1.74e-9 b36 synmonth_ball (by norm_num [abs_of_nonneg, abs_of_nonpos])
  have b70 : |(2415020.0 : ℝ) - 2415020| ≤ 0 := by norm_num
  have b71 := ball_sub _ _ _ _ 34522.01729613 1.74e-9 b69 b70 (by norm_num [abs_of_nonneg, abs_of_nonpos])
  have b72 := ball_refl (36525 : ℝ)
  have b73 := ball_div _ _ _ _ 0.945161322275975 4.8e-14 b71 b72 (by norm_num) (by norm_num [abs_of_nonneg, abs_of_nonpos])
  have b74 := ball_mul _ _ _ _ 0.893329925126469 9.13e-14 b73 b73 (by norm_num [abs_of_nonneg, abs_of_nonpos])
  have b75 := ball_mul _ _ _ _ 0.844340893261231 1.3e-13 b74 b73 (by norm_num [abs_of_nonneg, abs_of_nonpos])
  have b76 : |(1167 + 1 + 1 : ℝ) - 1169| ≤ 0 := by norm_num
  have b77 := ball_refl (2415020.75933 : ℝ)
  have b78 := ball_mul _ _ _ _ 34521.25816692 0 synmonth_ball b76 (by norm_num [abs_of_nonneg, abs_of_nonpos])
  have b79 := ball_add _ _ _ _ 2449542.01749692 0 b77 b78 (by norm_num [abs_of_nonneg, abs_of_nonpos])
  have b80 := ball_refl (0.0001178 : ℝ)
  have b81 := ball_mul _ _ _ _ 0.000105234265179898 1.09e-17 b80 b74 (by norm_num [abs_of_nonneg, abs_of_nonpos])
  have b82 := ball_add _ _ _ _ 2449542.01760215 4.27e-9 b79 b81 (by norm_num [abs_of_nonneg, abs_of_nonpos])
  have b83 := ball_refl (0.000000155 : ℝ)
  have b84 := ball_mul _ _ _ _ 0.000000130872838455491 2.04e-20 b83 b75 (by norm_num [abs_of_nonneg, abs_of_nonpos])
  have b85 := ball_sub _ _ _ _ 2449542.01760202 5.15e-9 b82 b84 (by norm_num [abs_of_nonneg, abs_of_nonpos])
  have b86 := ball_refl (166.56 : ℝ)
  have b87 := ball_refl (132.87 : ℝ)
  have b88 := ball_mul _ _ _ _ 125.583584890809 6.58e-12 b87 b73 (by norm_num [abs_of_nonneg, abs_of_nonpos])
  have b89 := ball_add _ _ _ _ 292.143584890809 6.58e-12 b86 b88 (by norm_num [abs_of_nonneg, abs_of_nonpos])
  have b90 := ball_refl (0.009173 : ℝ)
  have b91 := ball_mul _ _ _ _ 0.0081945154031851 8.38e-16 b90 b74 (by norm_num [abs_of_nonneg, abs_of_nonpos])
  have b92 := ball_sub _ _ _ _ 292.135390375406 6.77e-12 b89 b91 (by norm_num [abs_of_nonneg, abs_of_nonpos])
  have b93 : |360 * ((0 : ℤ) : ℝ) + 270 - 270| ≤ 0 := by norm_num
  have b94 := ball_sub _ _ _ _ 22.135390375406 6.77e-12 b92 b93 (by norm_num [abs_of_nonneg, abs_of_nonpos])
  have b95 := ball_torad _ _ 0.386335443265098 1.19e-13 b94 (by norm_num [abs_of_nonneg, abs_of_nonpos])
  have b96 := ball_cos1 _ _ 0.926296068472366 1.81e-10 b95 (by norm_num [abs_of_nonneg, abs_of_nonpos]) (by norm_num [abs_of_nonneg, abs_of_nonpos])
  have b97 : |dsin ((166.56 : ℝ) + ((132.87 : ℝ) * ((meanphase ((2449571.6 : ℝ) - (45 : ℝ)) 1167 + synmonth + synmonth - (2415020.0 : ℝ)) / (36525 : ℝ))) - ((0.009173 : ℝ) * (((meanphase ((2449571.6 : ℝ) - (45 : ℝ)) 1167 + synmonth + synmonth - (2415020.0 : ℝ)) / (36525 : ℝ)) * ((meanphase ((2449571.6 : ℝ) - (45 : ℝ)) 1167 + synmonth + synmonth - (2415020.0 : ℝ)) / (36525 : ℝ))))) - -0.926296068472366| ≤ 1.81e-10 := by rw [dsin, sin_torad_shift270 ((166.56 : ℝ) + ((132.87 : ℝ) * ((meanphase ((2449571.6 : ℝ) - (45 : ℝ)) 1167 + synmonth + synmonth - (2415020.0 : ℝ)) / (36525 : ℝ))) - ((0.009173 : ℝ) * (((meanphase ((2449571.6 : ℝ) - (45 : ℝ)) 1167 + synmonth + synmonth - (2415020.0 : ℝ)) / (36525 : ℝ)) * ((meanphase ((2449571.6 : ℝ) - (45 : ℝ)) 1167 + synmonth + synmonth - (2415020.0 : ℝ)) / (36525 : ℝ))))) 0]; exact ball_neg _ _ (-0.926296068472366) 1.81e-10 b96 (by norm_num [abs_of_nonneg, abs_of_nonpos])
  have b98 := ball_refl (0.00033 : ℝ)
  have b99 := ball_mul _ _ _ _ (-0.000305677702595881) 5.98e-14 b98 b97 (by norm_num [abs_of_nonneg, abs_of_nonpos])
  have b100 := ball_add _ _ _ _ 2449542.01729634 7.45e-9 b85 b99 (by norm_num [abs_of_nonneg, abs_of_nonpos])
  have b101 : |meanphase (meanphase ((2449571.6 : ℝ) - (45 : ℝ)) 1167 + synmonth + synmonth) (1167 + 1 + 1) - 2449542.01729634| ≤ 7.45e-9 := by
    simp only [meanphase]
    exact ball_center _ _ _ _ b100 (by norm_num [abs_of_nonneg, abs_of_nonpos])
  rw [show (19 : ℕ) = 18 + 1 from rfl, phasehuntLoop_succ,
    if_neg (fun hc => absurd hc.2 (not_lt.2 (ball_le _ _ _ b101 (by norm_num))))]
  have b102 := ball_add _ _ _ _ 2449571.54788481 1.74e-9 b69 synmonth_ball (by norm_num [abs_of_nonneg, abs_of_nonpos])
  have b103 : |(2415020.0 : ℝ) - 2415020| ≤ 0 := by norm_num
  have b104 := ball_sub _ _ _ _ 34551.54788481 1.74e-9 b102 b103 (by norm_num [abs_of_nonneg, abs_of_nonpos])
  have b105 := ball_refl (36525 : ℝ)
  have b106 := ball_div _ _ _ _ 0.945969825730595 4.82e-14 b104 b105 (by norm_num) (by norm_num [abs_of_nonneg, abs_of_nonpos])
  have b107 := ball_mul _ _ _ _ 0.894858911192772 9.15e-14 b106 b106 (by norm_num [abs_of_nonneg, abs_of_nonpos])
  have b108 := ball_mul _ _ _ _ 0.846509528274497 1.31e-13 b107 b106 (by norm_num [abs_of_nonneg, abs_of_nonpos])
  have b109 : |(1167 + 1 + 1 + 1 : ℝ) - 1170| ≤ 0 := by norm_num
  have b110 := ball_refl (2415020.75933 : ℝ)
  have b111 := ball_mul _ _ _ _ 34550.7887556 0 synmonth_ball b109 (by norm_num [abs_of_nonneg, abs_of_nonpos])
  have b112 := ball_add _ _ _ _ 2449571.5480856 0 b110 b111 (by norm_num [abs_of_nonneg, abs_of_nonpos])
  have b113 := ball_refl (0.0001178 : ℝ)
  have b114 := ball_mul _ _ _ _ 0.000105414379738509 1.13e-17 b113 b107 (by norm_num [abs_of_nonneg, abs_of_nonpos])
  have b115 := ball_add _ _ _ _ 2449571.54819101 4.38e-9 b112 b114 (by norm_num [abs_of_nonneg, abs_of_nonpos])
  have b116 := ball_refl (0.000000155 : ℝ)
  have b117 := ball_mul _ _ _ _ 0.000000131208976882547 2.04e-20 b116 b108 (by norm_num [abs_of_nonneg, abs_of_nonpos])
  have b118 := ball_sub _ _ _ _ 2449571.54819088 5.59e-9 b115 b117 (by norm_num [abs_of_nonneg, abs_of_nonpos])
  have b119 := ball_refl (166.56 : ℝ)
  have b120 := ball_refl (132.87 : ℝ)
  have b121 := ball_mul _ _ _ _ 125.691010744824 6.57e-12 b120 b106 (by norm_num [abs_of_nonneg, abs_of_nonpos])
  have b122 := ball_add _ _ _ _ 292.251010744824 6.57e-12 b119 b121 (by norm_num [abs_of_nonneg, abs_of_nonpos])
  have b123 := ball_refl (0.009173 : ℝ)
  have b124 := ball_mul _ _ _ _ 0.0082085407923713 8.42e-16 b123 b107 (by norm_num [abs_of_nonneg, abs_of_nonpos])
  have b125 := ball_sub _ _ _ _ 292.242802204032 6.95e-12 b122 b124 (by norm_num [abs_of_nonneg, abs_of_nonpos])
  have b126 : |360 * ((0 : ℤ) : ℝ) + 270 - 270| ≤ 0 := by norm_num
  have b127 := ball_sub _ _ _ _ 22.242802204032 6.95e-12 b125 b126 (by norm_num [abs_of_nonneg, abs_of_nonpos])
  have b128 := ball_torad _ _ 0.38821013333021 1.22e-13 b127 (by norm_num [abs_of_nonneg, abs_of_nonpos])
  have b129 := ball_cos1 _ _ 0.925588064537013 1.81e-10 b128 (by norm_num [abs_of_nonneg, abs_of_nonpos]) (by norm_num [abs_of_nonneg, abs_of_nonpos])
  have b130 : |dsin ((166.56 : ℝ) + ((132.87 : ℝ) * ((meanphase ((2449571.6 : ℝ) - (45 : ℝ)) 1167 + synmonth + synmonth + synmonth - (2415020.0 : ℝ)) / (36525 : ℝ))) - ((0.009173 : ℝ) * (((meanphase ((2449571.6 : ℝ) - (45 : ℝ)) 1167 + synmonth + synmonth + synmonth - (2415020.0 : ℝ)) / (36525 : ℝ)) * ((meanphase ((2449571.6 : ℝ) - (45 : ℝ)) 1167 + synmonth + synmonth + synmonth - (2415020.0 : ℝ)) / (36525 : ℝ))))) - -0.925588064537013| ≤ 1.81e-10 := by rw [dsin, sin_torad_shift270 ((166.56 : ℝ) + ((132.87 : ℝ) * ((meanphase ((2449571.6 : ℝ) - (45 : ℝ)) 1167 + synmonth + synmonth + synmonth - (2415020.0 : ℝ)) / (36525 : ℝ))) - ((0.009173 : ℝ) * (((meanphase ((2449571.6 : ℝ) - (45 : ℝ)) 1167 + synmonth + synmonth + synmonth - (2415020.0 : ℝ)) / (36525 : ℝ)) * ((meanphase ((2449571.6 : ℝ) - (45 : ℝ)) 1167 + synmonth + synmonth + synmonth - (2415020.0 : ℝ)) / (36525 : ℝ))))) 0]; exact ball_neg _ _ (-0.925588064537013) 1.81e-10 b129 (by norm_num [abs_of_nonneg, abs_of_nonpos])
  have b131 := ball_refl (0.00033 : ℝ)
  have b132 := ball_mul _ _ _ _ (-0.000305444061297214) 5.98e-14 b131 b130 (by norm_num [abs_of_nonneg, abs_of_nonpos])
  have b133 := ball_add _ _ _ _ 2449571.54788544 9.66e-9 b118 b132 (by norm_num [abs_of_nonneg, abs_of_nonpos])
  have b134 : |meanphase (meanphase ((2449571.6 : ℝ) - (45 : ℝ)) 1167 + synmonth + synmonth + synmonth) (1167 + 1 + 1 + 1) - 2449571.54788544| ≤ 9.66e-9 := by
    simp only [meanphase]
    exact ball_center _ _ _ _ b133 (by norm_num [abs_of_nonneg, abs_of_nonpos])
  rw [show (18 : ℕ) = 17 + 1 from rfl, phasehuntLoop_succ,
    if_neg (fun hc => absurd hc.2 (not_lt.2 (ball_le _ _ _ b134 (by norm_num))))]
  have b135 := ball_add _ _ _ _ 2449601.07847349 1.74e-9 b102 synmonth_ball (by norm_num [abs_of_nonneg, abs_of_nonpos])
  have b136 : |(2415020.0 : ℝ) - 2415020| ≤ 0 := by norm_num
  have b137 := ball_sub _ _ _ _ 34581.07847349 1.74e-9 b135 b136 (by norm_num [abs_of_nonneg, abs_of_nonpos])
  have b138 := ball_refl (36525 : ℝ)
  have b139 := ball_div _ _ _ _ 0.946778329185216 4.81e-14 b137 b138 (by norm_num) (by norm_num [abs_of_nonneg, abs_of_nonpos])
  have b140 := ball_mul _ _ _ _ 0.896389204614749 9.14e-14 b139 b139 (by norm_num [abs_of_nonneg, abs_of_nonpos])
  have b141 := ball_mul _ _ _ _ 0.848681873444817 1.3e-13 b140 b139 (by norm_num [abs_of_nonneg, abs_of_nonpos])
  have b142 : |(1167 + 1 + 1 + 1 + 1 : ℝ) - 1171| ≤ 0 := by norm_num
  have b143 := ball_refl (2415020.75933 : ℝ)
  have b144 := ball_mul _ _ _ _ 34580.31934428 0 synmonth_ball b142 (by norm_num [abs_of_nonneg, abs_of_nonpos])
  have b145 := ball_add _ _ _ _ 2449601.07867428 0 b143 b144 (by norm_num [abs_of_nonneg, abs_of_nonpos])
  have b146 := ball_refl (0.0001178 : ℝ)
  have b147 := ball_mul _ _ _ _ 0.000105594648303617 1.12e-17 b146 b140 (by norm_num [abs_of_nonneg, abs_of_nonpos])
  have b148 := ball_add _ _ _ _ 2449601.07877987 4.65e-9 b145 b147 (by norm_num [abs_of_nonneg, abs_of_nonpos])
  have b149 := ball_refl (0.000000155 : ℝ)
  have b150 := ball_mul _ _ _ _ 0.000000131545690383947 2.06e-20 b149 b141 (by norm_num [abs_of_nonneg, abs_of_nonpos])
  have b151 := ball_sub _ _ _ _ 2449601.07877974 0.0000000062 b148 b150 (by norm_num [abs_of_nonneg, abs_of_nonpos])
  have b152 := ball_refl (166.56 : ℝ)
  have b153 := ball_refl (132.87 : ℝ)
  have b154 := ball_mul _ _ _ _ 125.79843659884 6.75e-12 b153 b139 (by norm_num [abs_of_nonneg, abs_of_nonpos])
  have b155 := ball_add _ _ _ _ 292.35843659884 6.75e-12 b152 b154 (by norm_num [abs_of_nonneg, abs_of_nonpos])
  have b156 := ball_refl (0.009173 : ℝ)
  have b157 := ball_mul _ _ _ _ 0.00822257817393109 8.41e-16 b156 b140 (by norm_num [abs_of_nonneg, abs_of_nonpos])
  have b158 := ball_sub _ _ _ _ 292.350214020666 6.82e-12 b155 b157 (by norm_num [abs_of_nonneg, abs_of_nonpos])
  have b159 : |360 * ((0 : ℤ) : ℝ) + 270 - 270| ≤ 0 := by norm_num
  have b160 := ball_sub _ _ _ _ 22.350214020666 6.82e-12 b158 b159 (by norm_num [abs_of_nonneg, abs_of_nonpos])
  have b161 := ball_torad _ _ 0.390084823186022 1.2e-13 b160 (by norm_num [abs_of_nonneg, abs_of_nonpos])
  have b162 := ball_cos1 _ _ 0.924876807737345 1.81e-10 b161 (by norm_num [abs_of_nonneg, abs_of_nonpos]) (by norm_num [abs_of_nonneg, abs_of_nonpos])
  have b163 : |dsin ((166.56 : ℝ) + ((132.87 : ℝ) * ((meanphase ((2449571.6 : ℝ) - (45 : ℝ)) 1167 + synmonth + synmonth + synmonth + synmonth - (2415020.0 : ℝ)) / (36525 : ℝ))) - ((0.009173 : ℝ) * (((meanphase ((2449571.6 : ℝ) - (45 : ℝ)) 1167 + synmonth + synmonth + synmonth + synmonth - (2415020.0 : ℝ)) / (36525 : ℝ)) * ((meanphase ((2449571.6 : ℝ) - (45 : ℝ)) 1167 + synmonth + synmonth + synmonth + synmonth - (2415020.0 : ℝ)) / (36525 : ℝ))))) - -0.924876807737345| ≤ 1.81e-10 := by rw [dsin, sin_torad_shift270 ((166.56 : ℝ) + ((132.87 : ℝ) * ((meanphase ((2449571.6 : ℝ) - (45 : ℝ)) 1167 + synmonth + synmonth + synmonth + synmonth - (2415020.0 : ℝ)) / (36525 : ℝ))) - ((0.009173 : ℝ) * (((meanphase ((2449571.6 : ℝ) - (45 : ℝ)) 1167 + synmonth + synmonth + synmonth + synmonth - (2415020.0 : ℝ)) / (36525 : ℝ)) * ((meanphase ((2449571.6 : ℝ) - (45 : ℝ)) 1167 + synmonth + synmonth + synmonth + synmonth - (2415020.0 : ℝ)) / (36525 : ℝ))))) 0]; exact ball_neg _ _ (-0.924876807737345) 1.81e-10 b162 (by norm_num [abs_of_nonneg, abs_of_nonpos])
  have b164 := ball_refl (0.00033 : ℝ)
  have b165 := ball_mul _ _ _ _ (-0.000305209346553324) 5.98e-14 b164 b163 (by norm_num [abs_of_nonneg, abs_of_nonpos])
  have b166 := ball_add _ _ _ _ 2449601.07847453 6.86e-9 b151 b165 (by norm_num [abs_of_nonneg, abs_of_nonpos])
  have b167 : |meanphase (meanphase ((2449571.6 : ℝ) - (45 : ℝ)) 1167 + synmonth + synmonth + synmonth + synmonth) (1167 + 1 + 1 + 1 + 1) - 2449601.07847453| ≤ 6.86e-9 := by
    simp only [meanphase]
    exact ball_center _ _ _ _ b166 (by norm_num [abs_of_nonneg, abs_of_nonpos])
  rw [show (17 : ℕ) = 16 + 1 from rfl, phasehuntLoop_succ,
    if_pos ⟨ball_le _ _ _ b134 (by norm_num),
      ball_gt _ _ _ b167 (by norm_num)⟩]
  simp only [Option.some.injEq, Prod.mk.injEq]
  refine ⟨by norm_num, by norm_num⟩

set_option maxHeartbeats 3200000 in
lemma tpball_1170_00 : |tpNewFull 1170 0.0 - 2449571.86482828| ≤ 6.83e-9 := by
  have b1 : |(1170 + 0.0 : ℝ) - 1170| ≤ 0 := by norm_num
  have b2 := ball_refl (1236.85 : ℝ)
  have b3 := ball_div _ _ _ _ 0.945951408820795 2.4e-16 b1 b2 (by norm_num) (by norm_num [abs_of_nonneg, abs_of_nonpos])
  have b4 := ball_mul _ _ _ _ 0.894824067850047 6.18e-16 b3 b3 (by norm_num [abs_of_nonneg, abs_of_nonpos])
  have b5 := ball_mul _ _ _ _ 0.846460087629507 1.19e-15 b4 b3 (by norm_num [abs_of_nonneg, abs_of_nonpos])
  have b6 : |(1170 + 0.0 : ℝ) - 1170| ≤ 0 := by norm_num
  have b7 := ball_refl (2415020.75933 : ℝ)
  have b8 := ball_mul _ _ _ _ 34550.7887556 0 synmonth_ball b6 (by norm_num [abs_of_nonneg, abs_of_nonpos])
  have b9 := ball_add _ _ _ _ 2449571.5480856 0 b7 b8 (by norm_num [abs_of_nonneg, abs_of_nonpos])
  have b10 := ball_refl (0.0001178 : ℝ)
  have b11 := ball_mul _ _ _ _ 0.000105410275192736 5.37e-19 b10 b4 (by norm_num [abs_of_nonneg, abs_of_nonpos])
  have b12 := ball_add _ _ _ _ 2449571.54819101 2.76e-10 b9 b11 (by norm_num [abs_of_nonneg, abs_of_nonpos])
  have b13 := ball_refl (0.000000155 : ℝ)
  have b14 := ball_mul _ _ _ _ 0.000000131201313582574 6e-22 b13 b5 (by norm_num [abs_of_nonneg, abs_of_nonpos])
  have b15 := ball_sub _ _ _ _ 2449571.54819088 1.48e-9 b12 b14 (by norm_num [abs_of_nonneg, abs_of_nonpos])
  have b16 := ball_refl (166.56 : ℝ)
  have b17 := ball_refl (132.87 : ℝ)
  have b18 := ball_mul _ _ _ _ 125.688563690019 6.36e-14 b17 b3 (by norm_num [abs_of_nonneg, abs_of_nonpos])
  have b19 := ball_add _ _ _ _ 292.248563690019 6.36e-14 b16 b18 (by norm_num [abs_of_nonneg, abs_of_nonpos])
  have b20 := ball_refl (0.009173 : ℝ)
  have b21 := ball_mul _ _ _ _ 0.00820822117438848 6.8e-18 b20 b4 (by norm_num [abs_of_nonneg, abs_of_nonpos])
  have b22 := ball_sub _ _ _ _ 292.240355468845 4.53e-13 b19 b21 (by norm_num [abs_of_nonneg, abs_of_nonpos])
  have b23 : |360 * ((0 : ℤ) : ℝ) + 270 - 270| ≤ 0 := by norm_num
  have b24 := ball_sub _ _ _ _ 22.240355468845 4.53e-13 b22 b23 (by norm_num [abs_of_nonneg, abs_of_nonpos])
  have b25 := ball_torad _ _ 0.388167429745272 8.33e-15 b24 (by norm_num [abs_of_nonneg, abs_of_nonpos])
  have b26 := ball_cos1 _ _ 0.925604228381125 1.81e-10 b25 (by norm_num [abs_of_nonneg, abs_of_nonpos]) (by norm_num [abs_of_nonneg, abs_of_nonpos])
  have b27 : |dsin ((166.56 : ℝ) + ((132.87 : ℝ) * ((1170 + 0.0 : ℝ) / (1236.85 : ℝ))) - ((0.009173 : ℝ) * (((1170 + 0.0 : ℝ) / (1236.85 : ℝ)) * ((1170 + 0.0 : ℝ) / (1236.85 : ℝ))))) - -0.925604228381125| ≤ 1.81e-10 := by rw [dsin, sin_torad_shift270 ((166.56 : ℝ) + ((132.87 : ℝ) * ((1170 + 0.0 : ℝ) / (1236.85 : ℝ))) - ((0.009173 : ℝ) * (((1170 + 0.0 : ℝ) / (1236.85 : ℝ)) * ((1170 + 0.0 : ℝ) / (1236.85 : ℝ))))) 0]; exact ball_neg _ _ (-0.925604228381125) 1.81e-10 b26 (by norm_num [abs_of_nonneg, abs_of_nonpos])
  have b28 := ball_refl (0.00033 : ℝ)
  have b29 := ball_mul _ _ _ _ (-0.000305449395365771) 5.98e-14 b28 b27 (by norm_num [abs_of_nonneg, abs_of_nonpos])
  have b30 := ball_add _ _ _ _ 2449571.54788543 2.09e-9 b15 b29 (by norm_num [abs_of_nonneg, abs_of_nonpos])
  have b31 := ball_refl (359.2242 : ℝ)
  have b32 := ball_refl (29.10535608 : ℝ)
  have b33 : |(1170 + 0.0 : ℝ) - 1170| ≤ 0 := by norm_num
  have b34 := ball_mul _ _ _ _ 34053.2666136 0 b32 b33 (by norm_num [abs_of_nonneg, abs_of_nonpos])
  have b35 := ball_add _ _ _ _ 34412.4908136 0 b31 b34 (by norm_num [abs_of_nonneg, abs_of_nonpos])
  have b36 := ball_refl (0.0000333 : ℝ)
  have b37 := ball_mul _ _ _ _ 0.0000297976414594066 5.55e-20 b36 b4 (by norm_num [abs_of_nonneg, abs_of_nonpos])
  have b38 := ball_sub _ _ _ _ 34412.4907838024 4.15e-11 b35 b37 (by norm_num [abs_of_nonneg, abs_of_nonpos])
  have b39 := ball_refl (0.00000347 : ℝ)
  have b40 := ball_mul _ _ _ _ 0.00000293721650407439 4.84e-21 b39 b5 (by norm_num [abs_of_nonneg, abs_of_nonpos])
  have b41 := ball_sub _ _ _ _ 34412.4907808652 5.81e-11 b38 b40 (by norm_num [abs_of_nonneg, abs_of_nonpos])
  have b42 := ball_refl (306.0253 : ℝ)
  have b43 := ball_refl (385.81691806 : ℝ)
  have b44 : |(1170 + 0.0 : ℝ) - 1170| ≤ 0 := by norm_num
  have b45 := ball_mul _ _ _ _ 451405.7941302 0 b43 b44 (by norm_num [abs_of_nonneg, abs_of_nonpos])
  have b46 := ball_add _ _ _ _ 451711.8194302 0 b42 b45 (by norm_num [abs_of_nonneg, abs_of_nonpos])
  have b47 := ball_refl (0.0107306 : ℝ)
  have b48 := ball_mul _ _ _ _ 0.00960199914247171 1.1e-17 b47 b4 (by norm_num [abs_of_nonneg, abs_of_nonpos])
  have b49 := ball_add _ _ _ _ 451711.829032199 1.43e-10 b46 b48 (by norm_num [abs_of_nonneg, abs_of_nonpos])
  have b50 := ball_refl (0.00001236 : ℝ)
  have b51 := ball_mul _ _ _ _ 0.0000104622466831007 2.13e-20 b50 b5 (by norm_num [abs_of_nonneg, abs_of_nonpos])
  have b52 := ball_add _ _ _ _ 451711.829042661 3.9e-10 b49 b51 (by norm_num [abs_of_nonneg, abs_of_nonpos])
  have b53 := ball_refl (21.2964 : ℝ)
  have b54 := ball_refl (390.67050646 : ℝ)
  have b55 : |(1170 + 0.0 : ℝ) - 1170| ≤ 0 := by norm_num
  have b56 := ball_mul _ _ _ _ 457084.4925582 0 b54 b55 (by norm_num [abs_of_nonneg, abs_of_nonpos])
  have b57 := ball_add _ _ _ _ 457105.7889582 0 b53 b56 (by norm_num [abs_of_nonneg, abs_of_nonpos])
  have b58 := ball_refl (0.0016528 : ℝ)
  have b59 := ball_mul _ _ _ _ 0.00147896521934256 3.34e-18 b58 b4 (by norm_num [abs_of_nonneg, abs_of_nonpos])
  have b60 := ball_sub _ _ _ _ 457105.787479235 2.2e-10 b57 b59 (by norm_num [abs_of_nonneg, abs_of_nonpos])
  have b61 := ball_refl (0.00000239 : ℝ)
  have b62 := ball_mul _ _ _ _ 0.00000202303960943452 4.58e-21 b61 b5 (by norm_num [abs_of_nonneg, abs_of_nonpos])
  have b63 := ball_sub _ _ _ _ 457105.787477212 2.6e-10 b60 b62 (by norm_num [abs_of_nonneg, abs_of_nonpos])
  have b64 := ball_refl (2 : ℝ)
  have b65 := ball_refl (3 : ℝ)
  have b66 := ball_mul _ _ _ _ 68824.9815617304 1.17e-10 b64 b41 (by norm_num [abs_of_nonneg, abs_of_nonpos])
  have b67 := ball_refl (2 : ℝ)
  have b68 := ball_mul _ _ _ _ 903423.658085322 7.8e-10 b67 b52 (by norm_num [abs_of_nonneg, abs_of_nonpos])
  have b69 := ball_mul _ _ _ _ 1355135.48712798 4.17e-9 b65 b52 (by norm_num [abs_of_nonneg, abs_of_nonpos])
  have b70 := ball_refl (2 : ℝ)
  have b71 := ball_mul _ _ _ _ 914211.574954424 5.2e-10 b70 b63 (by norm_num [abs_of_nonneg, abs_of_nonpos])
  have b72 := ball_add _ _ _ _ 486124.319823526 6.49e-10 b41 b52 (by norm_num [abs_of_nonneg, abs_of_nonpos])
  have b73 := ball_sub _ _ _ _ (-417299.338261796) 6.49e-10 b41 b52 (by norm_num [abs_of_nonneg, abs_of_nonpos])
  have b74 := ball_add _ _ _ _ 948624.065735289 7.79e-10 b71 b41 (by norm_num [abs_of_nonneg, abs_of_nonpos])
  have b75 := ball_sub _ _ _ _ 879799.084173559 7.79e-10 b71 b41 (by norm_num [abs_of_nonneg, abs_of_nonpos])
  have b76 := ball_add _ _ _ _ 1365923.40399709 5.91e-9 b71 b52 (by norm_num [abs_of_nonneg, abs_of_nonpos])
  have b77 := ball_sub _ _ _ _ 462499.745911763 9.1e-10 b71 b52 (by norm_num [abs_of_nonneg, abs_of_nonpos])
  have b78 := ball_add _ _ _ _ 937836.148866187 1.04e-9 b41 b68 (by norm_num [abs_of_nonneg, abs_of_nonpos])
  have b79 : |360 * ((95 : ℤ) : ℝ) + 180 - 34380| ≤ 0 := by norm_num
  have b80 := ball_sub _ _ _ _ 32.4907808652 5.81e-11 b41 b79 (by norm_num [abs_of_nonneg, abs_of_nonpos])
  have b81 := ball_torad _ _ 0.567071102641712 1.02e-12 b80 (by norm_num [abs_of_nonneg, abs_of_nonpos])
  have b82 := ball_sin1 _ _ 0.537163896118436 1.82e-10 b81 (by norm_num [abs_of_nonneg, abs_of_nonpos]) (by norm_num [abs_of_nonneg, abs_of_nonpos])
  have b83 : |dsin ((359.2242 : ℝ) + ((29.10535608 : ℝ) * (1170 + 0.0 : ℝ)) - ((0.0000333 : ℝ) * (((1170 + 0.0 : ℝ) / (1236.85 : ℝ)) * ((1170 + 0.0 : ℝ) / (1236.85 : ℝ)))) - ((0.00000347 : ℝ) * ((((1170 + 0.0 : ℝ) / (1236.85 : ℝ)) * ((1170 + 0.0 : ℝ) / (1236.85 : ℝ))) * ((1170 + 0.0 : ℝ) / (1236.85 : ℝ))))) - -0.537163896118436| ≤ 1.82e-10 := by rw [dsin, sin_torad_shift180 ((359.2242 : ℝ) + ((29.10535608 : ℝ) * (1170 + 0.0 : ℝ)) - ((0.0000333 : ℝ) * (((1170 + 0.0 : ℝ) / (1236.85 : ℝ)) * ((1170 + 0.0 : ℝ) / (1236.85 : ℝ)))) - ((0.00000347 : ℝ) * ((((1170 + 0.0 : ℝ) / (1236.85 : ℝ)) * ((1170 + 0.0 : ℝ) / (1236.85 : ℝ))) * ((1170 + 0.0 : ℝ) / (1236.85 : ℝ))))) 95]; exact ball_neg _ _ (-0.537163896118436) 1.82e-10 b82 (by norm_num [abs_of_nonneg, abs_of_nonpos])
  have b84 : |360 * ((191 : ℤ) : ℝ) + 90 - 68850| ≤ 0 := by norm_num
  have b85 := ball_sub _ _ _ _ (-25.0184382696) 1.17e-10 b66 b84 (by norm_num [abs_of_nonneg, abs_of_nonpos])
  have b86 := ball_torad _ _ (-0.436654121511473) 2.05e-12 b85 (by norm_num [abs_of_nonneg, abs_of_nonpos])
  have b87 := ball_cos1 _ _ 0.906171737955724 1.83e-10 b86 (by norm_num [abs_of_nonneg, abs_of_nonpos]) (by norm_num [abs_of_nonneg, abs_of_nonpos])
  have b88 : |dsin ((2 : ℝ) * ((359.2242 : ℝ) + ((29.10535608 : ℝ) * (1170 + 0.0 : ℝ)) - ((0.0000333 : ℝ) * (((1170 + 0.0 : ℝ) / (1236.85 : ℝ)) * ((1170 + 0.0 : ℝ) / (1236.85 : ℝ)))) - ((0.00000347 : ℝ) * ((((1170 + 0.0 : ℝ) / (1236.85 : ℝ)) * ((1170 + 0.0 : ℝ) / (1236.85 : ℝ))) * ((1170 + 0.0 : ℝ) / (1236.85 : ℝ)))))) - 0.906171737955724| ≤ 1.83e-10 := by rw [dsin, sin_torad_shift90 ((2 : ℝ) * ((359.2242 : ℝ) + ((29.10535608 : ℝ) * (1170 + 0.0 : ℝ)) - ((0.0000333 : ℝ) * (((1170 + 0.0 : ℝ) / (1236.85 : ℝ)) * ((1170 + 0.0 : ℝ) / (1236.85 : ℝ)))) - ((0.00000347 : ℝ) * ((((1170 + 0.0 : ℝ) / (1236.85 : ℝ)) * ((1170 + 0.0 : ℝ) / (1236.85 : ℝ))) * ((1170 + 0.0 : ℝ) / (1236.85 : ℝ)))))) 191]; exact b87
  have b89 : |360 * ((1254 : ℤ) : ℝ) + 270 - 451710| ≤ 0 := by norm_num
  have b90 := ball_sub _ _ _ _ 1.829042661 3.9e-10 b52 b89 (by norm_num [abs_of_nonneg, abs_of_nonpos])
  have b91 := ball_torad _ _ 0.0319228165938885 6.81e-12 b90 (by norm_num [abs_of_nonneg, abs_of_nonpos])
  have b92 := ball_cos1 _ _ 0.999490510159552 1.87e-10 b91 (by norm_num [abs_of_nonneg, abs_of_nonpos]) (by norm_num [abs_of_nonneg, abs_of_nonpos])
  have b93 : |dsin ((306.0253 : ℝ) + ((385.81691806 : ℝ) * (1170 + 0.0 : ℝ)) + ((0.0107306 : ℝ) * (((1170 + 0.0 : ℝ) / (1236.85 : ℝ)) * ((1170 + 0.0 : ℝ) / (1236.85 : ℝ)))) + ((0.00001236 : ℝ) * ((((1170 + 0.0 : ℝ) / (1236.85 : ℝ)) * ((1170 + 0.0 : ℝ) / (1236.85 : ℝ))) * ((1170 + 0.0 : ℝ) / (1236.85 : ℝ))))) - -0.999490510159552| ≤ 1.87e-10 := by rw [dsin, sin_torad_shift270 ((306.0253 : ℝ) + ((385.81691806 : ℝ) * (1170 + 0.0 : ℝ)) + ((0.0107306 : ℝ) * (((1170 + 0.0 : ℝ) / (1236.85 : ℝ)) * ((1170 + 0.0 : ℝ) / (1236.85 : ℝ)))) + ((0.00001236 : ℝ) * ((((1170 + 0.0 : ℝ) / (1236.85 : ℝ)) * ((1170 + 0.0 : ℝ) / (1236.85 : ℝ))) * ((1170 + 0.0 : ℝ) / (1236.85 : ℝ))))) 1254]; exact ball_neg _ _ (-0.999490510159552) 1.87e-10 b92 (by norm_num [abs_of_nonneg, abs_of_nonpos])
  have b94 : |360 * ((2509 : ℤ) : ℝ) + 180 - 903420| ≤ 0 := by norm_num
  have b95 := ball_sub _ _ _ _ 3.658085322 7.8e-10 b68 b94 (by norm_num [abs_of_nonneg, abs_of_nonpos])
  have b96 := ball_torad _ _ 0.063845633187777 1.37e-11 b95 (by norm_num [abs_of_nonneg, abs_of_nonpos])
  have b97 := ball_sin1 _ _ 0.0638022667420229 1.94e-10 b96 (by norm_num [abs_of_nonneg, abs_of_nonpos]) (by norm_num [abs_of_nonneg, abs_of_nonpos])
  have b98 : |dsin ((2 : ℝ) * ((306.0253 : ℝ) + ((385.81691806 : ℝ) * (1170 + 0.0 : ℝ)) + ((0.0107306 : ℝ) * (((1170 + 0.0 : ℝ) / (1236.85 : ℝ)) * ((1170 + 0.0 : ℝ) / (1236.85 : ℝ)))) + ((0.00001236 : ℝ) * ((((1170 + 0.0 : ℝ) / (1236.85 : ℝ)) * ((1170 + 0.0 : ℝ) / (1236.85 : ℝ))) * ((1170 + 0.0 : ℝ) / (1236.85 : ℝ)))))) - -0.0638022667420229| ≤ 1.94e-10 := by rw [dsin, sin_torad_shift180 ((2 : ℝ) * ((306.0253 : ℝ) + ((385.81691806 : ℝ) * (1170 + 0.0 : ℝ)) + ((0.0107306 : ℝ) * (((1170 + 0.0 : ℝ) / (1236.85 : ℝ)) * ((1170 + 0.0 : ℝ) / (1236.85 : ℝ)))) + ((0.00001236 : ℝ) * ((((1170 + 0.0 : ℝ) / (1236.85 : ℝ)) * ((1170 + 0.0 : ℝ) / (1236.85 : ℝ))) * ((1170 + 0.0 : ℝ) / (1236.85 : ℝ)))))) 2509]; exact ball_neg _ _ (-0.0638022667420229) 1.94e-10 b97 (by norm_num [abs_of_nonneg, abs_of_nonpos])
  have b99 : |360 * ((3764 : ℤ) : ℝ) + 90 - 1355130| ≤ 0 := by norm_num
  have b100 := ball_sub _ _ _ _ 5.48712798 4.17e-9 b69 b99 (by norm_num [abs_of_nonneg, abs_of_nonpos])
  have b101 := ball_torad _ _ 0.0957684497293056 7.29e-11 b100 (by norm_num [abs_of_nonneg, abs_of_nonpos])
  have b102 := ball_cos1 _ _ 0.995417705870728 2.53e-10 b101 (by norm_num [abs_of_nonneg, abs_of_nonpos]) (by norm_num [abs_of_nonneg, abs_of_nonpos])
  have b103 : |dsin ((3 : ℝ) * ((306.0253 : ℝ) + ((385.81691806 : ℝ) * (1170 + 0.0 : ℝ)) + ((0.0107306 : ℝ) * (((1170 + 0.0 : ℝ) / (1236.85 : ℝ)) * ((1170 + 0.0 : ℝ) / (1236.85 : ℝ)))) + ((0.00001236 : ℝ) * ((((1170 + 0.0 : ℝ) / (1236.85 : ℝ)) * ((1170 + 0.0 : ℝ) / (1236.85 : ℝ))) * ((1170 + 0.0 : ℝ) / (1236.85 : ℝ)))))) - 0.995417705870728| ≤ 2.53e-10 := by rw [dsin, sin_torad_shift90 ((3 : ℝ) * ((306.0253 : ℝ) + ((385.81691806 : ℝ) * (1170 + 0.0 : ℝ)) + ((0.0107306 : ℝ) * (((1170 + 0.0 : ℝ) / (1236.85 : ℝ)) * ((1170 + 0.0 : ℝ) / (1236.85 : ℝ)))) + ((0.00001236 : ℝ) * ((((1170 + 0.0 : ℝ) / (1236.85 : ℝ)) * ((1170 + 0.0 : ℝ) / (1236.85 : ℝ))) * ((1170 + 0.0 : ℝ) / (1236.85 : ℝ)))))) 3764]; exact b102
  have b104 : |360 * ((2539 : ℤ) : ℝ) + 180 - 914220| ≤ 0 := by norm_num
  have b105 := ball_sub _ _ _ _ (-8.425045576) 5.2e-10 b71 b104 (by norm_num [abs_of_nonneg, abs_of_nonpos])
  have b106 := ball_torad _ _ (-0.147044784931782) 9.08e-12 b105 (by norm_num [abs_of_nonneg, abs_of_nonpos])
  have b107 := ball_sin1 _ _ (-0.146515452994968) 1.9e-10 b106 (by norm_num [abs_of_nonneg, abs_of_nonpos]) (by norm_num [abs_of_nonneg, abs_of_nonpos])
  have b108 : |dsin ((2 : ℝ) * ((21.2964 : ℝ) + ((390.67050646 : ℝ) * (1170 + 0.0 : ℝ)) - ((0.0016528 : ℝ) * (((1170 + 0.0 : ℝ) / (1236.85 : ℝ)) * ((1170 + 0.0 : ℝ) / (1236.85 : ℝ)))) - ((0.00000239 : ℝ) * ((((1170 + 0.0 : ℝ) / (1236.85 : ℝ)) * ((1170 + 0.0 : ℝ) / (1236.85 : ℝ))) * ((1170 + 0.0 : ℝ) / (1236.85 : ℝ)))))) - 0.146515452994968| ≤ 1.9e-10 := by rw [dsin, sin_torad_shift180 ((2 : ℝ) * ((21.2964 : ℝ) + ((390.67050646 : ℝ) * (1170 + 0.0 : ℝ)) - ((0.0016528 : ℝ) * (((1170 + 0.0 : ℝ) / (1236.85 : ℝ)) * ((1170 + 0.0 : ℝ) / (1236.85 : ℝ)))) - ((0.00000239 : ℝ) * ((((1170 + 0.0 : ℝ) / (1236.85 : ℝ)) * ((1170 + 0.0 : ℝ) / (1236.85 : ℝ))) * ((1170 + 0.0 : ℝ) / (1236.85 : ℝ)))))) 2539]; exact ball_neg _ _ 0.146515452994968 1.9e-10 b107 (by norm_num [abs_of_nonneg, abs_of_nonpos])
  have b109 : |360 * ((1350 : ℤ) : ℝ) + 90 - 486090| ≤ 0 := by norm_num
  have b110 := ball_sub _ _ _ _ 34.319823526 6.49e-10 b72 b109 (by norm_num [abs_of_nonneg, abs_of_nonpos])
  have b111 := ball_torad _ _ 0.59899391923211 1.14e-11 b110 (by norm_num [abs_of_nonneg, abs_of_nonpos])
  have b112 := ball_cos1 _ _ 0.825903273045364 1.92e-10 b111 (by norm_num [abs_of_nonneg, abs_of_nonpos]) (by norm_num [abs_of_nonneg, abs_of_nonpos])
  have b113 : |dsin ((359.2242 : ℝ) + ((29.10535608 : ℝ) * (1170 + 0.0 : ℝ)) - ((0.0000333 : ℝ) * (((1170 + 0.0 : ℝ) / (1236.85 : ℝ)) * ((1170 + 0.0 : ℝ) / (1236.85 : ℝ)))) - ((0.00000347 : ℝ) * ((((1170 + 0.0 : ℝ) / (1236.85 : ℝ)) * ((1170 + 0.0 : ℝ) / (1236.85 : ℝ))) * ((1170 + 0.0 : ℝ) / (1236.85 : ℝ)))) + ((306.0253 : ℝ) + ((385.81691806 : ℝ) * (1170 + 0.0 : ℝ)) + ((0.0107306 : ℝ) * (((1170 + 0.0 : ℝ) / (1236.85 : ℝ)) * ((1170 + 0.0 : ℝ) / (1236.85 : ℝ)))) + ((0.00001236 : ℝ) * ((((1170 + 0.0 : ℝ) / (1236.85 : ℝ)) * ((1170 + 0.0 : ℝ) / (1236.85 : ℝ))) * ((1170 + 0.0 : ℝ) / (1236.85 : ℝ)))))) - 0.825903273045364| ≤ 1.92e-10 := by rw [dsin, sin_torad_shift90 ((359.2242 : ℝ) + ((29.10535608 : ℝ) * (1170 + 0.0 : ℝ)) - ((0.0000333 : ℝ) * (((1170 + 0.0 : ℝ) / (1236.85 : ℝ)) * ((1170 + 0.0 : ℝ) / (1236.85 : ℝ)))) - ((0.00000347 : ℝ) * ((((1170 + 0.0 : ℝ) / (1236.85 : ℝ)) * ((1170 + 0.0 : ℝ) / (1236.85 : ℝ))) * ((1170 + 0.0 : ℝ) / (1236.85 : ℝ)))) + ((306.0253 : ℝ) + ((385.81691806 : ℝ) * (1170 + 0.0 : ℝ)) + ((0.0107306 : ℝ) * (((1170 + 0.0 : ℝ) / (1236.85 : ℝ)) * ((1170 + 0.0 : ℝ) / (1236.85 : ℝ)))) + ((0.00001236 : ℝ) * ((((1170 + 0.0 : ℝ) / (1236.85 : ℝ)) * ((1170 + 0.0 : ℝ) / (1236.85 : ℝ))) * ((1170 + 0.0 : ℝ) / (1236.85 : ℝ)))))) 1350]; exact b112
  have b114 : |360 * ((-1160 : ℤ) : ℝ) + 270 - -417330| ≤ 0 := by norm_num
  have b115 := ball_sub _ _ _ _ 30.661738204 6.49e-10 b73 b114 (by norm_num [abs_of_nonneg, abs_of_nonpos])
  have b116 := ball_torad _ _ 0.535148286044333 1.14e-11 b115 (by norm_num [abs_of_nonneg, abs_of_nonpos])
  have b117 := ball_cos1 _ _ 0.860193017505943 1.92e-10 b116 (by norm_num [abs_of_nonneg, abs_of_nonpos]) (by norm_num [abs_of_nonneg, abs_of_nonpos])
  have b118 : |dsin ((359.2242 : ℝ) + ((29.10535608 : ℝ) * (1170 + 0.0 : ℝ)) - ((0.0000333 : ℝ) * (((1170 + 0.0 : ℝ) / (1236.85 : ℝ)) * ((1170 + 0.0 : ℝ) / (1236.85 : ℝ)))) - ((0.00000347 : ℝ) * ((((1170 + 0.0 : ℝ) / (1236.85 : ℝ)) * ((1170 + 0.0 : ℝ) / (1236.85 : ℝ))) * ((1170 + 0.0 : ℝ) / (1236.85 : ℝ)))) - ((306.0253 : ℝ) + ((385.81691806 : ℝ) * (1170 + 0.0 : ℝ)) + ((0.0107306 : ℝ) * (((1170 + 0.0 : ℝ) / (1236.85 : ℝ)) * ((1170 + 0.0 : ℝ) / (1236.85 : ℝ)))) + ((0.00001236 : ℝ) * ((((1170 + 0.0 : ℝ) / (1236.85 : ℝ)) * ((1170 + 0.0 : ℝ) / (1236.85 : ℝ))) * ((1170 + 0.0 : ℝ) / (1236.85 : ℝ)))))) - -0.860193017505943| ≤ 1.92e-10 := by rw [dsin, sin_torad_shift270 ((359.2242 : ℝ) + ((29.10535608 : ℝ) * (1170 + 0.0 : ℝ)) - ((0.0000333 : ℝ) * (((1170 + 0.0 : ℝ) / (1236.85 : ℝ)) * ((1170 + 0.0 : ℝ) / (1236.85 : ℝ)))) - ((0.00000347 : ℝ) * ((((1170 + 0.0 : ℝ) / (1236.85 : ℝ)) * ((1170 + 0.0 : ℝ) / (1236.85 : ℝ))) * ((1170 + 0.0 : ℝ) / (1236.85 : ℝ)))) - ((306.0253 : ℝ) + ((385.81691806 : ℝ) * (1170 + 0.0 : ℝ)) + ((0.0107306 : ℝ) * (((1170 + 0.0 : ℝ) / (1236.85 : ℝ)) * ((1170 + 0.0 : ℝ) / (1236.85 : ℝ)))) + ((0.00001236 : ℝ) * ((((1170 + 0.0 : ℝ) / (1236.85 : ℝ)) * ((1170 + 0.0 : ℝ) / (1236.85 : ℝ))) * ((1170 + 0.0 : ℝ) / (1236.85 : ℝ)))))) (-1160)]; exact ball_neg _ _ (-0.860193017505943) 1.92e-10 b117 (by norm_num [abs_of_nonneg, abs_of_nonpos])
  have b119 : |360 * ((2635 : ℤ) : ℝ) - 948600| ≤ 0 := by norm_num
  have b120 := ball_sub _ _ _ _ 24.065735289 7.79e-10 b74 b119 (by norm_num [abs_of_nonneg, abs_of_nonpos])
  have b121 := ball_torad _ _ 0.420026317706439 1.37e-11 b120 (by norm_num [abs_of_nonneg, abs_of_nonpos])
  have b122 := ball_sin1 _ _ 0.407784483325037 1.94e-10 b121 (by norm_num [abs_of_nonneg, abs_of_nonpos]) (by norm_num [abs_of_nonneg, abs_of_nonpos])
  have b123 : |dsin ((2 : ℝ) * ((21.2964 : ℝ) + ((390.67050646 : ℝ) * (1170 + 0.0 : ℝ)) - ((0.0016528 : ℝ) * (((1170 + 0.0 : ℝ) / (1236.85 : ℝ)) * ((1170 + 0.0 : ℝ) / (1236.85 : ℝ)))) - ((0.00000239 : ℝ) * ((((1170 + 0.0 : ℝ) / (1236.85 : ℝ)) * ((1170 + 0.0 : ℝ) / (1236.85 : ℝ))) * ((1170 + 0.0 : ℝ) / (1236.85 : ℝ))))) + ((359.2242 : ℝ) + ((29.10535608 : ℝ) * (1170 + 0.0 : ℝ)) - ((0.0000333 : ℝ) * (((1170 + 0.0 : ℝ) / (1236.85 : ℝ)) * ((1170 + 0.0 : ℝ) / (1236.85 : ℝ)))) - ((0.00000347 : ℝ) * ((((1170 + 0.0 : ℝ) / (1236.85 : ℝ)) * ((1170 + 0.0 : ℝ) / (1236.85 : ℝ))) * ((1170 + 0.0 : ℝ) / (1236.85 : ℝ)))))) - 0.407784483325037| ≤ 1.94e-10 := by rw [dsin, sin_torad_shift ((2 : ℝ) * ((21.2964 : ℝ) + ((390.67050646 : ℝ) * (1170 + 0.0 : ℝ)) - ((0.0016528 : ℝ) * (((1170 + 0.0 : ℝ) / (1236.85 : ℝ)) * ((1170 + 0.0 : ℝ) / (1236.85 : ℝ)))) - ((0.00000239 : ℝ) * ((((1170 + 0.0 : ℝ) / (1236.85 : ℝ)) * ((1170 + 0.0 : ℝ) / (1236.85 : ℝ))) * ((1170 + 0.0 : ℝ) / (1236.85 : ℝ))))) + ((359.2242 : ℝ) + ((29.10535608 : ℝ) * (1170 + 0.0 : ℝ)) - ((0.0000333 : ℝ) * (((1170 + 0.0 : ℝ) / (1236.85 : ℝ)) * ((1170 + 0.0 : ℝ) / (1236.85 : ℝ)))) - ((0.00000347 : ℝ) * ((((1170 + 0.0 : ℝ) / (1236.85 : ℝ)) * ((1170 + 0.0 : ℝ) / (1236.85 : ℝ))) * ((1170 + 0.0 : ℝ) / (1236.85 : ℝ)))))) 2635]; exact b122
  have b124 : |360 * ((2444 : ℤ) : ℝ) - 879840| ≤ 0 := by norm_num
  have b125 := ball_sub _ _ _ _ (-40.915826441) 7.79e-10 b75 b124 (by norm_num [abs_of_nonneg, abs_of_nonpos])
  have b126 := ball_torad _ _ (-0.714115887570003) 1.37e-11 b125 (by norm_num [abs_of_nonneg, abs_of_nonpos])
  have b127 := ball_sin1 _ _ (-0.654949573228507) 1.94e-10 b126 (by norm_num [abs_of_nonneg, abs_of_nonpos]) (by norm_num [abs_of_nonneg, abs_of_nonpos])
  have b128 : |dsin ((2 : ℝ) * ((21.2964 : ℝ) + ((390.67050646 : ℝ) * (1170 + 0.0 : ℝ)) - ((0.0016528 : ℝ) * (((1170 + 0.0 : ℝ) / (1236.85 : ℝ)) * ((1170 + 0.0 : ℝ) / (1236.85 : ℝ)))) - ((0.00000239 : ℝ) * ((((1170 + 0.0 : ℝ) / (1236.85 : ℝ)) * ((1170 + 0.0 : ℝ) / (1236.85 : ℝ))) * ((1170 + 0.0 : ℝ) / (1236.85 : ℝ))))) - ((359.2242 : ℝ) + ((29.10535608 : ℝ) * (1170 + 0.0 : ℝ)) - ((0.0000333 : ℝ) * (((1170 + 0.0 : ℝ) / (1236.85 : ℝ)) * ((1170 + 0.0 : ℝ) / (1236.85 : ℝ)))) - ((0.00000347 : ℝ) * ((((1170 + 0.0 : ℝ) / (1236.85 : ℝ)) * ((1170 + 0.0 : ℝ) / (1236.85 : ℝ))) * ((1170 + 0.0 : ℝ) / (1236.85 : ℝ)))))) - -0.654949573228507| ≤ 1.94e-10 := by rw [dsin, sin_torad_shift ((2 : ℝ) * ((21.2964 : ℝ) + ((390.67050646 : ℝ) * (1170 + 0.0 : ℝ)) - ((0.0016528 : ℝ) * (((1170 + 0.0 : ℝ) / (1236.85 : ℝ)) * ((1170 + 0.0 : ℝ) / (1236.85 : ℝ)))) - ((0.00000239 : ℝ) * ((((1170 + 0.0 : ℝ) / (1236.85 : ℝ)) * ((1170 + 0.0 : ℝ) / (1236.85 : ℝ))) * ((1170 + 0.0 : ℝ) / (1236.85 : ℝ))))) - ((359.2242 : ℝ) + ((29.10535608 : ℝ) * (1170 + 0.0 : ℝ)) - ((0.0000333 : ℝ) * (((1170 + 0.0 : ℝ) / (1236.85 : ℝ)) * ((1170 + 0.0 : ℝ) / (1236.85 : ℝ)))) - ((0.00000347 : ℝ) * ((((1170 + 0.0 : ℝ) / (1236.85 : ℝ)) * ((1170 + 0.0 : ℝ) / (1236.85 : ℝ))) * ((1170 + 0.0 : ℝ) / (1236.85 : ℝ)))))) 2444]; exact b127
  have b129 : |360 * ((3794 : ℤ) : ℝ) + 90 - 1365930| ≤ 0 := by norm_num
  have b130 := ball_sub _ _ _ _ (-6.59600291) 5.91e-9 b76 b129 (by norm_num [abs_of_nonneg, abs_of_nonpos])
  have b131 := ball_torad _ _ (-0.115121968250627) 1.04e-10 b130 (by norm_num [abs_of_nonneg, abs_of_nonpos])
  have b132 := ball_cos1 _ _ 0.993380781472405 2.85e-10 b131 (by norm_num [abs_of_nonneg, abs_of_nonpos]) (by norm_num [abs_of_nonneg, abs_of_nonpos])
  have b133 : |dsin ((2 : ℝ) * ((21.2964 : ℝ) + ((390.67050646 : ℝ) * (1170 + 0.0 : ℝ)) - ((0.0016528 : ℝ) * (((1170 + 0.0 : ℝ) / (1236.85 : ℝ)) * ((1170 + 0.0 : ℝ) / (1236.85 : ℝ)))) - ((0.00000239 : ℝ) * ((((1170 + 0.0 : ℝ) / (1236.85 : ℝ)) * ((1170 + 0.0 : ℝ) / (1236.85 : ℝ))) * ((1170 + 0.0 : ℝ) / (1236.85 : ℝ))))) + ((306.0253 : ℝ) + ((385.81691806 : ℝ) * (1170 + 0.0 : ℝ)) + ((0.0107306 : ℝ) * (((1170 + 0.0 : ℝ) / (1236.85 : ℝ)) * ((1170 + 0.0 : ℝ) / (1236.85 : ℝ)))) + ((0.00001236 : ℝ) * ((((1170 + 0.0 : ℝ) / (1236.85 : ℝ)) * ((1170 + 0.0 : ℝ) / (1236.85 : ℝ))) * ((1170 + 0.0 : ℝ) / (1236.85 : ℝ)))))) - 0.993380781472405| ≤ 2.85e-10 := by rw [dsin, sin_torad_shift90 ((2 : ℝ) * ((21.2964 : ℝ) + ((390.67050646 : ℝ) * (1170 + 0.0 : ℝ)) - ((0.0016528 : ℝ) * (((1170 + 0.0 : ℝ) / (1236.85 : ℝ)) * ((1170 + 0.0 : ℝ) / (1236.85 : ℝ)))) - ((0.00000239 : ℝ) * ((((1170 + 0.0 : ℝ) / (1236.85 : ℝ)) * ((1170 + 0.0 : ℝ) / (1236.85 : ℝ))) * ((1170 + 0.0 : ℝ) / (1236.85 : ℝ))))) + ((306.0253 : ℝ) + ((385.81691806 : ℝ) * (1170 + 0.0 : ℝ)) + ((0.0107306 : ℝ) * (((1170 + 0.0 : ℝ) / (1236.85 : ℝ)) * ((1170 + 0.0 : ℝ) / (1236.85 : ℝ)))) + ((0.00001236 : ℝ) * ((((1170 + 0.0 : ℝ) / (1236.85 : ℝ)) * ((1170 + 0.0 : ℝ) / (1236.85 : ℝ))) * ((1170 + 0.0 : ℝ) / (1236.85 : ℝ)))))) 3794]; exact b132
  have b134 : |360 * ((1284 : ℤ) : ℝ) + 270 - 462510| ≤ 0 := by norm_num
  have b135 := ball_sub _ _ _ _ (-10.254088237) 9.1e-10 b77 b134 (by norm_num [abs_of_nonneg, abs_of_nonpos])
  have b136 := ball_torad _ _ (-0.178967601525671) 1.59e-11 b135 (by norm_num [abs_of_nonneg, abs_of_nonpos])
  have b137 := ball_cos1 _ _ 0.984027998300567 1.96e-10 b136 (by norm_num [abs_of_nonneg, abs_of_nonpos]) (by norm_num [abs_of_nonneg, abs_of_nonpos])
  have b138 : |dsin ((2 : ℝ) * ((21.2964 : ℝ) + ((390.67050646 : ℝ) * (1170 + 0.0 : ℝ)) - ((0.0016528 : ℝ) * (((1170 + 0.0 : ℝ) / (1236.85 : ℝ)) * ((1170 + 0.0 : ℝ) / (1236.85 : ℝ)))) - ((0.00000239 : ℝ) * ((((1170 + 0.0 : ℝ) / (1236.85 : ℝ)) * ((1170 + 0.0 : ℝ) / (1236.85 : ℝ))) * ((1170 + 0.0 : ℝ) / (1236.85 : ℝ))))) - ((306.0253 : ℝ) + ((385.81691806 : ℝ) * (1170 + 0.0 : ℝ)) + ((0.0107306 : ℝ) * (((1170 + 0.0 : ℝ) / (1236.85 : ℝ)) * ((1170 + 0.0 : ℝ) / (1236.85 : ℝ)))) + ((0.00001236 : ℝ) * ((((1170 + 0.0 : ℝ) / (1236.85 : ℝ)) * ((1170 + 0.0 : ℝ) / (1236.85 : ℝ))) * ((1170 + 0.0 : ℝ) / (1236.85 : ℝ)))))) - -0.984027998300567| ≤ 1.96e-10 := by rw [dsin, sin_torad_shift270 ((2 : ℝ) * ((21.2964 : ℝ) + ((390.67050646 : ℝ) * (1170 + 0.0 : ℝ)) - ((0.0016528 : ℝ) * (((1170 + 0.0 : ℝ) / (1236.85 : ℝ)) * ((1170 + 0.0 : ℝ) / (1236.85 : ℝ)))) - ((0.00000239 : ℝ) * ((((1170 + 0.0 : ℝ) / (1236.85 : ℝ)) * ((1170 + 0.0 : ℝ) / (1236.85 : ℝ))) * ((1170 + 0.0 : ℝ) / (1236.85 : ℝ))))) - ((306.0253 : ℝ) + ((385.81691806 : ℝ) * (1170 + 0.0 : ℝ)) + ((0.0107306 : ℝ) * (((1170 + 0.0 : ℝ) / (1236.85 : ℝ)) * ((1170 + 0.0 : ℝ) / (1236.85 : ℝ)))) + ((0.00001236 : ℝ) * ((((1170 + 0.0 : ℝ) / (1236.85 : ℝ)) * ((1170 + 0.0 : ℝ) / (1236.85 : ℝ))) * ((1170 + 0.0 : ℝ) / (1236.85 : ℝ)))))) 1284]; exact ball_neg _ _ (-0.984027998300567) 1.96e-10 b137 (by norm_num [abs_of_nonneg, abs_of_nonpos])
  have b139 : |360 * ((2605 : ℤ) : ℝ) - 937800| ≤ 0 := by norm_num
  have b140 := ball_sub _ _ _ _ 36.148866187 1.04e-9 b78 b139 (by norm_num [abs_of_nonneg, abs_of_nonpos])
  have b141 := ball_torad _ _ 0.630916735825998 1.82e-11 b140 (by norm_num [abs_of_nonneg, abs_of_nonpos])
  have b142 := ball_sin1 _ _ 0.589885258043417 1.99e-10 b141 (by norm_num [abs_of_nonneg, abs_of_nonpos]) (by norm_num [abs_of_nonneg, abs_of_nonpos])
  have b143 : |dsin ((359.2242 : ℝ) + ((29.10535608 : ℝ) * (1170 + 0.0 : ℝ)) - ((0.0000333 : ℝ) * (((1170 + 0.0 : ℝ) / (1236.85 : ℝ)) * ((1170 + 0.0 : ℝ) / (1236.85 : ℝ)))) - ((0.00000347 : ℝ) * ((((1170 + 0.0 : ℝ) / (1236.85 : ℝ)) * ((1170 + 0.0 : ℝ) / (1236.85 : ℝ))) * ((1170 + 0.0 : ℝ) / (1236.85 : ℝ)))) + ((2 : ℝ) * ((306.0253 : ℝ) + ((385.81691806 : ℝ) * (1170 + 0.0 : ℝ)) + ((0.0107306 : ℝ) * (((1170 + 0.0 : ℝ) / (1236.85 : ℝ)) * ((1170 + 0.0 : ℝ) / (1236.85 : ℝ)))) + ((0.00001236 : ℝ) * ((((1170 + 0.0 : ℝ) / (1236.85 : ℝ)) * ((1170 + 0.0 : ℝ) / (1236.85 : ℝ))) * ((1170 + 0.0 : ℝ) / (1236.85 : ℝ))))))) - 0.589885258043417| ≤ 1.99e-10 := by rw [dsin, sin_torad_shift ((359.2242 : ℝ) + ((29.10535608 : ℝ) * (1170 + 0.0 : ℝ)) - ((0.0000333 : ℝ) * (((1170 + 0.0 : ℝ) / (1236.85 : ℝ)) * ((1170 + 0.0 : ℝ) / (1236.85 : ℝ)))) - ((0.00000347 : ℝ) * ((((1170 + 0.0 : ℝ) / (1236.85 : ℝ)) * ((1170 + 0.0 : ℝ) / (1236.85 : ℝ))) * ((1170 + 0.0 : ℝ) / (1236.85 : ℝ)))) + ((2 : ℝ) * ((306.0253 : ℝ) + ((385.81691806 : ℝ) * (1170 + 0.0 : ℝ)) + ((0.0107306 : ℝ) * (((1170 + 0.0 : ℝ) / (1236.85 : ℝ)) * ((1170 + 0.0 : ℝ) / (1236.85 : ℝ)))) + ((0.00001236 : ℝ) * ((((1170 + 0.0 : ℝ) / (1236.85 : ℝ)) * ((1170 + 0.0 : ℝ) / (1236.85 : ℝ))) * ((1170 + 0.0 : ℝ) / (1236.85 : ℝ))))))) 2605]; exact b142
  have b144 := ball_refl (0.1734 : ℝ)
  have b145 := ball_refl (0.000393 : ℝ)
  have b146 := ball_mul _ _ _ _ 0.000371758903666572 5.3e-19 b145 b3 (by norm_num [abs_of_nonneg, abs_of_nonpos])
  have b147 := ball_sub _ _ _ _ 0.173028241096333 4.29e-16 b144 b146 (by norm_num [abs_of_nonneg, abs_of_nonpos])
  have b148 := ball_mul _ _ _ _ (-0.0929445241258263) 3.15e-11 b147 b83 (by norm_num [abs_of_nonneg, abs_of_nonpos])
  have b149 := ball_refl (0.0021 : ℝ)
  have b150 := ball_mul _ _ _ _ 0.00190296064970702 3.85e-13 b149 b88 (by norm_num [abs_of_nonneg, abs_of_nonpos])
  have b151 := ball_add _ _ _ _ (-0.0910415634761193) 3.19e-11 b148 b150 (by norm_num [abs_of_nonneg, abs_of_nonpos])
  have b152 := ball_refl (0.4068 : ℝ)
  have b153 := ball_mul _ _ _ _ (-0.406592739532906) 7.61e-11 b152 b93 (by norm_num [abs_of_nonneg, abs_of_nonpos])
  have b154 := ball_sub _ _ _ _ 0.315551176056787 1.09e-10 b151 b153 (by norm_num [abs_of_nonneg, abs_of_nonpos])
  have b155 := ball_refl (0.0161 : ℝ)
  have b156 := ball_mul _ _ _ _ (-0.00102721649454657) 3.13e-12 b155 b98 (by norm_num [abs_of_nonneg, abs_of_nonpos])
  have b157 := ball_add _ _ _ _ 0.31452395956224 1.13e-10 b154 b156 (by norm_num [abs_of_nonneg, abs_of_nonpos])
  have b158 := ball_refl (0.0004 : ℝ)
  have b159 := ball_mul _ _ _ _ 0.000398167082348291 1.02e-13 b158 b103 (by norm_num [abs_of_nonneg, abs_of_nonpos])
  have b160 := ball_sub _ _ _ _ 0.314125792479892 1.14e-10 b157 b159 (by norm_num [abs_of_nonneg, abs_of_nonpos])
  have b161 := ball_refl (0.0104 : ℝ)
  have b162 := ball_mul _ _ _ _ 0.00152376071114767 1.98e-12 b161 b108 (by norm_num [abs_of_nonneg, abs_of_nonpos])
  have b163 := ball_add _ _ _ _ 0.31564955319104 1.16e-10 b160 b162 (by norm_num [abs_of_nonneg, abs_of_nonpos])
  have b164 := ball_refl (0.0051 : ℝ)
  have b165 := ball_mul _ _ _ _ 0.00421210669253136 9.8e-13 b164 b113 (by norm_num [abs_of_nonneg, abs_of_nonpos])
  have b166 := ball_sub _ _ _ _ 0.311437446498509 1.17e-10 b163 b165 (by norm_num [abs_of_nonneg, abs_of_nonpos])
  have b167 := ball_refl (0.0074 : ℝ)
  have b168 := ball_mul _ _ _ _ (-0.00636542832954398) 1.43e-12 b167 b118 (by norm_num [abs_of_nonneg, abs_of_nonpos])
  have b169 := ball_sub _ _ _ _ 0.317802874828053 1.19e-10 b166 b168 (by norm_num [abs_of_nonneg, abs_of_nonpos])
  have b170 := ball_refl (0.0004 : ℝ)
  have b171 := ball_mul _ _ _ _ 0.000163113793330015 7.77e-14 b170 b123 (by norm_num [abs_of_nonneg, abs_of_nonpos])
  have b172 := ball_add _ _ _ _ 0.317965988621383 1.2e-10 b169 b171 (by norm_num [abs_of_nonneg, abs_of_nonpos])
  have b173 := ball_refl (0.0004 : ℝ)
  have b174 := ball_mul _ _ _ _ (-0.000261979829291403) 7.77e-14 b173 b128 (by norm_num [abs_of_nonneg, abs_of_nonpos])
  have b175 := ball_sub _ _ _ _ 0.318227968450674 1.21e-10 b172 b174 (by norm_num [abs_of_nonneg, abs_of_nonpos])
  have b176 := ball_refl (0.0006 : ℝ)
  have b177 := ball_mul _ _ _ _ 0.000596028468883443 1.71e-13 b176 b133 (by norm_num [abs_of_nonneg, abs_of_nonpos])
  have b178 := ball_sub _ _ _ _ 0.317631939981791 1.22e-10 b175 b177 (by norm_num [abs_of_nonneg, abs_of_nonpos])
  have b179 : |(0.0010 : ℝ) - 0.001| ≤ 0 := by norm_num
  have b180 := ball_mul _ _ _ _ (-0.000984027998300567) 1.96e-13 b179 b138 (by norm_num [abs_of_nonneg, abs_of_nonpos])
  have b181 := ball_add _ _ _ _ 0.31664791198349 1.23e-10 b178 b180 (by norm_num [abs_of_nonneg, abs_of_nonpos])
  have b182 := ball_refl (0.0005 : ℝ)
  have b183 := ball_mul _ _ _ _ 0.000294942629021709 9.96e-14 b182 b143 (by norm_num [abs_of_nonneg, abs_of_nonpos])
  have b184 := ball_add _ _ _ _ 0.316942854612512 1.24e-10 b181 b183 (by norm_num [abs_of_nonneg, abs_of_nonpos])
  have b185 := ball_add _ _ _ _ 2449571.86482828 6.83e-9 b30 b184 (by norm_num [abs_of_nonneg, abs_of_nonpos])
  have b186 : |tpNewFull 1170 0.0 - 2449571.86482828| ≤ 6.83e-9 := by
    simp only [tpNewFull]
    exact ball_center _ _ _ _ b185 (by norm_num [abs_of_nonneg, abs_of_nonpos])
  exact b186

set_option maxHeartbeats 1600000 in
/-- Counterexample for claim C1 as stated: at `jd = 2449571.6` (which is
not a phase instant: the surrounding true phases are ≈ 2449564.6 and
2449571.86), `phasehunt` succeeds but its first result 2449571.8648… is
strictly greater than `jd`, violating the claimed `result[0] ≤ jd`
bracket. -/
theorem claim_C1_counterexample :
    (phasehunt (2449571.6 : ℝ) 20).isSome = true ∧
    2449571.6 < ((phasehunt (2449571.6 : ℝ) 20).getD (0, 0, 0, 0, 0)).1 := by
  have hph : phasehunt (2449571.6 : ℝ) 20 =
      some (tpNewFull 1170 0.0, tpQuarter 1170 0.25, tpNewFull 1170 0.5,
        tpQuarter 1170 0.75, tpNewFull 1171 0.0) :=
    phasehunt_eval 2449571.6 20 1994 6 23 1167 1170 1171
      (by norm_num [jyearR, cTruncR]) (by norm_num) huntCx_loop
  rw [hph]
  refine ⟨rfl, ?_⟩
  show (2449571.6 : ℝ) < tpNewFull 1170 0.0
  exact ball_gt _ _ _ tpball_1170_00 (by norm_num)

end Moon
